import Mathlib

/-!
# Ja Rule dimmer model: a verification development

A shallow embedding of `firmware/src/dimmer_model.c` (with the constants of
`firmware/src/rdm.h`) and theorems about it.

Conventions of the embedding:

* machine integers are `Nat`; where the C arithmetic can wrap, the width is
  written out (`% 65536` for `uint16_t`);
* the globals `g_root_device`, `g_subdevices`, `g_active_device`,
  `g_responder` and the root responder object are the fields of `State`; a
  handler is a function from the request and the state to the response and
  the new state;
* fixed-size C arrays are structures with one field per element and
  index-based `get`/`set`;
* a function pointer is the name of the function (`PIDCommandHandler`), and
  `callHandler` is the indirect call;
* the handlers that subscript a table or read the parameter data of a GET have
  a second form with every access checked (`AccessError`), proved equal to the
  first whenever the accesses are in bounds;
* the network model (`network_model.c`) is embedded from the specification and
  its test, for the two PIDs the theorems are about.
-/

namespace JaRule

/-! ## Constants of `rdm.h` -/

/-- The root sub device (`rdm.h`). -/
def SUBDEVICE_ROOT : Nat := 0

/-- All sub devices (`rdm.h`). -/
def SUBDEVICE_ALL : Nat := 0xffff

/-- The maximum index for a sub device (`rdm.h`). -/
def SUBDEVICE_MAX : Nat := 0x0200

/-- The length of UIDs (`rdm.h`). -/
def UID_LENGTH : Nat := 6

/-- Maximum size of RDM parameter data (`rdm.h`). -/
def MAX_PARAM_DATA_SIZE : Nat := 231

/-- Discovery command class, `0x10` in `RDMCommandClass` (`rdm.h`);
`dimmer_model.c` spells it `DISCOVERY_COMMAND`. -/
def DISCOVERY_COMMAND : Nat := 0x10

/-- Get command class (`rdm.h`). -/
def GET_COMMAND : Nat := 0x20

/-- Set command class (`rdm.h`). -/
def SET_COMMAND : Nat := 0x30

/-- RDM NACK reason codes, `RDMNackReason` of `rdm.h`. -/
inductive RDMNackReason where
  | NR_UNKNOWN_PID
  | NR_FORMAT_ERROR
  | NR_HARDWARE_FAULT
  | NR_PROXY_REJECT
  | NR_WRITE_PROTECT
  | NR_UNSUPPORTED_COMMAND_CLASS
  | NR_DATA_OUT_OF_RANGE
  | NR_BUFFER_FULL
  | NR_PACKET_SIZE_UNSUPPORTED
  | NR_SUB_DEVICE_OUT_OF_RANGE
  | NR_PROXY_BUFFER_FULL
  | NR_ACTION_NOT_SUPPORTED
  | NR_ENDPOINT_NUMBER_INVALID
  deriving DecidableEq, Repr

/-- The numeric code of a NACK reason (`rdm.h`). -/
def RDMNackReason.code : RDMNackReason → Nat
  | NR_UNKNOWN_PID => 0x0000
  | NR_FORMAT_ERROR => 0x0001
  | NR_HARDWARE_FAULT => 0x0002
  | NR_PROXY_REJECT => 0x0003
  | NR_WRITE_PROTECT => 0x0004
  | NR_UNSUPPORTED_COMMAND_CLASS => 0x0005
  | NR_DATA_OUT_OF_RANGE => 0x0006
  | NR_BUFFER_FULL => 0x0007
  | NR_PACKET_SIZE_UNSUPPORTED => 0x0008
  | NR_SUB_DEVICE_OUT_OF_RANGE => 0x0009
  | NR_PROXY_BUFFER_FULL => 0x000a
  | NR_ACTION_NOT_SUPPORTED => 0x000b
  | NR_ENDPOINT_NUMBER_INVALID => 0x0011

/-! ### Parameter ids (`RDMPid` of `rdm.h`) -/

def PID_DISC_UNIQUE_BRANCH : Nat := 0x0001
def PID_DISC_MUTE : Nat := 0x0002
def PID_DISC_UN_MUTE : Nat := 0x0003
def PID_SUPPORTED_PARAMETERS : Nat := 0x0050
def PID_PARAMETER_DESCRIPTION : Nat := 0x0051
def PID_DEVICE_INFO : Nat := 0x0060
def PID_PRODUCT_DETAIL_ID_LIST : Nat := 0x0070
def PID_DEVICE_MODEL_DESCRIPTION : Nat := 0x0080
def PID_MANUFACTURER_LABEL : Nat := 0x0081
def PID_DEVICE_LABEL : Nat := 0x0082
def PID_SOFTWARE_VERSION_LABEL : Nat := 0x00c0
def PID_DMX_START_ADDRESS : Nat := 0x00f0
def PID_IDENTIFY_DEVICE : Nat := 0x1000
def PID_CAPTURE_PRESET : Nat := 0x1030
def PID_PRESET_PLAYBACK : Nat := 0x1031
def PID_DMX_BLOCK_ADDRESS : Nat := 0x0140
def PID_DMX_FAIL_MODE : Nat := 0x0141
def PID_DMX_STARTUP_MODE : Nat := 0x0142
def PID_DIMMER_INFO : Nat := 0x0340
def PID_MINIMUM_LEVEL : Nat := 0x0341
def PID_MAXIMUM_LEVEL : Nat := 0x0342
def PID_CURVE : Nat := 0x0343
def PID_CURVE_DESCRIPTION : Nat := 0x0344
def PID_OUTPUT_RESPONSE_TIME : Nat := 0x0345
def PID_OUTPUT_RESPONSE_TIME_DESCRIPTION : Nat := 0x0346
def PID_MODULATION_FREQUENCY : Nat := 0x0347
def PID_MODULATION_FREQUENCY_DESCRIPTION : Nat := 0x0348
def PID_BURN_IN : Nat := 0x0440
def PID_LOCK_PIN : Nat := 0x0640
def PID_LOCK_STATE : Nat := 0x0641
def PID_LOCK_STATE_DESCRIPTION : Nat := 0x0642
def PID_IDENTIFY_MODE : Nat := 0x1040
def PID_PRESET_INFO : Nat := 0x1041
def PID_PRESET_STATUS : Nat := 0x1042
def PID_PRESET_MERGEMODE : Nat := 0x1043
def PID_POWER_ON_SELF_TEST : Nat := 0x1044

/-- Product category `PRODUCT_CATEGORY_TEST_EQUIPMENT` (`rdm.h`). -/
def PRODUCT_CATEGORY_TEST_EQUIPMENT : Nat := 0x7101

/-- The RDM version we support (`rdm.h`). -/
def RDM_VERSION : Nat := 0x0100

/-! ## Constants of `dimmer_model.c` -/

def NUMBER_OF_SUB_DEVICES : Nat := 4
def NUMBER_OF_SCENES : Nat := 3
def NUMBER_OF_LOCK_STATES : Nat := 3
def NUMBER_OF_CURVES : Nat := 4
def NUMBER_OF_OUTPUT_RESPONSE_TIMES : Nat := 2
def NUMBER_OF_MODULATION_FREQUENCIES : Nat := 4
def PERSONALITY_COUNT : Nat := 1
def SOFTWARE_VERSION : Nat := 0x00000000
def DEVICE_MODEL_DESCRIPTION : String := "Ja Rule Dimmer Device"
def SOFTWARE_LABEL : String := "Alpha"
def DEFAULT_DEVICE_LABEL : String := "Ja Rule"
def PERSONALITY_DESCRIPTION : String := "Dimmer"
def INITIAL_START_ADDRESSS : Nat := 1

def LOCK_STATE_DESCRIPTION_UNLOCKED : String := "Unlocked"
def LOCK_STATE_DESCRIPTION_SUBDEVICE_LOCKED : String := "Subdevices locked"
def LOCK_STATE_DESCRIPTION_ALL_LOCKED : String := "Root & subdevices locked"

def CURVE_DESCRIPTION1 : String := "Linear"
def CURVE_DESCRIPTION2 : String := "Modified Linear"
def CURVE_DESCRIPTION3 : String := "Square"
def CURVE_DESCRIPTION4 : String := "Modified Square"

def OUTPUT_RESPONSE_DESCRIPTION1 : String := "Fast"
def OUTPUT_RESPONSE_DESCRIPTION2 : String := "Slow"

def MODULATION_FREQUENCY_DESCRIPTION1 : String := "50 Hz"
def MODULATION_FREQUENCY_DESCRIPTION2 : String := "60 Hz"
def MODULATION_FREQUENCY_DESCRIPTION3 : String := "1000 Hz"
def MODULATION_FREQUENCY_DESCRIPTION4 : String := "2000 Hz"

def LOCK_STATE_UNLOCKED : Nat := 0x0000
def LOCK_STATE_SUBDEVICES_LOCKED : Nat := 0x0001
def LOCK_STATE_ALL_LOCKED : Nat := 0x0002

/-! ## Constants declared outside the source files at hand

`dimmer_model.c` includes `constants.h`, `rdm_responder.h` and others that
are not part of the sources at hand; the constants it takes from them are
fixed here. -/

/-- Modelled from the spec: `MAX_DMX_START_ADDRESS` is declared in a header
that is not at hand; the specification gives slot 512 as the last slot
("rejects 0 or >512"). -/
def MAX_DMX_START_ADDRESS : Nat := 512

/-- Modelled from the spec: `INVALID_DMX_START_ADDRESS` is declared in a header
that is not at hand; the specification gives `0xFFFF` as the unpatched /
non-contiguous start address. -/
def INVALID_DMX_START_ADDRESS : Nat := 0xffff

/-- Modelled from the spec: `MAX_PIN_CODE` is declared in a header that is not
at hand; the specification gives `pin_code (0..9999)` and `new_pin ≤ 9999`. -/
def MAX_PIN_CODE : Nat := 9999

/-- Modelled from the spec: `RDM_DEFAULT_STRING_SIZE` is declared in a header
that is not at hand; the specification fixes string fields at 32 bytes. -/
def RDM_DEFAULT_STRING_SIZE : Nat := 32

/-- Modelled from the spec: `PRESET_NOT_PROGRAMMED` is declared in a header
that is not at hand; the specification names the three programmed states
`not_programmed, programmed, read_only`, numbered here in that order. -/
def PRESET_NOT_PROGRAMMED : Nat := 0

/-- Modelled from the spec: `PRESET_PROGRAMMED`, second of the three programmed
states the specification names (declared in a header that is not at hand). -/
def PRESET_PROGRAMMED : Nat := 1

/-- Modelled from the spec: `PRESET_PROGRAMMED_READ_ONLY`, third of the three
programmed states the specification names (declared in a header that is not at
hand). -/
def PRESET_PROGRAMMED_READ_ONLY : Nat := 2

/-- Modelled from the spec: `PRESET_PLAYBACK_OFF` is declared in a header that
is not at hand; scene index 0 means off ("scene index ∈ 0..3 or ALL"). -/
def PRESET_PLAYBACK_OFF : Nat := 0

/-- Modelled from the spec: `PRESET_PLAYBACK_ALL` is declared in a header that
is not at hand; the specification gives `ALL (0xFFFF)`. -/
def PRESET_PLAYBACK_ALL : Nat := 0xffff

/-- Modelled from the spec: `MERGE_MODE_DEFAULT` is declared in a header that
is not at hand; the specification leaves the numbering of merge modes open and
the first mode is taken as the default. -/
def MERGE_MODE_DEFAULT : Nat := 0

/-- Modelled from the spec: `MERGE_MODE_DMX_ONLY` is declared in a header that
is not at hand; the specification leaves the numbering of merge modes open and
the value of ANSI E1.37-1 is used (the largest merge mode). -/
def MERGE_MODE_DMX_ONLY : Nat := 3

/-- Modelled from the spec: `IDENTIFY_MODE_QUIET` is declared in a header that
is not at hand; the specification gives `identify_mode ∈ {quiet, loud}`, and
the value of ANSI E1.37-1 is used. -/
def IDENTIFY_MODE_QUIET : Nat := 0x00

/-- Modelled from the spec: `IDENTIFY_MODE_LOUD` is declared in a header that
is not at hand; the specification gives `identify_mode ∈ {quiet, loud}`, and
the value of ANSI E1.37-1 is used. -/
def IDENTIFY_MODE_LOUD : Nat := 0xff

/-- Modelled from the spec: `MANUFACTURER_LABEL` is declared in a header that
is not at hand and the specification leaves its text open. -/
def MANUFACTURER_LABEL : String := "Open Lighting Project"

/-- Modelled from the spec: `DIMMER_MODEL_ID` is declared in a header that is
not at hand and the specification leaves its value open. -/
def DIMMER_MODEL_ID : Nat := 0x0104

/-- Modelled from the spec: `PRODUCT_DETAIL_TEST` is declared in a header that
is not at hand and the specification leaves its value open (the value of ANSI
E1.20 is used). -/
def PRODUCT_DETAIL_TEST : Nat := 0x0902

/-- Modelled from the spec: `PRODUCT_DETAIL_CHANGEOVER_MANUAL` is declared in a
header that is not at hand and the specification leaves its value open (the
value of ANSI E1.20 is used). -/
def PRODUCT_DETAIL_CHANGEOVER_MANUAL : Nat := 0x0a00

/-- Modelled from the spec: `SD_INTENSITY` (slot label id) is declared in a
header that is not at hand; the value of ANSI E1.20 is used. -/
def SD_INTENSITY : Nat := 0x0001

/-- Modelled from the spec: `ST_PRIMARY` (slot type) is declared in a header
that is not at hand; the value of ANSI E1.20 is used. -/
def ST_PRIMARY : Nat := 0x00

/-! ## Data model -/

/-- Modelled from the spec: the builders `RDMResponder_BuildNack`,
`RDMResponder_BuildSetAck` and `RDMResponder_AddHeaderAndChecksum` are defined
in `rdm_responder.c`, which is not at hand; a handler "yields a tagged result
`{AckLen, NoResponse, Nack(Reason)}`". The result records which builder the
handler returned through, with the NACK reason or the parameter data pushed to
the buffer; the bytes the builder frames from it (none at all for a broadcast
destination) are outside the model. -/
inductive Response where
  /-- `RDM_RESPONDER_NO_RESPONSE`. -/
  | NO_RESPONSE
  /-- The value of `RDMResponder_BuildNack(header, reason)`. -/
  | NACK (reason : RDMNackReason)
  /-- The value of `RDMResponder_BuildSetAck(header)`: an ACK without data. -/
  | SET_ACK
  /-- The value of `RDMResponder_AddHeaderAndChecksum(header, ACK, ...)`: an
  ACK with the parameter data written behind the header. -/
  | ACK (param_data : List Nat)
  /-- A discovery-unique-branch response (no RDM header). -/
  | DUB (bytes : List Nat)
  deriving DecidableEq, Repr

/-- Modelled from the spec: the `RDMHeader` structure is declared in
`rdm_frame.h`, which is not at hand; the fields are those the specification
lists for the 24-byte header that the handlers read. The 16-bit fields hold
their value in host order, i.e. what `ntohs` yields from the wire bytes. -/
structure RDMHeader where
  dest_uid : List Nat
  src_uid : List Nat
  transaction_number : Nat
  port_id : Nat
  message_count : Nat
  sub_device : Nat
  command_class : Nat
  param_id : Nat
  param_data_length : Nat
  deriving DecidableEq, Repr

/-- Conversion of a 16-bit header field to host order: the fields of
`RDMHeader` already hold the host-order value. -/
def ntohs (v : Nat) : Nat := v

/-- Modelled from the spec: `PersonalityDefinition` is declared in
`rdm_responder.h`, which is not at hand; a personality has a DMX footprint, a
description and slot definitions (`PERSONALITIES` in `dimmer_model.c` sets
`dmx_footprint`, `description`, `slots` and `slot_count`). -/
structure PersonalityDefinition where
  dmx_footprint : Nat
  description : String
  slot_count : Nat
  deriving DecidableEq, Repr

/-- The names of the PID descriptor tables a responder definition points
to (`descriptors`); `NULL` is the null pointer. -/
inductive DescriptorTable where
  | NULL
  | ROOT_PID_DESCRIPTORS
  | SUBDEVICE_PID_DESCRIPTORS
  deriving DecidableEq, Repr

/-- Modelled from the spec: `ResponderDefinition` is declared in
`rdm_responder.h`, which is not at hand; the fields are those the two
definitions of `dimmer_model.c` initialise (sensors are absent in both). -/
structure ResponderDefinition where
  descriptors : DescriptorTable
  sensor_count : Nat
  personalities : List PersonalityDefinition
  personality_count : Nat
  software_version_label : String
  manufacturer_label : String
  model_description : String
  product_detail_ids : List Nat
  default_device_label : String
  software_version : Nat
  model_id : Nat
  product_category : Nat
  deriving DecidableEq, Repr

/-- Modelled from the spec: the `RDMResponder` structure is declared in
`rdm_responder.h`, which is not at hand; the fields are those of the
specification's responder state. `definition` is the C field `def`. -/
structure RDMResponder where
  definition : ResponderDefinition
  uid : List Nat
  dmx_start_address : Nat
  current_personality : Nat
  device_label : List Nat
  is_muted : Bool
  identify_on : Bool
  sub_device_count : Nat
  queued_message_count : Nat
  is_subdevice : Bool
  deriving DecidableEq, Repr

/-- The `Scene` structure of `dimmer_model.c`. -/
structure Scene where
  up_fade_time : Nat
  down_fade_time : Nat
  wait_time : Nat
  programmed_state : Nat
  deriving DecidableEq, Repr

/-- The array `Scene scenes[NUMBER_OF_SCENES]`: three elements. -/
structure SceneArray where
  e0 : Scene
  e1 : Scene
  e2 : Scene
  deriving DecidableEq, Repr

/-- Read `scenes[i]`; the array has elements 0, 1 and 2, a read past the end
is undefined in C and yields the last element here. -/
def SceneArray.get (a : SceneArray) (i : Nat) : Scene :=
  match i with
  | 0 => a.e0
  | 1 => a.e1
  | _ => a.e2

/-- Write `scenes[i] = v`; a write past the end is undefined in C and leaves
the array as it is here. -/
def SceneArray.set (a : SceneArray) (i : Nat) (v : Scene) : SceneArray :=
  match i with
  | 0 => { a with e0 := v }
  | 1 => { a with e1 := v }
  | 2 => { a with e2 := v }
  | _ => a

/-- The `RootDevice` structure of `dimmer_model.c`. -/
structure RootDevice where
  scenes : SceneArray
  playback_mode : Nat
  startup_scene : Nat
  startup_delay : Nat
  startup_hold : Nat
  fail_scene : Nat
  fail_loss_of_signal_delay : Nat
  fail_hold_time : Nat
  pin_code : Nat
  fail_level : Nat
  startup_level : Nat
  playback_level : Nat
  lock_state : Nat
  merge_mode : Nat
  power_on_self_test : Bool
  deriving DecidableEq, Repr

/-- The `DimmerSubDevice` structure of `dimmer_model.c`. -/
structure DimmerSubDevice where
  responder : RDMResponder
  index : Nat
  min_level_increasing : Nat
  min_level_decreasing : Nat
  max_level : Nat
  on_below_min : Nat
  identify_mode : Nat
  burn_in : Nat
  curve : Nat
  output_response_time : Nat
  modulation_frequency : Nat
  deriving DecidableEq, Repr

/-- The array `g_subdevices[NUMBER_OF_SUB_DEVICES]`: four elements. -/
structure SubDeviceArray where
  d0 : DimmerSubDevice
  d1 : DimmerSubDevice
  d2 : DimmerSubDevice
  d3 : DimmerSubDevice
  deriving DecidableEq, Repr

/-- Read `g_subdevices[i]`; every read in the source is under
`i < NUMBER_OF_SUB_DEVICES`, a read past the end yields the last element
here. -/
def SubDeviceArray.get (a : SubDeviceArray) (i : Nat) : DimmerSubDevice :=
  match i with
  | 0 => a.d0
  | 1 => a.d1
  | 2 => a.d2
  | _ => a.d3

/-- Write `g_subdevices[i] = v`; a write past the end leaves the array as it
is. -/
def SubDeviceArray.set (a : SubDeviceArray) (i : Nat) (v : DimmerSubDevice) :
    SubDeviceArray :=
  match i with
  | 0 => { a with d0 := v }
  | 1 => { a with d1 := v }
  | 2 => { a with d2 := v }
  | 3 => { a with d3 := v }
  | _ => a

/-- What the pointer `g_responder` points to: the root responder object of
`rdm_responder.c`, or the `responder` member of `g_subdevices[i]`. -/
inductive ResponderRef where
  | root
  | subdevice (i : Nat)
  deriving DecidableEq, Repr

/-- The globals the dimmer model works on. `root_responder` is the responder
object `g_responder` points to outside sub-device dispatch;
`g_active_device` is `none` for the null pointer and `some i` for
`&g_subdevices[i]`. -/
structure State where
  g_root_device : RootDevice
  g_subdevices : SubDeviceArray
  g_active_device : Option Nat
  g_responder : ResponderRef
  root_responder : RDMResponder
  deriving DecidableEq, Repr

/-- The responder object a pointer value points to. -/
def State.responderAt (s : State) (ref : ResponderRef) : RDMResponder :=
  match ref with
  | ResponderRef.root => s.root_responder
  | ResponderRef.subdevice i => (s.g_subdevices.get i).responder

/-- The object `*g_responder`. -/
def State.responder (s : State) : RDMResponder :=
  s.responderAt s.g_responder

/-- Assignment through `g_responder`: `*g_responder = r`. -/
def State.setResponder (s : State) (r : RDMResponder) : State :=
  match s.g_responder with
  | ResponderRef.root => { s with root_responder := r }
  | ResponderRef.subdevice i =>
    { s with g_subdevices :=
        s.g_subdevices.set i { s.g_subdevices.get i with responder := r } }

/-- The object `*g_active_device`. Every handler that reads it is reached
only from the sub-device loop of `DimmerModel_HandleRequest`, which sets the
pointer first; for the null pointer the read is undefined in C and yields the
first sub-device here. -/
def State.activeDevice (s : State) : DimmerSubDevice :=
  match s.g_active_device with
  | some i => s.g_subdevices.get i
  | none => s.g_subdevices.get 0

/-- Assignment through `g_active_device`: `*g_active_device = d`. For the
null pointer the write is undefined in C and leaves the state as it is
here. -/
def State.setActiveDevice (s : State) (d : DimmerSubDevice) : State :=
  match s.g_active_device with
  | some i => { s with g_subdevices := s.g_subdevices.set i d }
  | none => s

/-- The type of a PID handler, `PIDCommandHandler`: it gets the header and the
parameter data, works on the globals and returns the response. -/
abbrev Handler := RDMHeader → List Nat → State → Response × State

/-! ## Helpers of `utils.h`, `rdm_util.c` and `rdm_responder.c` -/

/-- The byte `param_data[i]` (a `uint8_t`). -/
def byteAt (param_data : List Nat) (i : Nat) : Nat :=
  param_data.getD i 0 % 256

/-- Modelled from the spec: `ExtractUInt16` is declared in `utils.h`, which is
not at hand; it reads a big-endian 16-bit value. The second argument is the
offset into the parameter data (`&param_data[i]`). -/
def ExtractUInt16 (param_data : List Nat) (i : Nat) : Nat :=
  byteAt param_data i * 256 + byteAt param_data (i + 1)

/-- Modelled from the spec: `ExtractUInt32` is declared in `utils.h`, which is
not at hand; it reads a big-endian 32-bit value. -/
def ExtractUInt32 (param_data : List Nat) (i : Nat) : Nat :=
  ExtractUInt16 param_data i * 65536 + ExtractUInt16 param_data (i + 2)

/-- Modelled from the spec: `PushUInt16` is declared in `utils.h`, which is not
at hand; it writes a 16-bit value big-endian. The bytes written are
returned. -/
def PushUInt16 (v : Nat) : List Nat :=
  [v / 256 % 256, v % 256]

/-- Modelled from the spec: `PushUInt32` is declared in `utils.h`, which is not
at hand; it writes a 32-bit value big-endian. -/
def PushUInt32 (v : Nat) : List Nat :=
  PushUInt16 (v / 65536) ++ PushUInt16 v

/-- The bytes of a C string constant (without the terminating NUL). -/
def stringBytes (str : String) : List Nat :=
  str.toList.map Char.toNat

/-- Modelled from the spec: `RDMUtil_StringCopy` is defined in `rdm_util.c`,
which is not at hand; string fields are at most 32 bytes, not NUL-terminated
on the wire, and copying truncates. The bytes copied are returned. -/
def RDMUtil_StringCopy (dst_size : Nat) (src : List Nat) (src_size : Nat) :
    List Nat :=
  (src.take src_size).take dst_size

/-- Modelled from the spec: `RDMUtil_RequiresAction` is defined in
`rdm_util.c`, which is not at hand; it is true if the destination is our UID,
the broadcast UID, or the manufacturer broadcast of our manufacturer. -/
def RDMUtil_RequiresAction (our_uid dest_uid : List Nat) : Bool :=
  dest_uid == our_uid ||
  dest_uid == [0xff, 0xff, 0xff, 0xff, 0xff, 0xff] ||
  (dest_uid.take 2 == our_uid.take 2 &&
    dest_uid.drop 2 == [0xff, 0xff, 0xff, 0xff])

/-- Modelled from the spec: `RDMResponder_BuildNack` is defined in
`rdm_responder.c`, which is not at hand; it is the NACK builder, invoked with
the reason. -/
def RDMResponder_BuildNack (_header : RDMHeader) (reason : RDMNackReason) :
    Response :=
  Response.NACK reason

/-- Modelled from the spec: `RDMResponder_BuildSetAck` is defined in
`rdm_responder.c`, which is not at hand; it builds the ACK of a SET, which
carries no parameter data. -/
def RDMResponder_BuildSetAck (_header : RDMHeader) : Response :=
  Response.SET_ACK

/-- Modelled from the spec: `RDMResponder_AddHeaderAndChecksum` is defined in
`rdm_responder.c`, which is not at hand; called with `ACK`, it frames the
parameter data the handler wrote behind the header (the trailing step that
writes header and checksum). The argument is that parameter data. -/
def RDMResponder_AddHeaderAndChecksum (_header : RDMHeader)
    (param_data : List Nat) : Response :=
  Response.ACK param_data

/-- The slot count of the current personality of a responder,
`responder->def->personalities[responder->current_personality - 1u].slot_count`.
The index is computed in `unsigned int`; the read is in range when
`1 ≤ current_personality ≤` the number of personalities, outside of which it
is undefined in C and yields 0 here. -/
def currentSlotCount (responder : RDMResponder) : Nat :=
  match responder.definition.personalities.get?
      ((responder.current_personality + 4294967296 - 1) % 4294967296) with
  | some personality => personality.slot_count
  | none => 0

/-- Modelled from the spec: `RDMResponder_GenericGetBool` is defined in
`rdm_responder.c`, which is not at hand; a generic GET of a boolean ACKs with
one byte, 1 for true and 0 for false. -/
def RDMResponder_GenericGetBool (header : RDMHeader) (value : Bool) : Response :=
  RDMResponder_AddHeaderAndChecksum header [if value then 1 else 0]

/-- Modelled from the spec: `RDMResponder_GenericSetBool` is defined in
`rdm_responder.c`, which is not at hand; a SET validates the exact length
(else `FORMAT_ERROR`) and the range (else `DATA_OUT_OF_RANGE`) and stores the
value. The second component is the new value of the variable pointed to. -/
def RDMResponder_GenericSetBool (header : RDMHeader) (param_data : List Nat)
    (value : Bool) : Response × Bool :=
  if header.param_data_length ≠ 1 then
    (RDMResponder_BuildNack header RDMNackReason.NR_FORMAT_ERROR, value)
  else if byteAt param_data 0 > 1 then
    (RDMResponder_BuildNack header RDMNackReason.NR_DATA_OUT_OF_RANGE, value)
  else
    (RDMResponder_BuildSetAck header, decide (byteAt param_data 0 = 1))

/-- Modelled from the spec: `RDMResponder_GenericGetUInt8` is defined in
`rdm_responder.c`, which is not at hand; a generic GET of a byte ACKs with
that byte. -/
def RDMResponder_GenericGetUInt8 (header : RDMHeader) (value : Nat) : Response :=
  RDMResponder_AddHeaderAndChecksum header [value % 256]

/-- Modelled from the spec: `RDMResponder_GenericSetUInt8` is defined in
`rdm_responder.c`, which is not at hand; a SET validates the exact length
(else `FORMAT_ERROR`) and stores the byte. The second component is the new
value of the variable pointed to. -/
def RDMResponder_GenericSetUInt8 (header : RDMHeader) (param_data : List Nat)
    (value : Nat) : Response × Nat :=
  if header.param_data_length ≠ 1 then
    (RDMResponder_BuildNack header RDMNackReason.NR_FORMAT_ERROR, value)
  else
    (RDMResponder_BuildSetAck header, byteAt param_data 0)

/-- Modelled from the spec: `RDMResponder_GenericGetUInt16` is defined in
`rdm_responder.c`, which is not at hand; a generic GET of a 16-bit value ACKs
with the value, big-endian. -/
def RDMResponder_GenericGetUInt16 (header : RDMHeader) (value : Nat) : Response :=
  RDMResponder_AddHeaderAndChecksum header (PushUInt16 value)

/-- Modelled from the spec: `RDMResponder_GenericSetUInt16` is defined in
`rdm_responder.c`, which is not at hand; a SET validates the exact length
(else `FORMAT_ERROR`) and stores the big-endian value. The second component is
the new value of the variable pointed to. -/
def RDMResponder_GenericSetUInt16 (header : RDMHeader) (param_data : List Nat)
    (value : Nat) : Response × Nat :=
  if header.param_data_length ≠ 2 then
    (RDMResponder_BuildNack header RDMNackReason.NR_FORMAT_ERROR, value)
  else
    (RDMResponder_BuildSetAck header, ExtractUInt16 param_data 0)

/-! ## `dimmer_model.c`: helper functions -/

/-- The first loop of `ResetToBlockAddress`: the footprint of the four
sub-devices, summed in `unsigned int` (32 bits). -/
def blockFootprint (s : State) : Nat :=
  (List.range NUMBER_OF_SUB_DEVICES).foldl
    (fun footprint i =>
      (footprint + currentSlotCount (s.g_subdevices.get i).responder) % 4294967296)
    0

/-- One pass of the second loop of `ResetToBlockAddress`: sub-device `i` gets
`start_address`, which then moves on by the slot count (`uint16_t`). -/
def assignBlockAddress (acc : Nat × State) (i : Nat) : Nat × State :=
  let start_address := acc.1
  let s := acc.2
  let subdevice := s.g_subdevices.get i
  let responder := { subdevice.responder with dmx_start_address := start_address }
  ((start_address + currentSlotCount responder) % 65536,
   { s with g_subdevices :=
      s.g_subdevices.set i { subdevice with responder := responder } })

/-- `ResetToBlockAddress(start_address)`: set a block address for all the sub
devices. Returns true if the start address of all subdevices changed, false
if the footprint of the sub devices would exceed the last slot (512). The
parameter is a `uint16_t`. -/
def ResetToBlockAddress (start_address : Nat) (s : State) : Bool × State :=
  let start_address := start_address % 65536
  let footprint := blockFootprint s
  if (MAX_DMX_START_ADDRESS + 65536 - start_address + 1) % 65536 < footprint then
    (false, s)
  else
    (true,
     ((List.range NUMBER_OF_SUB_DEVICES).foldl assignBlockAddress
        (start_address, s)).2)

/-! ## `dimmer_model.c`: root PID handlers -/

/-- `DimmerModel_CapturePreset`. -/
def DimmerModel_CapturePreset : Handler := fun header param_data s =>
  if header.param_data_length ≠ 4 * 2 then
    (RDMResponder_BuildNack header RDMNackReason.NR_FORMAT_ERROR, s)
  else
    let scene_index := ExtractUInt16 param_data 0
    let up_fade_time := ExtractUInt16 param_data 2
    let down_fade_time := ExtractUInt16 param_data 4
    let wait_time := ExtractUInt16 param_data 6
    if scene_index = 0 ∨ scene_index > NUMBER_OF_SCENES then
      (RDMResponder_BuildNack header RDMNackReason.NR_DATA_OUT_OF_RANGE, s)
    else
      let scene := s.g_root_device.scenes.get (scene_index - 1)
      if scene.programmed_state = PRESET_PROGRAMMED_READ_ONLY then
        (RDMResponder_BuildNack header RDMNackReason.NR_WRITE_PROTECT, s)
      else
        let scene := { scene with
          up_fade_time := up_fade_time
          down_fade_time := down_fade_time
          wait_time := wait_time
          programmed_state := PRESET_PROGRAMMED }
        (RDMResponder_BuildSetAck header,
         { s with g_root_device := { s.g_root_device with
            scenes := s.g_root_device.scenes.set (scene_index - 1) scene } })

/-- `DimmerModel_GetPresetPlayback`. -/
def DimmerModel_GetPresetPlayback : Handler := fun header _param_data s =>
  (RDMResponder_AddHeaderAndChecksum header
    (PushUInt16 s.g_root_device.playback_mode ++
      [s.g_root_device.playback_level % 256]), s)

/-- `DimmerModel_SetPresetPlayback`. -/
def DimmerModel_SetPresetPlayback : Handler := fun header param_data s =>
  if header.param_data_length ≠ 2 + 1 then
    (RDMResponder_BuildNack header RDMNackReason.NR_FORMAT_ERROR, s)
  else
    let playback_mode := ExtractUInt16 param_data 0
    if playback_mode > NUMBER_OF_SCENES ∧ playback_mode ≠ PRESET_PLAYBACK_ALL then
      (RDMResponder_BuildNack header RDMNackReason.NR_DATA_OUT_OF_RANGE, s)
    else
      (RDMResponder_BuildSetAck header,
       { s with g_root_device := { s.g_root_device with
          playback_mode := playback_mode
          playback_level := byteAt param_data 2 } })

/-- The state of the loop of `DimmerModel_GetDMXBlockAddress`. -/
structure BlockScan where
  total_footprint : Nat
  expected_start_address : Nat
  is_contiguous : Bool
  deriving DecidableEq, Repr

/-- One pass of the loop of `DimmerModel_GetDMXBlockAddress`, for
`g_subdevices[i]`; the three variables are `uint16_t`, `uint16_t` and
`bool`. -/
def scanBlockAddress (s : State) (acc : BlockScan) (i : Nat) : BlockScan :=
  let responder := (s.g_subdevices.get i).responder
  let sub_device_footprint := currentSlotCount responder % 65536
  let total_footprint := (acc.total_footprint + sub_device_footprint) % 65536
  if acc.expected_start_address ≠ 0 ∧
      acc.expected_start_address ≠ responder.dmx_start_address then
    { acc with total_footprint := total_footprint, is_contiguous := false }
  else if acc.expected_start_address ≠ 0 then
    { acc with
      total_footprint := total_footprint
      expected_start_address :=
        (acc.expected_start_address + sub_device_footprint) % 65536 }
  else
    { acc with
      total_footprint := total_footprint
      expected_start_address :=
        (responder.dmx_start_address + sub_device_footprint) % 65536 }

/-- `DimmerModel_GetDMXBlockAddress`. -/
def DimmerModel_GetDMXBlockAddress : Handler := fun header _param_data s =>
  let scan := (List.range NUMBER_OF_SUB_DEVICES).foldl (scanBlockAddress s)
    { total_footprint := 0, expected_start_address := 0, is_contiguous := true }
  (RDMResponder_AddHeaderAndChecksum header
    (PushUInt16 scan.total_footprint ++
      PushUInt16
        (if scan.is_contiguous then
          (s.g_subdevices.get 0).responder.dmx_start_address
        else INVALID_DMX_START_ADDRESS)), s)

/-- `DimmerModel_SetDMXBlockAddress`. -/
def DimmerModel_SetDMXBlockAddress : Handler := fun header param_data s =>
  if header.param_data_length ≠ 2 then
    (RDMResponder_BuildNack header RDMNackReason.NR_FORMAT_ERROR, s)
  else
    let start_address := ExtractUInt16 param_data 0
    if start_address = 0 ∨ start_address > MAX_DMX_START_ADDRESS then
      (RDMResponder_BuildNack header RDMNackReason.NR_DATA_OUT_OF_RANGE, s)
    else
      let ok := ResetToBlockAddress start_address s
      if ok.1 then
        (RDMResponder_BuildSetAck header, ok.2)
      else
        (RDMResponder_BuildNack header RDMNackReason.NR_DATA_OUT_OF_RANGE, ok.2)

/-- `DimmerModel_GetDMXFailMode`. -/
def DimmerModel_GetDMXFailMode : Handler := fun header _param_data s =>
  (RDMResponder_AddHeaderAndChecksum header
    (PushUInt16 s.g_root_device.fail_scene ++
      PushUInt16 s.g_root_device.fail_loss_of_signal_delay ++
      PushUInt16 s.g_root_device.fail_hold_time ++
      [s.g_root_device.fail_level % 256]), s)

/-- `DimmerModel_SetDMXFailMode`. -/
def DimmerModel_SetDMXFailMode : Handler := fun header param_data s =>
  if header.param_data_length ≠ 3 * 2 + 1 then
    (RDMResponder_BuildNack header RDMNackReason.NR_FORMAT_ERROR, s)
  else
    let scene_index := ExtractUInt16 param_data 0
    let loss_of_signal_delay := ExtractUInt16 param_data 2
    let hold_time := ExtractUInt16 param_data 4
    if scene_index > NUMBER_OF_SCENES ∧ scene_index ≠ PRESET_PLAYBACK_ALL then
      (RDMResponder_BuildNack header RDMNackReason.NR_DATA_OUT_OF_RANGE, s)
    else
      (RDMResponder_BuildSetAck header,
       { s with g_root_device := { s.g_root_device with
          fail_scene := scene_index
          fail_loss_of_signal_delay := loss_of_signal_delay
          fail_hold_time := hold_time
          fail_level := byteAt param_data 6 } })

/-- `DimmerModel_GetDMXStartupMode`. -/
def DimmerModel_GetDMXStartupMode : Handler := fun header _param_data s =>
  (RDMResponder_AddHeaderAndChecksum header
    (PushUInt16 s.g_root_device.startup_scene ++
      PushUInt16 s.g_root_device.startup_delay ++
      PushUInt16 s.g_root_device.startup_hold ++
      [s.g_root_device.startup_level % 256]), s)

/-- `DimmerModel_SetDMXStartupMode`. -/
def DimmerModel_SetDMXStartupMode : Handler := fun header param_data s =>
  if header.param_data_length ≠ 3 * 2 + 1 then
    (RDMResponder_BuildNack header RDMNackReason.NR_FORMAT_ERROR, s)
  else
    let scene_index := ExtractUInt16 param_data 0
    let loss_of_signal_delay := ExtractUInt16 param_data 2
    let hold_time := ExtractUInt16 param_data 4
    if scene_index > NUMBER_OF_SCENES ∧ scene_index ≠ PRESET_PLAYBACK_ALL then
      (RDMResponder_BuildNack header RDMNackReason.NR_DATA_OUT_OF_RANGE, s)
    else
      (RDMResponder_BuildSetAck header,
       { s with g_root_device := { s.g_root_device with
          startup_scene := scene_index
          startup_delay := loss_of_signal_delay
          startup_hold := hold_time
          startup_level := byteAt param_data 6 } })

/-- `DimmerModel_GetPowerOnSelfTest`. -/
def DimmerModel_GetPowerOnSelfTest : Handler := fun header _param_data s =>
  (RDMResponder_GenericGetBool header s.g_root_device.power_on_self_test, s)

/-- `DimmerModel_SetPowerOnSelfTest`. -/
def DimmerModel_SetPowerOnSelfTest : Handler := fun header param_data s =>
  let r := RDMResponder_GenericSetBool header param_data
    s.g_root_device.power_on_self_test
  (r.1, { s with g_root_device := { s.g_root_device with
    power_on_self_test := r.2 } })

/-- `DimmerModel_GetLockPin`: we allow people to read the PIN. -/
def DimmerModel_GetLockPin : Handler := fun header _param_data s =>
  (RDMResponder_GenericGetUInt16 header s.g_root_device.pin_code, s)

/-- `DimmerModel_SetLockPin`. -/
def DimmerModel_SetLockPin : Handler := fun header param_data s =>
  if header.param_data_length ≠ 2 * 2 then
    (RDMResponder_BuildNack header RDMNackReason.NR_FORMAT_ERROR, s)
  else
    let new_pin := ExtractUInt16 param_data 0
    let old_pin := ExtractUInt16 param_data 2
    if new_pin > MAX_PIN_CODE then
      (RDMResponder_BuildNack header RDMNackReason.NR_FORMAT_ERROR, s)
    else if old_pin ≠ s.g_root_device.pin_code then
      (RDMResponder_BuildNack header RDMNackReason.NR_DATA_OUT_OF_RANGE, s)
    else
      (RDMResponder_BuildSetAck header,
       { s with g_root_device := { s.g_root_device with pin_code := new_pin } })

/-- `DimmerModel_GetLockState`: the unlocked state is not included in the
count. -/
def DimmerModel_GetLockState : Handler := fun header _param_data s =>
  (RDMResponder_AddHeaderAndChecksum header
    [s.g_root_device.lock_state % 256, NUMBER_OF_LOCK_STATES - 1], s)

/-- `DimmerModel_SetLockState`. -/
def DimmerModel_SetLockState : Handler := fun header param_data s =>
  if header.param_data_length ≠ 2 + 1 then
    (RDMResponder_BuildNack header RDMNackReason.NR_FORMAT_ERROR, s)
  else
    let pin := ExtractUInt16 param_data 0
    let lock_state := byteAt param_data 2
    if pin ≠ s.g_root_device.pin_code ∨ lock_state ≥ NUMBER_OF_LOCK_STATES then
      (RDMResponder_BuildNack header RDMNackReason.NR_DATA_OUT_OF_RANGE, s)
    else
      (RDMResponder_BuildSetAck header,
       { s with g_root_device := { s.g_root_device with lock_state := lock_state } })

/-- The table `LOCK_STATES` of `dimmer_model.c`. -/
def LOCK_STATES : List String :=
  [LOCK_STATE_DESCRIPTION_UNLOCKED,
   LOCK_STATE_DESCRIPTION_SUBDEVICE_LOCKED,
   LOCK_STATE_DESCRIPTION_ALL_LOCKED]

/-- The table `DIMMER_CURVES` of `dimmer_model.c`. -/
def DIMMER_CURVES : List String :=
  [CURVE_DESCRIPTION1, CURVE_DESCRIPTION2, CURVE_DESCRIPTION3, CURVE_DESCRIPTION4]

/-- The table `OUTPUT_RESPONSE_TIMES` of `dimmer_model.c`. -/
def OUTPUT_RESPONSE_TIMES : List String :=
  [OUTPUT_RESPONSE_DESCRIPTION1, OUTPUT_RESPONSE_DESCRIPTION2]

/-- The `ModulationFrequency` structure of `dimmer_model.c`. -/
structure ModulationFrequency where
  frequency : Nat
  description : String
  deriving DecidableEq, Repr

/-- The table `MODULATION_FREQUENCY` of `dimmer_model.c`. -/
def MODULATION_FREQUENCY : List ModulationFrequency :=
  [{ frequency := 50, description := MODULATION_FREQUENCY_DESCRIPTION1 },
   { frequency := 60, description := MODULATION_FREQUENCY_DESCRIPTION2 },
   { frequency := 1000, description := MODULATION_FREQUENCY_DESCRIPTION3 },
   { frequency := 2000, description := MODULATION_FREQUENCY_DESCRIPTION4 }]

/-- `DimmerModel_GetLockStateDescription`. -/
def DimmerModel_GetLockStateDescription : Handler := fun header param_data s =>
  let lock_state := byteAt param_data 0
  if lock_state = 0 ∨ lock_state ≥ NUMBER_OF_LOCK_STATES then
    (RDMResponder_BuildNack header RDMNackReason.NR_DATA_OUT_OF_RANGE, s)
  else
    (RDMResponder_AddHeaderAndChecksum header
      ([lock_state] ++
        RDMUtil_StringCopy RDM_DEFAULT_STRING_SIZE
          (stringBytes (LOCK_STATES.getD lock_state ""))
          RDM_DEFAULT_STRING_SIZE), s)

/-- `DimmerModel_GetPresetInfo`. -/
def DimmerModel_GetPresetInfo : Handler := fun header _param_data s =>
  (RDMResponder_AddHeaderAndChecksum header
    ([1, 1, 1, 1, 1, 1] ++
      PushUInt16 NUMBER_OF_SCENES ++
      PushUInt16 0 ++ PushUInt16 0xfffe ++
      PushUInt16 0 ++ PushUInt16 0xfffe ++
      PushUInt16 0 ++ PushUInt16 0xfffe ++
      PushUInt16 0 ++ PushUInt16 0xfffe ++
      PushUInt16 0 ++ PushUInt16 0xfffe ++
      PushUInt16 0 ++ PushUInt16 0xfffe), s)

/-- `DimmerModel_GetPresetStatus`. -/
def DimmerModel_GetPresetStatus : Handler := fun header param_data s =>
  let scene_index := ExtractUInt16 param_data 0
  if scene_index = 0 ∨ scene_index > NUMBER_OF_SCENES then
    (RDMResponder_BuildNack header RDMNackReason.NR_DATA_OUT_OF_RANGE, s)
  else
    let scene := s.g_root_device.scenes.get (scene_index - 1)
    (RDMResponder_AddHeaderAndChecksum header
      (PushUInt16 scene_index ++
        PushUInt16 scene.up_fade_time ++
        PushUInt16 scene.down_fade_time ++
        PushUInt16 scene.wait_time ++
        [scene.programmed_state % 256]), s)

/-- `DimmerModel_SetPresetStatus`. -/
def DimmerModel_SetPresetStatus : Handler := fun header param_data s =>
  if header.param_data_length ≠ 4 * 2 + 1 then
    (RDMResponder_BuildNack header RDMNackReason.NR_FORMAT_ERROR, s)
  else
    let scene_index := ExtractUInt16 param_data 0
    let up_fade_time := ExtractUInt16 param_data 2
    let down_fade_time := ExtractUInt16 param_data 4
    let wait_time := ExtractUInt16 param_data 6
    let clear_preset := byteAt param_data 8
    if scene_index = 0 ∨ scene_index > NUMBER_OF_SCENES then
      (RDMResponder_BuildNack header RDMNackReason.NR_DATA_OUT_OF_RANGE, s)
    else
      let scene := s.g_root_device.scenes.get (scene_index - 1)
      if scene.programmed_state = PRESET_PROGRAMMED_READ_ONLY then
        (RDMResponder_BuildNack header RDMNackReason.NR_WRITE_PROTECT, s)
      else if clear_preset > 1 then
        (RDMResponder_BuildNack header RDMNackReason.NR_DATA_OUT_OF_RANGE, s)
      else
        let scene :=
          if clear_preset = 1 then
            { scene with
              up_fade_time := 0
              down_fade_time := 0
              wait_time := 0
              programmed_state := PRESET_NOT_PROGRAMMED }
          else
            { scene with
              up_fade_time := up_fade_time
              down_fade_time := down_fade_time
              wait_time := wait_time }
        (RDMResponder_BuildSetAck header,
         { s with g_root_device := { s.g_root_device with
            scenes := s.g_root_device.scenes.set (scene_index - 1) scene } })

/-- `DimmerModel_GetPresetMergeMode`. -/
def DimmerModel_GetPresetMergeMode : Handler := fun header _param_data s =>
  (RDMResponder_GenericGetUInt8 header s.g_root_device.merge_mode, s)

/-- `DimmerModel_SetPresetMergeMode`. -/
def DimmerModel_SetPresetMergeMode : Handler := fun header param_data s =>
  if header.param_data_length ≠ 1 then
    (RDMResponder_BuildNack header RDMNackReason.NR_FORMAT_ERROR, s)
  else
    let merge_mode := byteAt param_data 0
    if merge_mode > MERGE_MODE_DMX_ONLY then
      (RDMResponder_BuildNack header RDMNackReason.NR_DATA_OUT_OF_RANGE, s)
    else
      (RDMResponder_BuildSetAck header,
       { s with g_root_device := { s.g_root_device with merge_mode := merge_mode } })

/-! ## `dimmer_model.c`: sub-device PID handlers -/

/-- `DimmerModel_GetIdentifyMode`. -/
def DimmerModel_GetIdentifyMode : Handler := fun header _param_data s =>
  (RDMResponder_GenericGetUInt8 header s.activeDevice.identify_mode, s)

/-- `DimmerModel_SetIdentifyMode`. -/
def DimmerModel_SetIdentifyMode : Handler := fun header param_data s =>
  if header.param_data_length ≠ 1 then
    (RDMResponder_BuildNack header RDMNackReason.NR_FORMAT_ERROR, s)
  else
    let mode := byteAt param_data 0
    if mode ≠ IDENTIFY_MODE_QUIET ∧ mode ≠ IDENTIFY_MODE_LOUD then
      (RDMResponder_BuildNack header RDMNackReason.NR_DATA_OUT_OF_RANGE, s)
    else
      (RDMResponder_BuildSetAck header,
       s.setActiveDevice { s.activeDevice with identify_mode := mode })

/-- `DimmerModel_GetBurnIn`. -/
def DimmerModel_GetBurnIn : Handler := fun header _param_data s =>
  (RDMResponder_GenericGetUInt8 header s.activeDevice.burn_in, s)

/-- `DimmerModel_SetBurnIn`. -/
def DimmerModel_SetBurnIn : Handler := fun header param_data s =>
  let r := RDMResponder_GenericSetUInt8 header param_data s.activeDevice.burn_in
  (r.1, s.setActiveDevice { s.activeDevice with burn_in := r.2 })

/-- `DimmerModel_GetDimmerInfo`. -/
def DimmerModel_GetDimmerInfo : Handler := fun header _param_data s =>
  (RDMResponder_AddHeaderAndChecksum header
    (PushUInt16 0 ++ PushUInt16 0xfffe ++
      PushUInt16 0 ++ PushUInt16 0xfffe ++
      [NUMBER_OF_CURVES, 8, 1]), s)

/-- `DimmerModel_GetMinimumLevel`. -/
def DimmerModel_GetMinimumLevel : Handler := fun header _param_data s =>
  (RDMResponder_AddHeaderAndChecksum header
    (PushUInt16 s.activeDevice.min_level_increasing ++
      PushUInt16 s.activeDevice.min_level_decreasing ++
      [s.activeDevice.on_below_min % 256]), s)

/-- `DimmerModel_SetMinimumLevel`. -/
def DimmerModel_SetMinimumLevel : Handler := fun header param_data s =>
  if header.param_data_length ≠ 2 * 2 + 1 then
    (RDMResponder_BuildNack header RDMNackReason.NR_FORMAT_ERROR, s)
  else
    let min_level_increasing := ExtractUInt16 param_data 0
    let min_level_decreasing := ExtractUInt16 param_data 2
    let on_below_min := byteAt param_data 4
    if on_below_min > 1 then
      (RDMResponder_BuildNack header RDMNackReason.NR_DATA_OUT_OF_RANGE, s)
    else
      (RDMResponder_BuildSetAck header,
       s.setActiveDevice { s.activeDevice with
        min_level_increasing := min_level_increasing
        min_level_decreasing := min_level_decreasing
        on_below_min := on_below_min })

/-- `DimmerModel_GetMaximumLevel`. -/
def DimmerModel_GetMaximumLevel : Handler := fun header _param_data s =>
  (RDMResponder_GenericGetUInt16 header s.activeDevice.max_level, s)

/-- `DimmerModel_SetMaximumLevel`. -/
def DimmerModel_SetMaximumLevel : Handler := fun header param_data s =>
  let r := RDMResponder_GenericSetUInt16 header param_data s.activeDevice.max_level
  (r.1, s.setActiveDevice { s.activeDevice with max_level := r.2 })

/-- `DimmerModel_GetCurve`. -/
def DimmerModel_GetCurve : Handler := fun header _param_data s =>
  (RDMResponder_AddHeaderAndChecksum header
    [s.activeDevice.curve % 256, NUMBER_OF_CURVES], s)

/-- `DimmerModel_SetCurve`: to make it interesting, not every sub-device
supports each curve type. -/
def DimmerModel_SetCurve : Handler := fun header param_data s =>
  if header.param_data_length ≠ 1 then
    (RDMResponder_BuildNack header RDMNackReason.NR_FORMAT_ERROR, s)
  else
    let curve := byteAt param_data 0
    if curve = 0 ∨ curve > NUMBER_OF_CURVES then
      (RDMResponder_BuildNack header RDMNackReason.NR_DATA_OUT_OF_RANGE, s)
    else if curve % 2 ≠ 0 ∧ s.activeDevice.index % 2 = 0 then
      (RDMResponder_BuildNack header RDMNackReason.NR_DATA_OUT_OF_RANGE, s)
    else
      (RDMResponder_BuildSetAck header,
       s.setActiveDevice { s.activeDevice with curve := curve })

/-- `DimmerModel_GetCurveDescription`. -/
def DimmerModel_GetCurveDescription : Handler := fun header param_data s =>
  let curve := byteAt param_data 0
  if curve = 0 ∨ curve > NUMBER_OF_CURVES then
    (RDMResponder_BuildNack header RDMNackReason.NR_DATA_OUT_OF_RANGE, s)
  else
    (RDMResponder_AddHeaderAndChecksum header
      ([curve] ++
        RDMUtil_StringCopy RDM_DEFAULT_STRING_SIZE
          (stringBytes (DIMMER_CURVES.getD (curve - 1) ""))
          RDM_DEFAULT_STRING_SIZE), s)

/-- `DimmerModel_GetOutputResponseTime`. -/
def DimmerModel_GetOutputResponseTime : Handler := fun header _param_data s =>
  (RDMResponder_AddHeaderAndChecksum header
    [s.activeDevice.output_response_time % 256,
     NUMBER_OF_OUTPUT_RESPONSE_TIMES], s)

/-- `DimmerModel_SetOutputResponseTime`. -/
def DimmerModel_SetOutputResponseTime : Handler := fun header param_data s =>
  if header.param_data_length ≠ 1 then
    (RDMResponder_BuildNack header RDMNackReason.NR_FORMAT_ERROR, s)
  else
    let setting := byteAt param_data 0
    if setting = 0 ∨ setting > NUMBER_OF_OUTPUT_RESPONSE_TIMES then
      (RDMResponder_BuildNack header RDMNackReason.NR_DATA_OUT_OF_RANGE, s)
    else
      (RDMResponder_BuildSetAck header,
       s.setActiveDevice { s.activeDevice with output_response_time := setting })

/-- `DimmerModel_GetOutputResponseDescription`. -/
def DimmerModel_GetOutputResponseDescription : Handler :=
  fun header param_data s =>
  let setting := byteAt param_data 0
  if setting = 0 ∨ setting > NUMBER_OF_OUTPUT_RESPONSE_TIMES then
    (RDMResponder_BuildNack header RDMNackReason.NR_DATA_OUT_OF_RANGE, s)
  else
    (RDMResponder_AddHeaderAndChecksum header
      ([setting] ++
        RDMUtil_StringCopy RDM_DEFAULT_STRING_SIZE
          (stringBytes (OUTPUT_RESPONSE_TIMES.getD (setting - 1) ""))
          RDM_DEFAULT_STRING_SIZE), s)

/-- `DimmerModel_GetModulationFrequency`. -/
def DimmerModel_GetModulationFrequency : Handler := fun header _param_data s =>
  (RDMResponder_AddHeaderAndChecksum header
    [s.activeDevice.modulation_frequency % 256,
     NUMBER_OF_MODULATION_FREQUENCIES], s)

/-- `DimmerModel_SetModulationFrequency`. -/
def DimmerModel_SetModulationFrequency : Handler := fun header param_data s =>
  if header.param_data_length ≠ 1 then
    (RDMResponder_BuildNack header RDMNackReason.NR_FORMAT_ERROR, s)
  else
    let setting := byteAt param_data 0
    if setting = 0 ∨ setting > NUMBER_OF_MODULATION_FREQUENCIES then
      (RDMResponder_BuildNack header RDMNackReason.NR_DATA_OUT_OF_RANGE, s)
    else
      (RDMResponder_BuildSetAck header,
       s.setActiveDevice { s.activeDevice with modulation_frequency := setting })

/-- `DimmerModel_GetModulationFrequencyDescription`. -/
def DimmerModel_GetModulationFrequencyDescription : Handler :=
  fun header param_data s =>
  let setting := byteAt param_data 0
  if setting = 0 ∨ setting > NUMBER_OF_MODULATION_FREQUENCIES then
    (RDMResponder_BuildNack header RDMNackReason.NR_DATA_OUT_OF_RANGE, s)
  else
    let frequency := MODULATION_FREQUENCY.getD (setting - 1)
      { frequency := 0, description := "" }
    (RDMResponder_AddHeaderAndChecksum header
      ([setting] ++ PushUInt32 frequency.frequency ++
        RDMUtil_StringCopy RDM_DEFAULT_STRING_SIZE
          (stringBytes frequency.description)
          RDM_DEFAULT_STRING_SIZE), s)

/-! ## PID descriptor tables -/

/-- The functions a PID descriptor can point to: the value of a function
pointer of type `PIDCommandHandler` is the name of the function. -/
inductive PIDCommandHandler where
  | RDMResponder_GetSupportedParameters
  | RDMResponder_GetDeviceInfo
  | RDMResponder_GetProductDetailIds
  | RDMResponder_GetDeviceModelDescription
  | RDMResponder_GetManufacturerLabel
  | RDMResponder_GetDeviceLabel
  | RDMResponder_SetDeviceLabel
  | RDMResponder_GetSoftwareVersionLabel
  | RDMResponder_GetIdentifyDevice
  | RDMResponder_SetIdentifyDevice
  | RDMResponder_GetDMXStartAddress
  | RDMResponder_SetDMXStartAddress
  | DimmerModel_CapturePreset
  | DimmerModel_GetPresetPlayback
  | DimmerModel_SetPresetPlayback
  | DimmerModel_GetDMXBlockAddress
  | DimmerModel_SetDMXBlockAddress
  | DimmerModel_GetDMXFailMode
  | DimmerModel_SetDMXFailMode
  | DimmerModel_GetDMXStartupMode
  | DimmerModel_SetDMXStartupMode
  | DimmerModel_GetLockPin
  | DimmerModel_SetLockPin
  | DimmerModel_GetLockState
  | DimmerModel_SetLockState
  | DimmerModel_GetLockStateDescription
  | DimmerModel_GetPresetInfo
  | DimmerModel_GetPresetStatus
  | DimmerModel_SetPresetStatus
  | DimmerModel_GetPresetMergeMode
  | DimmerModel_SetPresetMergeMode
  | DimmerModel_GetPowerOnSelfTest
  | DimmerModel_SetPowerOnSelfTest
  | DimmerModel_GetBurnIn
  | DimmerModel_SetBurnIn
  | DimmerModel_GetIdentifyMode
  | DimmerModel_SetIdentifyMode
  | DimmerModel_GetDimmerInfo
  | DimmerModel_GetMinimumLevel
  | DimmerModel_SetMinimumLevel
  | DimmerModel_GetMaximumLevel
  | DimmerModel_SetMaximumLevel
  | DimmerModel_GetCurve
  | DimmerModel_SetCurve
  | DimmerModel_GetCurveDescription
  | DimmerModel_GetOutputResponseTime
  | DimmerModel_SetOutputResponseTime
  | DimmerModel_GetOutputResponseDescription
  | DimmerModel_GetModulationFrequency
  | DimmerModel_SetModulationFrequency
  | DimmerModel_GetModulationFrequencyDescription
  deriving DecidableEq, Repr

/-- Modelled from the spec: the `PIDDescriptor` structure is declared in
`rdm_responder.h`, which is not at hand; the specification gives
`{pid, get_handler, min_get_pdl, set_handler}`, in the order the tables of
`dimmer_model.c` initialise them. An absent handler (`NULL`) is `none`. -/
structure PIDDescriptor where
  pid : Nat
  get_handler : Option PIDCommandHandler
  min_get_pdl : Nat
  set_handler : Option PIDCommandHandler
  deriving DecidableEq, Repr

/-- The table `ROOT_PID_DESCRIPTORS` of `dimmer_model.c`. -/
def ROOT_PID_DESCRIPTORS : List PIDDescriptor :=
  [⟨PID_SUPPORTED_PARAMETERS,
      some PIDCommandHandler.RDMResponder_GetSupportedParameters, 0, none⟩,
   ⟨PID_DEVICE_INFO, some PIDCommandHandler.RDMResponder_GetDeviceInfo, 0, none⟩,
   ⟨PID_PRODUCT_DETAIL_ID_LIST,
      some PIDCommandHandler.RDMResponder_GetProductDetailIds, 0, none⟩,
   ⟨PID_DEVICE_MODEL_DESCRIPTION,
      some PIDCommandHandler.RDMResponder_GetDeviceModelDescription, 0, none⟩,
   ⟨PID_MANUFACTURER_LABEL,
      some PIDCommandHandler.RDMResponder_GetManufacturerLabel, 0, none⟩,
   ⟨PID_DEVICE_LABEL, some PIDCommandHandler.RDMResponder_GetDeviceLabel, 0,
      some PIDCommandHandler.RDMResponder_SetDeviceLabel⟩,
   ⟨PID_SOFTWARE_VERSION_LABEL,
      some PIDCommandHandler.RDMResponder_GetSoftwareVersionLabel, 0, none⟩,
   ⟨PID_IDENTIFY_DEVICE, some PIDCommandHandler.RDMResponder_GetIdentifyDevice, 0,
      some PIDCommandHandler.RDMResponder_SetIdentifyDevice⟩,
   ⟨PID_CAPTURE_PRESET, none, 0,
      some PIDCommandHandler.DimmerModel_CapturePreset⟩,
   ⟨PID_PRESET_PLAYBACK, some PIDCommandHandler.DimmerModel_GetPresetPlayback, 0,
      some PIDCommandHandler.DimmerModel_SetPresetPlayback⟩,
   ⟨PID_DMX_BLOCK_ADDRESS, some PIDCommandHandler.DimmerModel_GetDMXBlockAddress, 0,
      some PIDCommandHandler.DimmerModel_SetDMXBlockAddress⟩,
   ⟨PID_DMX_FAIL_MODE, some PIDCommandHandler.DimmerModel_GetDMXFailMode, 0,
      some PIDCommandHandler.DimmerModel_SetDMXFailMode⟩,
   ⟨PID_DMX_STARTUP_MODE, some PIDCommandHandler.DimmerModel_GetDMXStartupMode, 0,
      some PIDCommandHandler.DimmerModel_SetDMXStartupMode⟩,
   ⟨PID_LOCK_PIN, some PIDCommandHandler.DimmerModel_GetLockPin, 0,
      some PIDCommandHandler.DimmerModel_SetLockPin⟩,
   ⟨PID_LOCK_STATE, some PIDCommandHandler.DimmerModel_GetLockState, 0,
      some PIDCommandHandler.DimmerModel_SetLockState⟩,
   ⟨PID_LOCK_STATE_DESCRIPTION,
      some PIDCommandHandler.DimmerModel_GetLockStateDescription, 1, none⟩,
   ⟨PID_PRESET_INFO, some PIDCommandHandler.DimmerModel_GetPresetInfo, 0, none⟩,
   ⟨PID_PRESET_STATUS, some PIDCommandHandler.DimmerModel_GetPresetStatus, 2,
      some PIDCommandHandler.DimmerModel_SetPresetStatus⟩,
   ⟨PID_PRESET_MERGEMODE, some PIDCommandHandler.DimmerModel_GetPresetMergeMode, 0,
      some PIDCommandHandler.DimmerModel_SetPresetMergeMode⟩,
   ⟨PID_POWER_ON_SELF_TEST, some PIDCommandHandler.DimmerModel_GetPowerOnSelfTest, 0,
      some PIDCommandHandler.DimmerModel_SetPowerOnSelfTest⟩]

/-- The list `ROOT_PRODUCT_DETAIL_ID_LIST` of `dimmer_model.c`. -/
def ROOT_PRODUCT_DETAIL_ID_LIST : List Nat :=
  [PRODUCT_DETAIL_TEST, PRODUCT_DETAIL_CHANGEOVER_MANUAL]

/-- The definition `ROOT_RESPONDER_DEFINITION` of `dimmer_model.c`. -/
def ROOT_RESPONDER_DEFINITION : ResponderDefinition where
  descriptors := DescriptorTable.ROOT_PID_DESCRIPTORS
  sensor_count := 0
  personalities := []
  personality_count := 0
  software_version_label := SOFTWARE_LABEL
  manufacturer_label := MANUFACTURER_LABEL
  model_description := DEVICE_MODEL_DESCRIPTION
  product_detail_ids := ROOT_PRODUCT_DETAIL_ID_LIST
  default_device_label := DEFAULT_DEVICE_LABEL
  software_version := SOFTWARE_VERSION
  model_id := DIMMER_MODEL_ID
  product_category := PRODUCT_CATEGORY_TEST_EQUIPMENT

/-- The table `SUBDEVICE_PID_DESCRIPTORS` of `dimmer_model.c`. -/
def SUBDEVICE_PID_DESCRIPTORS : List PIDDescriptor :=
  [⟨PID_SUPPORTED_PARAMETERS,
      some PIDCommandHandler.RDMResponder_GetSupportedParameters, 0, none⟩,
   ⟨PID_DEVICE_INFO, some PIDCommandHandler.RDMResponder_GetDeviceInfo, 0, none⟩,
   ⟨PID_PRODUCT_DETAIL_ID_LIST,
      some PIDCommandHandler.RDMResponder_GetProductDetailIds, 0, none⟩,
   ⟨PID_DEVICE_MODEL_DESCRIPTION,
      some PIDCommandHandler.RDMResponder_GetDeviceModelDescription, 0, none⟩,
   ⟨PID_MANUFACTURER_LABEL,
      some PIDCommandHandler.RDMResponder_GetManufacturerLabel, 0, none⟩,
   ⟨PID_DMX_START_ADDRESS, some PIDCommandHandler.RDMResponder_GetDMXStartAddress, 0,
      some PIDCommandHandler.RDMResponder_SetDMXStartAddress⟩,
   ⟨PID_SOFTWARE_VERSION_LABEL,
      some PIDCommandHandler.RDMResponder_GetSoftwareVersionLabel, 0, none⟩,
   ⟨PID_IDENTIFY_DEVICE, some PIDCommandHandler.RDMResponder_GetIdentifyDevice, 0,
      some PIDCommandHandler.RDMResponder_SetIdentifyDevice⟩,
   ⟨PID_BURN_IN, some PIDCommandHandler.DimmerModel_GetBurnIn, 0,
      some PIDCommandHandler.DimmerModel_SetBurnIn⟩,
   ⟨PID_IDENTIFY_MODE, some PIDCommandHandler.DimmerModel_GetIdentifyMode, 0,
      some PIDCommandHandler.DimmerModel_SetIdentifyMode⟩,
   ⟨PID_DIMMER_INFO, some PIDCommandHandler.DimmerModel_GetDimmerInfo, 0, none⟩,
   ⟨PID_MINIMUM_LEVEL, some PIDCommandHandler.DimmerModel_GetMinimumLevel, 0,
      some PIDCommandHandler.DimmerModel_SetMinimumLevel⟩,
   ⟨PID_MAXIMUM_LEVEL, some PIDCommandHandler.DimmerModel_GetMaximumLevel, 0,
      some PIDCommandHandler.DimmerModel_SetMaximumLevel⟩,
   ⟨PID_CURVE, some PIDCommandHandler.DimmerModel_GetCurve, 0,
      some PIDCommandHandler.DimmerModel_SetCurve⟩,
   ⟨PID_CURVE_DESCRIPTION,
      some PIDCommandHandler.DimmerModel_GetCurveDescription, 1, none⟩,
   ⟨PID_OUTPUT_RESPONSE_TIME,
      some PIDCommandHandler.DimmerModel_GetOutputResponseTime, 0,
      some PIDCommandHandler.DimmerModel_SetOutputResponseTime⟩,
   ⟨PID_OUTPUT_RESPONSE_TIME_DESCRIPTION,
      some PIDCommandHandler.DimmerModel_GetOutputResponseDescription, 1, none⟩,
   ⟨PID_MODULATION_FREQUENCY,
      some PIDCommandHandler.DimmerModel_GetModulationFrequency, 0,
      some PIDCommandHandler.DimmerModel_SetModulationFrequency⟩,
   ⟨PID_MODULATION_FREQUENCY_DESCRIPTION,
      some PIDCommandHandler.DimmerModel_GetModulationFrequencyDescription, 1,
      none⟩]

/-- The list `SUBDEVICE_PRODUCT_DETAIL_ID_LIST` of `dimmer_model.c`. -/
def SUBDEVICE_PRODUCT_DETAIL_ID_LIST : List Nat :=
  [PRODUCT_DETAIL_TEST, PRODUCT_DETAIL_CHANGEOVER_MANUAL]

/-- The table `PERSONALITIES` of `dimmer_model.c` (`PERSONALITY_COUNT`
entries). -/
def PERSONALITIES : List PersonalityDefinition :=
  [{ dmx_footprint := 1, description := PERSONALITY_DESCRIPTION, slot_count := 1 }]

/-- The definition `SUBDEVICE_RESPONDER_DEFINITION` of `dimmer_model.c`. -/
def SUBDEVICE_RESPONDER_DEFINITION : ResponderDefinition where
  descriptors := DescriptorTable.SUBDEVICE_PID_DESCRIPTORS
  sensor_count := 0
  personalities := PERSONALITIES
  personality_count := 1
  software_version_label := SOFTWARE_LABEL
  manufacturer_label := MANUFACTURER_LABEL
  model_description := DEVICE_MODEL_DESCRIPTION
  product_detail_ids := SUBDEVICE_PRODUCT_DETAIL_ID_LIST
  default_device_label := DEFAULT_DEVICE_LABEL
  software_version := SOFTWARE_VERSION
  model_id := DIMMER_MODEL_ID
  product_category := PRODUCT_CATEGORY_TEST_EQUIPMENT

/-- The descriptor array a `descriptors` pointer points to; the null pointer
has no descriptors (`descriptor_count` is 0). -/
def DescriptorTable.entries : DescriptorTable → List PIDDescriptor
  | DescriptorTable.NULL => []
  | DescriptorTable.ROOT_PID_DESCRIPTORS => JaRule.ROOT_PID_DESCRIPTORS
  | DescriptorTable.SUBDEVICE_PID_DESCRIPTORS => JaRule.SUBDEVICE_PID_DESCRIPTORS

/-! ## The responder core (`rdm_responder.c`), from the specification -/

/-- Modelled from the spec: the set of PIDs `SUPPORTED_PARAMETERS` leaves out
is computed in `rdm_responder.c`, which is not at hand; it is "the standard
always-required set (E1.20 §10)". -/
def requiredPIDs : List Nat :=
  [PID_DISC_UNIQUE_BRANCH, PID_DISC_MUTE, PID_DISC_UN_MUTE,
   PID_SUPPORTED_PARAMETERS, PID_PARAMETER_DESCRIPTION, PID_DEVICE_INFO,
   PID_SOFTWARE_VERSION_LABEL, PID_DMX_START_ADDRESS, PID_IDENTIFY_DEVICE]

/-- Modelled from the spec: `RDMResponder_GetSupportedParameters` is defined in
`rdm_responder.c`, which is not at hand; it returns the list of PIDs in the
active descriptor table minus the standard always-required set. -/
def RDMResponder_GetSupportedParameters : Handler := fun header _param_data s =>
  (RDMResponder_AddHeaderAndChecksum header
    (((s.responder.definition.descriptors.entries.map PIDDescriptor.pid).filter
        (fun pid => !requiredPIDs.contains pid)).flatMap PushUInt16), s)

/-- Modelled from the spec: `RDMResponder_GetDeviceInfo` is defined in
`rdm_responder.c`, which is not at hand; it returns RDM version 0x0100, model
ID, product category, software version, DMX footprint (current personality),
current personality, personality count, start address (or 0xFFFF), sub-device
count, sensor count. -/
def RDMResponder_GetDeviceInfo : Handler := fun header _param_data s =>
  let responder := s.responder
  let definition := responder.definition
  let footprint :=
    match definition.personalities.get? (responder.current_personality - 1) with
    | some personality => personality.dmx_footprint
    | none => 0
  (RDMResponder_AddHeaderAndChecksum header
    (PushUInt16 RDM_VERSION ++ PushUInt16 definition.model_id ++
      PushUInt16 definition.product_category ++
      PushUInt32 definition.software_version ++
      PushUInt16 footprint ++
      [responder.current_personality % 256, definition.personality_count % 256] ++
      PushUInt16 responder.dmx_start_address ++
      PushUInt16 responder.sub_device_count ++
      [definition.sensor_count % 256]), s)

/-- Modelled from the spec: `RDMResponder_GetProductDetailIds` is defined in
`rdm_responder.c`, which is not at hand; it returns the product detail ids of
the definition. -/
def RDMResponder_GetProductDetailIds : Handler := fun header _param_data s =>
  (RDMResponder_AddHeaderAndChecksum header
    (s.responder.definition.product_detail_ids.flatMap PushUInt16), s)

/-- Modelled from the spec: `RDMResponder_GetDeviceModelDescription` is defined
in `rdm_responder.c`, which is not at hand; it returns the model description
of the definition, a string field of at most 32 bytes. -/
def RDMResponder_GetDeviceModelDescription : Handler :=
  fun header _param_data s =>
  (RDMResponder_AddHeaderAndChecksum header
    (RDMUtil_StringCopy RDM_DEFAULT_STRING_SIZE
      (stringBytes s.responder.definition.model_description)
      RDM_DEFAULT_STRING_SIZE), s)

/-- Modelled from the spec: `RDMResponder_GetManufacturerLabel` is defined in
`rdm_responder.c`, which is not at hand; it returns the manufacturer label of
the definition, a string field of at most 32 bytes. -/
def RDMResponder_GetManufacturerLabel : Handler := fun header _param_data s =>
  (RDMResponder_AddHeaderAndChecksum header
    (RDMUtil_StringCopy RDM_DEFAULT_STRING_SIZE
      (stringBytes s.responder.definition.manufacturer_label)
      RDM_DEFAULT_STRING_SIZE), s)

/-- Modelled from the spec: `RDMResponder_GetSoftwareVersionLabel` is defined
in `rdm_responder.c`, which is not at hand; it returns the software version
label of the definition, a string field of at most 32 bytes. -/
def RDMResponder_GetSoftwareVersionLabel : Handler := fun header _param_data s =>
  (RDMResponder_AddHeaderAndChecksum header
    (RDMUtil_StringCopy RDM_DEFAULT_STRING_SIZE
      (stringBytes s.responder.definition.software_version_label)
      RDM_DEFAULT_STRING_SIZE), s)

/-- Modelled from the spec: `RDMResponder_GetDeviceLabel` is defined in
`rdm_responder.c`, which is not at hand; it returns the device label of the
current responder. -/
def RDMResponder_GetDeviceLabel : Handler := fun header _param_data s =>
  (RDMResponder_AddHeaderAndChecksum header
    (RDMUtil_StringCopy RDM_DEFAULT_STRING_SIZE s.responder.device_label
      RDM_DEFAULT_STRING_SIZE), s)

/-- Modelled from the spec: `RDMResponder_SetDeviceLabel` is defined in
`rdm_responder.c`, which is not at hand; the device label is at most 32 bytes,
a longer parameter is a `FORMAT_ERROR`, otherwise the label is stored and the
SET is ACKed without data. -/
def RDMResponder_SetDeviceLabel : Handler := fun header param_data s =>
  if header.param_data_length > RDM_DEFAULT_STRING_SIZE then
    (RDMResponder_BuildNack header RDMNackReason.NR_FORMAT_ERROR, s)
  else
    (RDMResponder_BuildSetAck header,
     s.setResponder { s.responder with
      device_label :=
        (List.range header.param_data_length).map (byteAt param_data) })

/-- Modelled from the spec: `RDMResponder_GetIdentifyDevice` is defined in
`rdm_responder.c`, which is not at hand; it returns the identify state of the
current responder. -/
def RDMResponder_GetIdentifyDevice : Handler := fun header _param_data s =>
  (RDMResponder_GenericGetBool header s.responder.identify_on, s)

/-- Modelled from the spec: `RDMResponder_SetIdentifyDevice` is defined in
`rdm_responder.c`, which is not at hand; it validates the length and the
range and stores the identify state of the current responder. -/
def RDMResponder_SetIdentifyDevice : Handler := fun header param_data s =>
  let r := RDMResponder_GenericSetBool header param_data s.responder.identify_on
  (r.1, s.setResponder { s.responder with identify_on := r.2 })

/-- Modelled from the spec: `RDMResponder_GetDMXStartAddress` is defined in
`rdm_responder.c`, which is not at hand; it returns the start address of the
current responder (or 0xFFFF). -/
def RDMResponder_GetDMXStartAddress : Handler := fun header _param_data s =>
  (RDMResponder_GenericGetUInt16 header s.responder.dmx_start_address, s)

/-- Modelled from the spec: `RDMResponder_SetDMXStartAddress` is defined in
`rdm_responder.c`, which is not at hand; it validates the exact length (else
`FORMAT_ERROR`) and the range 1..512 (else `DATA_OUT_OF_RANGE`) and stores
the start address of the current responder. -/
def RDMResponder_SetDMXStartAddress : Handler := fun header param_data s =>
  if header.param_data_length ≠ 2 then
    (RDMResponder_BuildNack header RDMNackReason.NR_FORMAT_ERROR, s)
  else
    let address := ExtractUInt16 param_data 0
    if address = 0 ∨ address > MAX_DMX_START_ADDRESS then
      (RDMResponder_BuildNack header RDMNackReason.NR_DATA_OUT_OF_RANGE, s)
    else
      (RDMResponder_BuildSetAck header,
       s.setResponder { s.responder with dmx_start_address := address })

/-- The indirect call through a `PIDCommandHandler` function pointer. -/
def callHandler : PIDCommandHandler → Handler
  | PIDCommandHandler.RDMResponder_GetSupportedParameters =>
    RDMResponder_GetSupportedParameters
  | PIDCommandHandler.RDMResponder_GetDeviceInfo => RDMResponder_GetDeviceInfo
  | PIDCommandHandler.RDMResponder_GetProductDetailIds =>
    RDMResponder_GetProductDetailIds
  | PIDCommandHandler.RDMResponder_GetDeviceModelDescription =>
    RDMResponder_GetDeviceModelDescription
  | PIDCommandHandler.RDMResponder_GetManufacturerLabel =>
    RDMResponder_GetManufacturerLabel
  | PIDCommandHandler.RDMResponder_GetDeviceLabel => RDMResponder_GetDeviceLabel
  | PIDCommandHandler.RDMResponder_SetDeviceLabel => RDMResponder_SetDeviceLabel
  | PIDCommandHandler.RDMResponder_GetSoftwareVersionLabel =>
    RDMResponder_GetSoftwareVersionLabel
  | PIDCommandHandler.RDMResponder_GetIdentifyDevice =>
    RDMResponder_GetIdentifyDevice
  | PIDCommandHandler.RDMResponder_SetIdentifyDevice =>
    RDMResponder_SetIdentifyDevice
  | PIDCommandHandler.RDMResponder_GetDMXStartAddress =>
    RDMResponder_GetDMXStartAddress
  | PIDCommandHandler.RDMResponder_SetDMXStartAddress =>
    RDMResponder_SetDMXStartAddress
  | PIDCommandHandler.DimmerModel_CapturePreset => DimmerModel_CapturePreset
  | PIDCommandHandler.DimmerModel_GetPresetPlayback =>
    DimmerModel_GetPresetPlayback
  | PIDCommandHandler.DimmerModel_SetPresetPlayback =>
    DimmerModel_SetPresetPlayback
  | PIDCommandHandler.DimmerModel_GetDMXBlockAddress =>
    DimmerModel_GetDMXBlockAddress
  | PIDCommandHandler.DimmerModel_SetDMXBlockAddress =>
    DimmerModel_SetDMXBlockAddress
  | PIDCommandHandler.DimmerModel_GetDMXFailMode => DimmerModel_GetDMXFailMode
  | PIDCommandHandler.DimmerModel_SetDMXFailMode => DimmerModel_SetDMXFailMode
  | PIDCommandHandler.DimmerModel_GetDMXStartupMode =>
    DimmerModel_GetDMXStartupMode
  | PIDCommandHandler.DimmerModel_SetDMXStartupMode =>
    DimmerModel_SetDMXStartupMode
  | PIDCommandHandler.DimmerModel_GetLockPin => DimmerModel_GetLockPin
  | PIDCommandHandler.DimmerModel_SetLockPin => DimmerModel_SetLockPin
  | PIDCommandHandler.DimmerModel_GetLockState => DimmerModel_GetLockState
  | PIDCommandHandler.DimmerModel_SetLockState => DimmerModel_SetLockState
  | PIDCommandHandler.DimmerModel_GetLockStateDescription =>
    DimmerModel_GetLockStateDescription
  | PIDCommandHandler.DimmerModel_GetPresetInfo => DimmerModel_GetPresetInfo
  | PIDCommandHandler.DimmerModel_GetPresetStatus => DimmerModel_GetPresetStatus
  | PIDCommandHandler.DimmerModel_SetPresetStatus => DimmerModel_SetPresetStatus
  | PIDCommandHandler.DimmerModel_GetPresetMergeMode =>
    DimmerModel_GetPresetMergeMode
  | PIDCommandHandler.DimmerModel_SetPresetMergeMode =>
    DimmerModel_SetPresetMergeMode
  | PIDCommandHandler.DimmerModel_GetPowerOnSelfTest =>
    DimmerModel_GetPowerOnSelfTest
  | PIDCommandHandler.DimmerModel_SetPowerOnSelfTest =>
    DimmerModel_SetPowerOnSelfTest
  | PIDCommandHandler.DimmerModel_GetBurnIn => DimmerModel_GetBurnIn
  | PIDCommandHandler.DimmerModel_SetBurnIn => DimmerModel_SetBurnIn
  | PIDCommandHandler.DimmerModel_GetIdentifyMode => DimmerModel_GetIdentifyMode
  | PIDCommandHandler.DimmerModel_SetIdentifyMode => DimmerModel_SetIdentifyMode
  | PIDCommandHandler.DimmerModel_GetDimmerInfo => DimmerModel_GetDimmerInfo
  | PIDCommandHandler.DimmerModel_GetMinimumLevel => DimmerModel_GetMinimumLevel
  | PIDCommandHandler.DimmerModel_SetMinimumLevel => DimmerModel_SetMinimumLevel
  | PIDCommandHandler.DimmerModel_GetMaximumLevel => DimmerModel_GetMaximumLevel
  | PIDCommandHandler.DimmerModel_SetMaximumLevel => DimmerModel_SetMaximumLevel
  | PIDCommandHandler.DimmerModel_GetCurve => DimmerModel_GetCurve
  | PIDCommandHandler.DimmerModel_SetCurve => DimmerModel_SetCurve
  | PIDCommandHandler.DimmerModel_GetCurveDescription =>
    DimmerModel_GetCurveDescription
  | PIDCommandHandler.DimmerModel_GetOutputResponseTime =>
    DimmerModel_GetOutputResponseTime
  | PIDCommandHandler.DimmerModel_SetOutputResponseTime =>
    DimmerModel_SetOutputResponseTime
  | PIDCommandHandler.DimmerModel_GetOutputResponseDescription =>
    DimmerModel_GetOutputResponseDescription
  | PIDCommandHandler.DimmerModel_GetModulationFrequency =>
    DimmerModel_GetModulationFrequency
  | PIDCommandHandler.DimmerModel_SetModulationFrequency =>
    DimmerModel_SetModulationFrequency
  | PIDCommandHandler.DimmerModel_GetModulationFrequencyDescription =>
    DimmerModel_GetModulationFrequencyDescription

/-- Modelled from the spec: `RDMResponder_DispatchPID` is defined in
`rdm_responder.c`, which is not at hand. The definition follows the four rules
that section 4.D of the specification gives for the dispatcher, in their
order. The PID is looked up in the descriptor table of the active responder's
definition: PID absent gives NACK `UNKNOWN_PID`; no handler for the command
class gives NACK `UNSUPPORTED_COMMAND_CLASS`; a GET with `pdl < min_get_pdl`
gives NACK `FORMAT_ERROR`; otherwise the handler is invoked and its return is
the response.

The sentence of section 4.C, that GET handlers require `pdl == 0` unless a
descriptor advertises otherwise, is not among the rules of 4.D and is not part
of this definition. What the firmware answers to a GET whose pdl is above
`min_get_pdl` is decided in `rdm_responder.c`; of such a request this
definition says only what the rules of 4.D say. -/
def RDMResponder_DispatchPID : Handler := fun header param_data s =>
  match s.responder.definition.descriptors.entries.find?
      (fun descriptor => descriptor.pid == ntohs header.param_id) with
  | none => (RDMResponder_BuildNack header RDMNackReason.NR_UNKNOWN_PID, s)
  | some descriptor =>
    if header.command_class = GET_COMMAND then
      match descriptor.get_handler with
      | none =>
        (RDMResponder_BuildNack header RDMNackReason.NR_UNSUPPORTED_COMMAND_CLASS, s)
      | some handler =>
        if header.param_data_length < descriptor.min_get_pdl then
          (RDMResponder_BuildNack header RDMNackReason.NR_FORMAT_ERROR, s)
        else
          callHandler handler header param_data s
    else if header.command_class = SET_COMMAND then
      match descriptor.set_handler with
      | none =>
        (RDMResponder_BuildNack header RDMNackReason.NR_UNSUPPORTED_COMMAND_CLASS, s)
      | some handler => callHandler handler header param_data s
    else
      (RDMResponder_BuildNack header RDMNackReason.NR_UNSUPPORTED_COMMAND_CLASS, s)

/-- Lexicographic `≤` on UIDs (byte lists). -/
def uidLE : List Nat → List Nat → Bool
  | [], _ => true
  | _ :: _, [] => false
  | a :: as, b :: bs => a < b || (a == b && uidLE as bs)

/-- Modelled from the spec: the discovery-unique-branch response is built in
`rdm_responder.c`, which is not at hand; it is 7 preamble bytes `0xFE`, one
separator `0xAA`, the UID bytes with `0xAA` and `0x55` OR'd in, and the 16-bit
checksum encoded in the same way. -/
def dubResponse (uid : List Nat) : List Nat :=
  let encoded := uid.flatMap (fun b => [b ||| 0xaa, b ||| 0x55])
  let checksum := encoded.sum % 65536
  List.replicate 7 0xfe ++ [0xaa] ++ encoded ++
    [checksum / 256 ||| 0xaa, checksum / 256 ||| 0x55,
     checksum % 256 ||| 0xaa, checksum % 256 ||| 0x55]

/-- Modelled from the spec: `RDMResponder_HandleDiscovery` is defined in
`rdm_responder.c`, which is not at hand. `DISC_UNIQUE_BRANCH` carries two UIDs
(lower, upper) and is answered by a DUB response if our UID is in the range
and we are not muted; `DISC_MUTE` / `DISC_UN_MUTE` set / clear `is_muted` and
respond with the 2-byte mute control field (the sub-device flag is set when
there are sub-devices); nothing else is answered. -/
def RDMResponder_HandleDiscovery : Handler := fun header param_data s =>
  let responder := s.responder
  if ntohs header.param_id = PID_DISC_UNIQUE_BRANCH then
    let lower := (List.range UID_LENGTH).map (byteAt param_data)
    let upper := (List.range UID_LENGTH).map
      (fun i => byteAt param_data (UID_LENGTH + i))
    if uidLE lower responder.uid && uidLE responder.uid upper &&
        !responder.is_muted then
      (Response.DUB (dubResponse responder.uid), s)
    else
      (Response.NO_RESPONSE, s)
  else if ntohs header.param_id = PID_DISC_MUTE then
    (RDMResponder_AddHeaderAndChecksum header
      (PushUInt16 (if responder.sub_device_count > 0 then 0x0002 else 0)),
     s.setResponder { responder with is_muted := true })
  else if ntohs header.param_id = PID_DISC_UN_MUTE then
    (RDMResponder_AddHeaderAndChecksum header
      (PushUInt16 (if responder.sub_device_count > 0 then 0x0002 else 0)),
     s.setResponder { responder with is_muted := false })
  else
    (Response.NO_RESPONSE, s)

/-- Modelled from the spec: `RDMResponder_ResetToFactoryDefaults` is defined in
`rdm_responder.c`, which is not at hand; the mutable fields of the current
responder return to the factory defaults of its definition: first
personality, default device label, not muted, not identifying, no queued
messages, no sub-devices, and start address 1 if the definition has
personalities (unpatched, 0xFFFF, otherwise). -/
def RDMResponder_ResetToFactoryDefaults (s : State) : State :=
  let responder := s.responder
  s.setResponder { responder with
    dmx_start_address :=
      if responder.definition.personality_count = 0 then
        INVALID_DMX_START_ADDRESS
      else 1
    current_personality := 1
    device_label :=
      RDMUtil_StringCopy RDM_DEFAULT_STRING_SIZE
        (stringBytes responder.definition.default_device_label)
        RDM_DEFAULT_STRING_SIZE
    is_muted := false
    identify_on := false
    sub_device_count := 0
    queued_message_count := 0
    is_subdevice := false }

/-! ## `dimmer_model.c`: public functions -/

/-- One pass of the first loop of `DimmerModel_Initialize`, for
`g_root_device.scenes[i]`. -/
def initScene (scenes : SceneArray) (i : Nat) : SceneArray :=
  scenes.set i
    { up_fade_time := 0
      down_fade_time := 0
      wait_time := 0
      programmed_state :=
        if i = 0 then PRESET_PROGRAMMED_READ_ONLY else PRESET_NOT_PROGRAMMED }

/-- One pass of the second loop of `DimmerModel_Initialize`, for
`g_subdevices[i]`; the accumulator holds `sub_device_index` (a `uint16_t`)
and the globals, `temp` is the saved `g_responder`. -/
def initSubDevice (temp : ResponderRef) (acc : Nat × State) (i : Nat) :
    Nat × State :=
  let sub_device_index := if i = 1 then (acc.1 + 1) % 65536 else acc.1
  let s := acc.2
  let subdevice := s.g_subdevices.get i
  let subdevice := { subdevice with
    responder := { subdevice.responder with
      definition := SUBDEVICE_RESPONDER_DEFINITION }
    index := sub_device_index
    min_level_increasing := 0
    min_level_decreasing := 0
    max_level := 0
    on_below_min := 0
    identify_mode := IDENTIFY_MODE_QUIET
    burn_in := 0
    curve := 1
    output_response_time := 1
    modulation_frequency := 1 }
  let s := { s with g_subdevices := s.g_subdevices.set i subdevice }
  let s := { s with g_responder := ResponderRef.subdevice i }
  let s := s.setResponder { s.responder with
    uid := (s.responderAt temp).uid.take UID_LENGTH }
  let s := RDMResponder_ResetToFactoryDefaults s
  let s := s.setResponder { s.responder with is_subdevice := true }
  let s := s.setResponder { s.responder with
    sub_device_count := NUMBER_OF_SUB_DEVICES }
  ((sub_device_index + 1) % 65536, s)

/-- One pass of the last loop of `DimmerModel_Initialize`: set the start
address of `g_subdevices[i]` to 1. -/
def initStartAddress (s : State) (i : Nat) : State :=
  let subdevice := s.g_subdevices.get i
  { s with g_subdevices := s.g_subdevices.set i { subdevice with
      responder := { subdevice.responder with
        dmx_start_address := INITIAL_START_ADDRESSS } } }

/-- `DimmerModel_Initialize`. -/
def DimmerModel_Initialize (s : State) : State :=
  let temp := s.g_responder
  -- Initialize the root
  let s := { s with g_root_device := { s.g_root_device with
    scenes := (List.range NUMBER_OF_SCENES).foldl initScene s.g_root_device.scenes } }
  let s := { s with g_root_device := { s.g_root_device with
    playback_mode := PRESET_PLAYBACK_OFF
    playback_level := 0
    startup_scene := PRESET_PLAYBACK_OFF
    startup_hold := 0
    startup_delay := 0
    startup_level := 0
    fail_scene := PRESET_PLAYBACK_OFF
    fail_loss_of_signal_delay := 0
    fail_hold_time := 0
    fail_level := 0
    pin_code := 0
    lock_state := 0
    merge_mode := MERGE_MODE_DEFAULT } }
  let s := ((List.range NUMBER_OF_SUB_DEVICES).foldl (initSubDevice temp) (1, s)).2
  -- restore
  let s := { s with g_responder := temp }
  let ok := ResetToBlockAddress INITIAL_START_ADDRESSS s
  if !ok.1 then
    -- Set them all to 1
    (List.range NUMBER_OF_SUB_DEVICES).foldl initStartAddress ok.2
  else
    ok.2

/-- `DimmerModel_Activate`. -/
def DimmerModel_Activate (s : State) : State :=
  let s := s.setResponder { s.responder with
    definition := ROOT_RESPONDER_DEFINITION }
  let s := RDMResponder_ResetToFactoryDefaults s
  s.setResponder { s.responder with sub_device_count := NUMBER_OF_SUB_DEVICES }

/-- `DimmerModel_Deactivate`. -/
def DimmerModel_Deactivate (s : State) : State := s

/-- The variables of the sub-device loop of `DimmerModel_HandleRequest`. -/
structure SubDeviceLoop where
  state : State
  handled : Bool
  response_size : Response
  deriving DecidableEq, Repr

/-- One pass of the sub-device loop of `DimmerModel_HandleRequest`, for
`g_subdevices[i]`. -/
def handleSubDevice (header : RDMHeader) (param_data : List Nat)
    (sub_device : Nat) (locked : Bool) (acc : SubDeviceLoop) (i : Nat) :
    SubDeviceLoop :=
  if sub_device = (acc.state.g_subdevices.get i).index ∨
      sub_device = SUBDEVICE_ALL then
    if !locked then
      let s := { acc.state with
        g_active_device := some i
        g_responder := ResponderRef.subdevice i }
      let r := RDMResponder_DispatchPID header param_data s
      { state := r.2, handled := true, response_size := r.1 }
    else
      { acc with handled := true }
  else
    acc

/-- `DimmerModel_HandleRequest`. -/
def DimmerModel_HandleRequest : Handler := fun header param_data s =>
  if !RDMUtil_RequiresAction s.responder.uid header.dest_uid then
    (Response.NO_RESPONSE, s)
  -- The sub-device field is ignored for discovery commands.
  else if header.command_class = DISCOVERY_COMMAND then
    RDMResponder_HandleDiscovery header param_data s
  else
    let sub_device := ntohs header.sub_device
    -- GETs to all subdevices are invalid.
    if header.command_class = GET_COMMAND ∧ sub_device = SUBDEVICE_ALL then
      (RDMResponder_BuildNack header RDMNackReason.NR_SUB_DEVICE_OUT_OF_RANGE, s)
    else
      -- Check if we're locked
      let locked : Bool :=
        if header.command_class = SET_COMMAND then
          if s.g_root_device.lock_state = LOCK_STATE_ALL_LOCKED ∨
              (s.g_root_device.lock_state = LOCK_STATE_SUBDEVICES_LOCKED ∧
                sub_device ≠ SUBDEVICE_ROOT) then
            true
          else false
        else false
      if sub_device = SUBDEVICE_ROOT then
        if locked then
          (RDMResponder_BuildNack header RDMNackReason.NR_WRITE_PROTECT, s)
        else
          RDMResponder_DispatchPID header param_data s
      else
        let temp := s.g_responder
        let loop := (List.range NUMBER_OF_SUB_DEVICES).foldl
          (handleSubDevice header param_data sub_device locked)
          { state := s, handled := false, response_size := Response.NO_RESPONSE }
        -- restore
        let s := { loop.state with g_responder := temp }
        if !loop.handled then
          (RDMResponder_BuildNack header RDMNackReason.NR_SUB_DEVICE_OUT_OF_RANGE, s)
        else if locked then
          (RDMResponder_BuildNack header RDMNackReason.NR_WRITE_PROTECT, s)
        else
          -- for an all-subdevices call the last response is returned
          (loop.response_size, s)

/-- `DimmerModel_Tasks`. -/
def DimmerModel_Tasks (s : State) : State := s

/-! ## Boot and factory state -/

/-- Modelled from the spec: the responder state before the model is
initialised is set up in `rdm_responder.c`, which is not at hand; it is
zero-allocated at boot, and `RDMResponder_Initialize` installs the UID. The
dimmer globals are zero-initialised C statics, `g_active_device` is `NULL` and
`g_responder` points to the root responder. -/
def bootState (uid : List Nat) : State :=
  let noDefinition : ResponderDefinition :=
    { descriptors := DescriptorTable.NULL
      sensor_count := 0
      personalities := []
      personality_count := 0
      software_version_label := ""
      manufacturer_label := ""
      model_description := ""
      product_detail_ids := []
      default_device_label := ""
      software_version := 0
      model_id := 0
      product_category := 0 }
  let zeroResponder : RDMResponder :=
    { definition := noDefinition
      uid := List.replicate UID_LENGTH 0
      dmx_start_address := 0
      current_personality := 0
      device_label := []
      is_muted := false
      identify_on := false
      sub_device_count := 0
      queued_message_count := 0
      is_subdevice := false }
  let zeroScene : Scene :=
    { up_fade_time := 0, down_fade_time := 0, wait_time := 0, programmed_state := 0 }
  let zeroSubDevice : DimmerSubDevice :=
    { responder := zeroResponder
      index := 0
      min_level_increasing := 0
      min_level_decreasing := 0
      max_level := 0
      on_below_min := 0
      identify_mode := 0
      burn_in := 0
      curve := 0
      output_response_time := 0
      modulation_frequency := 0 }
  { g_root_device :=
      { scenes := { e0 := zeroScene, e1 := zeroScene, e2 := zeroScene }
        playback_mode := 0
        startup_scene := 0
        startup_delay := 0
        startup_hold := 0
        fail_scene := 0
        fail_loss_of_signal_delay := 0
        fail_hold_time := 0
        pin_code := 0
        fail_level := 0
        startup_level := 0
        playback_level := 0
        lock_state := 0
        merge_mode := 0
        power_on_self_test := false }
    g_subdevices :=
      { d0 := zeroSubDevice, d1 := zeroSubDevice, d2 := zeroSubDevice,
        d3 := zeroSubDevice }
    g_active_device := none
    g_responder := ResponderRef.root
    root_responder := { zeroResponder with uid := uid } }

/-- The device UID of the end-to-end scenarios, `7a:70:12:34:56:78`. -/
def TEST_UID : List Nat := [0x7a, 0x70, 0x12, 0x34, 0x56, 0x78]

/-- The controller UID of the end-to-end scenarios, `7a:70:00:00:00:00`. -/
def CONTROLLER_UID : List Nat := [0x7a, 0x70, 0x00, 0x00, 0x00, 0x00]

/-- The factory state of the dimmer: boot, `DimmerModel_Initialize`, then
activation of the model (`DimmerModel_Activate`). -/
def factoryState : State :=
  DimmerModel_Activate (DimmerModel_Initialize (bootState TEST_UID))

/-- A request from the controller to the device of the end-to-end
scenarios. -/
def request (command_class sub_device pid : Nat) (param_data : List Nat) :
    RDMHeader :=
  { dest_uid := TEST_UID
    src_uid := CONTROLLER_UID
    transaction_number := 0
    port_id := 0
    message_count := 0
    sub_device := sub_device
    command_class := command_class
    param_id := pid
    param_data_length := param_data.length }

/-! ## Notions used in the statements -/

/-- The footprint of sub-device `g_subdevices[i]`: the slot count of its
current personality. -/
def State.footprint (s : State) (i : Nat) : Nat :=
  currentSlotCount (s.g_subdevices.get i).responder

/-- The DMX start address of sub-device `g_subdevices[i]`. -/
def State.startAddress (s : State) (i : Nat) : Nat :=
  (s.g_subdevices.get i).responder.dmx_start_address

/-- Every sub-device has a current personality that exists in its definition
(so that the personality table is read in range), with a footprint of at most
512 slots (one DMX universe). -/
def State.footprintsValid (s : State) : Prop :=
  ∀ i, i < NUMBER_OF_SUB_DEVICES →
    1 ≤ (s.g_subdevices.get i).responder.current_personality ∧
    (s.g_subdevices.get i).responder.current_personality ≤
      (s.g_subdevices.get i).responder.definition.personalities.length ∧
    s.footprint i ≤ MAX_DMX_START_ADDRESS

instance (s : State) : Decidable s.footprintsValid := by
  unfold State.footprintsValid
  infer_instance

/-- The sub-devices occupy one contiguous block: each start address is the
previous sub-device's start address plus the previous sub-device's
footprint. -/
def State.blockContiguous (s : State) : Prop :=
  s.startAddress 1 = s.startAddress 0 + s.footprint 0 ∧
  s.startAddress 2 = s.startAddress 1 + s.footprint 1 ∧
  s.startAddress 3 = s.startAddress 2 + s.footprint 2

instance (s : State) : Decidable s.blockContiguous := by
  unfold State.blockContiguous
  infer_instance

/-- Some sub-device in `g_subdevices` carries the sub-device number
`sub_device` (its `index` field). -/
def State.hasSubDevice (s : State) (sub_device : Nat) : Prop :=
  ∃ i, i < NUMBER_OF_SUB_DEVICES ∧ (s.g_subdevices.get i).index = sub_device

instance (s : State) (sub_device : Nat) : Decidable (s.hasSubDevice sub_device) := by
  unfold State.hasSubDevice
  infer_instance

/-- The state of scenario 4 after `SET LOCK_STATE` with body `00 00 02` on
the factory state. -/
def allLockedState : State :=
  (DimmerModel_HandleRequest
    (request SET_COMMAND SUBDEVICE_ROOT PID_LOCK_STATE [0x00, 0x00, 0x02])
    [0x00, 0x00, 0x02] factoryState).2

/-- The state after `SET LOCK_STATE` with body `00 00 01` on the factory
state. -/
def subdevicesLockedState : State :=
  (DimmerModel_HandleRequest
    (request SET_COMMAND SUBDEVICE_ROOT PID_LOCK_STATE [0x00, 0x00, 0x01])
    [0x00, 0x00, 0x01] factoryState).2

/-- The state of scenario 3 after `SET DMX_BLOCK_ADDRESS 0x0005` on the
factory state. -/
def blockAddress5State : State :=
  (DimmerModel_HandleRequest
    (request SET_COMMAND SUBDEVICE_ROOT PID_DMX_BLOCK_ADDRESS [0x00, 0x05])
    [0x00, 0x05] factoryState).2

/-- The dispatch of one pass of the sub-device loop of
`DimmerModel_HandleRequest`: `g_active_device` and `g_responder` are pointed
at `g_subdevices[i]` and the request is handed to
`RDMResponder_DispatchPID`. -/
def dispatchSubDevice (header : RDMHeader) (param_data : List Nat) (s : State)
    (i : Nat) : Response × State :=
  RDMResponder_DispatchPID header param_data
    { s with
      g_active_device := some i
      g_responder := ResponderRef.subdevice i }

/-- Every scene that is read-only in `s` is the same in `t`. -/
def readOnlyScenesKept (s t : State) : Prop :=
  ∀ j, j < NUMBER_OF_SCENES →
    (s.g_root_device.scenes.get j).programmed_state = PRESET_PROGRAMMED_READ_ONLY →
    t.g_root_device.scenes.get j = s.g_root_device.scenes.get j

/-- The states the dimmer model can be in: `DimmerModel_Initialize` has run
(on whatever was there before), after which the model is activated and
requests are handled, in any number and order. -/
inductive Reachable : State → Prop where
  | start (s : State) : Reachable (DimmerModel_Initialize s)
  | activate (s : State) : Reachable s → Reachable (DimmerModel_Activate s)
  | handle (s : State) (header : RDMHeader) (param_data : List Nat) :
      Reachable s → Reachable (DimmerModel_HandleRequest header param_data s).2

/-- The sub-device numbers in array order: the `index` fields of
`g_subdevices[0]` to `g_subdevices[3]`. -/
def State.subDeviceNumbers (s : State) : List Nat :=
  (List.range NUMBER_OF_SUB_DEVICES).map (fun i => (s.g_subdevices.get i).index)

/-- The ranges of the root device state: the PIN is at most `MAX_PIN_CODE`,
the lock state is one of the three lock states, every scene's programmed state
is one of the three programmed states, and playback mode, fail scene and
startup scene are a scene number (0 for off, up to `NUMBER_OF_SCENES`) or
`PRESET_PLAYBACK_ALL`. -/
def RootDevice.inRange (r : RootDevice) : Prop :=
  r.pin_code ≤ MAX_PIN_CODE ∧
  (r.lock_state = LOCK_STATE_UNLOCKED ∨ r.lock_state = LOCK_STATE_SUBDEVICES_LOCKED ∨
    r.lock_state = LOCK_STATE_ALL_LOCKED) ∧
  (∀ j, j < NUMBER_OF_SCENES →
    (r.scenes.get j).programmed_state = PRESET_NOT_PROGRAMMED ∨
    (r.scenes.get j).programmed_state = PRESET_PROGRAMMED ∨
    (r.scenes.get j).programmed_state = PRESET_PROGRAMMED_READ_ONLY) ∧
  (r.playback_mode ≤ NUMBER_OF_SCENES ∨ r.playback_mode = PRESET_PLAYBACK_ALL) ∧
  (r.fail_scene ≤ NUMBER_OF_SCENES ∨ r.fail_scene = PRESET_PLAYBACK_ALL) ∧
  (r.startup_scene ≤ NUMBER_OF_SCENES ∨ r.startup_scene = PRESET_PLAYBACK_ALL)

instance (r : RootDevice) : Decidable r.inRange := by
  unfold RootDevice.inRange
  infer_instance

/-- The dimmer state of a sub-device: the fields of `DimmerSubDevice` other
than the embedded responder, in the order of the structure. -/
def DimmerSubDevice.settings (d : DimmerSubDevice) : List Nat :=
  [d.index, d.min_level_increasing, d.min_level_decreasing, d.max_level, d.on_below_min,
   d.identify_mode, d.burn_in, d.curve, d.output_response_time, d.modulation_frequency]

/-- The dimmer state of the four sub-devices, in array order. -/
def State.subDeviceSettings (s : State) : List (List Nat) :=
  (List.range NUMBER_OF_SUB_DEVICES).map (fun i => (s.g_subdevices.get i).settings)

/-- The ranges of a sub-device's dimmer settings: the curve is one of the
`NUMBER_OF_CURVES` curves, the output response time and the modulation
frequency are one of the settings of their tables (all numbered from 1),
`on_below_min` is a flag and the identify mode is quiet or loud. -/
def DimmerSubDevice.inRange (d : DimmerSubDevice) : Prop :=
  (1 ≤ d.curve ∧ d.curve ≤ NUMBER_OF_CURVES) ∧
  (1 ≤ d.output_response_time ∧
    d.output_response_time ≤ NUMBER_OF_OUTPUT_RESPONSE_TIMES) ∧
  (1 ≤ d.modulation_frequency ∧
    d.modulation_frequency ≤ NUMBER_OF_MODULATION_FREQUENCIES) ∧
  d.on_below_min ≤ 1 ∧
  (d.identify_mode = IDENTIFY_MODE_QUIET ∨ d.identify_mode = IDENTIFY_MODE_LOUD)

instance (d : DimmerSubDevice) : Decidable d.inRange := by
  unfold DimmerSubDevice.inRange
  infer_instance

/-- Each of the four sub-devices has its dimmer settings in range. -/
def State.subDevicesInRange (s : State) : Prop :=
  ∀ i, i < NUMBER_OF_SUB_DEVICES → (s.g_subdevices.get i).inRange

instance (s : State) : Decidable s.subDevicesInRange := by
  unfold State.subDevicesInRange
  infer_instance

/-- A finite sequence of requests handled one after the other by
`DimmerModel_HandleRequest`: the state after the last one. -/
def handleRequests (requests : List (RDMHeader × List Nat)) (s : State) : State :=
  requests.foldl (fun s r => (DimmerModel_HandleRequest r.1 r.2 s).2) s

/-- State `t` differs from state `s` at most in sub-device `g_subdevices[i]`
(and in where the pointers `g_active_device` and `g_responder` point): the
root device state, the root responder and the other three sub-devices are the
same. -/
def sameExceptSubDevice (s t : State) (i : Nat) : Prop :=
  t.g_root_device = s.g_root_device ∧
  t.root_responder = s.root_responder ∧
  ∀ j, j < NUMBER_OF_SUB_DEVICES → j ≠ i → t.g_subdevices.get j = s.g_subdevices.get j

/-! ## The handlers with their memory accesses checked

The handlers above read tables and parameter data through total functions.
The definitions of this section are the same handlers with every array
subscript and every read of the parameter data made explicit: an access
outside the array, or beyond the parameter data received, ends the handler
with an `AccessError`. -/

/-- An access outside the memory a handler was given. -/
inductive AccessError where
  /-- An array subscript `index` on an array of `size` elements. -/
  | TABLE (index size : Nat)
  /-- A read of `param_data[offset]` when `received` bytes were received. -/
  | PARAM_DATA (offset received : Nat)
  deriving DecidableEq, Repr

/-- An array subscript on an array of `size` elements. The index expression is
computed in `unsigned int` (32 bits), so that `0 - 1u` is far outside every
table. -/
def checkIndex (index size : Nat) : Except AccessError Nat :=
  if index % 4294967296 < size then
    Except.ok (index % 4294967296)
  else
    Except.error (AccessError.TABLE (index % 4294967296) size)

/-- The read `param_data[i]`, inside the parameter data received. -/
def readByte (param_data : List Nat) (i : Nat) : Except AccessError Nat :=
  if i < param_data.length then
    Except.ok (byteAt param_data i)
  else
    Except.error (AccessError.PARAM_DATA i param_data.length)

/-- The read `ExtractUInt16(&param_data[i])`: two bytes, big-endian. -/
def readUInt16 (param_data : List Nat) (i : Nat) : Except AccessError Nat :=
  match readByte param_data i with
  | Except.error e => Except.error e
  | Except.ok high =>
    match readByte param_data (i + 1) with
    | Except.error e => Except.error e
    | Except.ok low => Except.ok (high * 256 + low)

/-- `DimmerModel_CapturePreset` with checked accesses: `scenes[scene_index - 1u]`
and the four 16-bit reads of the parameter data. -/
def DimmerModel_CapturePreset_checked (header : RDMHeader) (param_data : List Nat)
    (s : State) : Except AccessError (Response × State) :=
  if header.param_data_length ≠ 4 * 2 then
    Except.ok (RDMResponder_BuildNack header RDMNackReason.NR_FORMAT_ERROR, s)
  else do
    let scene_index ← readUInt16 param_data 0
    let up_fade_time ← readUInt16 param_data 2
    let down_fade_time ← readUInt16 param_data 4
    let wait_time ← readUInt16 param_data 6
    if scene_index = 0 ∨ scene_index > NUMBER_OF_SCENES then
      Except.ok (RDMResponder_BuildNack header RDMNackReason.NR_DATA_OUT_OF_RANGE, s)
    else do
      let k ← checkIndex (scene_index + 4294967296 - 1) NUMBER_OF_SCENES
      let scene := s.g_root_device.scenes.get k
      if scene.programmed_state = PRESET_PROGRAMMED_READ_ONLY then
        Except.ok (RDMResponder_BuildNack header RDMNackReason.NR_WRITE_PROTECT, s)
      else
        let scene := { scene with
          up_fade_time := up_fade_time
          down_fade_time := down_fade_time
          wait_time := wait_time
          programmed_state := PRESET_PROGRAMMED }
        Except.ok (RDMResponder_BuildSetAck header,
          { s with g_root_device := { s.g_root_device with
              scenes := s.g_root_device.scenes.set k scene } })

/-- `DimmerModel_GetPresetStatus` with checked accesses:
`scenes[scene_index - 1u]` and the 16-bit read of the parameter data. -/
def DimmerModel_GetPresetStatus_checked (header : RDMHeader) (param_data : List Nat)
    (s : State) : Except AccessError (Response × State) := do
  let scene_index ← readUInt16 param_data 0
  if scene_index = 0 ∨ scene_index > NUMBER_OF_SCENES then
    Except.ok (RDMResponder_BuildNack header RDMNackReason.NR_DATA_OUT_OF_RANGE, s)
  else do
    let k ← checkIndex (scene_index + 4294967296 - 1) NUMBER_OF_SCENES
    let scene := s.g_root_device.scenes.get k
    Except.ok (RDMResponder_AddHeaderAndChecksum header
      (PushUInt16 scene_index ++
        PushUInt16 scene.up_fade_time ++
        PushUInt16 scene.down_fade_time ++
        PushUInt16 scene.wait_time ++
        [scene.programmed_state % 256]), s)

/-- `DimmerModel_SetPresetStatus` with checked accesses:
`scenes[scene_index - 1u]` and the reads of the parameter data. -/
def DimmerModel_SetPresetStatus_checked (header : RDMHeader) (param_data : List Nat)
    (s : State) : Except AccessError (Response × State) :=
  if header.param_data_length ≠ 4 * 2 + 1 then
    Except.ok (RDMResponder_BuildNack header RDMNackReason.NR_FORMAT_ERROR, s)
  else do
    let scene_index ← readUInt16 param_data 0
    let up_fade_time ← readUInt16 param_data 2
    let down_fade_time ← readUInt16 param_data 4
    let wait_time ← readUInt16 param_data 6
    let clear_preset ← readByte param_data 8
    if scene_index = 0 ∨ scene_index > NUMBER_OF_SCENES then
      Except.ok (RDMResponder_BuildNack header RDMNackReason.NR_DATA_OUT_OF_RANGE, s)
    else do
      let k ← checkIndex (scene_index + 4294967296 - 1) NUMBER_OF_SCENES
      let scene := s.g_root_device.scenes.get k
      if scene.programmed_state = PRESET_PROGRAMMED_READ_ONLY then
        Except.ok (RDMResponder_BuildNack header RDMNackReason.NR_WRITE_PROTECT, s)
      else if clear_preset > 1 then
        Except.ok (RDMResponder_BuildNack header RDMNackReason.NR_DATA_OUT_OF_RANGE, s)
      else
        let scene :=
          if clear_preset = 1 then
            { scene with
              up_fade_time := 0
              down_fade_time := 0
              wait_time := 0
              programmed_state := PRESET_NOT_PROGRAMMED }
          else
            { scene with
              up_fade_time := up_fade_time
              down_fade_time := down_fade_time
              wait_time := wait_time }
        Except.ok (RDMResponder_BuildSetAck header,
          { s with g_root_device := { s.g_root_device with
              scenes := s.g_root_device.scenes.set k scene } })

/-- `DimmerModel_GetLockStateDescription` with checked accesses:
`LOCK_STATES[lock_state]` and the read of `param_data[0]`. -/
def DimmerModel_GetLockStateDescription_checked (header : RDMHeader)
    (param_data : List Nat) (s : State) : Except AccessError (Response × State) := do
  let lock_state ← readByte param_data 0
  if lock_state = 0 ∨ lock_state ≥ NUMBER_OF_LOCK_STATES then
    Except.ok (RDMResponder_BuildNack header RDMNackReason.NR_DATA_OUT_OF_RANGE, s)
  else do
    let k ← checkIndex lock_state LOCK_STATES.length
    Except.ok (RDMResponder_AddHeaderAndChecksum header
      ([lock_state] ++
        RDMUtil_StringCopy RDM_DEFAULT_STRING_SIZE
          (stringBytes (LOCK_STATES.getD k ""))
          RDM_DEFAULT_STRING_SIZE), s)

/-- `DimmerModel_GetCurveDescription` with checked accesses:
`DIMMER_CURVES[curve - 1]` and the read of `param_data[0]`. -/
def DimmerModel_GetCurveDescription_checked (header : RDMHeader)
    (param_data : List Nat) (s : State) : Except AccessError (Response × State) := do
  let curve ← readByte param_data 0
  if curve = 0 ∨ curve > NUMBER_OF_CURVES then
    Except.ok (RDMResponder_BuildNack header RDMNackReason.NR_DATA_OUT_OF_RANGE, s)
  else do
    let k ← checkIndex (curve + 4294967296 - 1) DIMMER_CURVES.length
    Except.ok (RDMResponder_AddHeaderAndChecksum header
      ([curve] ++
        RDMUtil_StringCopy RDM_DEFAULT_STRING_SIZE
          (stringBytes (DIMMER_CURVES.getD k ""))
          RDM_DEFAULT_STRING_SIZE), s)

/-- `DimmerModel_GetOutputResponseDescription` with checked accesses:
`OUTPUT_RESPONSE_TIMES[setting - 1]` and the read of `param_data[0]`. -/
def DimmerModel_GetOutputResponseDescription_checked (header : RDMHeader)
    (param_data : List Nat) (s : State) : Except AccessError (Response × State) := do
  let setting ← readByte param_data 0
  if setting = 0 ∨ setting > NUMBER_OF_OUTPUT_RESPONSE_TIMES then
    Except.ok (RDMResponder_BuildNack header RDMNackReason.NR_DATA_OUT_OF_RANGE, s)
  else do
    let k ← checkIndex (setting + 4294967296 - 1) OUTPUT_RESPONSE_TIMES.length
    Except.ok (RDMResponder_AddHeaderAndChecksum header
      ([setting] ++
        RDMUtil_StringCopy RDM_DEFAULT_STRING_SIZE
          (stringBytes (OUTPUT_RESPONSE_TIMES.getD k ""))
          RDM_DEFAULT_STRING_SIZE), s)

/-- `DimmerModel_GetModulationFrequencyDescription` with checked accesses:
`MODULATION_FREQUENCY[setting - 1]` and the read of `param_data[0]`. -/
def DimmerModel_GetModulationFrequencyDescription_checked (header : RDMHeader)
    (param_data : List Nat) (s : State) : Except AccessError (Response × State) := do
  let setting ← readByte param_data 0
  if setting = 0 ∨ setting > NUMBER_OF_MODULATION_FREQUENCIES then
    Except.ok (RDMResponder_BuildNack header RDMNackReason.NR_DATA_OUT_OF_RANGE, s)
  else do
    let k ← checkIndex (setting + 4294967296 - 1) MODULATION_FREQUENCY.length
    let frequency := MODULATION_FREQUENCY.getD k { frequency := 0, description := "" }
    Except.ok (RDMResponder_AddHeaderAndChecksum header
      ([setting] ++ PushUInt32 frequency.frequency ++
        RDMUtil_StringCopy RDM_DEFAULT_STRING_SIZE
          (stringBytes frequency.description)
          RDM_DEFAULT_STRING_SIZE), s)

/-- The result of a handler is free of table errors: whatever it is, it is
not an access outside a table. -/
def tableSafe {α : Type} (r : Except AccessError α) : Prop :=
  ∀ index size : Nat, r ≠ Except.error (AccessError.TABLE index size)

/-- The call through a handler pointer with checked accesses, for the handlers
that subscript a table or are GET handlers reading the parameter data; the
remaining handlers are called as they are. -/
def callHandler_checked (handler : PIDCommandHandler) (header : RDMHeader)
    (param_data : List Nat) (s : State) : Except AccessError (Response × State) :=
  match handler with
  | PIDCommandHandler.DimmerModel_CapturePreset =>
    DimmerModel_CapturePreset_checked header param_data s
  | PIDCommandHandler.DimmerModel_GetPresetStatus =>
    DimmerModel_GetPresetStatus_checked header param_data s
  | PIDCommandHandler.DimmerModel_SetPresetStatus =>
    DimmerModel_SetPresetStatus_checked header param_data s
  | PIDCommandHandler.DimmerModel_GetLockStateDescription =>
    DimmerModel_GetLockStateDescription_checked header param_data s
  | PIDCommandHandler.DimmerModel_GetCurveDescription =>
    DimmerModel_GetCurveDescription_checked header param_data s
  | PIDCommandHandler.DimmerModel_GetOutputResponseDescription =>
    DimmerModel_GetOutputResponseDescription_checked header param_data s
  | PIDCommandHandler.DimmerModel_GetModulationFrequencyDescription =>
    DimmerModel_GetModulationFrequencyDescription_checked header param_data s
  | handler => Except.ok (callHandler handler header param_data s)

/-! ## The network model (`network_model.c`)

`network_model.c` is not at hand; its test, `NetworkModelTest.cpp`, is. The
definitions of this section follow the specification of the network model
(interface table, DHCP mode, default route), and take the contents of the
interface table from what the test observes. -/

/-- The PID `PID_IPV4_DHCP_MODE` of `rdm.h`. -/
def PID_IPV4_DHCP_MODE : Nat := 0x0703

/-- The PID `PID_IPV4_DEFAULT_ROUTE` of `rdm.h`. -/
def PID_IPV4_DEFAULT_ROUTE : Nat := 0x070a

/-- Modelled from the spec: an entry of the fixed interface table of the network
model, `iface_id → {label, hw_addr, dhcp_mode, zeroconf_mode, ...}`; the fields
kept here are the identifier (32 bits), the hardware type that
`LIST_INTERFACES` reports (16 bits), and the two stored modes. -/
structure NetworkInterface where
  id : Nat
  hardware_type : Nat
  dhcp_mode : Bool
  zeroconf_mode : Bool
  deriving DecidableEq, Repr

/-- Modelled from the spec: the state of the network model, as far as the PIDs
`IPV4_DHCP_MODE` and `IPV4_DEFAULT_ROUTE` go: the interface table and the
default route, which is an interface identifier (0 = unspecified) and an IPv4
address, 32 bits each. -/
structure NetworkModelState where
  interfaces : List NetworkInterface
  default_route_interface : Nat
  default_route : Nat
  deriving DecidableEq, Repr

/-- Modelled from the spec: the interface table that `NetworkModelTest.cpp`
observes. `LIST_INTERFACES` answers with the identifiers 1, 3 and 4 and the
hardware types `0x0001`, `0x001f` and `0x0001`; the stored DHCP and zeroconf
modes are 0 for interface 1 and 1 for interface 4. The test does not read the
modes of interface 3, which are taken as 0 here. -/
def NETWORK_INTERFACES : List NetworkInterface :=
  [{ id := 1, hardware_type := 0x0001, dhcp_mode := false, zeroconf_mode := false },
   { id := 3, hardware_type := 0x001f, dhcp_mode := false, zeroconf_mode := false },
   { id := 4, hardware_type := 0x0001, dhcp_mode := true, zeroconf_mode := true }]

/-- Modelled from the spec: the state after `NetworkModel_Initialize`, with no
default route set. -/
def NetworkModel_Initialize : NetworkModelState :=
  { interfaces := NETWORK_INTERFACES
    default_route_interface := 0
    default_route := 0 }

/-- Modelled from the spec: the GET handler of `IPV4_DHCP_MODE`. The parameter
data is a 4-byte interface identifier; an identifier that is not in the
interface table gives NACK `DATA_OUT_OF_RANGE`; otherwise the answer is the
identifier followed by the stored mode, whether or not the interface supports
DHCP. -/
def NetworkModel_GetDHCPMode (header : RDMHeader) (param_data : List Nat)
    (s : NetworkModelState) : Response × NetworkModelState :=
  let interface_id := ExtractUInt32 param_data 0
  match s.interfaces.find? (fun iface => iface.id == interface_id) with
  | none => (RDMResponder_BuildNack header RDMNackReason.NR_DATA_OUT_OF_RANGE, s)
  | some iface =>
    (RDMResponder_AddHeaderAndChecksum header
      (PushUInt32 iface.id ++ [if iface.dhcp_mode then 1 else 0]), s)

/-- Modelled from the spec: the GET handler of `IPV4_DEFAULT_ROUTE`: the
interface identifier and the IPv4 address of the default route, 8 bytes. -/
def NetworkModel_GetDefaultRoute (header : RDMHeader) (_param_data : List Nat)
    (s : NetworkModelState) : Response × NetworkModelState :=
  (RDMResponder_AddHeaderAndChecksum header
    (PushUInt32 s.default_route_interface ++ PushUInt32 s.default_route), s)

/-- Modelled from the spec: the SET handler of `IPV4_DEFAULT_ROUTE`
(pdl = 8): the interface identifier (0 = unspecified) and 4 bytes of IPv4
address. The specification names no check other than the length. -/
def NetworkModel_SetDefaultRoute (header : RDMHeader) (param_data : List Nat)
    (s : NetworkModelState) : Response × NetworkModelState :=
  if header.param_data_length ≠ 2 * 4 then
    (RDMResponder_BuildNack header RDMNackReason.NR_FORMAT_ERROR, s)
  else
    (RDMResponder_BuildSetAck header,
     { s with
       default_route_interface := ExtractUInt32 param_data 0
       default_route := ExtractUInt32 param_data 4 })

end JaRule

/-! # Theorems -/

namespace JaRule

/-! ## Auxiliary lemmas -/

theorem range_sub_devices : List.range NUMBER_OF_SUB_DEVICES = [0, 1, 2, 3] := by
  decide

theorem ExtractUInt16_lt (param_data : List Nat) (i : Nat) :
    ExtractUInt16 param_data i < 65536 := by
  simp only [ExtractUInt16, byteAt]
  omega

theorem ExtractUInt16_PushUInt16 (v : Nat) (rest : List Nat) (h : v < 65536) :
    ExtractUInt16 (PushUInt16 v ++ rest) 0 = v := by
  simp [ExtractUInt16, PushUInt16, byteAt]
  omega

theorem state_restore (s : State) : { s with g_responder := s.g_responder } = s := by
  cases s; rfl

/-! ### The sub-device loop of `DimmerModel_HandleRequest` when locked -/

theorem handleSubDevice_locked (header : RDMHeader) (param_data : List Nat)
    (sub_device : Nat) (acc : SubDeviceLoop) (i : Nat) :
    handleSubDevice header param_data sub_device true acc i =
      if sub_device = (acc.state.g_subdevices.get i).index ∨
          sub_device = SUBDEVICE_ALL then
        { acc with handled := true }
      else acc := by
  simp [handleSubDevice]

theorem foldl_handleSubDevice_locked (header : RDMHeader) (param_data : List Nat)
    (sub_device : Nat) (l : List Nat) (acc : SubDeviceLoop) :
    (l.foldl (handleSubDevice header param_data sub_device true) acc).state = acc.state ∧
    (l.foldl (handleSubDevice header param_data sub_device true) acc).response_size =
      acc.response_size ∧
    ((l.foldl (handleSubDevice header param_data sub_device true) acc).handled = true ↔
      (acc.handled = true ∨
        ∃ i, i ∈ l ∧ (sub_device = (acc.state.g_subdevices.get i).index ∨
          sub_device = SUBDEVICE_ALL))) := by
  induction l generalizing acc with
  | nil => simp
  | cons i l ih =>
    simp only [List.foldl_cons]
    obtain ⟨h1, h2, h3⟩ := ih (handleSubDevice header param_data sub_device true acc i)
    rw [h1, h2, h3, handleSubDevice_locked]
    split_ifs with c
    · simp [c]
    · simp [c]

/-- A SET that the lock applies to: the response is `WRITE_PROTECT` when the
sub-device field names the root, all sub-devices or an existing sub-device,
`SUB_DEVICE_OUT_OF_RANGE` otherwise, and the state is as before. -/
theorem HandleRequest_locked (header : RDMHeader) (param_data : List Nat) (s : State)
    (hact : RDMUtil_RequiresAction s.responder.uid header.dest_uid = true)
    (hset : header.command_class = SET_COMMAND)
    (hlock : s.g_root_device.lock_state = LOCK_STATE_ALL_LOCKED ∨
      (s.g_root_device.lock_state = LOCK_STATE_SUBDEVICES_LOCKED ∧
        header.sub_device ≠ SUBDEVICE_ROOT)) :
    DimmerModel_HandleRequest header param_data s =
      if header.sub_device = SUBDEVICE_ROOT ∨ header.sub_device = SUBDEVICE_ALL ∨
          s.hasSubDevice header.sub_device then
        (Response.NACK RDMNackReason.NR_WRITE_PROTECT, s)
      else
        (Response.NACK RDMNackReason.NR_SUB_DEVICE_OUT_OF_RANGE, s) := by
  obtain ⟨h1, -, h3⟩ := foldl_handleSubDevice_locked header param_data header.sub_device
    (List.range NUMBER_OF_SUB_DEVICES)
    { state := s, handled := false, response_size := Response.NO_RESPONSE }
  simp only [] at h1 h3
  have hd : SET_COMMAND ≠ DISCOVERY_COMMAND := by decide
  have hg : SET_COMMAND ≠ GET_COMMAND := by decide
  simp only [DimmerModel_HandleRequest, hact, hset, hd, hg, ntohs, hlock,
    RDMResponder_BuildNack, Bool.not_true, if_true, if_false, false_and, Bool.false_eq_true]
  by_cases c0 : header.sub_device = SUBDEVICE_ROOT
  · simp [c0]
  · simp only [c0, if_false, false_or, h1, state_restore]
    by_cases ch : (List.foldl (handleSubDevice header param_data header.sub_device true)
        { state := s, handled := false, response_size := Response.NO_RESPONSE }
        (List.range NUMBER_OF_SUB_DEVICES)).handled = true
    · have hc := h3.mp ch
      simp only [Bool.false_eq_true, false_or, List.mem_range] at hc
      have : header.sub_device = SUBDEVICE_ALL ∨ s.hasSubDevice header.sub_device := by
        obtain ⟨i, hi, hm⟩ := hc
        rcases hm with hm | hm
        · exact Or.inr ⟨i, hi, hm.symm⟩
        · exact Or.inl hm
      simp [ch, this]
    · have hn : ¬ (header.sub_device = SUBDEVICE_ALL ∨ s.hasSubDevice header.sub_device) := by
        intro hc
        apply ch
        apply h3.mpr
        right
        rcases hc with hc | ⟨i, hi, hm⟩
        · exact ⟨0, by simp [NUMBER_OF_SUB_DEVICES], Or.inr hc⟩
        · exact ⟨i, List.mem_range.mpr hi, Or.inl hm.symm⟩
      simp [ch, hn]

/-- A SET to the root that the lock does not apply to is handed to
`RDMResponder_DispatchPID`. -/
theorem HandleRequest_root_set_dispatch (header : RDMHeader) (param_data : List Nat)
    (s : State)
    (hact : RDMUtil_RequiresAction s.responder.uid header.dest_uid = true)
    (hset : header.command_class = SET_COMMAND)
    (hroot : header.sub_device = SUBDEVICE_ROOT)
    (hlock : s.g_root_device.lock_state ≠ LOCK_STATE_ALL_LOCKED) :
    DimmerModel_HandleRequest header param_data s =
      RDMResponder_DispatchPID header param_data s := by
  have hd : SET_COMMAND ≠ DISCOVERY_COMMAND := by decide
  have hg : SET_COMMAND ≠ GET_COMMAND := by decide
  simp [DimmerModel_HandleRequest, hact, hset, hd, hg, ntohs, hlock, hroot]


/-! ## Lock policy of the sub-device router (C1 – C4) -/

/-- C1, as stated, fails: in the all-locked state reached by scenario 4 (`SET
LOCK_STATE` with body `00 00 02`), a SET addressed to this responder with
sub-device field 2, which no sub-device carries, returns NACK
`SUB_DEVICE_OUT_OF_RANGE` and not NACK `WRITE_PROTECT`. -/
theorem all_locked_set_to_absent_subdevice :
    allLockedState.g_root_device.lock_state = LOCK_STATE_ALL_LOCKED ∧
    RDMUtil_RequiresAction allLockedState.responder.uid
      (request SET_COMMAND 2 PID_DEVICE_LABEL [0x48, 0x69]).dest_uid = true ∧
    (DimmerModel_HandleRequest (request SET_COMMAND 2 PID_DEVICE_LABEL [0x48, 0x69])
      [0x48, 0x69] allLockedState).1 =
        Response.NACK RDMNackReason.NR_SUB_DEVICE_OUT_OF_RANGE ∧
    (DimmerModel_HandleRequest (request SET_COMMAND 2 PID_DEVICE_LABEL [0x48, 0x69])
      [0x48, 0x69] allLockedState).1 ≠
        Response.NACK RDMNackReason.NR_WRITE_PROTECT := by
  decide

/-- C1, amended: if `lock_state` is all_locked, every SET request addressed to
this responder whose sub-device field is the root (0), all sub-devices
(0xFFFF) or the number of an existing sub-device returns NACK `WRITE_PROTECT`,
for every PID and parameter data; for any other sub-device field it returns
NACK `SUB_DEVICE_OUT_OF_RANGE`. -/
theorem all_locked_set_write_protect (header : RDMHeader) (param_data : List Nat)
    (s : State)
    (hact : RDMUtil_RequiresAction s.responder.uid header.dest_uid = true)
    (hset : header.command_class = SET_COMMAND)
    (hlock : s.g_root_device.lock_state = LOCK_STATE_ALL_LOCKED) :
    ((header.sub_device = SUBDEVICE_ROOT ∨ header.sub_device = SUBDEVICE_ALL ∨
        s.hasSubDevice header.sub_device) →
      (DimmerModel_HandleRequest header param_data s).1 =
        Response.NACK RDMNackReason.NR_WRITE_PROTECT) ∧
    (¬ (header.sub_device = SUBDEVICE_ROOT ∨ header.sub_device = SUBDEVICE_ALL ∨
        s.hasSubDevice header.sub_device) →
      (DimmerModel_HandleRequest header param_data s).1 =
        Response.NACK RDMNackReason.NR_SUB_DEVICE_OUT_OF_RANGE) := by
  rw [HandleRequest_locked header param_data s hact hset (Or.inl hlock)]
  constructor
  · intro h
    simp [h]
  · intro h
    simp [h]

/-- Witness for C1 (amended): in the all-locked state of
scenario 4, a SET `DEVICE_LABEL` to sub-device 3 is NACKed `WRITE_PROTECT`. -/
theorem all_locked_set_write_protect_witness :
    (DimmerModel_HandleRequest (request SET_COMMAND 3 PID_DEVICE_LABEL [0x48, 0x69])
      [0x48, 0x69] allLockedState).1 =
        Response.NACK RDMNackReason.NR_WRITE_PROTECT :=
  (all_locked_set_write_protect (request SET_COMMAND 3 PID_DEVICE_LABEL [0x48, 0x69])
    [0x48, 0x69] allLockedState (by decide) (by decide) (by decide)).1 (by decide)

/-- C2: if `lock_state` is all_locked, a SET request handled by
`DimmerModel_HandleRequest` leaves all the globals as they were: the root
device state, every sub-device (dimmer state and responder state),
`g_active_device`, and also `g_responder` and the root responder. -/
theorem all_locked_set_mutates_nothing (header : RDMHeader) (param_data : List Nat)
    (s : State)
    (hset : header.command_class = SET_COMMAND)
    (hlock : s.g_root_device.lock_state = LOCK_STATE_ALL_LOCKED) :
    (DimmerModel_HandleRequest header param_data s).2 = s ∧
    (DimmerModel_HandleRequest header param_data s).2.g_root_device = s.g_root_device ∧
    (∀ i, (DimmerModel_HandleRequest header param_data s).2.g_subdevices.get i =
      s.g_subdevices.get i) ∧
    (DimmerModel_HandleRequest header param_data s).2.g_active_device =
      s.g_active_device := by
  have key : (DimmerModel_HandleRequest header param_data s).2 = s := by
    by_cases hact : RDMUtil_RequiresAction s.responder.uid header.dest_uid = true
    · rw [HandleRequest_locked header param_data s hact hset (Or.inl hlock)]
      split_ifs <;> rfl
    · simp [DimmerModel_HandleRequest, hact]
  refine ⟨key, ?_, ?_, ?_⟩
  · rw [key]
  · intro i
    rw [key]
  · rw [key]

/-- Witness for C2: a SET `LOCK_STATE` with the
correct pin in the all-locked state of scenario 4 changes nothing. -/
theorem all_locked_set_mutates_nothing_witness :
    (DimmerModel_HandleRequest
      (request SET_COMMAND SUBDEVICE_ROOT PID_LOCK_STATE [0x00, 0x00, 0x00])
      [0x00, 0x00, 0x00] allLockedState).2 = allLockedState :=
  (all_locked_set_mutates_nothing
    (request SET_COMMAND SUBDEVICE_ROOT PID_LOCK_STATE [0x00, 0x00, 0x00])
    [0x00, 0x00, 0x00] allLockedState (by decide) (by decide)).1

/-- C3, as stated, fails: from the factory state `SET LOCK_STATE` with body
`00 00 02` is ACKed and sets `lock_state` to 2, which is
`LOCK_STATE_ALL_LOCKED`; the following SET `DEVICE_LABEL` ("Hi") addressed to
the root is NACKed `WRITE_PROTECT`, not ACKed. -/
theorem lock_state_02_then_root_device_label_nacked :
    factoryState.g_root_device.pin_code = 0 ∧
    (DimmerModel_HandleRequest
      (request SET_COMMAND SUBDEVICE_ROOT PID_LOCK_STATE [0x00, 0x00, 0x02])
      [0x00, 0x00, 0x02] factoryState).1 = Response.SET_ACK ∧
    allLockedState.g_root_device.lock_state = LOCK_STATE_ALL_LOCKED ∧
    (DimmerModel_HandleRequest
      (request SET_COMMAND SUBDEVICE_ROOT PID_DEVICE_LABEL [0x48, 0x69])
      [0x48, 0x69] allLockedState).1 =
        Response.NACK RDMNackReason.NR_WRITE_PROTECT ∧
    (DimmerModel_HandleRequest
      (request SET_COMMAND SUBDEVICE_ROOT PID_DEVICE_LABEL [0x48, 0x69])
      [0x48, 0x69] allLockedState).1 ≠ Response.SET_ACK := by
  decide

/-- C3, amended: starting from the factory state (pin 0), after `SET
LOCK_STATE` with body `00 00 01` (sub-devices locked) has been ACKed, a
subsequent SET `DEVICE_LABEL` addressed to the root device, with a label of at
most 32 bytes, is handed to the PID dispatcher and ACKed; after body
`00 00 02` (all locked) it is NACKed `WRITE_PROTECT`. -/
theorem subdevices_locked_root_device_label_acked (label : List Nat)
    (hlen : label.length ≤ 32) :
    (DimmerModel_HandleRequest
      (request SET_COMMAND SUBDEVICE_ROOT PID_LOCK_STATE [0x00, 0x00, 0x01])
      [0x00, 0x00, 0x01] factoryState).1 = Response.SET_ACK ∧
    DimmerModel_HandleRequest
      (request SET_COMMAND SUBDEVICE_ROOT PID_DEVICE_LABEL label) label
      subdevicesLockedState =
        RDMResponder_DispatchPID
          (request SET_COMMAND SUBDEVICE_ROOT PID_DEVICE_LABEL label) label
          subdevicesLockedState ∧
    (DimmerModel_HandleRequest
      (request SET_COMMAND SUBDEVICE_ROOT PID_DEVICE_LABEL label) label
      subdevicesLockedState).1 = Response.SET_ACK ∧
    (DimmerModel_HandleRequest
      (request SET_COMMAND SUBDEVICE_ROOT PID_DEVICE_LABEL label) label
      allLockedState).1 = Response.NACK RDMNackReason.NR_WRITE_PROTECT := by
  have hdisp := HandleRequest_root_set_dispatch
    (request SET_COMMAND SUBDEVICE_ROOT PID_DEVICE_LABEL label) label
    subdevicesLockedState
    (by show RDMUtil_RequiresAction subdevicesLockedState.responder.uid TEST_UID = true
        decide)
    rfl rfl (by decide)
  have hlocked := HandleRequest_locked
    (request SET_COMMAND SUBDEVICE_ROOT PID_DEVICE_LABEL label) label
    allLockedState
    (by show RDMUtil_RequiresAction allLockedState.responder.uid TEST_UID = true
        decide)
    rfl (Or.inl (by decide))
  refine ⟨by decide, hdisp, ?_, ?_⟩
  · rw [hdisp]
    have htable : subdevicesLockedState.responder.definition.descriptors =
        DescriptorTable.ROOT_PID_DESCRIPTORS := by decide
    have hfind : ROOT_PID_DESCRIPTORS.find?
        (fun descriptor => descriptor.pid == PID_DEVICE_LABEL) =
        some ⟨PID_DEVICE_LABEL, some PIDCommandHandler.RDMResponder_GetDeviceLabel, 0,
          some PIDCommandHandler.RDMResponder_SetDeviceLabel⟩ := by decide
    have hg : SET_COMMAND ≠ GET_COMMAND := by decide
    have hl : ¬ (label.length > RDM_DEFAULT_STRING_SIZE) := by
      simp only [RDM_DEFAULT_STRING_SIZE]; omega
    simp only [RDMResponder_DispatchPID, htable, DescriptorTable.entries, request, ntohs,
      hfind, hg, if_false, if_true, callHandler, RDMResponder_SetDeviceLabel, hl,
      RDMResponder_BuildSetAck]
  · rw [hlocked]
    simp [request]

/-- Witness for C3 (amended): the label "Hi"
of the scenarios. -/
theorem subdevices_locked_root_device_label_acked_witness :
    (DimmerModel_HandleRequest
      (request SET_COMMAND SUBDEVICE_ROOT PID_DEVICE_LABEL [0x48, 0x69]) [0x48, 0x69]
      subdevicesLockedState).1 = Response.SET_ACK :=
  (subdevices_locked_root_device_label_acked [0x48, 0x69] (by decide)).2.2.1

/-- C4: if `lock_state` is subdevices_locked, a SET addressed to an existing
sub-device or to `SUBDEVICE_ALL` returns NACK `WRITE_PROTECT` and leaves the
state as it was; no pass of the sub-device loop dispatches (a locked pass
only records `handled`); a SET addressed to the root is handed to
`RDMResponder_DispatchPID` on the unchanged state, which is what happens in
an unlocked state as well. -/
theorem subdevices_locked_set_routing (header : RDMHeader) (param_data : List Nat)
    (s : State)
    (hact : RDMUtil_RequiresAction s.responder.uid header.dest_uid = true)
    (hset : header.command_class = SET_COMMAND)
    (hlock : s.g_root_device.lock_state = LOCK_STATE_SUBDEVICES_LOCKED) :
    (header.sub_device ≠ SUBDEVICE_ROOT →
      (header.sub_device = SUBDEVICE_ALL ∨ s.hasSubDevice header.sub_device) →
      DimmerModel_HandleRequest header param_data s =
        (Response.NACK RDMNackReason.NR_WRITE_PROTECT, s)) ∧
    (∀ (acc : SubDeviceLoop) (i : Nat),
      handleSubDevice header param_data header.sub_device true acc i =
        if header.sub_device = (acc.state.g_subdevices.get i).index ∨
            header.sub_device = SUBDEVICE_ALL then
          { acc with handled := true }
        else acc) ∧
    (header.sub_device = SUBDEVICE_ROOT →
      DimmerModel_HandleRequest header param_data s =
        RDMResponder_DispatchPID header param_data s) ∧
    (header.sub_device = SUBDEVICE_ROOT →
      ∀ unlocked : State,
        RDMUtil_RequiresAction unlocked.responder.uid header.dest_uid = true →
        unlocked.g_root_device.lock_state = LOCK_STATE_UNLOCKED →
        DimmerModel_HandleRequest header param_data unlocked =
          RDMResponder_DispatchPID header param_data unlocked) := by
  refine ⟨?_, ?_, ?_, ?_⟩
  · intro hne hsub
    rw [HandleRequest_locked header param_data s hact hset (Or.inr ⟨hlock, hne⟩)]
    simp [hsub]
  · intro acc i
    exact handleSubDevice_locked header param_data header.sub_device acc i
  · intro hroot
    apply HandleRequest_root_set_dispatch header param_data s hact hset hroot
    rw [hlock]
    decide
  · intro hroot unlocked hact' hunlocked
    apply HandleRequest_root_set_dispatch header param_data unlocked hact' hset hroot
    rw [hunlocked]
    decide

/-- Witness for C4: with the sub-devices locked,
a SET `CURVE` to sub-device 4 is NACKed `WRITE_PROTECT` and changes
nothing. -/
theorem subdevices_locked_set_routing_witness :
    DimmerModel_HandleRequest (request SET_COMMAND 4 PID_CURVE [0x02]) [0x02]
      subdevicesLockedState =
        (Response.NACK RDMNackReason.NR_WRITE_PROTECT, subdevicesLockedState) :=
  (subdevices_locked_set_routing (request SET_COMMAND 4 PID_CURVE [0x02]) [0x02]
    subdevicesLockedState (by decide) (by decide) (by decide)).1 (by decide) (by decide)


/-! ## Lock state and lock pin (C5, C6) -/

/-- C5: `DimmerModel_SetLockState` with pdl = 3 and body (pin, state), the pin
being the big-endian 16-bit value of bytes 0..1 and the state byte 2: if the
pin differs from the stored `pin_code` or state >= 3 it returns NACK
`DATA_OUT_OF_RANGE` and nothing changes (so `lock_state` is unchanged);
otherwise it sets `lock_state` to state, changes nothing else, and returns a
SET ACK. From the factory state body `00 01 02` is NACKed and body `00 00 02`
is ACKed. -/
theorem SetLockState_contract (header : RDMHeader) (param_data : List Nat) (s : State)
    (hpdl : header.param_data_length = 3) :
    ((ExtractUInt16 param_data 0 ≠ s.g_root_device.pin_code ∨
        byteAt param_data 2 ≥ 3) →
      DimmerModel_SetLockState header param_data s =
        (Response.NACK RDMNackReason.NR_DATA_OUT_OF_RANGE, s)) ∧
    (ExtractUInt16 param_data 0 = s.g_root_device.pin_code →
      byteAt param_data 2 < 3 →
      DimmerModel_SetLockState header param_data s =
        (Response.SET_ACK,
         { s with g_root_device := { s.g_root_device with
            lock_state := byteAt param_data 2 } })) ∧
    DimmerModel_SetLockState
        (request SET_COMMAND SUBDEVICE_ROOT PID_LOCK_STATE [0x00, 0x01, 0x02])
        [0x00, 0x01, 0x02] factoryState =
      (Response.NACK RDMNackReason.NR_DATA_OUT_OF_RANGE, factoryState) ∧
    (DimmerModel_SetLockState
        (request SET_COMMAND SUBDEVICE_ROOT PID_LOCK_STATE [0x00, 0x00, 0x02])
        [0x00, 0x00, 0x02] factoryState).1 = Response.SET_ACK := by
  refine ⟨?_, ?_, ?_, ?_⟩
  · intro h
    simp [DimmerModel_SetLockState, hpdl, NUMBER_OF_LOCK_STATES, RDMResponder_BuildNack, h]
  · intro h1 h2
    have h3 : ¬ (3 ≤ byteAt param_data 2) := by omega
    simp [DimmerModel_SetLockState, hpdl, NUMBER_OF_LOCK_STATES, RDMResponder_BuildSetAck,
      h1, h3]
  · decide
  · decide

/-- Witness for C5: from the factory state, body
`00 00 01` sets `lock_state` to 1 and changes nothing else. -/
theorem SetLockState_contract_witness :
    DimmerModel_SetLockState
        (request SET_COMMAND SUBDEVICE_ROOT PID_LOCK_STATE [0x00, 0x00, 0x01])
        [0x00, 0x00, 0x01] factoryState =
      (Response.SET_ACK,
       { factoryState with g_root_device := { factoryState.g_root_device with
          lock_state := byteAt [0x00, 0x00, 0x01] 2 } }) :=
  (SetLockState_contract
    (request SET_COMMAND SUBDEVICE_ROOT PID_LOCK_STATE [0x00, 0x00, 0x01])
    [0x00, 0x00, 0x01] factoryState (by decide)).2.1 (by decide) (by decide)

/-- C6: `DimmerModel_SetLockPin` with pdl = 4 and body (new_pin, old_pin), two
big-endian 16-bit values: it returns NACK `FORMAT_ERROR` if new_pin > 9999 and
otherwise NACK `DATA_OUT_OF_RANGE` if old_pin differs from the stored pin, in
both cases leaving the state (so `pin_code`) unchanged; otherwise it stores
new_pin, changes nothing else and ACKs, and a following GET `LOCK_PIN` returns
new_pin (as two big-endian bytes that decode to new_pin). -/
theorem SetLockPin_contract (header : RDMHeader) (param_data : List Nat) (s : State)
    (hpdl : header.param_data_length = 4) :
    (ExtractUInt16 param_data 0 > 9999 →
      DimmerModel_SetLockPin header param_data s =
        (Response.NACK RDMNackReason.NR_FORMAT_ERROR, s)) ∧
    (ExtractUInt16 param_data 0 ≤ 9999 →
      ExtractUInt16 param_data 2 ≠ s.g_root_device.pin_code →
      DimmerModel_SetLockPin header param_data s =
        (Response.NACK RDMNackReason.NR_DATA_OUT_OF_RANGE, s)) ∧
    (ExtractUInt16 param_data 0 ≤ 9999 →
      ExtractUInt16 param_data 2 = s.g_root_device.pin_code →
      DimmerModel_SetLockPin header param_data s =
        (Response.SET_ACK,
         { s with g_root_device := { s.g_root_device with
            pin_code := ExtractUInt16 param_data 0 } }) ∧
      ∀ (get_header : RDMHeader) (get_data : List Nat),
        (DimmerModel_GetLockPin get_header get_data
          (DimmerModel_SetLockPin header param_data s).2).1 =
            Response.ACK (PushUInt16 (ExtractUInt16 param_data 0)) ∧
        ExtractUInt16 (PushUInt16 (ExtractUInt16 param_data 0)) 0 =
          ExtractUInt16 param_data 0) := by
  refine ⟨?_, ?_, ?_⟩
  · intro h
    simp [DimmerModel_SetLockPin, hpdl, MAX_PIN_CODE, RDMResponder_BuildNack, h]
  · intro h1 h2
    have h3 : ¬ (9999 < ExtractUInt16 param_data 0) := by omega
    simp [DimmerModel_SetLockPin, hpdl, MAX_PIN_CODE, RDMResponder_BuildNack, h2, h3]
  · intro h1 h2
    have h3 : ¬ (9999 < ExtractUInt16 param_data 0) := by omega
    have h4 : DimmerModel_SetLockPin header param_data s =
        (Response.SET_ACK,
         { s with g_root_device := { s.g_root_device with
            pin_code := ExtractUInt16 param_data 0 } }) := by
      simp [DimmerModel_SetLockPin, hpdl, MAX_PIN_CODE, RDMResponder_BuildSetAck, h2, h3]
    refine ⟨h4, ?_⟩
    intro get_header get_data
    constructor
    · rw [h4]
      simp [DimmerModel_GetLockPin, RDMResponder_GenericGetUInt16,
        RDMResponder_AddHeaderAndChecksum]
    · have := ExtractUInt16_PushUInt16 (ExtractUInt16 param_data 0) [] (by omega)
      simpa using this

/-- Witness for C6: from the factory state (pin 0), body
`04 d2 00 00` stores the pin 1234, and GET `LOCK_PIN` then returns
`04 d2`. -/
theorem SetLockPin_contract_witness :
    (DimmerModel_SetLockPin
        (request SET_COMMAND SUBDEVICE_ROOT PID_LOCK_PIN [0x04, 0xd2, 0x00, 0x00])
        [0x04, 0xd2, 0x00, 0x00] factoryState).2.g_root_device.pin_code = 1234 ∧
    (DimmerModel_GetLockPin (request GET_COMMAND SUBDEVICE_ROOT PID_LOCK_PIN []) []
      (DimmerModel_SetLockPin
        (request SET_COMMAND SUBDEVICE_ROOT PID_LOCK_PIN [0x04, 0xd2, 0x00, 0x00])
        [0x04, 0xd2, 0x00, 0x00] factoryState).2).1 = Response.ACK [0x04, 0xd2] :=
  ⟨by
    rw [((SetLockPin_contract
      (request SET_COMMAND SUBDEVICE_ROOT PID_LOCK_PIN [0x04, 0xd2, 0x00, 0x00])
      [0x04, 0xd2, 0x00, 0x00] factoryState (by decide)).2.2 (by decide) (by decide)).1]
    decide,
   (((SetLockPin_contract
      (request SET_COMMAND SUBDEVICE_ROOT PID_LOCK_PIN [0x04, 0xd2, 0x00, 0x00])
      [0x04, 0xd2, 0x00, 0x00] factoryState (by decide)).2.2 (by decide) (by decide)).2
      (request GET_COMMAND SUBDEVICE_ROOT PID_LOCK_PIN []) []).1⟩


/-! ## Block address (C7 – C9) -/

theorem currentSlotCount_start_address (r : RDMResponder) (a : Nat) :
    currentSlotCount { r with dmx_start_address := a } = currentSlotCount r := rfl

theorem footprintsValid_le (s : State) (hv : s.footprintsValid) :
    ∀ i, i < 4 → s.footprint i ≤ 512 := by
  intro i hi
  exact (hv i hi).2.2

/-- The first loop of `ResetToBlockAddress` sums the four footprints. -/
theorem blockFootprint_eq (s : State)
    (h : ∀ i, i < 4 → s.footprint i ≤ 512) :
    blockFootprint s = s.footprint 0 + s.footprint 1 + s.footprint 2 + s.footprint 3 := by
  have h0 := h 0 (by omega)
  have h1 := h 1 (by omega)
  have h2 := h 2 (by omega)
  have h3 := h 3 (by omega)
  simp only [State.footprint] at *
  simp only [blockFootprint, range_sub_devices, List.foldl]
  omega

/-- The second loop of `ResetToBlockAddress`: the addresses it assigns, and
what it leaves alone. -/
theorem assignBlockAddress_fold (B : Nat) (s : State) :
    (((List.range NUMBER_OF_SUB_DEVICES).foldl assignBlockAddress (B, s)).2.startAddress 0
      = B) ∧
    (((List.range NUMBER_OF_SUB_DEVICES).foldl assignBlockAddress (B, s)).2.startAddress 1
      = (B + s.footprint 0) % 65536) ∧
    (((List.range NUMBER_OF_SUB_DEVICES).foldl assignBlockAddress (B, s)).2.startAddress 2
      = ((B + s.footprint 0) % 65536 + s.footprint 1) % 65536) ∧
    (((List.range NUMBER_OF_SUB_DEVICES).foldl assignBlockAddress (B, s)).2.startAddress 3
      = (((B + s.footprint 0) % 65536 + s.footprint 1) % 65536 + s.footprint 2) % 65536) ∧
    (∀ i, ((List.range NUMBER_OF_SUB_DEVICES).foldl assignBlockAddress (B, s)).2.footprint i
      = s.footprint i) ∧
    ((List.range NUMBER_OF_SUB_DEVICES).foldl assignBlockAddress (B, s)).2.g_root_device
      = s.g_root_device := by
  simp only [range_sub_devices, List.foldl, assignBlockAddress, State.startAddress,
    State.footprint, SubDeviceArray.get, SubDeviceArray.set, currentSlotCount_start_address]
  refine ⟨trivial, trivial, trivial, trivial, ?_, trivial⟩
  intro i
  match i with
  | 0 => rfl
  | 1 => rfl
  | 2 => rfl
  | (n + 3) => rfl

theorem ResetToBlockAddress_eq (B : Nat) (s : State) (hB : B < 65536)
    (h : ∀ i, i < 4 → s.footprint i ≤ 512) :
    ResetToBlockAddress B s =
      if (513 + 65536 - B) % 65536 <
          s.footprint 0 + s.footprint 1 + s.footprint 2 + s.footprint 3 then
        (false, s)
      else
        (true, ((List.range NUMBER_OF_SUB_DEVICES).foldl assignBlockAddress (B, s)).2) := by
  have hm : B % 65536 = B := Nat.mod_eq_of_lt hB
  simp only [ResetToBlockAddress, blockFootprint_eq s h, hm, MAX_DMX_START_ADDRESS]
  have : (512 + 65536 - B + 1) = (513 + 65536 - B) := by omega
  rw [this]

/-- What `DimmerModel_SetDMXBlockAddress` does with pdl = 2, by cases on the
address. -/
theorem SetDMXBlockAddress_eq (header : RDMHeader) (param_data : List Nat) (s : State)
    (hpdl : header.param_data_length = 2) (hv : s.footprintsValid) :
    DimmerModel_SetDMXBlockAddress header param_data s =
      if ExtractUInt16 param_data 0 = 0 ∨ ExtractUInt16 param_data 0 > 512 then
        (Response.NACK RDMNackReason.NR_DATA_OUT_OF_RANGE, s)
      else if (513 + 65536 - ExtractUInt16 param_data 0) % 65536 <
          s.footprint 0 + s.footprint 1 + s.footprint 2 + s.footprint 3 then
        (Response.NACK RDMNackReason.NR_DATA_OUT_OF_RANGE, s)
      else (Response.SET_ACK,
        ((List.range NUMBER_OF_SUB_DEVICES).foldl assignBlockAddress
          (ExtractUInt16 param_data 0, s)).2) := by
  have hf := footprintsValid_le s hv
  have hB := ExtractUInt16_lt param_data 0
  simp only [DimmerModel_SetDMXBlockAddress, hpdl, MAX_DMX_START_ADDRESS,
    ResetToBlockAddress_eq (ExtractUInt16 param_data 0) s hB hf, RDMResponder_BuildNack,
    RDMResponder_BuildSetAck]
  simp only [ne_eq, not_true_eq_false, if_false]
  split_ifs <;> simp_all

/-- C7: `DimmerModel_SetDMXBlockAddress` with pdl = 2 and address B (the
big-endian value of the two bytes), in a state whose sub-devices have valid
personalities: it is ACKed if and only if 1 <= B <= 512 and B plus the
aggregate footprint of the four sub-devices minus 1 does not exceed 512 (that
is 1 <= B <= 509 when every footprint is 1); in every other case it returns
NACK `DATA_OUT_OF_RANGE` and the state, so every start address, is unchanged;
after an ACK every sub-device starts at 1 or later and its footprint ends at
slot 512 or before. -/
theorem SetDMXBlockAddress_acked_iff (header : RDMHeader) (param_data : List Nat)
    (s : State) (hpdl : header.param_data_length = 2) (hv : s.footprintsValid) :
    ((DimmerModel_SetDMXBlockAddress header param_data s).1 = Response.SET_ACK ↔
      (1 ≤ ExtractUInt16 param_data 0 ∧ ExtractUInt16 param_data 0 ≤ 512 ∧
        ExtractUInt16 param_data 0 +
          (s.footprint 0 + s.footprint 1 + s.footprint 2 + s.footprint 3) - 1 ≤ 512)) ∧
    ((DimmerModel_SetDMXBlockAddress header param_data s).1 ≠ Response.SET_ACK →
      DimmerModel_SetDMXBlockAddress header param_data s =
        (Response.NACK RDMNackReason.NR_DATA_OUT_OF_RANGE, s)) ∧
    ((DimmerModel_SetDMXBlockAddress header param_data s).1 = Response.SET_ACK →
      ∀ i, i < 4 →
        1 ≤ (DimmerModel_SetDMXBlockAddress header param_data s).2.startAddress i ∧
        (DimmerModel_SetDMXBlockAddress header param_data s).2.startAddress i +
          (DimmerModel_SetDMXBlockAddress header param_data s).2.footprint i - 1 ≤ 512) ∧
    ((∀ i, i < 4 → s.footprint i = 1) →
      ((DimmerModel_SetDMXBlockAddress header param_data s).1 = Response.SET_ACK ↔
        (1 ≤ ExtractUInt16 param_data 0 ∧ ExtractUInt16 param_data 0 ≤ 509))) := by
  have hf := footprintsValid_le s hv
  have hB := ExtractUInt16_lt param_data 0
  have h0 := hf 0 (by omega)
  have h1 := hf 1 (by omega)
  have h2 := hf 2 (by omega)
  have h3 := hf 3 (by omega)
  obtain ⟨a0, a1, a2, a3, af, -⟩ := assignBlockAddress_fold (ExtractUInt16 param_data 0) s
  rw [SetDMXBlockAddress_eq header param_data s hpdl hv]
  generalize ExtractUInt16 param_data 0 = B at *
  refine ⟨?_, ?_, ?_, ?_⟩
  · split_ifs with c1 c2
    · simp; omega
    · simp; omega
    · simp; omega
  · split_ifs with c1 c2 <;> simp
  · split_ifs with c1 c2
    · simp
    · simp
    · intro _ i hi
      simp only []
      have hi' : i = 0 ∨ i = 1 ∨ i = 2 ∨ i = 3 := by omega
      rcases hi' with rfl | rfl | rfl | rfl
      · rw [af, a0]; omega
      · rw [af, a1]; omega
      · rw [af, a2]; omega
      · rw [af, a3]; omega
  · intro hone
    have e0 := hone 0 (by omega)
    have e1 := hone 1 (by omega)
    have e2 := hone 2 (by omega)
    have e3 := hone 3 (by omega)
    split_ifs with c1 c2
    · simp; omega
    · simp; omega
    · simp; omega

/-- Witness for C7: in the factory state (four
sub-devices of footprint 1) the address 509 is ACKed and 510 is not. -/
theorem SetDMXBlockAddress_acked_iff_witness :
    (DimmerModel_SetDMXBlockAddress
      (request SET_COMMAND SUBDEVICE_ROOT PID_DMX_BLOCK_ADDRESS [0x01, 0xfd])
      [0x01, 0xfd] factoryState).1 = Response.SET_ACK ∧
    (DimmerModel_SetDMXBlockAddress
      (request SET_COMMAND SUBDEVICE_ROOT PID_DMX_BLOCK_ADDRESS [0x01, 0xfe])
      [0x01, 0xfe] factoryState) =
        (Response.NACK RDMNackReason.NR_DATA_OUT_OF_RANGE, factoryState) :=
  ⟨(SetDMXBlockAddress_acked_iff
      (request SET_COMMAND SUBDEVICE_ROOT PID_DMX_BLOCK_ADDRESS [0x01, 0xfd])
      [0x01, 0xfd] factoryState (by decide) (by decide)).1.mpr (by decide),
   (SetDMXBlockAddress_acked_iff
      (request SET_COMMAND SUBDEVICE_ROOT PID_DMX_BLOCK_ADDRESS [0x01, 0xfe])
      [0x01, 0xfe] factoryState (by decide) (by decide)).2.1 (by decide)⟩

/-- C8: after an ACKed SET `DMX_BLOCK_ADDRESS` to B (pdl = 2, sub-devices with
valid personalities), the start addresses of the four sub-devices, in array
order, are B, B+f1, B+f1+f2, B+f1+f2+f3, where fi is the footprint of the
i-th sub-device's current personality (the footprints are unchanged). In the
factory state the sub-devices are numbered 1, 3, 4, 5 and have footprint 1;
with B = 5 sub-device 3 has start address 6, and GET `DMX_START_ADDRESS` on
sub-device 3 returns `00 06`. -/
theorem SetDMXBlockAddress_consecutive (header : RDMHeader) (param_data : List Nat)
    (s : State) (hpdl : header.param_data_length = 2) (hv : s.footprintsValid)
    (hack : (DimmerModel_SetDMXBlockAddress header param_data s).1 = Response.SET_ACK) :
    ((DimmerModel_SetDMXBlockAddress header param_data s).2.startAddress 0 =
      ExtractUInt16 param_data 0 ∧
    (DimmerModel_SetDMXBlockAddress header param_data s).2.startAddress 1 =
      ExtractUInt16 param_data 0 + s.footprint 0 ∧
    (DimmerModel_SetDMXBlockAddress header param_data s).2.startAddress 2 =
      ExtractUInt16 param_data 0 + s.footprint 0 + s.footprint 1 ∧
    (DimmerModel_SetDMXBlockAddress header param_data s).2.startAddress 3 =
      ExtractUInt16 param_data 0 + s.footprint 0 + s.footprint 1 + s.footprint 2 ∧
    (∀ i, (DimmerModel_SetDMXBlockAddress header param_data s).2.footprint i =
      s.footprint i)) ∧
    ((List.range NUMBER_OF_SUB_DEVICES).map
        (fun i => (factoryState.g_subdevices.get i).index) = [1, 3, 4, 5] ∧
      (List.range NUMBER_OF_SUB_DEVICES).map factoryState.footprint = [1, 1, 1, 1] ∧
      (DimmerModel_HandleRequest
        (request SET_COMMAND SUBDEVICE_ROOT PID_DMX_BLOCK_ADDRESS [0x00, 0x05])
        [0x00, 0x05] factoryState).1 = Response.SET_ACK ∧
      (List.range NUMBER_OF_SUB_DEVICES).map blockAddress5State.startAddress =
        [5, 6, 7, 8] ∧
      (DimmerModel_HandleRequest (request GET_COMMAND 3 PID_DMX_START_ADDRESS []) []
        blockAddress5State).1 = Response.ACK [0x00, 0x06]) := by
  have hf := footprintsValid_le s hv
  have hB := ExtractUInt16_lt param_data 0
  have h0 := hf 0 (by omega)
  have h1 := hf 1 (by omega)
  have h2 := hf 2 (by omega)
  have h3 := hf 3 (by omega)
  obtain ⟨a0, a1, a2, a3, af, -⟩ := assignBlockAddress_fold (ExtractUInt16 param_data 0) s
  refine ⟨?_, by decide⟩
  rw [SetDMXBlockAddress_eq header param_data s hpdl hv] at hack ⊢
  generalize ExtractUInt16 param_data 0 = B at *
  split_ifs at hack ⊢ with c1 c2
  refine ⟨a0, ?_, ?_, ?_, af⟩
  · simp only []; rw [a1]; omega
  · simp only []; rw [a2]; omega
  · simp only []; rw [a3]; omega

/-- Witness for C8: block address 5 in the
factory state puts the second sub-device (sub-device 3) at 6. -/
theorem SetDMXBlockAddress_consecutive_witness :
    (DimmerModel_SetDMXBlockAddress
      (request SET_COMMAND SUBDEVICE_ROOT PID_DMX_BLOCK_ADDRESS [0x00, 0x05])
      [0x00, 0x05] factoryState).2.startAddress 1 =
        ExtractUInt16 [0x00, 0x05] 0 + factoryState.footprint 0 :=
  (SetDMXBlockAddress_consecutive
    (request SET_COMMAND SUBDEVICE_ROOT PID_DMX_BLOCK_ADDRESS [0x00, 0x05])
    [0x00, 0x05] factoryState (by decide) (by decide) (by decide)).1.2.1


/-- The first pass of the loop of `DimmerModel_GetDMXBlockAddress`. -/
theorem scanBlockAddress_first (s : State) (i : Nat)
    (ha : 1 ≤ s.startAddress i ∧ s.startAddress i ≤ 513) (hf : s.footprint i ≤ 512) :
    scanBlockAddress s
        { total_footprint := 0, expected_start_address := 0, is_contiguous := true } i =
      { total_footprint := s.footprint i
        expected_start_address := s.startAddress i + s.footprint i
        is_contiguous := true } := by
  simp only [State.startAddress, State.footprint] at *
  have e0 : currentSlotCount (s.g_subdevices.get i).responder % 65536 =
      currentSlotCount (s.g_subdevices.get i).responder := by omega
  have e1 : ((s.g_subdevices.get i).responder.dmx_start_address +
      currentSlotCount (s.g_subdevices.get i).responder) % 65536 =
      (s.g_subdevices.get i).responder.dmx_start_address +
      currentSlotCount (s.g_subdevices.get i).responder := by omega
  simp [scanBlockAddress, e0, e1]

/-- A later pass of the loop of `DimmerModel_GetDMXBlockAddress`, once an
expected start address is set. -/
theorem scanBlockAddress_step (s : State) (acc : BlockScan) (i : Nat)
    (ha : 1 ≤ s.startAddress i ∧ s.startAddress i ≤ 513) (hf : s.footprint i ≤ 512)
    (ht : acc.total_footprint ≤ 2048)
    (he : 1 ≤ acc.expected_start_address ∧ acc.expected_start_address ≤ 1025) :
    (scanBlockAddress s acc i).total_footprint = acc.total_footprint + s.footprint i ∧
    1 ≤ (scanBlockAddress s acc i).expected_start_address ∧
    (scanBlockAddress s acc i).expected_start_address ≤ 1025 ∧
    ((scanBlockAddress s acc i).is_contiguous = true ↔
      (acc.is_contiguous = true ∧ acc.expected_start_address = s.startAddress i)) ∧
    ((scanBlockAddress s acc i).is_contiguous = true →
      (scanBlockAddress s acc i).expected_start_address =
        s.startAddress i + s.footprint i) := by
  simp only [State.startAddress, State.footprint] at *
  have e0 : currentSlotCount (s.g_subdevices.get i).responder % 65536 =
      currentSlotCount (s.g_subdevices.get i).responder := by omega
  have n0 : acc.expected_start_address ≠ 0 := by omega
  by_cases c : acc.expected_start_address = (s.g_subdevices.get i).responder.dmx_start_address
  · have r : scanBlockAddress s acc i =
        { acc with
          total_footprint := (acc.total_footprint +
            currentSlotCount (s.g_subdevices.get i).responder) % 65536
          expected_start_address := (acc.expected_start_address +
            currentSlotCount (s.g_subdevices.get i).responder) % 65536 } := by
      simp [scanBlockAddress, e0, n0, c]
    rw [r]
    simp only []
    refine ⟨by omega, by omega, by omega, ?_, ?_⟩
    · simp [c]
    · intro _; omega
  · have r : scanBlockAddress s acc i =
        { acc with
          total_footprint := (acc.total_footprint +
            currentSlotCount (s.g_subdevices.get i).responder) % 65536
          is_contiguous := false } := by
      simp [scanBlockAddress, e0, n0, c]
    rw [r]
    simp only []
    refine ⟨by omega, by omega, by omega, ?_, ?_⟩
    · simp [c]
    · intro h; simp at h

/-- The loop of `DimmerModel_GetDMXBlockAddress` computes the total footprint
and whether the block is contiguous. -/
theorem scanBlockAddress_fold (s : State)
    (h : ∀ i, i < 4 → 1 ≤ s.startAddress i ∧ s.startAddress i ≤ 513 ∧ s.footprint i ≤ 512) :
    ((List.range NUMBER_OF_SUB_DEVICES).foldl (scanBlockAddress s)
      { total_footprint := 0, expected_start_address := 0, is_contiguous := true }).total_footprint
      = s.footprint 0 + s.footprint 1 + s.footprint 2 + s.footprint 3 ∧
    (((List.range NUMBER_OF_SUB_DEVICES).foldl (scanBlockAddress s)
      { total_footprint := 0, expected_start_address := 0, is_contiguous := true }).is_contiguous
      = true ↔ s.blockContiguous) := by
  have h0 := h 0 (by omega)
  have h1 := h 1 (by omega)
  have h2 := h 2 (by omega)
  have h3 := h 3 (by omega)
  simp only [range_sub_devices, List.foldl, State.blockContiguous]
  rw [scanBlockAddress_first s 0 ⟨h0.1, h0.2.1⟩ h0.2.2]
  obtain ⟨t1, l1, u1, c1, x1⟩ := scanBlockAddress_step s
    { total_footprint := s.footprint 0
      expected_start_address := s.startAddress 0 + s.footprint 0
      is_contiguous := true } 1 ⟨h1.1, h1.2.1⟩ h1.2.2 (by simp only []; omega)
    (by simp only []; omega)
  generalize scanBlockAddress s
    { total_footprint := s.footprint 0
      expected_start_address := s.startAddress 0 + s.footprint 0
      is_contiguous := true } 1 = acc1 at *
  simp only [] at t1 c1
  obtain ⟨t2, l2, u2, c2, x2⟩ := scanBlockAddress_step s acc1 2 ⟨h2.1, h2.2.1⟩ h2.2.2
    (by omega) ⟨l1, u1⟩
  generalize scanBlockAddress s acc1 2 = acc2 at *
  obtain ⟨t3, l3, u3, c3, x3⟩ := scanBlockAddress_step s acc2 3 ⟨h3.1, h3.2.1⟩ h3.2.2
    (by omega) ⟨l2, u2⟩
  generalize scanBlockAddress s acc2 3 = acc3 at *
  refine ⟨by omega, ?_⟩
  rw [c3, c2, c1]
  constructor
  · rintro ⟨⟨⟨-, e1⟩, e2⟩, e3⟩
    have k1 := x1 (c1.mpr ⟨trivial, e1⟩)
    have k2 := x2 (c2.mpr ⟨c1.mpr ⟨trivial, e1⟩, e2⟩)
    omega
  · rintro ⟨e1, e2, e3⟩
    have k1 := x1 (c1.mpr ⟨trivial, by omega⟩)
    have k2 := x2 (c2.mpr ⟨c1.mpr ⟨trivial, by omega⟩, by omega⟩)
    exact ⟨⟨⟨trivial, by omega⟩, by omega⟩, by omega⟩

/-- What `DimmerModel_GetDMXBlockAddress` returns when the start addresses and
footprints are in range. -/
theorem GetDMXBlockAddress_eq (header : RDMHeader) (param_data : List Nat) (s : State)
    (h : ∀ i, i < 4 → 1 ≤ s.startAddress i ∧ s.startAddress i ≤ 513 ∧ s.footprint i ≤ 512) :
    DimmerModel_GetDMXBlockAddress header param_data s =
      (Response.ACK
        (PushUInt16 (s.footprint 0 + s.footprint 1 + s.footprint 2 + s.footprint 3) ++
          PushUInt16 (if s.blockContiguous then s.startAddress 0 else 0xffff)), s) := by
  obtain ⟨ht, hc⟩ := scanBlockAddress_fold s h
  simp only [DimmerModel_GetDMXBlockAddress, RDMResponder_AddHeaderAndChecksum, ht,
    INVALID_DMX_START_ADDRESS]
  by_cases c : s.blockContiguous
  · have := hc.mpr c
    simp only [this, c, if_true]
    rfl
  · have : ¬ ((List.foldl (scanBlockAddress s)
        { total_footprint := 0, expected_start_address := 0, is_contiguous := true }
        (List.range NUMBER_OF_SUB_DEVICES)).is_contiguous = true) := fun hh => c (hc.mp hh)
    simp only [this, c, if_false]
    rfl

/-- C9: `DimmerModel_GetDMXBlockAddress`, for sub-devices with valid
personalities and start addresses in 1..512, returns an ACK whose body is
(total_footprint, base), two big-endian 16-bit values: total_footprint is the
sum of the four footprints; base is the first sub-device's start address if
every sub-device starts at the previous sub-device's start address plus that
sub-device's footprint, and 0xFFFF otherwise (so base equals the first start
address exactly in the contiguous case); the state is unchanged. After an
ACKed SET `DMX_BLOCK_ADDRESS` to B the GET body is (total_footprint, B); in
the factory state, after SET to 5, it is `00 04 00 05`. -/
theorem GetDMXBlockAddress_body (header : RDMHeader) (param_data : List Nat) (s : State)
    (hv : s.footprintsValid) :
    ((∀ i, i < 4 → 1 ≤ s.startAddress i ∧ s.startAddress i ≤ 512) →
      DimmerModel_GetDMXBlockAddress header param_data s =
        (Response.ACK
          (PushUInt16 (s.footprint 0 + s.footprint 1 + s.footprint 2 + s.footprint 3) ++
            PushUInt16 (if s.blockContiguous then s.startAddress 0 else 0xffff)), s) ∧
      ((if s.blockContiguous then s.startAddress 0 else 0xffff) = s.startAddress 0 ↔
        s.blockContiguous)) ∧
    (∀ (set_header : RDMHeader) (set_data : List Nat),
      set_header.param_data_length = 2 →
      (DimmerModel_SetDMXBlockAddress set_header set_data s).1 = Response.SET_ACK →
      (DimmerModel_GetDMXBlockAddress header param_data
        (DimmerModel_SetDMXBlockAddress set_header set_data s).2).1 =
          Response.ACK
            (PushUInt16 (s.footprint 0 + s.footprint 1 + s.footprint 2 + s.footprint 3) ++
              PushUInt16 (ExtractUInt16 set_data 0))) ∧
    (DimmerModel_HandleRequest
      (request GET_COMMAND SUBDEVICE_ROOT PID_DMX_BLOCK_ADDRESS []) []
      blockAddress5State).1 = Response.ACK [0x00, 0x04, 0x00, 0x05] := by
  have hf := footprintsValid_le s hv
  refine ⟨?_, ?_, by decide⟩
  · intro ha
    have h : ∀ i, i < 4 →
        1 ≤ s.startAddress i ∧ s.startAddress i ≤ 513 ∧ s.footprint i ≤ 512 := by
      intro i hi
      have := ha i hi
      have := hf i hi
      omega
    refine ⟨GetDMXBlockAddress_eq header param_data s h, ?_⟩
    have h0 := ha 0 (by omega)
    by_cases c : s.blockContiguous
    · simp [c]
    · simp only [c, if_false, iff_false]
      omega
  · intro set_header set_data hpdl hack
    have hB := ExtractUInt16_lt set_data 0
    have h0 := hf 0 (by omega)
    have h1 := hf 1 (by omega)
    have h2 := hf 2 (by omega)
    have h3 := hf 3 (by omega)
    obtain ⟨a0, a1, a2, a3, af, -⟩ := assignBlockAddress_fold (ExtractUInt16 set_data 0) s
    rw [SetDMXBlockAddress_eq set_header set_data s hpdl hv] at hack ⊢
    generalize ExtractUInt16 set_data 0 = B at *
    split_ifs at hack ⊢ with c1 c2
    simp only []
    generalize ((List.range NUMBER_OF_SUB_DEVICES).foldl assignBlockAddress (B, s)).2 = t at *
    have ht : ∀ i, i < 4 →
        1 ≤ t.startAddress i ∧ t.startAddress i ≤ 513 ∧ t.footprint i ≤ 512 := by
      intro i hi
      have hi' : i = 0 ∨ i = 1 ∨ i = 2 ∨ i = 3 := by omega
      rcases hi' with rfl | rfl | rfl | rfl
      · rw [af, a0]; omega
      · rw [af, a1]; omega
      · rw [af, a2]; omega
      · rw [af, a3]; omega
    have hc : t.blockContiguous := by
      simp only [State.blockContiguous, af, a0, a1, a2, a3]
      omega
    rw [GetDMXBlockAddress_eq header param_data t ht]
    simp only [hc, if_true, af, a0]

/-- Witness for C9: after SET `DMX_BLOCK_ADDRESS` 5 in
the factory state the sub-devices are at 5, 6, 7, 8 and the GET body is
(4, 5). -/
theorem GetDMXBlockAddress_body_witness :
    DimmerModel_GetDMXBlockAddress
      (request GET_COMMAND SUBDEVICE_ROOT PID_DMX_BLOCK_ADDRESS []) []
      blockAddress5State =
        (Response.ACK
          (PushUInt16 (blockAddress5State.footprint 0 + blockAddress5State.footprint 1 +
              blockAddress5State.footprint 2 + blockAddress5State.footprint 3) ++
            PushUInt16 (if blockAddress5State.blockContiguous then
              blockAddress5State.startAddress 0 else 0xffff)), blockAddress5State) :=
  ((GetDMXBlockAddress_body
    (request GET_COMMAND SUBDEVICE_ROOT PID_DMX_BLOCK_ADDRESS []) []
    blockAddress5State (by decide)).1 (by decide)).1

/-! ## Presets (C10) -/

/-- C10: `DimmerModel_CapturePreset` with pdl = 8 and body (scene, up, down,
wait), four big-endian 16-bit values: scene 0 or scene > 3 gives NACK
`DATA_OUT_OF_RANGE`; a scene whose `programmed_state` is read-only gives NACK
`WRITE_PROTECT`; in both cases nothing changes; otherwise it stores the
up/down/wait fade times into that scene and marks it `PROGRAMMED`, leaves the
other scenes and everything else unchanged, and returns a SET ACK. -/
theorem CapturePreset_contract (header : RDMHeader) (param_data : List Nat) (s : State)
    (hpdl : header.param_data_length = 8) :
    ((ExtractUInt16 param_data 0 = 0 ∨ ExtractUInt16 param_data 0 > 3) →
      DimmerModel_CapturePreset header param_data s =
        (Response.NACK RDMNackReason.NR_DATA_OUT_OF_RANGE, s)) ∧
    (1 ≤ ExtractUInt16 param_data 0 → ExtractUInt16 param_data 0 ≤ 3 →
      (s.g_root_device.scenes.get (ExtractUInt16 param_data 0 - 1)).programmed_state
        = PRESET_PROGRAMMED_READ_ONLY →
      DimmerModel_CapturePreset header param_data s =
        (Response.NACK RDMNackReason.NR_WRITE_PROTECT, s)) ∧
    (1 ≤ ExtractUInt16 param_data 0 → ExtractUInt16 param_data 0 ≤ 3 →
      (s.g_root_device.scenes.get (ExtractUInt16 param_data 0 - 1)).programmed_state
        ≠ PRESET_PROGRAMMED_READ_ONLY →
      DimmerModel_CapturePreset header param_data s =
        (Response.SET_ACK,
         { s with g_root_device := { s.g_root_device with
            scenes := s.g_root_device.scenes.set (ExtractUInt16 param_data 0 - 1)
              { up_fade_time := ExtractUInt16 param_data 2
                down_fade_time := ExtractUInt16 param_data 4
                wait_time := ExtractUInt16 param_data 6
                programmed_state := PRESET_PROGRAMMED } } }) ∧
      (DimmerModel_CapturePreset header param_data s).2.g_root_device.scenes.get
          (ExtractUInt16 param_data 0 - 1) =
        { up_fade_time := ExtractUInt16 param_data 2
          down_fade_time := ExtractUInt16 param_data 4
          wait_time := ExtractUInt16 param_data 6
          programmed_state := PRESET_PROGRAMMED } ∧
      (∀ j, j < 3 → j ≠ ExtractUInt16 param_data 0 - 1 →
        (DimmerModel_CapturePreset header param_data s).2.g_root_device.scenes.get j =
          s.g_root_device.scenes.get j)) := by
  refine ⟨?_, ?_, ?_⟩
  · intro h
    simp [DimmerModel_CapturePreset, hpdl, NUMBER_OF_SCENES, RDMResponder_BuildNack, h]
  · intro h1 h2 h3
    have h4 : ¬ (ExtractUInt16 param_data 0 = 0 ∨ 3 < ExtractUInt16 param_data 0) := by
      omega
    simp [DimmerModel_CapturePreset, hpdl, NUMBER_OF_SCENES, RDMResponder_BuildNack, h3, h4]
  · intro h1 h2 h3
    have h4 : ¬ (ExtractUInt16 param_data 0 = 0 ∨ 3 < ExtractUInt16 param_data 0) := by
      omega
    have h5 : DimmerModel_CapturePreset header param_data s =
        (Response.SET_ACK,
         { s with g_root_device := { s.g_root_device with
            scenes := s.g_root_device.scenes.set (ExtractUInt16 param_data 0 - 1)
              { up_fade_time := ExtractUInt16 param_data 2
                down_fade_time := ExtractUInt16 param_data 4
                wait_time := ExtractUInt16 param_data 6
                programmed_state := PRESET_PROGRAMMED } } }) := by
      simp [DimmerModel_CapturePreset, hpdl, NUMBER_OF_SCENES, RDMResponder_BuildSetAck,
        h3, h4]
    refine ⟨h5, ?_⟩
    rw [h5]
    generalize ExtractUInt16 param_data 0 = k at *
    have hk : k = 1 ∨ k = 2 ∨ k = 3 := by omega
    refine ⟨?_, ?_⟩
    · rcases hk with rfl | rfl | rfl <;> simp [SceneArray.get, SceneArray.set]
    · intro j hj hne
      have hj' : j = 0 ∨ j = 1 ∨ j = 2 := by omega
      rcases hk with rfl | rfl | rfl <;> rcases hj' with rfl | rfl | rfl <;>
        simp_all [SceneArray.get, SceneArray.set]

/-- Witness for C10: in the factory state scene 1 is
read-only, so capturing it is NACKed `WRITE_PROTECT`, and capturing scene 2
with times 1, 2, 3 stores them and marks the scene programmed. -/
theorem CapturePreset_contract_witness :
    DimmerModel_CapturePreset
      (request SET_COMMAND SUBDEVICE_ROOT PID_CAPTURE_PRESET
        [0x00, 0x01, 0x00, 0x01, 0x00, 0x02, 0x00, 0x03])
      [0x00, 0x01, 0x00, 0x01, 0x00, 0x02, 0x00, 0x03] factoryState =
        (Response.NACK RDMNackReason.NR_WRITE_PROTECT, factoryState) ∧
    (DimmerModel_CapturePreset
      (request SET_COMMAND SUBDEVICE_ROOT PID_CAPTURE_PRESET
        [0x00, 0x02, 0x00, 0x01, 0x00, 0x02, 0x00, 0x03])
      [0x00, 0x02, 0x00, 0x01, 0x00, 0x02, 0x00, 0x03]
      factoryState).2.g_root_device.scenes.get
        (ExtractUInt16 [0x00, 0x02, 0x00, 0x01, 0x00, 0x02, 0x00, 0x03] 0 - 1) =
      { up_fade_time := ExtractUInt16 [0x00, 0x02, 0x00, 0x01, 0x00, 0x02, 0x00, 0x03] 2
        down_fade_time := ExtractUInt16 [0x00, 0x02, 0x00, 0x01, 0x00, 0x02, 0x00, 0x03] 4
        wait_time := ExtractUInt16 [0x00, 0x02, 0x00, 0x01, 0x00, 0x02, 0x00, 0x03] 6
        programmed_state := PRESET_PROGRAMMED } :=
  ⟨(CapturePreset_contract
      (request SET_COMMAND SUBDEVICE_ROOT PID_CAPTURE_PRESET
        [0x00, 0x01, 0x00, 0x01, 0x00, 0x02, 0x00, 0x03])
      [0x00, 0x01, 0x00, 0x01, 0x00, 0x02, 0x00, 0x03] factoryState
      (by decide)).2.1 (by decide) (by decide) (by decide),
   ((CapturePreset_contract
      (request SET_COMMAND SUBDEVICE_ROOT PID_CAPTURE_PRESET
        [0x00, 0x02, 0x00, 0x01, 0x00, 0x02, 0x00, 0x03])
      [0x00, 0x02, 0x00, 0x01, 0x00, 0x02, 0x00, 0x03] factoryState
      (by decide)).2.2 (by decide) (by decide) (by decide)).2.1⟩

/-! ## Preset status, fail mode and startup mode (C11, C13, C14) -/

/-- C11: `DimmerModel_SetPresetStatus` with pdl = 9 and body (scene, up, down,
wait, clear_preset), four big-endian 16-bit values and a byte: scene 0 or
scene > 3 gives NACK `DATA_OUT_OF_RANGE`; a read-only scene gives NACK
`WRITE_PROTECT`; on a valid scene that is not read-only, clear_preset > 1
gives NACK `DATA_OUT_OF_RANGE`, clear_preset = 1 sets the three times to 0 and
the state to `NOT_PROGRAMMED`, and clear_preset = 0 stores the three times and
leaves `programmed_state` as it was; every NACK leaves the state unchanged,
and an ACK changes nothing but that scene. -/
theorem SetPresetStatus_contract (header : RDMHeader) (param_data : List Nat) (s : State)
    (hpdl : header.param_data_length = 9) :
    ((ExtractUInt16 param_data 0 = 0 ∨ ExtractUInt16 param_data 0 > 3) →
      DimmerModel_SetPresetStatus header param_data s =
        (Response.NACK RDMNackReason.NR_DATA_OUT_OF_RANGE, s)) ∧
    (1 ≤ ExtractUInt16 param_data 0 → ExtractUInt16 param_data 0 ≤ 3 →
      (s.g_root_device.scenes.get (ExtractUInt16 param_data 0 - 1)).programmed_state
        = PRESET_PROGRAMMED_READ_ONLY →
      DimmerModel_SetPresetStatus header param_data s =
        (Response.NACK RDMNackReason.NR_WRITE_PROTECT, s)) ∧
    (1 ≤ ExtractUInt16 param_data 0 → ExtractUInt16 param_data 0 ≤ 3 →
      (s.g_root_device.scenes.get (ExtractUInt16 param_data 0 - 1)).programmed_state
        ≠ PRESET_PROGRAMMED_READ_ONLY →
      (byteAt param_data 8 > 1 →
        DimmerModel_SetPresetStatus header param_data s =
          (Response.NACK RDMNackReason.NR_DATA_OUT_OF_RANGE, s)) ∧
      (byteAt param_data 8 = 1 →
        DimmerModel_SetPresetStatus header param_data s =
          (Response.SET_ACK,
           { s with g_root_device := { s.g_root_device with
              scenes := s.g_root_device.scenes.set (ExtractUInt16 param_data 0 - 1)
                { up_fade_time := 0
                  down_fade_time := 0
                  wait_time := 0
                  programmed_state := PRESET_NOT_PROGRAMMED } } }) ∧
        (DimmerModel_SetPresetStatus header param_data s).2.g_root_device.scenes.get
            (ExtractUInt16 param_data 0 - 1) =
          { up_fade_time := 0
            down_fade_time := 0
            wait_time := 0
            programmed_state := PRESET_NOT_PROGRAMMED }) ∧
      (byteAt param_data 8 = 0 →
        DimmerModel_SetPresetStatus header param_data s =
          (Response.SET_ACK,
           { s with g_root_device := { s.g_root_device with
              scenes := s.g_root_device.scenes.set (ExtractUInt16 param_data 0 - 1)
                { up_fade_time := ExtractUInt16 param_data 2
                  down_fade_time := ExtractUInt16 param_data 4
                  wait_time := ExtractUInt16 param_data 6
                  programmed_state :=
                    (s.g_root_device.scenes.get
                      (ExtractUInt16 param_data 0 - 1)).programmed_state } } }) ∧
        (DimmerModel_SetPresetStatus header param_data s).2.g_root_device.scenes.get
            (ExtractUInt16 param_data 0 - 1) =
          { up_fade_time := ExtractUInt16 param_data 2
            down_fade_time := ExtractUInt16 param_data 4
            wait_time := ExtractUInt16 param_data 6
            programmed_state :=
              (s.g_root_device.scenes.get
                (ExtractUInt16 param_data 0 - 1)).programmed_state })) := by
  refine ⟨?_, ?_, ?_⟩
  · intro h
    simp [DimmerModel_SetPresetStatus, hpdl, NUMBER_OF_SCENES, RDMResponder_BuildNack, h]
  · intro h1 h2 h3
    have h4 : ¬ (ExtractUInt16 param_data 0 = 0 ∨ 3 < ExtractUInt16 param_data 0) := by
      omega
    simp [DimmerModel_SetPresetStatus, hpdl, NUMBER_OF_SCENES, RDMResponder_BuildNack,
      h3, h4]
  · intro h1 h2 h3
    have h4 : ¬ (ExtractUInt16 param_data 0 = 0 ∨ 3 < ExtractUInt16 param_data 0) := by
      omega
    have hk : ExtractUInt16 param_data 0 = 1 ∨ ExtractUInt16 param_data 0 = 2 ∨
        ExtractUInt16 param_data 0 = 3 := by omega
    refine ⟨?_, ?_, ?_⟩
    · intro hc
      simp [DimmerModel_SetPresetStatus, hpdl, NUMBER_OF_SCENES, RDMResponder_BuildNack,
        h3, h4, hc]
    · intro hc
      have h5 : DimmerModel_SetPresetStatus header param_data s =
          (Response.SET_ACK,
           { s with g_root_device := { s.g_root_device with
              scenes := s.g_root_device.scenes.set (ExtractUInt16 param_data 0 - 1)
                { up_fade_time := 0
                  down_fade_time := 0
                  wait_time := 0
                  programmed_state := PRESET_NOT_PROGRAMMED } } }) := by
        simp [DimmerModel_SetPresetStatus, hpdl, NUMBER_OF_SCENES,
          RDMResponder_BuildSetAck, h3, h4, hc]
      refine ⟨h5, ?_⟩
      rw [h5]
      rcases hk with hk | hk | hk <;> rw [hk] <;> simp [SceneArray.get, SceneArray.set]
    · intro hc
      have h5 : DimmerModel_SetPresetStatus header param_data s =
          (Response.SET_ACK,
           { s with g_root_device := { s.g_root_device with
              scenes := s.g_root_device.scenes.set (ExtractUInt16 param_data 0 - 1)
                { up_fade_time := ExtractUInt16 param_data 2
                  down_fade_time := ExtractUInt16 param_data 4
                  wait_time := ExtractUInt16 param_data 6
                  programmed_state :=
                    (s.g_root_device.scenes.get
                      (ExtractUInt16 param_data 0 - 1)).programmed_state } } }) := by
        simp [DimmerModel_SetPresetStatus, hpdl, NUMBER_OF_SCENES,
          RDMResponder_BuildSetAck, h3, h4, hc]
      refine ⟨h5, ?_⟩
      rw [h5]
      rcases hk with hk | hk | hk <;> rw [hk] <;> simp [SceneArray.get, SceneArray.set]

/-- Witness for C11: in the factory state scene 2 is not read-only; body
`00 02 00 01 00 02 00 03 00` stores the times 1, 2, 3 and leaves the scene
not programmed. -/
theorem SetPresetStatus_contract_witness :
    (DimmerModel_SetPresetStatus
      (request SET_COMMAND SUBDEVICE_ROOT PID_PRESET_STATUS
        [0x00, 0x02, 0x00, 0x01, 0x00, 0x02, 0x00, 0x03, 0x00])
      [0x00, 0x02, 0x00, 0x01, 0x00, 0x02, 0x00, 0x03, 0x00]
      factoryState).2.g_root_device.scenes.get 1 =
      { up_fade_time := 1
        down_fade_time := 2
        wait_time := 3
        programmed_state := PRESET_NOT_PROGRAMMED } :=
  (((SetPresetStatus_contract
      (request SET_COMMAND SUBDEVICE_ROOT PID_PRESET_STATUS
        [0x00, 0x02, 0x00, 0x01, 0x00, 0x02, 0x00, 0x03, 0x00])
      [0x00, 0x02, 0x00, 0x01, 0x00, 0x02, 0x00, 0x03, 0x00] factoryState
      (by decide)).2.2 (by decide) (by decide) (by decide)).2.2 (by decide)).2

/-- C13: for both `DimmerModel_SetDMXFailMode` and
`DimmerModel_SetDMXStartupMode` with pdl = 7 and scene index the big-endian
value of bytes 0..1: the request is ACKed if and only if the scene index is in
0..3 or equals 0xFFFF; otherwise it returns NACK `DATA_OUT_OF_RANGE` and the
state is unchanged (nothing is stored). -/
theorem SetDMXFailMode_StartupMode_acked_iff (header : RDMHeader)
    (param_data : List Nat) (s : State) (hpdl : header.param_data_length = 7) :
    ((DimmerModel_SetDMXFailMode header param_data s).1 = Response.SET_ACK ↔
      (ExtractUInt16 param_data 0 ≤ 3 ∨ ExtractUInt16 param_data 0 = 0xffff)) ∧
    (¬ (ExtractUInt16 param_data 0 ≤ 3 ∨ ExtractUInt16 param_data 0 = 0xffff) →
      DimmerModel_SetDMXFailMode header param_data s =
        (Response.NACK RDMNackReason.NR_DATA_OUT_OF_RANGE, s)) ∧
    ((DimmerModel_SetDMXStartupMode header param_data s).1 = Response.SET_ACK ↔
      (ExtractUInt16 param_data 0 ≤ 3 ∨ ExtractUInt16 param_data 0 = 0xffff)) ∧
    (¬ (ExtractUInt16 param_data 0 ≤ 3 ∨ ExtractUInt16 param_data 0 = 0xffff) →
      DimmerModel_SetDMXStartupMode header param_data s =
        (Response.NACK RDMNackReason.NR_DATA_OUT_OF_RANGE, s)) := by
  by_cases c : ExtractUInt16 param_data 0 ≤ 3 ∨ ExtractUInt16 param_data 0 = 0xffff
  · have c' : ¬ (3 < ExtractUInt16 param_data 0 ∧ ¬ ExtractUInt16 param_data 0 = 65535) := by
      omega
    simp [DimmerModel_SetDMXFailMode, DimmerModel_SetDMXStartupMode, hpdl,
      NUMBER_OF_SCENES, PRESET_PLAYBACK_ALL, RDMResponder_BuildSetAck,
      RDMResponder_BuildNack, c, c']
  · have c' : 3 < ExtractUInt16 param_data 0 ∧ ¬ ExtractUInt16 param_data 0 = 65535 := by
      omega
    simp [DimmerModel_SetDMXFailMode, DimmerModel_SetDMXStartupMode, hpdl,
      NUMBER_OF_SCENES, PRESET_PLAYBACK_ALL, RDMResponder_BuildSetAck,
      RDMResponder_BuildNack, c, c']

/-- Witness for C13: in the factory state scene index 4 is refused by the SET
of `DMX_FAIL_MODE` and nothing is stored. -/
theorem SetDMXFailMode_StartupMode_acked_iff_witness :
    DimmerModel_SetDMXFailMode
      (request SET_COMMAND SUBDEVICE_ROOT PID_DMX_FAIL_MODE
        [0x00, 0x04, 0x00, 0x01, 0x00, 0x02, 0x03])
      [0x00, 0x04, 0x00, 0x01, 0x00, 0x02, 0x03] factoryState =
        (Response.NACK RDMNackReason.NR_DATA_OUT_OF_RANGE, factoryState) :=
  (SetDMXFailMode_StartupMode_acked_iff
    (request SET_COMMAND SUBDEVICE_ROOT PID_DMX_FAIL_MODE
      [0x00, 0x04, 0x00, 0x01, 0x00, 0x02, 0x03])
    [0x00, 0x04, 0x00, 0x01, 0x00, 0x02, 0x03] factoryState (by decide)).2.1 (by decide)

/-- A list of seven bytes is what the GET handlers push back from the stored
scene, delay, hold and level. -/
theorem seven_bytes_round_trip (param_data : List Nat) (hlen : param_data.length = 7)
    (hbytes : ∀ b, b ∈ param_data → b < 256) :
    PushUInt16 (ExtractUInt16 param_data 0) ++ PushUInt16 (ExtractUInt16 param_data 2) ++
      PushUInt16 (ExtractUInt16 param_data 4) ++ [byteAt param_data 6 % 256] =
        param_data := by
  match param_data, hlen with
  | [b0, b1, b2, b3, b4, b5, b6], _ =>
    have h0 := hbytes b0 (by simp)
    have h1 := hbytes b1 (by simp)
    have h2 := hbytes b2 (by simp)
    have h3 := hbytes b3 (by simp)
    have h4 := hbytes b4 (by simp)
    have h5 := hbytes b5 (by simp)
    have h6 := hbytes b6 (by simp)
    simp only [PushUInt16, ExtractUInt16, byteAt, List.getD_cons_zero, List.getD_cons_succ,
      List.cons_append, List.nil_append, List.cons.injEq, and_true]
    omega

/-- C14: round trip for `DMX_FAIL_MODE` and `DMX_STARTUP_MODE`: after an ACKed
SET with a 7-byte body (scene, delay, hold, level), a GET of the same PID
returns exactly those 7 bytes; a SET of `DMX_STARTUP_MODE` (ACKed or not) does
not change what GET `DMX_FAIL_MODE` returns, and a SET of `DMX_FAIL_MODE` does
not change what GET `DMX_STARTUP_MODE` returns. -/
theorem FailMode_StartupMode_round_trip (header : RDMHeader) (param_data : List Nat)
    (s : State) (hpdl : header.param_data_length = 7) (hlen : param_data.length = 7)
    (hbytes : ∀ b, b ∈ param_data → b < 256) (get_header : RDMHeader)
    (get_data : List Nat) :
    ((DimmerModel_SetDMXFailMode header param_data s).1 = Response.SET_ACK →
      (DimmerModel_GetDMXFailMode get_header get_data
        (DimmerModel_SetDMXFailMode header param_data s).2).1 =
          Response.ACK param_data) ∧
    ((DimmerModel_SetDMXStartupMode header param_data s).1 = Response.SET_ACK →
      (DimmerModel_GetDMXStartupMode get_header get_data
        (DimmerModel_SetDMXStartupMode header param_data s).2).1 =
          Response.ACK param_data) ∧
    (DimmerModel_GetDMXFailMode get_header get_data
        (DimmerModel_SetDMXStartupMode header param_data s).2).1 =
      (DimmerModel_GetDMXFailMode get_header get_data s).1 ∧
    (DimmerModel_GetDMXStartupMode get_header get_data
        (DimmerModel_SetDMXFailMode header param_data s).2).1 =
      (DimmerModel_GetDMXStartupMode get_header get_data s).1 := by
  have hrt := seven_bytes_round_trip param_data hlen hbytes
  refine ⟨?_, ?_, ?_, ?_⟩
  · intro hack
    by_cases c : 3 < ExtractUInt16 param_data 0 ∧ ¬ ExtractUInt16 param_data 0 = 65535
    · simp [DimmerModel_SetDMXFailMode, hpdl, NUMBER_OF_SCENES, PRESET_PLAYBACK_ALL,
        RDMResponder_BuildNack, c] at hack
    · simp only [DimmerModel_SetDMXFailMode, hpdl, NUMBER_OF_SCENES, PRESET_PLAYBACK_ALL,
        ne_eq, not_true_eq_false, if_false, c, DimmerModel_GetDMXFailMode,
        RDMResponder_AddHeaderAndChecksum, hrt]
  · intro hack
    by_cases c : 3 < ExtractUInt16 param_data 0 ∧ ¬ ExtractUInt16 param_data 0 = 65535
    · simp [DimmerModel_SetDMXStartupMode, hpdl, NUMBER_OF_SCENES, PRESET_PLAYBACK_ALL,
        RDMResponder_BuildNack, c] at hack
    · simp only [DimmerModel_SetDMXStartupMode, hpdl, NUMBER_OF_SCENES,
        PRESET_PLAYBACK_ALL, ne_eq, not_true_eq_false, if_false, c,
        DimmerModel_GetDMXStartupMode, RDMResponder_AddHeaderAndChecksum, hrt]
  · simp only [DimmerModel_SetDMXStartupMode, DimmerModel_GetDMXFailMode]
    split_ifs <;> rfl
  · simp only [DimmerModel_SetDMXFailMode, DimmerModel_GetDMXStartupMode]
    split_ifs <;> rfl

/-- Witness for C14: in the factory state, SET `DMX_FAIL_MODE` with body
`00 02 00 0a 00 14 ff` followed by GET returns the same seven bytes. -/
theorem FailMode_StartupMode_round_trip_witness :
    (DimmerModel_GetDMXFailMode
      (request GET_COMMAND SUBDEVICE_ROOT PID_DMX_FAIL_MODE []) []
      (DimmerModel_SetDMXFailMode
        (request SET_COMMAND SUBDEVICE_ROOT PID_DMX_FAIL_MODE
          [0x00, 0x02, 0x00, 0x0a, 0x00, 0x14, 0xff])
        [0x00, 0x02, 0x00, 0x0a, 0x00, 0x14, 0xff] factoryState).2).1 =
      Response.ACK [0x00, 0x02, 0x00, 0x0a, 0x00, 0x14, 0xff] :=
  (FailMode_StartupMode_round_trip
    (request SET_COMMAND SUBDEVICE_ROOT PID_DMX_FAIL_MODE
      [0x00, 0x02, 0x00, 0x0a, 0x00, 0x14, 0xff])
    [0x00, 0x02, 0x00, 0x0a, 0x00, 0x14, 0xff] factoryState (by decide) (by decide)
    (by decide) (request GET_COMMAND SUBDEVICE_ROOT PID_DMX_FAIL_MODE []) []).1 (by decide)

/-! ## What the handlers leave alone -/

@[simp] theorem setResponder_g_responder (s : State) (r : RDMResponder) :
    (s.setResponder r).g_responder = s.g_responder := by
  unfold State.setResponder
  split <;> simp_all

@[simp] theorem setResponder_g_active_device (s : State) (r : RDMResponder) :
    (s.setResponder r).g_active_device = s.g_active_device := by
  unfold State.setResponder
  split <;> rfl

@[simp] theorem setResponder_g_root_device (s : State) (r : RDMResponder) :
    (s.setResponder r).g_root_device = s.g_root_device := by
  unfold State.setResponder
  split <;> rfl

@[simp] theorem setActiveDevice_g_responder (s : State) (d : DimmerSubDevice) :
    (s.setActiveDevice d).g_responder = s.g_responder := by
  unfold State.setActiveDevice
  split <;> rfl

@[simp] theorem setActiveDevice_g_active_device (s : State) (d : DimmerSubDevice) :
    (s.setActiveDevice d).g_active_device = s.g_active_device := by
  unfold State.setActiveDevice
  split <;> simp_all

@[simp] theorem setActiveDevice_g_root_device (s : State) (d : DimmerSubDevice) :
    (s.setActiveDevice d).g_root_device = s.g_root_device := by
  unfold State.setActiveDevice
  split <;> rfl

/-- `ResetToBlockAddress` writes to `g_subdevices` only. -/
theorem ResetToBlockAddress_frame (B : Nat) (s : State) :
    (ResetToBlockAddress B s).2.g_responder = s.g_responder ∧
    (ResetToBlockAddress B s).2.g_active_device = s.g_active_device ∧
    (ResetToBlockAddress B s).2.g_root_device = s.g_root_device ∧
    (ResetToBlockAddress B s).2.root_responder = s.root_responder := by
  simp only [ResetToBlockAddress]
  split_ifs
  · exact ⟨rfl, rfl, rfl, rfl⟩
  · simp [range_sub_devices, List.foldl, assignBlockAddress]

/-- No PID handler moves `g_responder` or `g_active_device`, and only
`DimmerModel_CapturePreset` and `DimmerModel_SetPresetStatus` write to the
scenes. -/
theorem callHandler_frame (handler : PIDCommandHandler) (header : RDMHeader)
    (param_data : List Nat) (s : State) :
    (callHandler handler header param_data s).2.g_responder = s.g_responder ∧
    (callHandler handler header param_data s).2.g_active_device = s.g_active_device ∧
    (handler ≠ PIDCommandHandler.DimmerModel_CapturePreset →
      handler ≠ PIDCommandHandler.DimmerModel_SetPresetStatus →
      (callHandler handler header param_data s).2.g_root_device.scenes =
        s.g_root_device.scenes) := by
  have hr := ResetToBlockAddress_frame (ExtractUInt16 param_data 0) s
  cases handler <;>
    simp only [callHandler, RDMResponder_GetSupportedParameters, RDMResponder_GetDeviceInfo,
      RDMResponder_GetProductDetailIds, RDMResponder_GetDeviceModelDescription,
      RDMResponder_GetManufacturerLabel, RDMResponder_GetDeviceLabel,
      RDMResponder_SetDeviceLabel, RDMResponder_GetSoftwareVersionLabel,
      RDMResponder_GetIdentifyDevice, RDMResponder_SetIdentifyDevice,
      RDMResponder_GetDMXStartAddress, RDMResponder_SetDMXStartAddress,
      DimmerModel_CapturePreset, DimmerModel_GetPresetPlayback,
      DimmerModel_SetPresetPlayback, DimmerModel_GetDMXBlockAddress,
      DimmerModel_SetDMXBlockAddress, DimmerModel_GetDMXFailMode,
      DimmerModel_SetDMXFailMode, DimmerModel_GetDMXStartupMode,
      DimmerModel_SetDMXStartupMode, DimmerModel_GetLockPin, DimmerModel_SetLockPin,
      DimmerModel_GetLockState, DimmerModel_SetLockState,
      DimmerModel_GetLockStateDescription, DimmerModel_GetPresetInfo,
      DimmerModel_GetPresetStatus, DimmerModel_SetPresetStatus,
      DimmerModel_GetPresetMergeMode, DimmerModel_SetPresetMergeMode,
      DimmerModel_GetPowerOnSelfTest, DimmerModel_SetPowerOnSelfTest,
      DimmerModel_GetBurnIn, DimmerModel_SetBurnIn, DimmerModel_GetIdentifyMode,
      DimmerModel_SetIdentifyMode, DimmerModel_GetDimmerInfo,
      DimmerModel_GetMinimumLevel, DimmerModel_SetMinimumLevel,
      DimmerModel_GetMaximumLevel, DimmerModel_SetMaximumLevel, DimmerModel_GetCurve,
      DimmerModel_SetCurve, DimmerModel_GetCurveDescription,
      DimmerModel_GetOutputResponseTime, DimmerModel_SetOutputResponseTime,
      DimmerModel_GetOutputResponseDescription, DimmerModel_GetModulationFrequency,
      DimmerModel_SetModulationFrequency,
      DimmerModel_GetModulationFrequencyDescription] <;>
    (try split_ifs) <;>
    simp_all

theorem SceneArray_get_set_ne (a : SceneArray) (i j : Nat) (v : Scene)
    (hj : j < 3) (hne : j ≠ i) : (a.set i v).get j = a.get j := by
  have hj' : j = 0 ∨ j = 1 ∨ j = 2 := by omega
  match i with
  | 0 => rcases hj' with rfl | rfl | rfl <;> simp_all [SceneArray.get, SceneArray.set]
  | 1 => rcases hj' with rfl | rfl | rfl <;> simp_all [SceneArray.get, SceneArray.set]
  | 2 => rcases hj' with rfl | rfl | rfl <;> simp_all [SceneArray.get, SceneArray.set]
  | (n + 3) => rfl

theorem readOnlyScenesKept_refl (s : State) : readOnlyScenesKept s s := by
  intro j _ _
  rfl

theorem readOnlyScenesKept_trans (s t u : State) (h1 : readOnlyScenesKept s t)
    (h2 : readOnlyScenesKept t u) : readOnlyScenesKept s u := by
  intro j hj hro
  have e1 := h1 j hj hro
  have e2 := h2 j hj (by rw [e1]; exact hro)
  rw [e2, e1]

theorem readOnlyScenesKept_of_scenes_eq (s t : State)
    (h : t.g_root_device.scenes = s.g_root_device.scenes) : readOnlyScenesKept s t := by
  intro j _ _
  rw [h]

/-- Writing a scene that is not read-only keeps the read-only scenes. -/
theorem readOnlyScenesKept_set (s t : State) (i : Nat) (v : Scene)
    (hi : (s.g_root_device.scenes.get i).programmed_state ≠ PRESET_PROGRAMMED_READ_ONLY)
    (ht : t.g_root_device.scenes = s.g_root_device.scenes.set i v) :
    readOnlyScenesKept s t := by
  intro j hj hro
  rw [ht]
  apply SceneArray_get_set_ne _ _ _ _ hj
  intro hji
  rw [hji] at hro
  exact hi hro

theorem CapturePreset_readOnlyScenesKept (header : RDMHeader) (param_data : List Nat)
    (s : State) :
    readOnlyScenesKept s (DimmerModel_CapturePreset header param_data s).2 := by
  simp only [DimmerModel_CapturePreset]
  split_ifs with c1 c2 c3
  · exact readOnlyScenesKept_refl s
  · exact readOnlyScenesKept_refl s
  · exact readOnlyScenesKept_refl s
  · exact readOnlyScenesKept_set s _ _ _ c3 rfl

theorem SetPresetStatus_readOnlyScenesKept (header : RDMHeader) (param_data : List Nat)
    (s : State) :
    readOnlyScenesKept s (DimmerModel_SetPresetStatus header param_data s).2 := by
  simp only [DimmerModel_SetPresetStatus]
  split_ifs with c1 c2 c3 c4 c5
  · exact readOnlyScenesKept_refl s
  · exact readOnlyScenesKept_refl s
  · exact readOnlyScenesKept_refl s
  · exact readOnlyScenesKept_refl s
  · exact readOnlyScenesKept_set s _ _ _ c3 rfl
  · exact readOnlyScenesKept_set s _ _ _ c3 rfl

theorem callHandler_readOnlyScenesKept (handler : PIDCommandHandler)
    (header : RDMHeader) (param_data : List Nat) (s : State) :
    readOnlyScenesKept s (callHandler handler header param_data s).2 := by
  by_cases h1 : handler = PIDCommandHandler.DimmerModel_CapturePreset
  · rw [h1]
    exact CapturePreset_readOnlyScenesKept header param_data s
  · by_cases h2 : handler = PIDCommandHandler.DimmerModel_SetPresetStatus
    · rw [h2]
      exact SetPresetStatus_readOnlyScenesKept header param_data s
    · exact readOnlyScenesKept_of_scenes_eq _ _
        ((callHandler_frame handler header param_data s).2.2 h1 h2)

/-- `RDMResponder_DispatchPID` returns a NACK on the unchanged state or the
result of one handler. -/
theorem DispatchPID_cases (header : RDMHeader) (param_data : List Nat) (s : State) :
    (∃ reason, RDMResponder_DispatchPID header param_data s = (Response.NACK reason, s)) ∨
    (∃ handler, RDMResponder_DispatchPID header param_data s =
      callHandler handler header param_data s) := by
  simp only [RDMResponder_DispatchPID, RDMResponder_BuildNack]
  repeat' split
  all_goals first
    | exact Or.inl ⟨_, rfl⟩
    | exact Or.inr ⟨_, rfl⟩

theorem DispatchPID_frame (header : RDMHeader) (param_data : List Nat) (s : State) :
    (RDMResponder_DispatchPID header param_data s).2.g_responder = s.g_responder ∧
    (RDMResponder_DispatchPID header param_data s).2.g_active_device =
      s.g_active_device ∧
    readOnlyScenesKept s (RDMResponder_DispatchPID header param_data s).2 := by
  rcases DispatchPID_cases header param_data s with ⟨reason, h⟩ | ⟨handler, h⟩
  · rw [h]
    exact ⟨rfl, rfl, readOnlyScenesKept_refl s⟩
  · rw [h]
    exact ⟨(callHandler_frame handler header param_data s).1,
      (callHandler_frame handler header param_data s).2.1,
      callHandler_readOnlyScenesKept handler header param_data s⟩

theorem HandleDiscovery_frame (header : RDMHeader) (param_data : List Nat) (s : State) :
    (RDMResponder_HandleDiscovery header param_data s).2.g_responder = s.g_responder ∧
    (RDMResponder_HandleDiscovery header param_data s).2.g_active_device =
      s.g_active_device ∧
    (RDMResponder_HandleDiscovery header param_data s).2.g_root_device =
      s.g_root_device := by
  simp only [RDMResponder_HandleDiscovery]
  split_ifs <;> simp

/-! ## The sub-device loop of `DimmerModel_HandleRequest` in general -/

theorem handleSubDevice_eq (header : RDMHeader) (param_data : List Nat)
    (sub_device : Nat) (locked : Bool) (acc : SubDeviceLoop) (i : Nat) :
    handleSubDevice header param_data sub_device locked acc i =
      if sub_device = (acc.state.g_subdevices.get i).index ∨
          sub_device = SUBDEVICE_ALL then
        if locked = false then
          { state := (dispatchSubDevice header param_data acc.state i).2
            handled := true
            response_size := (dispatchSubDevice header param_data acc.state i).1 }
        else
          { acc with handled := true }
      else acc := by
  simp only [handleSubDevice, dispatchSubDevice]
  cases locked <;> simp

theorem dispatchSubDevice_readOnlyScenesKept (header : RDMHeader)
    (param_data : List Nat) (s : State) (i : Nat) :
    readOnlyScenesKept s (dispatchSubDevice header param_data s i).2 := by
  apply readOnlyScenesKept_trans s
    { s with g_active_device := some i, g_responder := ResponderRef.subdevice i }
  · exact readOnlyScenesKept_of_scenes_eq _ _ rfl
  · exact (DispatchPID_frame header param_data _).2.2

theorem foldl_handleSubDevice_readOnlyScenesKept (header : RDMHeader)
    (param_data : List Nat) (sub_device : Nat) (locked : Bool) (l : List Nat)
    (acc : SubDeviceLoop) :
    readOnlyScenesKept acc.state
      (l.foldl (handleSubDevice header param_data sub_device locked) acc).state := by
  induction l generalizing acc with
  | nil => exact readOnlyScenesKept_refl _
  | cons i l ih =>
    simp only [List.foldl_cons]
    apply readOnlyScenesKept_trans _ _ _ _
      (ih (handleSubDevice header param_data sub_device locked acc i))
    rw [handleSubDevice_eq]
    split_ifs
    · exact dispatchSubDevice_readOnlyScenesKept header param_data acc.state i
    · exact readOnlyScenesKept_refl _
    · exact readOnlyScenesKept_refl _

/-- When no sub-device carries the number and it is not `SUBDEVICE_ALL`, the
loop does nothing. -/
theorem foldl_handleSubDevice_absent (header : RDMHeader) (param_data : List Nat)
    (sub_device : Nat) (locked : Bool) (l : List Nat) (acc : SubDeviceLoop)
    (hl : ∀ i, i ∈ l → i < NUMBER_OF_SUB_DEVICES)
    (hall : sub_device ≠ SUBDEVICE_ALL)
    (habsent : ¬ acc.state.hasSubDevice sub_device) :
    l.foldl (handleSubDevice header param_data sub_device locked) acc = acc := by
  induction l with
  | nil => rfl
  | cons i l ih =>
    have hstep : handleSubDevice header param_data sub_device locked acc i = acc := by
      rw [handleSubDevice_eq]
      have hne : ¬ (sub_device = (acc.state.g_subdevices.get i).index ∨
          sub_device = SUBDEVICE_ALL) := by
        rintro (h | h)
        · exact habsent ⟨i, hl i (by simp), h.symm⟩
        · exact hall h
      simp [hne]
    simp only [List.foldl_cons, hstep]
    exact ih (fun j hj => hl j (by simp [hj]))

/-- What `DimmerModel_HandleRequest` does, branch by branch. -/
theorem HandleRequest_eq (header : RDMHeader) (param_data : List Nat) (s : State) :
    DimmerModel_HandleRequest header param_data s =
      if RDMUtil_RequiresAction s.responder.uid header.dest_uid = false then
        (Response.NO_RESPONSE, s)
      else if header.command_class = DISCOVERY_COMMAND then
        RDMResponder_HandleDiscovery header param_data s
      else if header.command_class = GET_COMMAND ∧ header.sub_device = SUBDEVICE_ALL then
        (Response.NACK RDMNackReason.NR_SUB_DEVICE_OUT_OF_RANGE, s)
      else if header.sub_device = SUBDEVICE_ROOT then
        if header.command_class = SET_COMMAND ∧
            s.g_root_device.lock_state = LOCK_STATE_ALL_LOCKED then
          (Response.NACK RDMNackReason.NR_WRITE_PROTECT, s)
        else
          RDMResponder_DispatchPID header param_data s
      else if ((List.range NUMBER_OF_SUB_DEVICES).foldl
          (handleSubDevice header param_data header.sub_device
            (decide (header.command_class = SET_COMMAND ∧
              (s.g_root_device.lock_state = LOCK_STATE_ALL_LOCKED ∨
                s.g_root_device.lock_state = LOCK_STATE_SUBDEVICES_LOCKED))))
          { state := s, handled := false, response_size := Response.NO_RESPONSE }).handled
            = false then
        (Response.NACK RDMNackReason.NR_SUB_DEVICE_OUT_OF_RANGE,
         { ((List.range NUMBER_OF_SUB_DEVICES).foldl
            (handleSubDevice header param_data header.sub_device
              (decide (header.command_class = SET_COMMAND ∧
                (s.g_root_device.lock_state = LOCK_STATE_ALL_LOCKED ∨
                  s.g_root_device.lock_state = LOCK_STATE_SUBDEVICES_LOCKED))))
            { state := s, handled := false,
              response_size := Response.NO_RESPONSE }).state with
           g_responder := s.g_responder })
      else if header.command_class = SET_COMMAND ∧
          (s.g_root_device.lock_state = LOCK_STATE_ALL_LOCKED ∨
            s.g_root_device.lock_state = LOCK_STATE_SUBDEVICES_LOCKED) then
        (Response.NACK RDMNackReason.NR_WRITE_PROTECT,
         { ((List.range NUMBER_OF_SUB_DEVICES).foldl
            (handleSubDevice header param_data header.sub_device
              (decide (header.command_class = SET_COMMAND ∧
                (s.g_root_device.lock_state = LOCK_STATE_ALL_LOCKED ∨
                  s.g_root_device.lock_state = LOCK_STATE_SUBDEVICES_LOCKED))))
            { state := s, handled := false,
              response_size := Response.NO_RESPONSE }).state with
           g_responder := s.g_responder })
      else
        (((List.range NUMBER_OF_SUB_DEVICES).foldl
            (handleSubDevice header param_data header.sub_device
              (decide (header.command_class = SET_COMMAND ∧
                (s.g_root_device.lock_state = LOCK_STATE_ALL_LOCKED ∨
                  s.g_root_device.lock_state = LOCK_STATE_SUBDEVICES_LOCKED))))
            { state := s, handled := false,
              response_size := Response.NO_RESPONSE }).response_size,
         { ((List.range NUMBER_OF_SUB_DEVICES).foldl
            (handleSubDevice header param_data header.sub_device
              (decide (header.command_class = SET_COMMAND ∧
                (s.g_root_device.lock_state = LOCK_STATE_ALL_LOCKED ∨
                  s.g_root_device.lock_state = LOCK_STATE_SUBDEVICES_LOCKED))))
            { state := s, handled := false,
              response_size := Response.NO_RESPONSE }).state with
           g_responder := s.g_responder }) := by
  simp only [DimmerModel_HandleRequest, ntohs, RDMResponder_BuildNack]
  by_cases ha : RDMUtil_RequiresAction s.responder.uid header.dest_uid = false
  · simp [ha]
  · by_cases hd : header.command_class = DISCOVERY_COMMAND
    · simp [ha, hd]
    · by_cases hg : header.command_class = GET_COMMAND ∧ header.sub_device = SUBDEVICE_ALL
      · simp [ha, hd, hg]
      · by_cases hr : header.sub_device = SUBDEVICE_ROOT
        · by_cases hs : header.command_class = SET_COMMAND <;>
            by_cases hl : s.g_root_device.lock_state = LOCK_STATE_ALL_LOCKED <;>
            simp [ha, hd, hg, hr, hs, hl]
        · by_cases hs : header.command_class = SET_COMMAND <;>
            by_cases hl : s.g_root_device.lock_state = LOCK_STATE_ALL_LOCKED <;>
            by_cases hl2 : s.g_root_device.lock_state = LOCK_STATE_SUBDEVICES_LOCKED <;>
            simp [ha, hd, hg, hr, hs, hl, hl2]

/-! ## Initialisation and activation: the root device -/

theorem ResetToFactoryDefaults_g_root_device (s : State) :
    (RDMResponder_ResetToFactoryDefaults s).g_root_device = s.g_root_device := by
  simp [RDMResponder_ResetToFactoryDefaults]

theorem initSubDevice_g_root_device (temp : ResponderRef) (acc : Nat × State) (i : Nat) :
    (initSubDevice temp acc i).2.g_root_device = acc.2.g_root_device := by
  simp only [initSubDevice, setResponder_g_root_device,
    ResetToFactoryDefaults_g_root_device]

theorem foldl_initSubDevice_g_root_device (temp : ResponderRef) (l : List Nat)
    (acc : Nat × State) :
    (l.foldl (initSubDevice temp) acc).2.g_root_device = acc.2.g_root_device := by
  induction l generalizing acc with
  | nil => rfl
  | cons i l ih =>
    simp only [List.foldl_cons]
    rw [ih, initSubDevice_g_root_device]

theorem foldl_initStartAddress_g_root_device (l : List Nat) (s : State) :
    (l.foldl initStartAddress s).g_root_device = s.g_root_device := by
  induction l generalizing s with
  | nil => rfl
  | cons i l ih =>
    simp only [List.foldl_cons]
    rw [ih]
    rfl

/-- The part of `DimmerModel_Initialize` after the root device is set up (the
sub-device loop, the restore and the block address) leaves the root device
state alone. -/
theorem Initialize_tail_g_root_device (temp : ResponderRef) (s : State) :
    (if !(ResetToBlockAddress INITIAL_START_ADDRESSS
          { ((List.range NUMBER_OF_SUB_DEVICES).foldl (initSubDevice temp) (1, s)).2 with
            g_responder := temp }).1 then
        (List.range NUMBER_OF_SUB_DEVICES).foldl initStartAddress
          (ResetToBlockAddress INITIAL_START_ADDRESSS
            { ((List.range NUMBER_OF_SUB_DEVICES).foldl (initSubDevice temp) (1, s)).2 with
              g_responder := temp }).2
      else
        (ResetToBlockAddress INITIAL_START_ADDRESSS
          { ((List.range NUMBER_OF_SUB_DEVICES).foldl (initSubDevice temp) (1, s)).2 with
            g_responder := temp }).2).g_root_device = s.g_root_device := by
  have h2 := foldl_initSubDevice_g_root_device temp (List.range NUMBER_OF_SUB_DEVICES) (1, s)
  simp only [] at h2
  generalize ((List.range NUMBER_OF_SUB_DEVICES).foldl (initSubDevice temp) (1, s)).2 = t
    at h2 ⊢
  have h1 := (ResetToBlockAddress_frame INITIAL_START_ADDRESSS
    { t with g_responder := temp }).2.2.1
  generalize ResetToBlockAddress INITIAL_START_ADDRESSS { t with g_responder := temp } = r
    at h1 ⊢
  have h3 : ({ t with g_responder := temp } : State).g_root_device = t.g_root_device := rfl
  split_ifs
  · rw [foldl_initStartAddress_g_root_device, h1, h3, h2]
  · rw [h1, h3, h2]

/-- The root device state after `DimmerModel_Initialize`: every field is set
except `power_on_self_test`, which keeps its value. -/
theorem Initialize_g_root_device (s : State) :
    (DimmerModel_Initialize s).g_root_device =
      { scenes :=
          { e0 := { up_fade_time := 0, down_fade_time := 0, wait_time := 0
                    programmed_state := PRESET_PROGRAMMED_READ_ONLY }
            e1 := { up_fade_time := 0, down_fade_time := 0, wait_time := 0
                    programmed_state := PRESET_NOT_PROGRAMMED }
            e2 := { up_fade_time := 0, down_fade_time := 0, wait_time := 0
                    programmed_state := PRESET_NOT_PROGRAMMED } }
        playback_mode := PRESET_PLAYBACK_OFF
        startup_scene := PRESET_PLAYBACK_OFF
        startup_delay := 0
        startup_hold := 0
        fail_scene := PRESET_PLAYBACK_OFF
        fail_loss_of_signal_delay := 0
        fail_hold_time := 0
        pin_code := 0
        fail_level := 0
        startup_level := 0
        playback_level := 0
        lock_state := 0
        merge_mode := MERGE_MODE_DEFAULT
        power_on_self_test := s.g_root_device.power_on_self_test } := by
  have hscenes : (List.range NUMBER_OF_SCENES).foldl initScene s.g_root_device.scenes =
      { e0 := { up_fade_time := 0, down_fade_time := 0, wait_time := 0
                programmed_state := PRESET_PROGRAMMED_READ_ONLY }
        e1 := { up_fade_time := 0, down_fade_time := 0, wait_time := 0
                programmed_state := PRESET_NOT_PROGRAMMED }
        e2 := { up_fade_time := 0, down_fade_time := 0, wait_time := 0
                programmed_state := PRESET_NOT_PROGRAMMED } } := by
    have hr : List.range NUMBER_OF_SCENES = [0, 1, 2] := by decide
    simp [hr, initScene, SceneArray.set]
  have key : ∀ t, DimmerModel_Initialize s = t → t.g_root_device =
      { scenes :=
          { e0 := { up_fade_time := 0, down_fade_time := 0, wait_time := 0
                    programmed_state := PRESET_PROGRAMMED_READ_ONLY }
            e1 := { up_fade_time := 0, down_fade_time := 0, wait_time := 0
                    programmed_state := PRESET_NOT_PROGRAMMED }
            e2 := { up_fade_time := 0, down_fade_time := 0, wait_time := 0
                    programmed_state := PRESET_NOT_PROGRAMMED } }
        playback_mode := PRESET_PLAYBACK_OFF
        startup_scene := PRESET_PLAYBACK_OFF
        startup_delay := 0
        startup_hold := 0
        fail_scene := PRESET_PLAYBACK_OFF
        fail_loss_of_signal_delay := 0
        fail_hold_time := 0
        pin_code := 0
        fail_level := 0
        startup_level := 0
        playback_level := 0
        lock_state := 0
        merge_mode := MERGE_MODE_DEFAULT
        power_on_self_test := s.g_root_device.power_on_self_test } := by
    intro t ht
    rw [DimmerModel_Initialize] at ht
    rw [← ht, Initialize_tail_g_root_device]
    simp only [hscenes]
  exact key _ rfl

theorem Initialize_scene_0 (s : State) :
    (DimmerModel_Initialize s).g_root_device.scenes.get 0 =
      { up_fade_time := 0
        down_fade_time := 0
        wait_time := 0
        programmed_state := PRESET_PROGRAMMED_READ_ONLY } := by
  rw [Initialize_g_root_device]
  rfl

/-- `DimmerModel_Activate` does not touch the root device state. -/
theorem Activate_g_root_device (s : State) :
    (DimmerModel_Activate s).g_root_device = s.g_root_device := by
  simp [DimmerModel_Activate, ResetToFactoryDefaults_g_root_device]

/-! ## Sub-device routing (C15 – C18) -/

theorem factoryState_hasSubDevice (sub_device : Nat) :
    factoryState.hasSubDevice sub_device ↔
      (sub_device = 1 ∨ sub_device = 3 ∨ sub_device = 4 ∨ sub_device = 5) := by
  have e0 : (factoryState.g_subdevices.get 0).index = 1 := by decide
  have e1 : (factoryState.g_subdevices.get 1).index = 3 := by decide
  have e2 : (factoryState.g_subdevices.get 2).index = 4 := by decide
  have e3 : (factoryState.g_subdevices.get 3).index = 5 := by decide
  constructor
  · rintro ⟨i, hi, h⟩
    simp only [NUMBER_OF_SUB_DEVICES] at hi
    have hi' : i = 0 ∨ i = 1 ∨ i = 2 ∨ i = 3 := by omega
    rcases hi' with rfl | rfl | rfl | rfl <;> omega
  · rintro (h | h | h | h)
    · exact ⟨0, by decide, by omega⟩
    · exact ⟨1, by decide, by omega⟩
    · exact ⟨2, by decide, by omega⟩
    · exact ⟨3, by decide, by omega⟩

/-- C15: for every GET or SET request addressed to this responder whose
sub-device field is neither 0, 0xFFFF, nor the number of an existing
sub-device, `DimmerModel_HandleRequest` returns NACK `SUB_DEVICE_OUT_OF_RANGE`
on the unchanged state, and no pass of the sub-device loop dispatches (each
pass returns the loop variables as they were), whatever the lock state. In the
factory state the sub-devices are 1, 3, 4 and 5, so this holds for sub-device
2 and for every value above 0x0200 other than 0xFFFF. -/
theorem absent_subdevice_out_of_range (header : RDMHeader) (param_data : List Nat)
    (s : State)
    (hact : RDMUtil_RequiresAction s.responder.uid header.dest_uid = true)
    (hclass : header.command_class = GET_COMMAND ∨ header.command_class = SET_COMMAND)
    (hroot : header.sub_device ≠ SUBDEVICE_ROOT)
    (hall : header.sub_device ≠ SUBDEVICE_ALL)
    (habsent : ¬ s.hasSubDevice header.sub_device) :
    DimmerModel_HandleRequest header param_data s =
      (Response.NACK RDMNackReason.NR_SUB_DEVICE_OUT_OF_RANGE, s) ∧
    (∀ (locked : Bool) (i : Nat), i < NUMBER_OF_SUB_DEVICES →
      handleSubDevice header param_data header.sub_device locked
        { state := s, handled := false, response_size := Response.NO_RESPONSE } i =
        { state := s, handled := false, response_size := Response.NO_RESPONSE }) ∧
    (∀ sub_device, (sub_device = 2 ∨ (sub_device > 0x0200 ∧ sub_device ≠ 0xffff)) →
      sub_device ≠ SUBDEVICE_ROOT ∧ sub_device ≠ SUBDEVICE_ALL ∧
        ¬ factoryState.hasSubDevice sub_device) := by
  refine ⟨?_, ?_, ?_⟩
  · have hfold := fun locked => foldl_handleSubDevice_absent header param_data
      header.sub_device locked (List.range NUMBER_OF_SUB_DEVICES)
      { state := s, handled := false, response_size := Response.NO_RESPONSE }
      (fun i hi => List.mem_range.mp hi) hall habsent
    have hd : header.command_class ≠ DISCOVERY_COMMAND := by
      rcases hclass with h | h <;> rw [h] <;> decide
    rw [HandleRequest_eq]
    simp only [hfold, hact, hd, hroot, hall, and_false, if_false, if_true, state_restore,
      Bool.true_eq_false]
  · intro locked i hi
    have := foldl_handleSubDevice_absent header param_data header.sub_device locked [i]
      { state := s, handled := false, response_size := Response.NO_RESPONSE }
      (fun j hj => by simp at hj; omega) hall habsent
    simpa using this
  · intro sub_device h
    rw [factoryState_hasSubDevice]
    simp only [SUBDEVICE_ROOT, SUBDEVICE_ALL]
    omega

/-- Witness for C15: a GET `DEVICE_INFO` to sub-device 2 in the factory
state. -/
theorem absent_subdevice_out_of_range_witness :
    DimmerModel_HandleRequest (request GET_COMMAND 2 PID_DEVICE_INFO []) []
      factoryState =
        (Response.NACK RDMNackReason.NR_SUB_DEVICE_OUT_OF_RANGE, factoryState) :=
  (absent_subdevice_out_of_range (request GET_COMMAND 2 PID_DEVICE_INFO []) []
    factoryState (by decide) (by decide) (by decide) (by decide) (by decide)).1

/-- C16: a GET request addressed to this responder with sub-device field
`SUBDEVICE_ALL` (0xFFFF) returns NACK `SUB_DEVICE_OUT_OF_RANGE` for every PID,
every parameter data and every lock state, and the state is unchanged: the
function returns before the sub-device loop, so no sub-device is dispatched
to. -/
theorem get_all_subdevices_out_of_range (header : RDMHeader) (param_data : List Nat)
    (s : State)
    (hact : RDMUtil_RequiresAction s.responder.uid header.dest_uid = true)
    (hget : header.command_class = GET_COMMAND)
    (hall : header.sub_device = SUBDEVICE_ALL) :
    DimmerModel_HandleRequest header param_data s =
      (Response.NACK RDMNackReason.NR_SUB_DEVICE_OUT_OF_RANGE, s) := by
  have hd : GET_COMMAND ≠ DISCOVERY_COMMAND := by decide
  rw [HandleRequest_eq]
  simp [hact, hget, hall, hd]

/-- Witness for C16: a GET `CURVE` to all sub-devices in the all-locked state
of scenario 4. -/
theorem get_all_subdevices_out_of_range_witness :
    DimmerModel_HandleRequest (request GET_COMMAND SUBDEVICE_ALL PID_CURVE []) []
      allLockedState =
        (Response.NACK RDMNackReason.NR_SUB_DEVICE_OUT_OF_RANGE, allLockedState) :=
  get_all_subdevices_out_of_range (request GET_COMMAND SUBDEVICE_ALL PID_CURVE []) []
    allLockedState (by decide) (by decide) (by decide)

/-- C18: for every request (any command class, sub-device, PID, parameter data
and lock state, whatever the response), `g_responder` after
`DimmerModel_HandleRequest` equals `g_responder` before the call. -/
theorem HandleRequest_restores_g_responder (header : RDMHeader) (param_data : List Nat)
    (s : State) :
    (DimmerModel_HandleRequest header param_data s).2.g_responder = s.g_responder := by
  rw [HandleRequest_eq]
  split_ifs
  · rfl
  · exact (HandleDiscovery_frame header param_data s).1
  · rfl
  · rfl
  · exact (DispatchPID_frame header param_data s).1
  · rfl
  · rfl
  · rfl

/-- C12: a scene whose `programmed_state` is read-only is never mutated: for
every request handled by `DimmerModel_HandleRequest`, a scene that is
read-only before the request is the same after it (fade times, wait time and
`programmed_state`); hence in every reachable state scene 1 (array element 0),
read-only after `DimmerModel_Initialize`, is read-only with zero timings. -/
theorem read_only_scene_never_mutated (header : RDMHeader) (param_data : List Nat)
    (s : State) :
    (∀ j, j < NUMBER_OF_SCENES →
      (s.g_root_device.scenes.get j).programmed_state = PRESET_PROGRAMMED_READ_ONLY →
      (DimmerModel_HandleRequest header param_data s).2.g_root_device.scenes.get j =
        s.g_root_device.scenes.get j) ∧
    (∀ t, Reachable t →
      t.g_root_device.scenes.get 0 =
        { up_fade_time := 0
          down_fade_time := 0
          wait_time := 0
          programmed_state := PRESET_PROGRAMMED_READ_ONLY }) := by
  have key : ∀ (header : RDMHeader) (param_data : List Nat) (s : State),
      readOnlyScenesKept s (DimmerModel_HandleRequest header param_data s).2 := by
    intro header param_data s
    have hloop := fun locked => foldl_handleSubDevice_readOnlyScenesKept header
      param_data header.sub_device locked (List.range NUMBER_OF_SUB_DEVICES)
      { state := s, handled := false, response_size := Response.NO_RESPONSE }
    have hrestore : ∀ t : State,
        readOnlyScenesKept t { t with g_responder := s.g_responder } :=
      fun t => readOnlyScenesKept_of_scenes_eq _ _ rfl
    rw [HandleRequest_eq]
    split_ifs
    · exact readOnlyScenesKept_refl s
    · exact readOnlyScenesKept_of_scenes_eq _ _
        (by rw [(HandleDiscovery_frame header param_data s).2.2])
    · exact readOnlyScenesKept_refl s
    · exact readOnlyScenesKept_refl s
    · exact (DispatchPID_frame header param_data s).2.2
    · exact readOnlyScenesKept_trans _ _ _ (hloop _) (hrestore _)
    · exact readOnlyScenesKept_trans _ _ _ (hloop _) (hrestore _)
    · exact readOnlyScenesKept_trans _ _ _ (hloop _) (hrestore _)
  refine ⟨key header param_data s, ?_⟩
  intro t ht
  induction ht with
  | start s0 => exact Initialize_scene_0 s0
  | activate s0 _ ih =>
    rw [Activate_g_root_device]
    exact ih
  | handle s0 hdr p _ ih =>
    rw [key hdr p s0 0 (by decide) (by rw [ih])]
    exact ih

/-- Witness for C12: in the factory state scene 1 (array element 0) is
read-only, and a SET `PRESET_STATUS` that asks to clear it leaves it as it
was. -/
theorem read_only_scene_never_mutated_witness :
    (DimmerModel_HandleRequest
      (request SET_COMMAND SUBDEVICE_ROOT PID_PRESET_STATUS
        [0x00, 0x01, 0x00, 0x00, 0x00, 0x00, 0x00, 0x00, 0x01])
      [0x00, 0x01, 0x00, 0x00, 0x00, 0x00, 0x00, 0x00, 0x01]
      factoryState).2.g_root_device.scenes.get 0 =
        factoryState.g_root_device.scenes.get 0 :=
  (read_only_scene_never_mutated
    (request SET_COMMAND SUBDEVICE_ROOT PID_PRESET_STATUS
      [0x00, 0x01, 0x00, 0x00, 0x00, 0x00, 0x00, 0x00, 0x01])
    [0x00, 0x01, 0x00, 0x00, 0x00, 0x00, 0x00, 0x00, 0x01] factoryState).1 0
    (by decide) (by decide)

/-- With `SUBDEVICE_ALL` and no lock, one pass of the sub-device loop is one
dispatch. -/
theorem handleSubDevice_all (header : RDMHeader) (param_data : List Nat)
    (acc : SubDeviceLoop) (i : Nat) :
    handleSubDevice header param_data SUBDEVICE_ALL false acc i =
      { state := (dispatchSubDevice header param_data acc.state i).2
        handled := true
        response_size := (dispatchSubDevice header param_data acc.state i).1 } := by
  rw [handleSubDevice_eq]
  simp

/-- A SET to all sub-devices that the lock permits: the four dispatches in
array order, the last response, and the restore of `g_responder`. -/
theorem HandleRequest_set_all (header : RDMHeader) (param_data : List Nat) (s : State)
    (hact : RDMUtil_RequiresAction s.responder.uid header.dest_uid = true)
    (hset : header.command_class = SET_COMMAND)
    (hall : header.sub_device = SUBDEVICE_ALL)
    (hlock : s.g_root_device.lock_state ≠ LOCK_STATE_ALL_LOCKED ∧
      s.g_root_device.lock_state ≠ LOCK_STATE_SUBDEVICES_LOCKED) :
    DimmerModel_HandleRequest header param_data s =
      ((dispatchSubDevice header param_data
          (dispatchSubDevice header param_data
            (dispatchSubDevice header param_data
              (dispatchSubDevice header param_data s 0).2 1).2 2).2 3).1,
       { (dispatchSubDevice header param_data
          (dispatchSubDevice header param_data
            (dispatchSubDevice header param_data
              (dispatchSubDevice header param_data s 0).2 1).2 2).2 3).2 with
         g_responder := s.g_responder }) := by
  have hd : SET_COMMAND ≠ DISCOVERY_COMMAND := by decide
  have hg : SET_COMMAND ≠ GET_COMMAND := by decide
  have hr : SUBDEVICE_ALL ≠ SUBDEVICE_ROOT := by decide
  have hl : ¬ (s.g_root_device.lock_state = LOCK_STATE_ALL_LOCKED ∨
      s.g_root_device.lock_state = LOCK_STATE_SUBDEVICES_LOCKED) := by
    rintro (h | h)
    · exact hlock.1 h
    · exact hlock.2 h
  rw [HandleRequest_eq]
  simp only [hact, hset, hall, hd, hg, hr, hl, and_false, false_and, if_false,
    decide_False, range_sub_devices, List.foldl, handleSubDevice_all,
    Bool.true_eq_false]

theorem SubDeviceArray_get_set (a : SubDeviceArray) (i j : Nat) (v : DimmerSubDevice)
    (hi : i < 4) (hj : j < 4) :
    (a.set i v).get j = if j = i then v else a.get j := by
  have hi' : i = 0 ∨ i = 1 ∨ i = 2 ∨ i = 3 := by omega
  have hj' : j = 0 ∨ j = 1 ∨ j = 2 ∨ j = 3 := by omega
  rcases hi' with rfl | rfl | rfl | rfl <;> rcases hj' with rfl | rfl | rfl | rfl <;>
    simp [SubDeviceArray.get, SubDeviceArray.set]

/-- A SET of a sub-device PID, dispatched to `g_subdevices[i]` whose
definition points to the sub-device table, reaches the handler of the table
entry. -/
theorem dispatchSubDevice_set (header : RDMHeader) (param_data : List Nat) (s : State)
    (i : Nat) (descriptor : PIDDescriptor) (handler : PIDCommandHandler)
    (hset : header.command_class = SET_COMMAND)
    (hdef : (s.g_subdevices.get i).responder.definition.descriptors =
      DescriptorTable.SUBDEVICE_PID_DESCRIPTORS)
    (hfind : SUBDEVICE_PID_DESCRIPTORS.find?
      (fun descriptor => descriptor.pid == header.param_id) = some descriptor)
    (hhandler : descriptor.set_handler = some handler) :
    dispatchSubDevice header param_data s i =
      callHandler handler header param_data
        { s with g_active_device := some i, g_responder := ResponderRef.subdevice i } := by
  have hg : SET_COMMAND ≠ GET_COMMAND := by decide
  have hresp : ({ s with
      g_active_device := some i
      g_responder := ResponderRef.subdevice i } : State).responder =
      (s.g_subdevices.get i).responder := rfl
  simp only [dispatchSubDevice, RDMResponder_DispatchPID, hresp, hdef,
    DescriptorTable.entries, ntohs, hfind, hset, hg, if_false, if_true, hhandler]

/-- An accepted SET `MODULATION_FREQUENCY` dispatched to `g_subdevices[i]`. -/
theorem dispatchSubDevice_modulation_frequency (header : RDMHeader)
    (param_data : List Nat) (s : State) (i : Nat)
    (hset : header.command_class = SET_COMMAND)
    (hpid : header.param_id = PID_MODULATION_FREQUENCY)
    (hdef : (s.g_subdevices.get i).responder.definition.descriptors =
      DescriptorTable.SUBDEVICE_PID_DESCRIPTORS)
    (hpdl : header.param_data_length = 1)
    (hv : 1 ≤ byteAt param_data 0 ∧ byteAt param_data 0 ≤ 4) :
    (dispatchSubDevice header param_data s i).1 = Response.SET_ACK ∧
    (dispatchSubDevice header param_data s i).2.g_subdevices =
      s.g_subdevices.set i
        { s.g_subdevices.get i with modulation_frequency := byteAt param_data 0 } := by
  have hfind : SUBDEVICE_PID_DESCRIPTORS.find?
      (fun descriptor => descriptor.pid == header.param_id) =
      some ⟨PID_MODULATION_FREQUENCY,
        some PIDCommandHandler.DimmerModel_GetModulationFrequency, 0,
        some PIDCommandHandler.DimmerModel_SetModulationFrequency⟩ := by
    rw [hpid]
    decide
  rw [dispatchSubDevice_set header param_data s i _ _ hset hdef hfind rfl]
  have hc : ¬ (byteAt param_data 0 = 0 ∨ 4 < byteAt param_data 0) := by omega
  simp only [callHandler, DimmerModel_SetModulationFrequency, hpdl,
    NUMBER_OF_MODULATION_FREQUENCIES, RDMResponder_BuildSetAck, ne_eq, not_true_eq_false,
    if_false, hc, gt_iff_lt, State.setActiveDevice, State.activeDevice, and_self]

/-- A refused SET `MODULATION_FREQUENCY` dispatched to `g_subdevices[i]`. -/
theorem dispatchSubDevice_modulation_frequency_nack (header : RDMHeader)
    (param_data : List Nat) (s : State) (i : Nat)
    (hset : header.command_class = SET_COMMAND)
    (hpid : header.param_id = PID_MODULATION_FREQUENCY)
    (hdef : (s.g_subdevices.get i).responder.definition.descriptors =
      DescriptorTable.SUBDEVICE_PID_DESCRIPTORS)
    (hv : ¬ (header.param_data_length = 1 ∧
      1 ≤ byteAt param_data 0 ∧ byteAt param_data 0 ≤ 4)) :
    (dispatchSubDevice header param_data s i).1 ≠ Response.SET_ACK ∧
    (dispatchSubDevice header param_data s i).2.g_subdevices = s.g_subdevices := by
  have hfind : SUBDEVICE_PID_DESCRIPTORS.find?
      (fun descriptor => descriptor.pid == header.param_id) =
      some ⟨PID_MODULATION_FREQUENCY,
        some PIDCommandHandler.DimmerModel_GetModulationFrequency, 0,
        some PIDCommandHandler.DimmerModel_SetModulationFrequency⟩ := by
    rw [hpid]
    decide
  rw [dispatchSubDevice_set header param_data s i _ _ hset hdef hfind rfl]
  simp only [callHandler, DimmerModel_SetModulationFrequency,
    NUMBER_OF_MODULATION_FREQUENCIES, RDMResponder_BuildSetAck, RDMResponder_BuildNack]
  by_cases hp : header.param_data_length = 1
  · have hc : byteAt param_data 0 = 0 ∨ 4 < byteAt param_data 0 := by
      by_contra hcon
      apply hv
      refine ⟨hp, ?_⟩
      omega
    simp [hp, hc]
  · simp [hp]

/-- C17: when the lock permits (the lock state is neither all_locked nor
subdevices_locked), a SET addressed to this responder with sub-device field
`SUBDEVICE_ALL` is dispatched to each of the four sub-devices once, in array
order, each dispatch working on the state the previous one left; the value
returned by `DimmerModel_HandleRequest` is the response of the last dispatch
(array element 3, which is sub-device 5 in the factory state). For SET
`MODULATION_FREQUENCY` on sub-devices that use the sub-device PID table, the
request is ACKed exactly when pdl = 1 and the value is in 1..4, and an ACKed
request leaves all four sub-devices with that modulation frequency. -/
theorem set_all_subdevices_applies_to_each (header : RDMHeader) (param_data : List Nat)
    (s : State)
    (hact : RDMUtil_RequiresAction s.responder.uid header.dest_uid = true)
    (hset : header.command_class = SET_COMMAND)
    (hall : header.sub_device = SUBDEVICE_ALL)
    (hlock : s.g_root_device.lock_state ≠ LOCK_STATE_ALL_LOCKED ∧
      s.g_root_device.lock_state ≠ LOCK_STATE_SUBDEVICES_LOCKED) :
    DimmerModel_HandleRequest header param_data s =
      ((dispatchSubDevice header param_data
          (dispatchSubDevice header param_data
            (dispatchSubDevice header param_data
              (dispatchSubDevice header param_data s 0).2 1).2 2).2 3).1,
       { (dispatchSubDevice header param_data
          (dispatchSubDevice header param_data
            (dispatchSubDevice header param_data
              (dispatchSubDevice header param_data s 0).2 1).2 2).2 3).2 with
         g_responder := s.g_responder }) ∧
    (factoryState.g_subdevices.get 3).index = 5 ∧
    (header.param_id = PID_MODULATION_FREQUENCY →
      (∀ i, i < 4 → (s.g_subdevices.get i).responder.definition.descriptors =
        DescriptorTable.SUBDEVICE_PID_DESCRIPTORS) →
      ((DimmerModel_HandleRequest header param_data s).1 = Response.SET_ACK ↔
        (header.param_data_length = 1 ∧
          1 ≤ byteAt param_data 0 ∧ byteAt param_data 0 ≤ 4)) ∧
      ((DimmerModel_HandleRequest header param_data s).1 = Response.SET_ACK →
        ∀ i, i < 4 →
          ((DimmerModel_HandleRequest header param_data s).2.g_subdevices.get
            i).modulation_frequency = byteAt param_data 0)) := by
  have heq := HandleRequest_set_all header param_data s hact hset hall hlock
  refine ⟨heq, by decide, ?_⟩
  intro hpid hdefs
  rw [heq]
  by_cases hv : header.param_data_length = 1 ∧
      1 ≤ byteAt param_data 0 ∧ byteAt param_data 0 ≤ 4
  · obtain ⟨r0, g0⟩ := dispatchSubDevice_modulation_frequency header param_data s 0
      hset hpid (hdefs 0 (by omega)) hv.1 hv.2
    generalize dispatchSubDevice header param_data s 0 = d0 at *
    have hd1 : (d0.2.g_subdevices.get 1).responder.definition.descriptors =
        DescriptorTable.SUBDEVICE_PID_DESCRIPTORS := by
      rw [g0, SubDeviceArray_get_set _ _ _ _ (by omega) (by omega)]
      simpa using hdefs 1 (by omega)
    obtain ⟨r1, g1⟩ := dispatchSubDevice_modulation_frequency header param_data d0.2 1
      hset hpid hd1 hv.1 hv.2
    generalize dispatchSubDevice header param_data d0.2 1 = d1 at *
    have hd2 : (d1.2.g_subdevices.get 2).responder.definition.descriptors =
        DescriptorTable.SUBDEVICE_PID_DESCRIPTORS := by
      rw [g1, SubDeviceArray_get_set _ _ _ _ (by omega) (by omega), g0,
        SubDeviceArray_get_set _ _ _ _ (by omega) (by omega)]
      simpa using hdefs 2 (by omega)
    obtain ⟨r2, g2⟩ := dispatchSubDevice_modulation_frequency header param_data d1.2 2
      hset hpid hd2 hv.1 hv.2
    generalize dispatchSubDevice header param_data d1.2 2 = d2 at *
    have hd3 : (d2.2.g_subdevices.get 3).responder.definition.descriptors =
        DescriptorTable.SUBDEVICE_PID_DESCRIPTORS := by
      rw [g2, SubDeviceArray_get_set _ _ _ _ (by omega) (by omega), g1,
        SubDeviceArray_get_set _ _ _ _ (by omega) (by omega), g0,
        SubDeviceArray_get_set _ _ _ _ (by omega) (by omega)]
      simpa using hdefs 3 (by omega)
    obtain ⟨r3, g3⟩ := dispatchSubDevice_modulation_frequency header param_data d2.2 3
      hset hpid hd3 hv.1 hv.2
    generalize dispatchSubDevice header param_data d2.2 3 = d3 at *
    refine ⟨⟨fun _ => hv, fun _ => r3⟩, ?_⟩
    intro _ i hi
    have hi' : i = 0 ∨ i = 1 ∨ i = 2 ∨ i = 3 := by omega
    simp only []
    rw [g3, g2, g1, g0]
    rcases hi' with rfl | rfl | rfl | rfl <;> simp [SubDeviceArray.get, SubDeviceArray.set]
  · obtain ⟨r0, g0⟩ := dispatchSubDevice_modulation_frequency_nack header param_data s 0
      hset hpid (hdefs 0 (by omega)) hv
    generalize dispatchSubDevice header param_data s 0 = d0 at *
    obtain ⟨r1, g1⟩ := dispatchSubDevice_modulation_frequency_nack header param_data
      d0.2 1 hset hpid (by rw [g0]; exact hdefs 1 (by omega)) hv
    generalize dispatchSubDevice header param_data d0.2 1 = d1 at *
    obtain ⟨r2, g2⟩ := dispatchSubDevice_modulation_frequency_nack header param_data
      d1.2 2 hset hpid (by rw [g1, g0]; exact hdefs 2 (by omega)) hv
    generalize dispatchSubDevice header param_data d1.2 2 = d2 at *
    obtain ⟨r3, g3⟩ := dispatchSubDevice_modulation_frequency_nack header param_data
      d2.2 3 hset hpid (by rw [g2, g1, g0]; exact hdefs 3 (by omega)) hv
    generalize dispatchSubDevice header param_data d2.2 3 = d3 at *
    refine ⟨⟨fun h => absurd h r3, fun h => absurd h hv⟩, ?_⟩
    intro h
    exact absurd h r3

/-- Witness for C17: in the factory state a SET `MODULATION_FREQUENCY` 3 to
all sub-devices is ACKed and leaves every sub-device with modulation
frequency 3. -/
theorem set_all_subdevices_applies_to_each_witness :
    (DimmerModel_HandleRequest
      (request SET_COMMAND SUBDEVICE_ALL PID_MODULATION_FREQUENCY [0x03]) [0x03]
      factoryState).1 = Response.SET_ACK ∧
    ∀ i, i < 4 →
      ((DimmerModel_HandleRequest
        (request SET_COMMAND SUBDEVICE_ALL PID_MODULATION_FREQUENCY [0x03]) [0x03]
        factoryState).2.g_subdevices.get i).modulation_frequency = byteAt [0x03] 0 :=
  ⟨((set_all_subdevices_applies_to_each
      (request SET_COMMAND SUBDEVICE_ALL PID_MODULATION_FREQUENCY [0x03]) [0x03]
      factoryState (by decide) (by decide) (by decide) (by decide)).2.2 (by decide)
      (by decide)).1.mpr (by decide),
   ((set_all_subdevices_applies_to_each
      (request SET_COMMAND SUBDEVICE_ALL PID_MODULATION_FREQUENCY [0x03]) [0x03]
      factoryState (by decide) (by decide) (by decide) (by decide)).2.2 (by decide)
      (by decide)).2 (by decide)⟩

/-! ## Dimmer curve (C19, C20) -/

/-- What `DimmerModel_SetCurve` does with pdl = 1 when `g_active_device`
points to `g_subdevices[i]`. -/
theorem SetCurve_eq (header : RDMHeader) (param_data : List Nat) (s : State) (i : Nat)
    (hpdl : header.param_data_length = 1) (hactive : s.g_active_device = some i) :
    DimmerModel_SetCurve header param_data s =
      if byteAt param_data 0 = 0 ∨ byteAt param_data 0 > 4 then
        (Response.NACK RDMNackReason.NR_DATA_OUT_OF_RANGE, s)
      else if byteAt param_data 0 % 2 ≠ 0 ∧ (s.g_subdevices.get i).index % 2 = 0 then
        (Response.NACK RDMNackReason.NR_DATA_OUT_OF_RANGE, s)
      else
        (Response.SET_ACK,
         { s with g_subdevices := (s.g_subdevices.set i
            { s.g_subdevices.get i with curve := byteAt param_data 0 }) }) := by
  simp only [DimmerModel_SetCurve, hpdl, NUMBER_OF_CURVES, RDMResponder_BuildNack,
    RDMResponder_BuildSetAck, State.activeDevice, State.setActiveDevice, hactive,
    ne_eq, not_true_eq_false, if_false]

/-- C19, as stated, fails: in the factory state the first sub-device (array
position 0, an even zero-based index) is sub-device 1, and a SET `CURVE` with
the odd value 1 addressed to it is ACKed, both through
`DimmerModel_HandleRequest` and by `DimmerModel_SetCurve` called with
`g_active_device` on that sub-device. -/
theorem SetCurve_odd_accepted_on_first_subdevice :
    (factoryState.g_subdevices.get 0).index = 1 ∧
    (DimmerModel_HandleRequest (request SET_COMMAND 1 PID_CURVE [0x01]) [0x01]
      factoryState).1 = Response.SET_ACK ∧
    (DimmerModel_SetCurve (request SET_COMMAND 1 PID_CURVE [0x01]) [0x01]
      { factoryState with g_active_device := some 0 }).1 = Response.SET_ACK ∧
    (DimmerModel_SetCurve (request SET_COMMAND 1 PID_CURVE [0x01]) [0x01]
      { factoryState with g_active_device := some 0 }).1 ≠
        Response.NACK RDMNackReason.NR_DATA_OUT_OF_RANGE := by
  decide

/-- C19, amended: `DimmerModel_SetCurve` (pdl = 1) rejects an odd curve value
(1 or 3) with NACK `DATA_OUT_OF_RANGE`, leaving the state unchanged, when the
active sub-device's sub-device number (its `index` field) is even, and accepts
it when the number is odd. The four sub-devices are numbered 1, 3, 4, 5, so
odd curves are rejected only for the third sub-device (sub-device 4) and are
accepted for the first (sub-device 1). -/
theorem SetCurve_odd_rejected_on_even_number (header : RDMHeader)
    (param_data : List Nat) (s : State) (i : Nat)
    (hpdl : header.param_data_length = 1) (hactive : s.g_active_device = some i)
    (hodd : byteAt param_data 0 = 1 ∨ byteAt param_data 0 = 3) :
    ((s.g_subdevices.get i).index % 2 = 0 →
      DimmerModel_SetCurve header param_data s =
        (Response.NACK RDMNackReason.NR_DATA_OUT_OF_RANGE, s)) ∧
    ((s.g_subdevices.get i).index % 2 = 1 →
      (DimmerModel_SetCurve header param_data s).1 = Response.SET_ACK) ∧
    (List.range NUMBER_OF_SUB_DEVICES).map
      (fun k => (factoryState.g_subdevices.get k).index) = [1, 3, 4, 5] ∧
    (DimmerModel_HandleRequest (request SET_COMMAND 4 PID_CURVE [0x01]) [0x01]
      factoryState).1 = Response.NACK RDMNackReason.NR_DATA_OUT_OF_RANGE ∧
    (DimmerModel_HandleRequest (request SET_COMMAND 4 PID_CURVE [0x03]) [0x03]
      factoryState).1 = Response.NACK RDMNackReason.NR_DATA_OUT_OF_RANGE ∧
    (DimmerModel_HandleRequest (request SET_COMMAND 1 PID_CURVE [0x01]) [0x01]
      factoryState).1 = Response.SET_ACK ∧
    (DimmerModel_HandleRequest (request SET_COMMAND 1 PID_CURVE [0x03]) [0x03]
      factoryState).1 = Response.SET_ACK := by
  rw [SetCurve_eq header param_data s i hpdl hactive]
  refine ⟨?_, ?_, by decide, by decide, by decide, by decide, by decide⟩
  · intro hn
    split_ifs with c1 c2
    · omega
    · rfl
    · omega
  · intro hn
    split_ifs with c1 c2
    · omega
    · omega
    · rfl

/-- Witness for C19 (amended): `DimmerModel_SetCurve` with the odd curve 3,
called with `g_active_device` on the third sub-device (sub-device 4) of the
factory state. -/
theorem SetCurve_odd_rejected_on_even_number_witness :
    DimmerModel_SetCurve (request SET_COMMAND 4 PID_CURVE [0x03]) [0x03]
      { factoryState with g_active_device := some 2 } =
        (Response.NACK RDMNackReason.NR_DATA_OUT_OF_RANGE,
         { factoryState with g_active_device := some 2 }) :=
  (SetCurve_odd_rejected_on_even_number (request SET_COMMAND 4 PID_CURVE [0x03]) [0x03]
    { factoryState with g_active_device := some 2 } 2 (by decide) (by decide)
    (by decide)).1 (by decide)

/-- C20: `DimmerModel_SetCurve` with pdl = 1 and value c, called with
`g_active_device` on a sub-device with sub-device number n, is ACKed if and
only if 1 <= c <= 4 and not (c is odd and n is even); when ACKed it stores
curve = c in that sub-device and changes nothing else; otherwise it returns
NACK `DATA_OUT_OF_RANGE` and the state, so the curve, is unchanged. In the
factory state, of the requests SET `CURVE` 1 and 3 to sub-devices 1, 3, 4, 5
only those to sub-device 4 are refused. -/
theorem SetCurve_acked_iff (header : RDMHeader) (param_data : List Nat) (s : State)
    (i : Nat) (hpdl : header.param_data_length = 1)
    (hactive : s.g_active_device = some i) (hi : i < NUMBER_OF_SUB_DEVICES) :
    ((DimmerModel_SetCurve header param_data s).1 = Response.SET_ACK ↔
      (1 ≤ byteAt param_data 0 ∧ byteAt param_data 0 ≤ 4 ∧
        ¬ (byteAt param_data 0 % 2 = 1 ∧ (s.g_subdevices.get i).index % 2 = 0))) ∧
    ((DimmerModel_SetCurve header param_data s).1 = Response.SET_ACK →
      (DimmerModel_SetCurve header param_data s).2 =
        { s with g_subdevices := (s.g_subdevices.set i
            { s.g_subdevices.get i with curve := byteAt param_data 0 }) } ∧
      ((DimmerModel_SetCurve header param_data s).2.g_subdevices.get i).curve =
        byteAt param_data 0) ∧
    ((DimmerModel_SetCurve header param_data s).1 ≠ Response.SET_ACK →
      DimmerModel_SetCurve header param_data s =
        (Response.NACK RDMNackReason.NR_DATA_OUT_OF_RANGE, s)) ∧
    [1, 3, 4, 5].map (fun sub_device => [1, 3].map (fun curve =>
      (DimmerModel_HandleRequest (request SET_COMMAND sub_device PID_CURVE [curve])
        [curve] factoryState).1)) =
      [[Response.SET_ACK, Response.SET_ACK],
       [Response.SET_ACK, Response.SET_ACK],
       [Response.NACK RDMNackReason.NR_DATA_OUT_OF_RANGE,
        Response.NACK RDMNackReason.NR_DATA_OUT_OF_RANGE],
       [Response.SET_ACK, Response.SET_ACK]] := by
  simp only [NUMBER_OF_SUB_DEVICES] at hi
  rw [SetCurve_eq header param_data s i hpdl hactive]
  refine ⟨?_, ?_, ?_, by decide⟩
  · split_ifs with c1 c2
    · simp; omega
    · simp; omega
    · simp; omega
  · split_ifs with c1 c2
    · simp
    · simp
    · intro _
      refine ⟨rfl, ?_⟩
      simp only []
      rw [SubDeviceArray_get_set _ _ _ _ hi hi]
      simp
  · split_ifs with c1 c2 <;> simp

/-- Witness for C20: `DimmerModel_SetCurve` with curve 2, called with
`g_active_device` on the third sub-device (sub-device 4) of the factory state,
is ACKed and stores the curve. -/
theorem SetCurve_acked_iff_witness :
    ((DimmerModel_SetCurve (request SET_COMMAND 4 PID_CURVE [0x02]) [0x02]
      { factoryState with g_active_device := some 2 }).2.g_subdevices.get 2).curve =
        byteAt [0x02] 0 :=
  ((SetCurve_acked_iff (request SET_COMMAND 4 PID_CURVE [0x02]) [0x02]
    { factoryState with g_active_device := some 2 } 2 (by decide) (by decide)
    (by decide)).2.1 (by decide)).2

/-! ## Descriptive GET handlers (C21 – C23) -/

/-- C21 (counterexample): the body of the `PRESET_INFO` ACK in the factory
state is 32 bytes long, six flag bytes, the scene count and twelve 16-bit
fields; it cannot be split into flag bytes, the scene count 3 and fourteen
16-bit fields. -/
theorem GetPresetInfo_body_not_14_fields :
    (DimmerModel_GetPresetInfo (request GET_COMMAND SUBDEVICE_ROOT PID_PRESET_INFO []) []
      factoryState).1 =
      Response.ACK
        [1, 1, 1, 1, 1, 1, 0x00, 0x03,
         0x00, 0x00, 0xff, 0xfe, 0x00, 0x00, 0xff, 0xfe,
         0x00, 0x00, 0xff, 0xfe, 0x00, 0x00, 0xff, 0xfe,
         0x00, 0x00, 0xff, 0xfe, 0x00, 0x00, 0xff, 0xfe] ∧
    ¬ ∃ (flags fields : List Nat), fields.length = 14 ∧
      (DimmerModel_GetPresetInfo (request GET_COMMAND SUBDEVICE_ROOT PID_PRESET_INFO []) []
        factoryState).1 =
        Response.ACK (flags ++ PushUInt16 3 ++ fields.flatMap PushUInt16) := by
  have hbody : (DimmerModel_GetPresetInfo
      (request GET_COMMAND SUBDEVICE_ROOT PID_PRESET_INFO []) [] factoryState).1 =
      Response.ACK
        [1, 1, 1, 1, 1, 1, 0x00, 0x03,
         0x00, 0x00, 0xff, 0xfe, 0x00, 0x00, 0xff, 0xfe,
         0x00, 0x00, 0xff, 0xfe, 0x00, 0x00, 0xff, 0xfe,
         0x00, 0x00, 0xff, 0xfe, 0x00, 0x00, 0xff, 0xfe] := by
    simp [DimmerModel_GetPresetInfo, RDMResponder_AddHeaderAndChecksum, PushUInt16,
      NUMBER_OF_SCENES]
  refine ⟨hbody, ?_⟩
  rintro ⟨flags, fields, hlen, h⟩
  rw [hbody] at h
  have h' := Response.ACK.inj h
  have hl := congrArg List.length h'
  have hf : (fields.flatMap PushUInt16).length = 2 * fields.length := by
    clear hlen h h' hl
    induction fields with
    | nil => rfl
    | cons a l ih => simp [List.flatMap_cons, PushUInt16, ih]; omega
  simp only [List.length_append, List.length_cons, List.length_nil, hf, hlen,
    PushUInt16] at hl
  match flags, hl with
  | [a, b], _ =>
    simp [PushUInt16] at h'

/-- C21 (amended): the body of the `DimmerModel_GetPresetInfo` ACK consists of
six capability flag bytes (each 1), then the scene count 3 as a big-endian
16-bit value, then twelve (not fourteen) min/max 16-bit fields: minimum 0 and
maximum 0xFFFE for preset fade time, preset wait time, fail delay, fail hold,
startup delay and startup hold; 32 bytes in all, for every request and state,
and the state is left as it was. -/
theorem GetPresetInfo_body (header : RDMHeader) (param_data : List Nat) (s : State) :
    DimmerModel_GetPresetInfo header param_data s =
      (Response.ACK
        ([1, 1, 1, 1, 1, 1] ++ PushUInt16 3 ++
          [0, 0xfffe, 0, 0xfffe, 0, 0xfffe, 0, 0xfffe, 0, 0xfffe, 0, 0xfffe].flatMap
            PushUInt16), s) ∧
    [0, 0xfffe, 0, 0xfffe, 0, 0xfffe, 0, 0xfffe, 0, 0xfffe, 0, 0xfffe].length = 12 ∧
    ([1, 1, 1, 1, 1, 1] ++ PushUInt16 3 ++
      [0, 0xfffe, 0, 0xfffe, 0, 0xfffe, 0, 0xfffe, 0, 0xfffe, 0, 0xfffe].flatMap
        PushUInt16).length = 32 := by
  refine ⟨?_, by decide, by decide⟩
  simp [DimmerModel_GetPresetInfo, RDMResponder_AddHeaderAndChecksum, PushUInt16,
    NUMBER_OF_SCENES]

/-- C22: `DimmerModel_GetLockStateDescription` with requested state
`param_data[0]`: for state 1 the ACK body is the byte 1 followed by
"Subdevices locked", for state 2 it is the byte 2 followed by
"Root & subdevices locked"; for state 0 and for every state from 3 on it
returns NACK `DATA_OUT_OF_RANGE`. The state is left as it was. -/
theorem GetLockStateDescription_contract (header : RDMHeader) (param_data : List Nat)
    (s : State) :
    (byteAt param_data 0 = 1 →
      DimmerModel_GetLockStateDescription header param_data s =
        (Response.ACK ([1] ++ stringBytes "Subdevices locked"), s)) ∧
    (byteAt param_data 0 = 2 →
      DimmerModel_GetLockStateDescription header param_data s =
        (Response.ACK ([2] ++ stringBytes "Root & subdevices locked"), s)) ∧
    ((byteAt param_data 0 = 0 ∨ byteAt param_data 0 ≥ 3) →
      DimmerModel_GetLockStateDescription header param_data s =
        (Response.NACK RDMNackReason.NR_DATA_OUT_OF_RANGE, s)) := by
  refine ⟨?_, ?_, ?_⟩
  · intro h
    simp only [DimmerModel_GetLockStateDescription, h]
    rfl
  · intro h
    simp only [DimmerModel_GetLockStateDescription, h]
    rfl
  · intro h
    simp only [DimmerModel_GetLockStateDescription, NUMBER_OF_LOCK_STATES,
      RDMResponder_BuildNack, if_pos h]

/-- Witness for C22: GET `LOCK_STATE_DESCRIPTION` with body `02` in the
factory state; the description is 24 bytes long. -/
theorem GetLockStateDescription_contract_witness :
    DimmerModel_GetLockStateDescription
      (request GET_COMMAND SUBDEVICE_ROOT PID_LOCK_STATE_DESCRIPTION [0x02]) [0x02]
      factoryState =
        (Response.ACK ([2] ++ stringBytes "Root & subdevices locked"), factoryState) ∧
    (stringBytes "Root & subdevices locked").length = 24 :=
  ⟨(GetLockStateDescription_contract
    (request GET_COMMAND SUBDEVICE_ROOT PID_LOCK_STATE_DESCRIPTION [0x02]) [0x02]
    factoryState).2.1 (by decide), by decide⟩

/-- C23: `DimmerModel_GetModulationFrequencyDescription` with setting
`param_data[0]` in 1..4 returns an ACK whose body is the setting byte, the
frequency of that entry as a big-endian 32-bit value (50, 60, 1000, 2000 Hz)
and the description ("50 Hz", "60 Hz", "1000 Hz", "2000 Hz"); for setting 0
and for every setting above 4 it returns NACK `DATA_OUT_OF_RANGE`. The state
is left as it was. -/
theorem GetModulationFrequencyDescription_contract (header : RDMHeader)
    (param_data : List Nat) (s : State) :
    (byteAt param_data 0 = 1 →
      DimmerModel_GetModulationFrequencyDescription header param_data s =
        (Response.ACK ([1] ++ PushUInt32 50 ++ stringBytes "50 Hz"), s)) ∧
    (byteAt param_data 0 = 2 →
      DimmerModel_GetModulationFrequencyDescription header param_data s =
        (Response.ACK ([2] ++ PushUInt32 60 ++ stringBytes "60 Hz"), s)) ∧
    (byteAt param_data 0 = 3 →
      DimmerModel_GetModulationFrequencyDescription header param_data s =
        (Response.ACK ([3] ++ PushUInt32 1000 ++ stringBytes "1000 Hz"), s)) ∧
    (byteAt param_data 0 = 4 →
      DimmerModel_GetModulationFrequencyDescription header param_data s =
        (Response.ACK ([4] ++ PushUInt32 2000 ++ stringBytes "2000 Hz"), s)) ∧
    ((byteAt param_data 0 = 0 ∨ byteAt param_data 0 > 4) →
      DimmerModel_GetModulationFrequencyDescription header param_data s =
        (Response.NACK RDMNackReason.NR_DATA_OUT_OF_RANGE, s)) ∧
    PushUInt32 50 = [0, 0, 0, 50] ∧ PushUInt32 60 = [0, 0, 0, 60] ∧
    PushUInt32 1000 = [0, 0, 0x03, 0xe8] ∧ PushUInt32 2000 = [0, 0, 0x07, 0xd0] := by
  refine ⟨?_, ?_, ?_, ?_, ?_, by decide, by decide, by decide, by decide⟩
  · intro h
    simp only [DimmerModel_GetModulationFrequencyDescription, h]
    rfl
  · intro h
    simp only [DimmerModel_GetModulationFrequencyDescription, h]
    rfl
  · intro h
    simp only [DimmerModel_GetModulationFrequencyDescription, h]
    rfl
  · intro h
    simp only [DimmerModel_GetModulationFrequencyDescription, h]
    rfl
  · intro h
    simp only [DimmerModel_GetModulationFrequencyDescription,
      NUMBER_OF_MODULATION_FREQUENCIES, RDMResponder_BuildNack, if_pos h]

/-- Witness for C23: GET `MODULATION_FREQUENCY_DESCRIPTION` with body `03` in
the factory state. -/
theorem GetModulationFrequencyDescription_contract_witness :
    DimmerModel_GetModulationFrequencyDescription
      (request GET_COMMAND 1 PID_MODULATION_FREQUENCY_DESCRIPTION [0x03]) [0x03]
      factoryState =
        (Response.ACK ([3] ++ PushUInt32 1000 ++ stringBytes "1000 Hz"), factoryState) :=
  (GetModulationFrequencyDescription_contract
    (request GET_COMMAND 1 PID_MODULATION_FREQUENCY_DESCRIPTION [0x03]) [0x03]
    factoryState).2.2.1 (by decide)

/-! ## Minimum level and length validation (C24, C25) -/

/-- A list of five bytes is what `DimmerModel_GetMinimumLevel` pushes back from
the stored levels and flag. -/
theorem five_bytes_round_trip (param_data : List Nat) (hlen : param_data.length = 5)
    (hbytes : ∀ b, b ∈ param_data → b < 256) :
    PushUInt16 (ExtractUInt16 param_data 0) ++ PushUInt16 (ExtractUInt16 param_data 2) ++
      [byteAt param_data 4 % 256] = param_data := by
  match param_data, hlen with
  | [b0, b1, b2, b3, b4], _ =>
    have h0 := hbytes b0 (by simp)
    have h1 := hbytes b1 (by simp)
    have h2 := hbytes b2 (by simp)
    have h3 := hbytes b3 (by simp)
    have h4 := hbytes b4 (by simp)
    simp only [PushUInt16, ExtractUInt16, byteAt, List.getD_cons_zero, List.getD_cons_succ,
      List.cons_append, List.nil_append, List.cons.injEq, and_true]
    omega

/-- C24: `DimmerModel_SetMinimumLevel` with pdl = 5 and body (min_increasing,
min_decreasing, on_below_min), the active sub-device being `g_subdevices[i]`:
if on_below_min > 1 it returns NACK `DATA_OUT_OF_RANGE` and the state is
unchanged; otherwise it is ACKed, the three values are stored in
`g_subdevices[i]` (whose other fields, and the other sub-devices, stay as they
were), and a following `DimmerModel_GetMinimumLevel` on the same sub-device
returns exactly the 5 bytes that were set. -/
theorem SetMinimumLevel_contract (header : RDMHeader) (param_data : List Nat)
    (s : State) (i : Nat) (hpdl : header.param_data_length = 5)
    (hlen : param_data.length = 5) (hbytes : ∀ b, b ∈ param_data → b < 256)
    (hactive : s.g_active_device = some i) (hi : i < NUMBER_OF_SUB_DEVICES)
    (get_header : RDMHeader) (get_data : List Nat) :
    (byteAt param_data 4 > 1 →
      DimmerModel_SetMinimumLevel header param_data s =
        (Response.NACK RDMNackReason.NR_DATA_OUT_OF_RANGE, s)) ∧
    (byteAt param_data 4 ≤ 1 →
      (DimmerModel_SetMinimumLevel header param_data s).1 = Response.SET_ACK ∧
      (DimmerModel_SetMinimumLevel header param_data s).2.g_subdevices.get i =
        { s.g_subdevices.get i with
          min_level_increasing := ExtractUInt16 param_data 0
          min_level_decreasing := ExtractUInt16 param_data 2
          on_below_min := byteAt param_data 4 } ∧
      (∀ j, j < NUMBER_OF_SUB_DEVICES → j ≠ i →
        (DimmerModel_SetMinimumLevel header param_data s).2.g_subdevices.get j =
          s.g_subdevices.get j) ∧
      (DimmerModel_GetMinimumLevel get_header get_data
        (DimmerModel_SetMinimumLevel header param_data s).2).1 =
          Response.ACK param_data) := by
  have hrt := five_bytes_round_trip param_data hlen hbytes
  have hi' : i = 0 ∨ i = 1 ∨ i = 2 ∨ i = 3 := by
    simp only [NUMBER_OF_SUB_DEVICES] at hi
    omega
  refine ⟨?_, ?_⟩
  · intro h
    simp [DimmerModel_SetMinimumLevel, hpdl, RDMResponder_BuildNack, h]
  · intro h
    have hset : DimmerModel_SetMinimumLevel header param_data s =
        (Response.SET_ACK,
         { s with g_subdevices := (s.g_subdevices.set i
            { s.g_subdevices.get i with
              min_level_increasing := ExtractUInt16 param_data 0
              min_level_decreasing := ExtractUInt16 param_data 2
              on_below_min := byteAt param_data 4 }) }) := by
      have h' : ¬ (1 < byteAt param_data 4) := by omega
      simp [DimmerModel_SetMinimumLevel, hpdl, RDMResponder_BuildSetAck, h',
        State.setActiveDevice, State.activeDevice, hactive]
    rw [hset]
    refine ⟨rfl, ?_, ?_, ?_⟩
    · rcases hi' with rfl | rfl | rfl | rfl <;> rfl
    · intro j hj hne
      show (s.g_subdevices.set i _).get j = _
      rw [SubDeviceArray_get_set _ _ _ _ hi hj, if_neg hne]
    · have hget : ∀ d : DimmerSubDevice,
          ((s.g_subdevices.set i d).get i) = d := by
        intro d
        rcases hi' with rfl | rfl | rfl | rfl <;> rfl
      simp only [DimmerModel_GetMinimumLevel, State.activeDevice, hactive, hget,
        RDMResponder_AddHeaderAndChecksum, hrt]

/-- Witness for C24: sub-device 3 (`g_subdevices[1]`) of the factory state is
the active device; body `01 02 03 04 01` is stored and read back. -/
theorem SetMinimumLevel_contract_witness :
    (DimmerModel_GetMinimumLevel (request GET_COMMAND 3 PID_MINIMUM_LEVEL []) []
      (DimmerModel_SetMinimumLevel
        (request SET_COMMAND 3 PID_MINIMUM_LEVEL [0x01, 0x02, 0x03, 0x04, 0x01])
        [0x01, 0x02, 0x03, 0x04, 0x01]
        { factoryState with
          g_active_device := some 1
          g_responder := ResponderRef.subdevice 1 }).2).1 =
      Response.ACK [0x01, 0x02, 0x03, 0x04, 0x01] :=
  ((SetMinimumLevel_contract
    (request SET_COMMAND 3 PID_MINIMUM_LEVEL [0x01, 0x02, 0x03, 0x04, 0x01])
    [0x01, 0x02, 0x03, 0x04, 0x01]
    { factoryState with
      g_active_device := some 1
      g_responder := ResponderRef.subdevice 1 }
    1 (by decide) (by decide) (by decide) rfl (by decide)
    (request GET_COMMAND 3 PID_MINIMUM_LEVEL []) []).2 (by decide)).2.2.2

/-- The same round trip through `DimmerModel_HandleRequest`: in the factory
state SET `MINIMUM_LEVEL` to sub-device 3 is ACKed, a GET to sub-device 3
returns the body, and a GET to sub-device 4 still returns the defaults. -/
theorem MinimumLevel_round_trip_sub_device_3 :
    (DimmerModel_HandleRequest
      (request SET_COMMAND 3 PID_MINIMUM_LEVEL [0x01, 0x02, 0x03, 0x04, 0x01])
      [0x01, 0x02, 0x03, 0x04, 0x01] factoryState).1 = Response.SET_ACK ∧
    (DimmerModel_HandleRequest (request GET_COMMAND 3 PID_MINIMUM_LEVEL []) []
      (DimmerModel_HandleRequest
        (request SET_COMMAND 3 PID_MINIMUM_LEVEL [0x01, 0x02, 0x03, 0x04, 0x01])
        [0x01, 0x02, 0x03, 0x04, 0x01] factoryState).2).1 =
      Response.ACK [0x01, 0x02, 0x03, 0x04, 0x01] ∧
    (DimmerModel_HandleRequest (request GET_COMMAND 4 PID_MINIMUM_LEVEL []) []
      (DimmerModel_HandleRequest
        (request SET_COMMAND 3 PID_MINIMUM_LEVEL [0x01, 0x02, 0x03, 0x04, 0x01])
        [0x01, 0x02, 0x03, 0x04, 0x01] factoryState).2).1 =
      Response.ACK [0x00, 0x00, 0x00, 0x00, 0x00] := by
  decide

/-- C25: every SET handler of the dimmer model with a length check of its own
validates the exact parameter data length before anything else:
`CAPTURE_PRESET` 8, `PRESET_PLAYBACK` 3, `DMX_BLOCK_ADDRESS` 2, `DMX_FAIL_MODE`
7, `DMX_STARTUP_MODE` 7, `LOCK_PIN` 4, `LOCK_STATE` 3, `PRESET_STATUS` 9,
`PRESET_MERGEMODE` 1, `IDENTIFY_MODE` 1, `MINIMUM_LEVEL` 5, `CURVE` 1,
`OUTPUT_RESPONSE_TIME` 1, `MODULATION_FREQUENCY` 1; for any other pdl the
handler returns NACK `FORMAT_ERROR` and leaves the state as it was, whatever
the parameter bytes and the state are. -/
theorem set_handlers_validate_length (header : RDMHeader) (param_data : List Nat)
    (s : State) :
    (header.param_data_length ≠ 8 →
      DimmerModel_CapturePreset header param_data s =
        (Response.NACK RDMNackReason.NR_FORMAT_ERROR, s)) ∧
    (header.param_data_length ≠ 3 →
      DimmerModel_SetPresetPlayback header param_data s =
        (Response.NACK RDMNackReason.NR_FORMAT_ERROR, s)) ∧
    (header.param_data_length ≠ 2 →
      DimmerModel_SetDMXBlockAddress header param_data s =
        (Response.NACK RDMNackReason.NR_FORMAT_ERROR, s)) ∧
    (header.param_data_length ≠ 7 →
      DimmerModel_SetDMXFailMode header param_data s =
        (Response.NACK RDMNackReason.NR_FORMAT_ERROR, s)) ∧
    (header.param_data_length ≠ 7 →
      DimmerModel_SetDMXStartupMode header param_data s =
        (Response.NACK RDMNackReason.NR_FORMAT_ERROR, s)) ∧
    (header.param_data_length ≠ 4 →
      DimmerModel_SetLockPin header param_data s =
        (Response.NACK RDMNackReason.NR_FORMAT_ERROR, s)) ∧
    (header.param_data_length ≠ 3 →
      DimmerModel_SetLockState header param_data s =
        (Response.NACK RDMNackReason.NR_FORMAT_ERROR, s)) ∧
    (header.param_data_length ≠ 9 →
      DimmerModel_SetPresetStatus header param_data s =
        (Response.NACK RDMNackReason.NR_FORMAT_ERROR, s)) ∧
    (header.param_data_length ≠ 1 →
      DimmerModel_SetPresetMergeMode header param_data s =
        (Response.NACK RDMNackReason.NR_FORMAT_ERROR, s)) ∧
    (header.param_data_length ≠ 1 →
      DimmerModel_SetIdentifyMode header param_data s =
        (Response.NACK RDMNackReason.NR_FORMAT_ERROR, s)) ∧
    (header.param_data_length ≠ 5 →
      DimmerModel_SetMinimumLevel header param_data s =
        (Response.NACK RDMNackReason.NR_FORMAT_ERROR, s)) ∧
    (header.param_data_length ≠ 1 →
      DimmerModel_SetCurve header param_data s =
        (Response.NACK RDMNackReason.NR_FORMAT_ERROR, s)) ∧
    (header.param_data_length ≠ 1 →
      DimmerModel_SetOutputResponseTime header param_data s =
        (Response.NACK RDMNackReason.NR_FORMAT_ERROR, s)) ∧
    (header.param_data_length ≠ 1 →
      DimmerModel_SetModulationFrequency header param_data s =
        (Response.NACK RDMNackReason.NR_FORMAT_ERROR, s)) := by
  refine ⟨?_, ?_, ?_, ?_, ?_, ?_, ?_, ?_, ?_, ?_, ?_, ?_, ?_, ?_⟩
  · intro h
    simp only [DimmerModel_CapturePreset, RDMResponder_BuildNack]
    rw [if_pos h]
  · intro h
    simp only [DimmerModel_SetPresetPlayback, RDMResponder_BuildNack]
    rw [if_pos h]
  · intro h
    simp only [DimmerModel_SetDMXBlockAddress, RDMResponder_BuildNack]
    rw [if_pos h]
  · intro h
    simp only [DimmerModel_SetDMXFailMode, RDMResponder_BuildNack]
    rw [if_pos h]
  · intro h
    simp only [DimmerModel_SetDMXStartupMode, RDMResponder_BuildNack]
    rw [if_pos h]
  · intro h
    simp only [DimmerModel_SetLockPin, RDMResponder_BuildNack]
    rw [if_pos h]
  · intro h
    simp only [DimmerModel_SetLockState, RDMResponder_BuildNack]
    rw [if_pos h]
  · intro h
    simp only [DimmerModel_SetPresetStatus, RDMResponder_BuildNack]
    rw [if_pos h]
  · intro h
    simp only [DimmerModel_SetPresetMergeMode, RDMResponder_BuildNack]
    rw [if_pos h]
  · intro h
    simp only [DimmerModel_SetIdentifyMode, RDMResponder_BuildNack]
    rw [if_pos h]
  · intro h
    simp only [DimmerModel_SetMinimumLevel, RDMResponder_BuildNack]
    rw [if_pos h]
  · intro h
    simp only [DimmerModel_SetCurve, RDMResponder_BuildNack]
    rw [if_pos h]
  · intro h
    simp only [DimmerModel_SetOutputResponseTime, RDMResponder_BuildNack]
    rw [if_pos h]
  · intro h
    simp only [DimmerModel_SetModulationFrequency, RDMResponder_BuildNack]
    rw [if_pos h]

/-- Witness for C25: SET `PRESET_STATUS` with 8 bytes of data instead of 9, in
the factory state. -/
theorem set_handlers_validate_length_witness :
    DimmerModel_SetPresetStatus
      (request SET_COMMAND SUBDEVICE_ROOT PID_PRESET_STATUS
        [0x00, 0x02, 0x00, 0x01, 0x00, 0x02, 0x00, 0x03])
      [0x00, 0x02, 0x00, 0x01, 0x00, 0x02, 0x00, 0x03] factoryState =
        (Response.NACK RDMNackReason.NR_FORMAT_ERROR, factoryState) :=
  (set_handlers_validate_length
    (request SET_COMMAND SUBDEVICE_ROOT PID_PRESET_STATUS
      [0x00, 0x02, 0x00, 0x01, 0x00, 0x02, 0x00, 0x03])
    [0x00, 0x02, 0x00, 0x01, 0x00, 0x02, 0x00, 0x03] factoryState).2.2.2.2.2.2.2.1
    (by decide)

/-! ## The GET handlers of `dimmer_model.c` and the length of the parameter data -/

/-- The eleven GET handlers that `dimmer_model.c` writes out for PIDs declared
with `min_get_pdl` 0 read neither the parameter data nor its length: called
with any header and any parameter data, each returns, on the unchanged state,
the ACK it returns for a request with pdl 0 and no data. None of them answers
`FORMAT_ERROR`; a GET that carries parameter data is rejected, if at all,
before the handler is called. -/
theorem dimmer_get_handlers_ignore_length (handler : PIDCommandHandler)
    (header : RDMHeader) (param_data : List Nat) (s : State)
    (h : handler ∈ [PIDCommandHandler.DimmerModel_GetPresetPlayback,
      PIDCommandHandler.DimmerModel_GetDMXBlockAddress,
      PIDCommandHandler.DimmerModel_GetDMXFailMode,
      PIDCommandHandler.DimmerModel_GetDMXStartupMode,
      PIDCommandHandler.DimmerModel_GetLockState,
      PIDCommandHandler.DimmerModel_GetPresetInfo,
      PIDCommandHandler.DimmerModel_GetDimmerInfo,
      PIDCommandHandler.DimmerModel_GetMinimumLevel,
      PIDCommandHandler.DimmerModel_GetCurve,
      PIDCommandHandler.DimmerModel_GetOutputResponseTime,
      PIDCommandHandler.DimmerModel_GetModulationFrequency]) :
    callHandler handler header param_data s =
      callHandler handler { header with param_data_length := 0 } [] s ∧
    (callHandler handler header param_data s).2 = s ∧
    (∃ body, (callHandler handler header param_data s).1 = Response.ACK body) := by
  simp only [List.mem_cons, List.mem_singleton, List.not_mem_nil, or_false] at h
  rcases h with h | h | h | h | h | h | h | h | h | h | h <;> subst h <;>
    exact ⟨rfl, rfl, _, rfl⟩

/-- In the factory state `DimmerModel_GetPresetPlayback`, called for a GET that
carries one byte of parameter data, returns the ACK with playback mode and
level. -/
theorem GetPresetPlayback_with_data :
    DimmerModel_GetPresetPlayback
      (request GET_COMMAND SUBDEVICE_ROOT PID_PRESET_PLAYBACK [0x01]) [0x01]
      factoryState = (Response.ACK [0x00, 0x00, 0x00], factoryState) ∧
    (request GET_COMMAND SUBDEVICE_ROOT PID_PRESET_PLAYBACK [0x01]).param_data_length = 1 := by
  decide

/-! ## Initialisation and activation (C27, C28) -/

/-- C27 (the code at the failing input): `DimmerModel_Initialize` sets every
field of `g_root_device` except `power_on_self_test`. After SET
`POWER_ON_SELF_TEST` with body `01` has been ACKed in the factory state, a
call of `DimmerModel_Initialize` leaves the flag set, whereas from the boot
state it yields the flag cleared: the value after the call depends on the
value before it. All other root fields are the same in both. -/
theorem Initialize_keeps_power_on_self_test :
    (DimmerModel_HandleRequest
      (request SET_COMMAND SUBDEVICE_ROOT PID_POWER_ON_SELF_TEST [0x01]) [0x01]
      factoryState).1 = Response.SET_ACK ∧
    (DimmerModel_Initialize
      (DimmerModel_HandleRequest
        (request SET_COMMAND SUBDEVICE_ROOT PID_POWER_ON_SELF_TEST [0x01]) [0x01]
        factoryState).2).g_root_device.power_on_self_test = true ∧
    (DimmerModel_Initialize (bootState TEST_UID)).g_root_device.power_on_self_test = false ∧
    (DimmerModel_Initialize
      (DimmerModel_HandleRequest
        (request SET_COMMAND SUBDEVICE_ROOT PID_POWER_ON_SELF_TEST [0x01]) [0x01]
        factoryState).2).g_root_device =
      { (DimmerModel_Initialize (bootState TEST_UID)).g_root_device with
        power_on_self_test := true } := by
  refine ⟨by decide, ?_, ?_, ?_⟩
  · rw [Initialize_g_root_device]
    decide
  · rw [Initialize_g_root_device]
    decide
  · rw [Initialize_g_root_device, Initialize_g_root_device]
    decide

/-- C28 (counterexample): activation does not bring the dimmer root state
back to its defaults. With `lock_state` all_locked (after SET `LOCK_STATE`
with body `00 00 02` in the factory state) `DimmerModel_Activate` leaves
`lock_state` at 2, and the whole root state as it was. -/
theorem Activate_keeps_lock_state :
    allLockedState.g_root_device.lock_state = LOCK_STATE_ALL_LOCKED ∧
    (DimmerModel_Activate allLockedState).g_root_device.lock_state =
      LOCK_STATE_ALL_LOCKED ∧
    (DimmerModel_Activate allLockedState).g_root_device.lock_state ≠
      LOCK_STATE_UNLOCKED ∧
    (DimmerModel_Activate allLockedState).g_root_device ≠ factoryState.g_root_device := by
  decide

/-- C28 (amended): `DimmerModel_Activate` re-initialises the responder, not the
dimmer state. After it, the responder `g_responder` points to (the root
responder) has the root definition installed, is at the responder's factory
defaults and has `sub_device_count` 4; the dimmer root state (`lock_state`,
`pin_code`, scenes and the rest) and the sub-devices are exactly what they were
before activation. So the root state is at its defaults after activation when
it was before, as it is when activation follows `DimmerModel_Initialize`. -/
theorem Activate_contract (s : State) (hroot : s.g_responder = ResponderRef.root) :
    (DimmerModel_Activate s).g_root_device = s.g_root_device ∧
    (DimmerModel_Activate s).g_subdevices = s.g_subdevices ∧
    (DimmerModel_Activate s).root_responder.sub_device_count = 4 ∧
    (DimmerModel_Activate s).root_responder.definition = ROOT_RESPONDER_DEFINITION ∧
    (DimmerModel_Activate s).root_responder =
      { (RDMResponder_ResetToFactoryDefaults
          { s with root_responder :=
              { s.root_responder with definition := ROOT_RESPONDER_DEFINITION } }).root_responder
        with sub_device_count := NUMBER_OF_SUB_DEVICES } ∧
    (DimmerModel_Activate (DimmerModel_Initialize s)).g_root_device.lock_state =
      LOCK_STATE_UNLOCKED ∧
    (DimmerModel_Activate (DimmerModel_Initialize s)).g_root_device.pin_code = 0 ∧
    (DimmerModel_Activate (DimmerModel_Initialize s)).g_root_device.scenes =
      (DimmerModel_Initialize s).g_root_device.scenes := by
  refine ⟨Activate_g_root_device s, ?_, ?_, ?_, ?_, ?_, ?_, ?_⟩
  · simp [DimmerModel_Activate, RDMResponder_ResetToFactoryDefaults, State.setResponder,
      State.responder, State.responderAt, hroot]
  · simp [DimmerModel_Activate, RDMResponder_ResetToFactoryDefaults, State.setResponder,
      State.responder, State.responderAt, hroot, NUMBER_OF_SUB_DEVICES]
  · simp [DimmerModel_Activate, RDMResponder_ResetToFactoryDefaults, State.setResponder,
      State.responder, State.responderAt, hroot]
  · simp [DimmerModel_Activate, RDMResponder_ResetToFactoryDefaults, State.setResponder,
      State.responder, State.responderAt, hroot]
  · rw [Activate_g_root_device, Initialize_g_root_device]
    rfl
  · rw [Activate_g_root_device, Initialize_g_root_device]
  · rw [Activate_g_root_device]

/-- Witness for C28: activation of the all-locked state, whose `g_responder`
points to the root responder. -/
theorem Activate_contract_witness :
    (DimmerModel_Activate allLockedState).g_root_device = allLockedState.g_root_device ∧
    (DimmerModel_Activate allLockedState).root_responder.sub_device_count = 4 :=
  ⟨(Activate_contract allLockedState (by decide)).1,
   (Activate_contract allLockedState (by decide)).2.2.1⟩

/-! ## Sub-device numbers (C29) -/

theorem subDeviceNumbers_eq (s : State) :
    s.subDeviceNumbers =
      [(s.g_subdevices.get 0).index, (s.g_subdevices.get 1).index,
       (s.g_subdevices.get 2).index, (s.g_subdevices.get 3).index] := by
  simp [State.subDeviceNumbers, range_sub_devices]

theorem subDeviceNumbers_congr (s t : State) (h : t.g_subdevices = s.g_subdevices) :
    t.subDeviceNumbers = s.subDeviceNumbers := by
  simp only [State.subDeviceNumbers, h]

/-- Overwriting an element of `g_subdevices` by a value with the same `index`
changes no `index`. -/
theorem SubDeviceArray_index_set (a : SubDeviceArray) (i : Nat) (d : DimmerSubDevice)
    (h : d.index = (a.get i).index) (j : Nat) :
    ((a.set i d).get j).index = (a.get j).index := by
  match i, h with
  | 0, h =>
    match j with
    | 0 => exact h
    | 1 => rfl
    | 2 => rfl
    | (n + 3) => rfl
  | 1, h =>
    match j with
    | 0 => rfl
    | 1 => exact h
    | 2 => rfl
    | (n + 3) => rfl
  | 2, h =>
    match j with
    | 0 => rfl
    | 1 => rfl
    | 2 => exact h
    | (n + 3) => rfl
  | 3, h =>
    match j with
    | 0 => rfl
    | 1 => rfl
    | 2 => rfl
    | (n + 3) => exact h
  | (m + 4), _ => rfl

theorem subDeviceNumbers_set (s t : State) (i : Nat) (d : DimmerSubDevice)
    (ht : t.g_subdevices = s.g_subdevices.set i d)
    (h : d.index = (s.g_subdevices.get i).index) :
    t.subDeviceNumbers = s.subDeviceNumbers := by
  simp only [State.subDeviceNumbers, ht, SubDeviceArray_index_set _ _ _ h]

@[simp] theorem setResponder_subDeviceNumbers (s : State) (r : RDMResponder) :
    (s.setResponder r).subDeviceNumbers = s.subDeviceNumbers := by
  unfold State.setResponder
  split
  · rfl
  · exact subDeviceNumbers_set s _ _ _ rfl rfl

theorem setActiveDevice_subDeviceNumbers (s : State) (d : DimmerSubDevice)
    (h : d.index = s.activeDevice.index) :
    (s.setActiveDevice d).subDeviceNumbers = s.subDeviceNumbers := by
  unfold State.setActiveDevice
  unfold State.activeDevice at h
  split
  · rename_i i hi
    rw [hi] at h
    exact subDeviceNumbers_set s _ _ _ rfl h
  · rfl

theorem assignBlockAddress_subDeviceNumbers (acc : Nat × State) (i : Nat) :
    (assignBlockAddress acc i).2.subDeviceNumbers = acc.2.subDeviceNumbers :=
  subDeviceNumbers_set acc.2 _ _ _ rfl rfl

theorem foldl_assignBlockAddress_subDeviceNumbers (l : List Nat) (acc : Nat × State) :
    (l.foldl assignBlockAddress acc).2.subDeviceNumbers = acc.2.subDeviceNumbers := by
  induction l generalizing acc with
  | nil => rfl
  | cons i l ih =>
    simp only [List.foldl_cons]
    rw [ih, assignBlockAddress_subDeviceNumbers]

@[simp] theorem ResetToBlockAddress_subDeviceNumbers (B : Nat) (s : State) :
    (ResetToBlockAddress B s).2.subDeviceNumbers = s.subDeviceNumbers := by
  simp only [ResetToBlockAddress]
  split_ifs
  · rfl
  · exact foldl_assignBlockAddress_subDeviceNumbers _ _

/-- No PID handler changes a sub-device number. -/
theorem callHandler_subDeviceNumbers (handler : PIDCommandHandler) (header : RDMHeader)
    (param_data : List Nat) (s : State) :
    (callHandler handler header param_data s).2.subDeviceNumbers = s.subDeviceNumbers := by
  cases handler <;>
    simp only [callHandler, RDMResponder_GetSupportedParameters, RDMResponder_GetDeviceInfo,
      RDMResponder_GetProductDetailIds, RDMResponder_GetDeviceModelDescription,
      RDMResponder_GetManufacturerLabel, RDMResponder_GetDeviceLabel,
      RDMResponder_SetDeviceLabel, RDMResponder_GetSoftwareVersionLabel,
      RDMResponder_GetIdentifyDevice, RDMResponder_SetIdentifyDevice,
      RDMResponder_GetDMXStartAddress, RDMResponder_SetDMXStartAddress,
      DimmerModel_CapturePreset, DimmerModel_GetPresetPlayback,
      DimmerModel_SetPresetPlayback, DimmerModel_GetDMXBlockAddress,
      DimmerModel_SetDMXBlockAddress, DimmerModel_GetDMXFailMode,
      DimmerModel_SetDMXFailMode, DimmerModel_GetDMXStartupMode,
      DimmerModel_SetDMXStartupMode, DimmerModel_GetLockPin, DimmerModel_SetLockPin,
      DimmerModel_GetLockState, DimmerModel_SetLockState,
      DimmerModel_GetLockStateDescription, DimmerModel_GetPresetInfo,
      DimmerModel_GetPresetStatus, DimmerModel_SetPresetStatus,
      DimmerModel_GetPresetMergeMode, DimmerModel_SetPresetMergeMode,
      DimmerModel_GetPowerOnSelfTest, DimmerModel_SetPowerOnSelfTest,
      DimmerModel_GetBurnIn, DimmerModel_SetBurnIn, DimmerModel_GetIdentifyMode,
      DimmerModel_SetIdentifyMode, DimmerModel_GetDimmerInfo,
      DimmerModel_GetMinimumLevel, DimmerModel_SetMinimumLevel,
      DimmerModel_GetMaximumLevel, DimmerModel_SetMaximumLevel, DimmerModel_GetCurve,
      DimmerModel_SetCurve, DimmerModel_GetCurveDescription,
      DimmerModel_GetOutputResponseTime, DimmerModel_SetOutputResponseTime,
      DimmerModel_GetOutputResponseDescription, DimmerModel_GetModulationFrequency,
      DimmerModel_SetModulationFrequency,
      DimmerModel_GetModulationFrequencyDescription] <;>
    (try split_ifs) <;>
    first
      | rfl
      | exact setResponder_subDeviceNumbers _ _
      | exact setActiveDevice_subDeviceNumbers _ _ rfl
      | exact ResetToBlockAddress_subDeviceNumbers _ _

theorem DispatchPID_subDeviceNumbers (header : RDMHeader) (param_data : List Nat)
    (s : State) :
    (RDMResponder_DispatchPID header param_data s).2.subDeviceNumbers =
      s.subDeviceNumbers := by
  rcases DispatchPID_cases header param_data s with ⟨reason, h⟩ | ⟨handler, h⟩
  · rw [h]
  · rw [h]
    exact callHandler_subDeviceNumbers handler header param_data s

theorem HandleDiscovery_subDeviceNumbers (header : RDMHeader) (param_data : List Nat)
    (s : State) :
    (RDMResponder_HandleDiscovery header param_data s).2.subDeviceNumbers =
      s.subDeviceNumbers := by
  simp only [RDMResponder_HandleDiscovery]
  split_ifs <;> first | rfl | exact setResponder_subDeviceNumbers _ _

theorem dispatchSubDevice_subDeviceNumbers (header : RDMHeader) (param_data : List Nat)
    (s : State) (i : Nat) :
    (dispatchSubDevice header param_data s i).2.subDeviceNumbers = s.subDeviceNumbers := by
  unfold dispatchSubDevice
  rw [DispatchPID_subDeviceNumbers]
  rfl

theorem foldl_handleSubDevice_subDeviceNumbers (header : RDMHeader)
    (param_data : List Nat) (sub_device : Nat) (locked : Bool) (l : List Nat)
    (acc : SubDeviceLoop) :
    (l.foldl (handleSubDevice header param_data sub_device locked) acc).state.subDeviceNumbers
      = acc.state.subDeviceNumbers := by
  induction l generalizing acc with
  | nil => rfl
  | cons i l ih =>
    simp only [List.foldl_cons]
    rw [ih, handleSubDevice_eq]
    split_ifs
    · exact dispatchSubDevice_subDeviceNumbers header param_data acc.state i
    · rfl
    · rfl

/-- No request changes a sub-device number. -/
theorem HandleRequest_subDeviceNumbers (header : RDMHeader) (param_data : List Nat)
    (s : State) :
    (DimmerModel_HandleRequest header param_data s).2.subDeviceNumbers =
      s.subDeviceNumbers := by
  have hloop := fun locked => foldl_handleSubDevice_subDeviceNumbers header
    param_data header.sub_device locked (List.range NUMBER_OF_SUB_DEVICES)
    { state := s, handled := false, response_size := Response.NO_RESPONSE }
  have hrestore : ∀ t : State,
      ({ t with g_responder := s.g_responder } : State).subDeviceNumbers =
        t.subDeviceNumbers := fun t => rfl
  rw [HandleRequest_eq]
  split_ifs
  · rfl
  · exact HandleDiscovery_subDeviceNumbers header param_data s
  · rfl
  · rfl
  · exact DispatchPID_subDeviceNumbers header param_data s
  · exact (hrestore _).trans (hloop _)
  · exact (hrestore _).trans (hloop _)
  · exact (hrestore _).trans (hloop _)

theorem Activate_subDeviceNumbers (s : State) :
    (DimmerModel_Activate s).subDeviceNumbers = s.subDeviceNumbers := by
  simp only [DimmerModel_Activate, RDMResponder_ResetToFactoryDefaults,
    setResponder_subDeviceNumbers]

/-- One pass of the sub-device loop of `DimmerModel_Initialize` gives
`g_subdevices[i]` the next sub-device number, skipping one before pass 1. -/
theorem initSubDevice_subDeviceNumbers (temp : ResponderRef) (acc : Nat × State) (i : Nat)
    (hi : i < 4) :
    (initSubDevice temp acc i).1 =
      ((if i = 1 then (acc.1 + 1) % 65536 else acc.1) + 1) % 65536 ∧
    (initSubDevice temp acc i).2.subDeviceNumbers =
      acc.2.subDeviceNumbers.set i (if i = 1 then (acc.1 + 1) % 65536 else acc.1) := by
  refine ⟨rfl, ?_⟩
  simp only [initSubDevice, setResponder_subDeviceNumbers,
    RDMResponder_ResetToFactoryDefaults]
  rw [subDeviceNumbers_eq, subDeviceNumbers_eq]
  have hi' : i = 0 ∨ i = 1 ∨ i = 2 ∨ i = 3 := by omega
  rcases hi' with rfl | rfl | rfl | rfl <;>
    simp [SubDeviceArray.get, SubDeviceArray.set, List.set]

theorem foldl_initSubDevice_subDeviceNumbers (temp : ResponderRef) (s : State) :
    ((List.range NUMBER_OF_SUB_DEVICES).foldl (initSubDevice temp) (1, s)).2.subDeviceNumbers
      = [1, 3, 4, 5] := by
  rw [range_sub_devices]
  simp only [List.foldl_cons, List.foldl_nil]
  have h0 := initSubDevice_subDeviceNumbers temp (1, s) 0 (by decide)
  generalize initSubDevice temp (1, s) 0 = a1 at h0 ⊢
  have h1 := initSubDevice_subDeviceNumbers temp a1 1 (by decide)
  generalize initSubDevice temp a1 1 = a2 at h1 ⊢
  have h2 := initSubDevice_subDeviceNumbers temp a2 2 (by decide)
  generalize initSubDevice temp a2 2 = a3 at h2 ⊢
  have h3 := initSubDevice_subDeviceNumbers temp a3 3 (by decide)
  generalize initSubDevice temp a3 3 = a4 at h3 ⊢
  obtain ⟨h0a, h0b⟩ := h0
  obtain ⟨h1a, h1b⟩ := h1
  obtain ⟨h2a, h2b⟩ := h2
  obtain ⟨h3a, h3b⟩ := h3
  simp only [] at h0a h0b
  rw [h3b, h2b, h1b, h0b, h2a, h1a, h0a, subDeviceNumbers_eq]
  simp [List.set]

theorem foldl_initStartAddress_subDeviceNumbers (l : List Nat) (s : State) :
    (l.foldl initStartAddress s).subDeviceNumbers = s.subDeviceNumbers := by
  induction l generalizing s with
  | nil => rfl
  | cons i l ih =>
    simp only [List.foldl_cons]
    rw [ih]
    exact subDeviceNumbers_set s _ _ _ rfl rfl

/-- The sub-device numbers after the part of `DimmerModel_Initialize` that
follows the set-up of the root device. -/
theorem Initialize_tail_subDeviceNumbers (temp : ResponderRef) (s : State) :
    (if !(ResetToBlockAddress INITIAL_START_ADDRESSS
          { ((List.range NUMBER_OF_SUB_DEVICES).foldl (initSubDevice temp) (1, s)).2 with
            g_responder := temp }).1 then
        (List.range NUMBER_OF_SUB_DEVICES).foldl initStartAddress
          (ResetToBlockAddress INITIAL_START_ADDRESSS
            { ((List.range NUMBER_OF_SUB_DEVICES).foldl (initSubDevice temp) (1, s)).2 with
              g_responder := temp }).2
      else
        (ResetToBlockAddress INITIAL_START_ADDRESSS
          { ((List.range NUMBER_OF_SUB_DEVICES).foldl (initSubDevice temp) (1, s)).2 with
            g_responder := temp }).2).subDeviceNumbers = [1, 3, 4, 5] := by
  have h2 := foldl_initSubDevice_subDeviceNumbers temp s
  generalize ((List.range NUMBER_OF_SUB_DEVICES).foldl (initSubDevice temp) (1, s)).2 = t
    at h2 ⊢
  have h1 := ResetToBlockAddress_subDeviceNumbers INITIAL_START_ADDRESSS
    { t with g_responder := temp }
  generalize ResetToBlockAddress INITIAL_START_ADDRESSS { t with g_responder := temp } = r
    at h1 ⊢
  have h3 : ({ t with g_responder := temp } : State).subDeviceNumbers =
      t.subDeviceNumbers := rfl
  split_ifs
  · rw [foldl_initStartAddress_subDeviceNumbers, h1, h3, h2]
  · rw [h1, h3, h2]

/-- After `DimmerModel_Initialize` the sub-devices carry the numbers 1, 3, 4
and 5, whatever the state was before. -/
theorem Initialize_subDeviceNumbers (s : State) :
    (DimmerModel_Initialize s).subDeviceNumbers = [1, 3, 4, 5] := by
  have key : ∀ t, DimmerModel_Initialize s = t → t.subDeviceNumbers = [1, 3, 4, 5] := by
    intro t ht
    rw [DimmerModel_Initialize] at ht
    rw [← ht, Initialize_tail_subDeviceNumbers]
  exact key _ rfl

theorem Reachable_subDeviceNumbers (t : State) (ht : Reachable t) :
    t.subDeviceNumbers = [1, 3, 4, 5] := by
  induction ht with
  | start s0 => exact Initialize_subDeviceNumbers s0
  | activate s0 _ ih => rw [Activate_subDeviceNumbers, ih]
  | handle s0 hdr p _ ih => rw [HandleRequest_subDeviceNumbers, ih]

theorem index_of_subDeviceNumbers_eq (s t : State)
    (h : t.subDeviceNumbers = s.subDeviceNumbers) (j : Nat) (hj : j < 4) :
    (t.g_subdevices.get j).index = (s.g_subdevices.get j).index := by
  rw [subDeviceNumbers_eq, subDeviceNumbers_eq] at h
  simp only [List.cons.injEq, and_true] at h
  have hj' : j = 0 ∨ j = 1 ∨ j = 2 ∨ j = 3 := by omega
  rcases hj' with rfl | rfl | rfl | rfl
  · exact h.1
  · exact h.2.1
  · exact h.2.2.1
  · exact h.2.2.2

/-- A pass of the sub-device loop for a sub-device with another number does
nothing. -/
theorem handleSubDevice_skip (header : RDMHeader) (param_data : List Nat)
    (sub_device : Nat) (locked : Bool) (acc : SubDeviceLoop) (j : Nat)
    (hall : sub_device ≠ SUBDEVICE_ALL)
    (hne : (acc.state.g_subdevices.get j).index ≠ sub_device) :
    handleSubDevice header param_data sub_device locked acc j = acc := by
  rw [handleSubDevice_eq]
  have hc : ¬ (sub_device = (acc.state.g_subdevices.get j).index ∨
      sub_device = SUBDEVICE_ALL) := by
    rintro (h | h)
    · exact hne h.symm
    · exact hall h
  rw [if_neg hc]

/-- A pass of the sub-device loop for the sub-device with the number asked
for, when no lock applies, is one dispatch. -/
theorem handleSubDevice_hit (header : RDMHeader) (param_data : List Nat)
    (sub_device : Nat) (acc : SubDeviceLoop) (i : Nat)
    (heq : (acc.state.g_subdevices.get i).index = sub_device) :
    handleSubDevice header param_data sub_device false acc i =
      { state := (dispatchSubDevice header param_data acc.state i).2
        handled := true
        response_size := (dispatchSubDevice header param_data acc.state i).1 } := by
  rw [handleSubDevice_eq, if_pos (Or.inl heq.symm)]
  simp

/-- When exactly `g_subdevices[i]` carries the number asked for, the
sub-device loop of `DimmerModel_HandleRequest` dispatches once, to
`g_subdevices[i]`. -/
theorem foldl_handleSubDevice_single (header : RDMHeader) (param_data : List Nat)
    (sub_device : Nat) (s : State) (i : Nat) (hi : i < 4)
    (hall : sub_device ≠ SUBDEVICE_ALL)
    (heq : (s.g_subdevices.get i).index = sub_device)
    (hdist : ∀ j, j < 4 → j ≠ i → (s.g_subdevices.get j).index ≠ sub_device) :
    (List.range NUMBER_OF_SUB_DEVICES).foldl
      (handleSubDevice header param_data sub_device false)
      { state := s, handled := false, response_size := Response.NO_RESPONSE } =
      { state := (dispatchSubDevice header param_data s i).2
        handled := true
        response_size := (dispatchSubDevice header param_data s i).1 } := by
  have hafter : ∀ j, j < 4 → j ≠ i →
      ((dispatchSubDevice header param_data s i).2.g_subdevices.get j).index ≠
        sub_device := by
    intro j hj hne
    rw [index_of_subDeviceNumbers_eq s _
      (dispatchSubDevice_subDeviceNumbers header param_data s i) j hj]
    exact hdist j hj hne
  have hi' : i = 0 ∨ i = 1 ∨ i = 2 ∨ i = 3 := by omega
  rw [range_sub_devices]
  simp only [List.foldl_cons, List.foldl_nil]
  rcases hi' with rfl | rfl | rfl | rfl
  · rw [handleSubDevice_hit _ _ _
        { state := s, handled := false, response_size := Response.NO_RESPONSE } _ heq,
      handleSubDevice_skip _ _ _ _ _ 1 hall (hafter 1 (by decide) (by decide)),
      handleSubDevice_skip _ _ _ _ _ 2 hall (hafter 2 (by decide) (by decide)),
      handleSubDevice_skip _ _ _ _ _ 3 hall (hafter 3 (by decide) (by decide))]
  · rw [handleSubDevice_skip _ _ _ _ _ 0 hall (hdist 0 (by decide) (by decide)),
      handleSubDevice_hit _ _ _
        { state := s, handled := false, response_size := Response.NO_RESPONSE } _ heq,
      handleSubDevice_skip _ _ _ _ _ 2 hall (hafter 2 (by decide) (by decide)),
      handleSubDevice_skip _ _ _ _ _ 3 hall (hafter 3 (by decide) (by decide))]
  · rw [handleSubDevice_skip _ _ _ _ _ 0 hall (hdist 0 (by decide) (by decide)),
      handleSubDevice_skip _ _ _ _ _ 1 hall (hdist 1 (by decide) (by decide)),
      handleSubDevice_hit _ _ _
        { state := s, handled := false, response_size := Response.NO_RESPONSE } _ heq,
      handleSubDevice_skip _ _ _ _ _ 3 hall (hafter 3 (by decide) (by decide))]
  · rw [handleSubDevice_skip _ _ _ _ _ 0 hall (hdist 0 (by decide) (by decide)),
      handleSubDevice_skip _ _ _ _ _ 1 hall (hdist 1 (by decide) (by decide)),
      handleSubDevice_skip _ _ _ _ _ 2 hall (hdist 2 (by decide) (by decide)),
      handleSubDevice_hit _ _ _
        { state := s, handled := false, response_size := Response.NO_RESPONSE } _ heq]

/-- C29: after `DimmerModel_Initialize` the four sub-devices carry the
sub-device numbers 1, 3, 4, 5 in array order (a gap at 2), whatever the state
was before, and they keep them in every state reachable from there. The
numbers are pairwise distinct and lie in 1..0x0200, so a request for a specific
sub-device number is dispatched to at most one sub-device: when
`g_subdevices[i]` carries the number asked for, the sub-device loop of
`DimmerModel_HandleRequest` is one dispatch, to `g_subdevices[i]`. -/
theorem sub_device_numbers_distinct (s : State) :
    ((DimmerModel_Initialize s).g_subdevices.get 0).index = 1 ∧
    ((DimmerModel_Initialize s).g_subdevices.get 1).index = 3 ∧
    ((DimmerModel_Initialize s).g_subdevices.get 2).index = 4 ∧
    ((DimmerModel_Initialize s).g_subdevices.get 3).index = 5 ∧
    (∀ t, Reachable t → t.subDeviceNumbers = [1, 3, 4, 5]) ∧
    (∀ t, Reachable t → ∀ i j, i < NUMBER_OF_SUB_DEVICES → j < NUMBER_OF_SUB_DEVICES →
      (t.g_subdevices.get i).index = (t.g_subdevices.get j).index → i = j) ∧
    (∀ t, Reachable t → ∀ i, i < NUMBER_OF_SUB_DEVICES →
      1 ≤ (t.g_subdevices.get i).index ∧ (t.g_subdevices.get i).index ≤ SUBDEVICE_MAX) ∧
    (∀ t, Reachable t → ∀ (header : RDMHeader) (param_data : List Nat) (i : Nat),
      i < NUMBER_OF_SUB_DEVICES → (t.g_subdevices.get i).index = header.sub_device →
      (List.range NUMBER_OF_SUB_DEVICES).foldl
        (handleSubDevice header param_data header.sub_device false)
        { state := t, handled := false, response_size := Response.NO_RESPONSE } =
        { state := (dispatchSubDevice header param_data t i).2
          handled := true
          response_size := (dispatchSubDevice header param_data t i).1 }) := by
  have hnum : ∀ t, Reachable t →
      (t.g_subdevices.get 0).index = 1 ∧ (t.g_subdevices.get 1).index = 3 ∧
      (t.g_subdevices.get 2).index = 4 ∧ (t.g_subdevices.get 3).index = 5 := by
    intro t ht
    have h := Reachable_subDeviceNumbers t ht
    rw [subDeviceNumbers_eq] at h
    simpa using h
  have hinit := hnum (DimmerModel_Initialize s) (Reachable.start s)
  refine ⟨hinit.1, hinit.2.1, hinit.2.2.1, hinit.2.2.2, Reachable_subDeviceNumbers,
    ?_, ?_, ?_⟩
  · intro t ht i j hi hj h
    obtain ⟨h0, h1, h2, h3⟩ := hnum t ht
    simp only [NUMBER_OF_SUB_DEVICES] at hi hj
    have hi' : i = 0 ∨ i = 1 ∨ i = 2 ∨ i = 3 := by omega
    have hj' : j = 0 ∨ j = 1 ∨ j = 2 ∨ j = 3 := by omega
    rcases hi' with rfl | rfl | rfl | rfl <;> rcases hj' with rfl | rfl | rfl | rfl <;>
      omega
  · intro t ht i hi
    obtain ⟨h0, h1, h2, h3⟩ := hnum t ht
    simp only [NUMBER_OF_SUB_DEVICES] at hi
    have hi' : i = 0 ∨ i = 1 ∨ i = 2 ∨ i = 3 := by omega
    simp only [SUBDEVICE_MAX]
    rcases hi' with rfl | rfl | rfl | rfl <;> omega
  · intro t ht header param_data i hi heq
    obtain ⟨h0, h1, h2, h3⟩ := hnum t ht
    simp only [NUMBER_OF_SUB_DEVICES] at hi
    have hi' : i = 0 ∨ i = 1 ∨ i = 2 ∨ i = 3 := by omega
    apply foldl_handleSubDevice_single header param_data header.sub_device t i hi _ heq
    · intro j hj hne
      have hj' : j = 0 ∨ j = 1 ∨ j = 2 ∨ j = 3 := by omega
      rcases hi' with rfl | rfl | rfl | rfl <;> rcases hj' with rfl | rfl | rfl | rfl <;>
        omega
    · simp only [SUBDEVICE_ALL]
      rcases hi' with rfl | rfl | rfl | rfl <;> omega

/-- Witness for C29: the factory state is reachable; GET `CURVE` to sub-device
4 is one dispatch, to `g_subdevices[2]`. -/
theorem sub_device_numbers_distinct_witness :
    (List.range NUMBER_OF_SUB_DEVICES).foldl
      (handleSubDevice (request GET_COMMAND 4 PID_CURVE []) [] 4 false)
      { state := factoryState, handled := false, response_size := Response.NO_RESPONSE } =
      { state :=
          (dispatchSubDevice (request GET_COMMAND 4 PID_CURVE []) [] factoryState 2).2
        handled := true
        response_size :=
          (dispatchSubDevice (request GET_COMMAND 4 PID_CURVE []) [] factoryState 2).1 } :=
  (sub_device_numbers_distinct (bootState TEST_UID)).2.2.2.2.2.2.2 factoryState
    (Reachable.activate _ (Reachable.start (bootState TEST_UID)))
    (request GET_COMMAND 4 PID_CURVE []) [] 2 (by decide) (by decide)

/-! ## The ranges of the root device state (C30) -/

theorem SceneArray_get_set_cases (a : SceneArray) (i j : Nat) (v : Scene) :
    (a.set i v).get j = v ∨ (a.set i v).get j = a.get j := by
  match i with
  | 0 =>
    match j with
    | 0 => exact Or.inl rfl
    | 1 => exact Or.inr rfl
    | (n + 2) => exact Or.inr rfl
  | 1 =>
    match j with
    | 0 => exact Or.inr rfl
    | 1 => exact Or.inl rfl
    | (n + 2) => exact Or.inr rfl
  | 2 =>
    match j with
    | 0 => exact Or.inr rfl
    | 1 => exact Or.inr rfl
    | (n + 2) => exact Or.inl rfl
  | (m + 3) => exact Or.inr rfl

/-- Writing a scene whose programmed state is one of the three keeps the
ranges of the root device state. -/
theorem inRange_set_scene (r : RootDevice) (i : Nat) (v : Scene) (h : r.inRange)
    (hv : v.programmed_state = PRESET_NOT_PROGRAMMED ∨
      v.programmed_state = PRESET_PROGRAMMED ∨
      v.programmed_state = PRESET_PROGRAMMED_READ_ONLY) :
    RootDevice.inRange { r with scenes := r.scenes.set i v } := by
  obtain ⟨hpin, hlock, hscene, hplay, hfail, hstart⟩ := h
  refine ⟨hpin, hlock, ?_, hplay, hfail, hstart⟩
  intro j hj
  rcases SceneArray_get_set_cases r.scenes i j v with e | e
  · simp only [e]
    exact hv
  · simp only [e]
    exact hscene j hj

theorem CapturePreset_inRange (header : RDMHeader) (param_data : List Nat) (s : State)
    (h : s.g_root_device.inRange) :
    (DimmerModel_CapturePreset header param_data s).2.g_root_device.inRange := by
  simp only [DimmerModel_CapturePreset]
  split_ifs
  · exact h
  · exact h
  · exact h
  · exact inRange_set_scene _ _ _ h (Or.inr (Or.inl rfl))

theorem SetPresetStatus_inRange (header : RDMHeader) (param_data : List Nat) (s : State)
    (h : s.g_root_device.inRange) :
    (DimmerModel_SetPresetStatus header param_data s).2.g_root_device.inRange := by
  simp only [DimmerModel_SetPresetStatus]
  split_ifs with c1 c2 c3 c4 c5
  · exact h
  · exact h
  · exact h
  · exact h
  · exact inRange_set_scene _ _ _ h (Or.inl rfl)
  · have hj : ExtractUInt16 param_data 0 - 1 < NUMBER_OF_SCENES := by
      simp only [NUMBER_OF_SCENES] at c2 ⊢
      omega
    exact inRange_set_scene _ _ _ h (h.2.2.1 _ hj)

theorem SetPresetPlayback_inRange (header : RDMHeader) (param_data : List Nat) (s : State)
    (h : s.g_root_device.inRange) :
    (DimmerModel_SetPresetPlayback header param_data s).2.g_root_device.inRange := by
  obtain ⟨hpin, hlock, hscene, hplay, hfail, hstart⟩ := h
  simp only [DimmerModel_SetPresetPlayback]
  split_ifs with c1 c2
  · exact ⟨hpin, hlock, hscene, hplay, hfail, hstart⟩
  · exact ⟨hpin, hlock, hscene, hplay, hfail, hstart⟩
  · refine ⟨hpin, hlock, hscene, ?_, hfail, hstart⟩
    show ExtractUInt16 param_data 0 ≤ NUMBER_OF_SCENES ∨
      ExtractUInt16 param_data 0 = PRESET_PLAYBACK_ALL
    by_cases e : ExtractUInt16 param_data 0 = PRESET_PLAYBACK_ALL
    · exact Or.inr e
    · left
      by_contra hgt
      exact c2 ⟨by omega, e⟩

theorem SetDMXFailMode_inRange (header : RDMHeader) (param_data : List Nat) (s : State)
    (h : s.g_root_device.inRange) :
    (DimmerModel_SetDMXFailMode header param_data s).2.g_root_device.inRange := by
  obtain ⟨hpin, hlock, hscene, hplay, hfail, hstart⟩ := h
  simp only [DimmerModel_SetDMXFailMode]
  split_ifs with c1 c2
  · exact ⟨hpin, hlock, hscene, hplay, hfail, hstart⟩
  · exact ⟨hpin, hlock, hscene, hplay, hfail, hstart⟩
  · refine ⟨hpin, hlock, hscene, hplay, ?_, hstart⟩
    show ExtractUInt16 param_data 0 ≤ NUMBER_OF_SCENES ∨
      ExtractUInt16 param_data 0 = PRESET_PLAYBACK_ALL
    by_cases e : ExtractUInt16 param_data 0 = PRESET_PLAYBACK_ALL
    · exact Or.inr e
    · left
      by_contra hgt
      exact c2 ⟨by omega, e⟩

theorem SetDMXStartupMode_inRange (header : RDMHeader) (param_data : List Nat) (s : State)
    (h : s.g_root_device.inRange) :
    (DimmerModel_SetDMXStartupMode header param_data s).2.g_root_device.inRange := by
  obtain ⟨hpin, hlock, hscene, hplay, hfail, hstart⟩ := h
  simp only [DimmerModel_SetDMXStartupMode]
  split_ifs with c1 c2
  · exact ⟨hpin, hlock, hscene, hplay, hfail, hstart⟩
  · exact ⟨hpin, hlock, hscene, hplay, hfail, hstart⟩
  · refine ⟨hpin, hlock, hscene, hplay, hfail, ?_⟩
    show ExtractUInt16 param_data 0 ≤ NUMBER_OF_SCENES ∨
      ExtractUInt16 param_data 0 = PRESET_PLAYBACK_ALL
    by_cases e : ExtractUInt16 param_data 0 = PRESET_PLAYBACK_ALL
    · exact Or.inr e
    · left
      by_contra hgt
      exact c2 ⟨by omega, e⟩

theorem SetLockPin_inRange (header : RDMHeader) (param_data : List Nat) (s : State)
    (h : s.g_root_device.inRange) :
    (DimmerModel_SetLockPin header param_data s).2.g_root_device.inRange := by
  obtain ⟨hpin, hlock, hscene, hplay, hfail, hstart⟩ := h
  simp only [DimmerModel_SetLockPin]
  split_ifs with c1 c2 c3
  · exact ⟨hpin, hlock, hscene, hplay, hfail, hstart⟩
  · exact ⟨hpin, hlock, hscene, hplay, hfail, hstart⟩
  · exact ⟨hpin, hlock, hscene, hplay, hfail, hstart⟩
  · refine ⟨?_, hlock, hscene, hplay, hfail, hstart⟩
    show ExtractUInt16 param_data 0 ≤ MAX_PIN_CODE
    omega

theorem SetLockState_inRange (header : RDMHeader) (param_data : List Nat) (s : State)
    (h : s.g_root_device.inRange) :
    (DimmerModel_SetLockState header param_data s).2.g_root_device.inRange := by
  obtain ⟨hpin, hlock, hscene, hplay, hfail, hstart⟩ := h
  simp only [DimmerModel_SetLockState]
  split_ifs with c1 c2
  · exact ⟨hpin, hlock, hscene, hplay, hfail, hstart⟩
  · exact ⟨hpin, hlock, hscene, hplay, hfail, hstart⟩
  · refine ⟨hpin, ?_, hscene, hplay, hfail, hstart⟩
    show byteAt param_data 2 = LOCK_STATE_UNLOCKED ∨
      byteAt param_data 2 = LOCK_STATE_SUBDEVICES_LOCKED ∨
      byteAt param_data 2 = LOCK_STATE_ALL_LOCKED
    simp only [NUMBER_OF_LOCK_STATES, not_or] at c2
    simp only [LOCK_STATE_UNLOCKED, LOCK_STATE_SUBDEVICES_LOCKED, LOCK_STATE_ALL_LOCKED]
    omega

theorem SetPresetMergeMode_inRange (header : RDMHeader) (param_data : List Nat)
    (s : State) (h : s.g_root_device.inRange) :
    (DimmerModel_SetPresetMergeMode header param_data s).2.g_root_device.inRange := by
  simp only [DimmerModel_SetPresetMergeMode]
  split_ifs
  · exact h
  · exact h
  · exact h

theorem SetPowerOnSelfTest_inRange (header : RDMHeader) (param_data : List Nat)
    (s : State) (h : s.g_root_device.inRange) :
    (DimmerModel_SetPowerOnSelfTest header param_data s).2.g_root_device.inRange :=
  h

/-- The PID handlers other than the nine that write to `g_root_device` leave
it as it is. -/
theorem callHandler_g_root_device (handler : PIDCommandHandler) (header : RDMHeader)
    (param_data : List Nat) (s : State)
    (h1 : handler ≠ PIDCommandHandler.DimmerModel_CapturePreset)
    (h2 : handler ≠ PIDCommandHandler.DimmerModel_SetPresetPlayback)
    (h3 : handler ≠ PIDCommandHandler.DimmerModel_SetDMXFailMode)
    (h4 : handler ≠ PIDCommandHandler.DimmerModel_SetDMXStartupMode)
    (h5 : handler ≠ PIDCommandHandler.DimmerModel_SetLockPin)
    (h6 : handler ≠ PIDCommandHandler.DimmerModel_SetLockState)
    (h7 : handler ≠ PIDCommandHandler.DimmerModel_SetPresetStatus)
    (h8 : handler ≠ PIDCommandHandler.DimmerModel_SetPresetMergeMode)
    (h9 : handler ≠ PIDCommandHandler.DimmerModel_SetPowerOnSelfTest) :
    (callHandler handler header param_data s).2.g_root_device = s.g_root_device := by
  have hr := (ResetToBlockAddress_frame (ExtractUInt16 param_data 0) s).2.2.1
  cases handler <;>
    first
    | exact absurd rfl h1
    | exact absurd rfl h2
    | exact absurd rfl h3
    | exact absurd rfl h4
    | exact absurd rfl h5
    | exact absurd rfl h6
    | exact absurd rfl h7
    | exact absurd rfl h8
    | exact absurd rfl h9
    | (simp only [callHandler, RDMResponder_GetSupportedParameters,
        RDMResponder_GetDeviceInfo, RDMResponder_GetProductDetailIds,
        RDMResponder_GetDeviceModelDescription, RDMResponder_GetManufacturerLabel,
        RDMResponder_GetDeviceLabel, RDMResponder_SetDeviceLabel,
        RDMResponder_GetSoftwareVersionLabel, RDMResponder_GetIdentifyDevice,
        RDMResponder_SetIdentifyDevice, RDMResponder_GetDMXStartAddress,
        RDMResponder_SetDMXStartAddress, DimmerModel_GetPresetPlayback,
        DimmerModel_GetDMXBlockAddress, DimmerModel_SetDMXBlockAddress,
        DimmerModel_GetDMXFailMode, DimmerModel_GetDMXStartupMode, DimmerModel_GetLockPin,
        DimmerModel_GetLockState, DimmerModel_GetLockStateDescription,
        DimmerModel_GetPresetInfo, DimmerModel_GetPresetStatus,
        DimmerModel_GetPresetMergeMode, DimmerModel_GetPowerOnSelfTest,
        DimmerModel_GetBurnIn, DimmerModel_SetBurnIn, DimmerModel_GetIdentifyMode,
        DimmerModel_SetIdentifyMode, DimmerModel_GetDimmerInfo,
        DimmerModel_GetMinimumLevel, DimmerModel_SetMinimumLevel,
        DimmerModel_GetMaximumLevel, DimmerModel_SetMaximumLevel, DimmerModel_GetCurve,
        DimmerModel_SetCurve, DimmerModel_GetCurveDescription,
        DimmerModel_GetOutputResponseTime, DimmerModel_SetOutputResponseTime,
        DimmerModel_GetOutputResponseDescription, DimmerModel_GetModulationFrequency,
        DimmerModel_SetModulationFrequency,
        DimmerModel_GetModulationFrequencyDescription] <;>
      (try split_ifs) <;>
      first
        | rfl
        | exact setResponder_g_root_device _ _
        | exact setActiveDevice_g_root_device _ _
        | exact hr)

/-- Every PID handler keeps the ranges of the root device state. -/
theorem callHandler_inRange (handler : PIDCommandHandler) (header : RDMHeader)
    (param_data : List Nat) (s : State) (h : s.g_root_device.inRange) :
    (callHandler handler header param_data s).2.g_root_device.inRange := by
  by_cases h1 : handler = PIDCommandHandler.DimmerModel_CapturePreset
  · rw [h1]
    exact CapturePreset_inRange header param_data s h
  by_cases h2 : handler = PIDCommandHandler.DimmerModel_SetPresetPlayback
  · rw [h2]
    exact SetPresetPlayback_inRange header param_data s h
  by_cases h3 : handler = PIDCommandHandler.DimmerModel_SetDMXFailMode
  · rw [h3]
    exact SetDMXFailMode_inRange header param_data s h
  by_cases h4 : handler = PIDCommandHandler.DimmerModel_SetDMXStartupMode
  · rw [h4]
    exact SetDMXStartupMode_inRange header param_data s h
  by_cases h5 : handler = PIDCommandHandler.DimmerModel_SetLockPin
  · rw [h5]
    exact SetLockPin_inRange header param_data s h
  by_cases h6 : handler = PIDCommandHandler.DimmerModel_SetLockState
  · rw [h6]
    exact SetLockState_inRange header param_data s h
  by_cases h7 : handler = PIDCommandHandler.DimmerModel_SetPresetStatus
  · rw [h7]
    exact SetPresetStatus_inRange header param_data s h
  by_cases h8 : handler = PIDCommandHandler.DimmerModel_SetPresetMergeMode
  · rw [h8]
    exact SetPresetMergeMode_inRange header param_data s h
  by_cases h9 : handler = PIDCommandHandler.DimmerModel_SetPowerOnSelfTest
  · rw [h9]
    exact SetPowerOnSelfTest_inRange header param_data s h
  rw [callHandler_g_root_device handler header param_data s h1 h2 h3 h4 h5 h6 h7 h8 h9]
  exact h

theorem DispatchPID_inRange (header : RDMHeader) (param_data : List Nat) (s : State)
    (h : s.g_root_device.inRange) :
    (RDMResponder_DispatchPID header param_data s).2.g_root_device.inRange := by
  rcases DispatchPID_cases header param_data s with ⟨reason, e⟩ | ⟨handler, e⟩
  · rw [e]
    exact h
  · rw [e]
    exact callHandler_inRange handler header param_data s h

theorem dispatchSubDevice_inRange (header : RDMHeader) (param_data : List Nat)
    (s : State) (i : Nat) (h : s.g_root_device.inRange) :
    (dispatchSubDevice header param_data s i).2.g_root_device.inRange :=
  DispatchPID_inRange header param_data _ h

theorem foldl_handleSubDevice_inRange (header : RDMHeader) (param_data : List Nat)
    (sub_device : Nat) (locked : Bool) (l : List Nat) (acc : SubDeviceLoop)
    (h : acc.state.g_root_device.inRange) :
    (l.foldl (handleSubDevice header param_data sub_device locked)
      acc).state.g_root_device.inRange := by
  induction l generalizing acc with
  | nil => exact h
  | cons i l ih =>
    simp only [List.foldl_cons]
    apply ih
    rw [handleSubDevice_eq]
    split_ifs
    · exact dispatchSubDevice_inRange header param_data acc.state i h
    · exact h
    · exact h

/-- Every request keeps the ranges of the root device state. -/
theorem HandleRequest_inRange (header : RDMHeader) (param_data : List Nat) (s : State)
    (h : s.g_root_device.inRange) :
    (DimmerModel_HandleRequest header param_data s).2.g_root_device.inRange := by
  have hloop := fun locked => foldl_handleSubDevice_inRange header
    param_data header.sub_device locked (List.range NUMBER_OF_SUB_DEVICES)
    { state := s, handled := false, response_size := Response.NO_RESPONSE } h
  rw [HandleRequest_eq]
  split_ifs
  · exact h
  · rw [(HandleDiscovery_frame header param_data s).2.2]
    exact h
  · exact h
  · exact h
  · exact DispatchPID_inRange header param_data s h
  · exact hloop _
  · exact hloop _
  · exact hloop _

theorem Initialize_inRange (s : State) : (DimmerModel_Initialize s).g_root_device.inRange := by
  have hoff : PRESET_PLAYBACK_OFF ≤ NUMBER_OF_SCENES := by decide
  rw [Initialize_g_root_device]
  refine ⟨Nat.zero_le _, Or.inl rfl, ?_, Or.inl hoff, Or.inl hoff, Or.inl hoff⟩
  intro j hj
  simp only [NUMBER_OF_SCENES] at hj
  have hj' : j = 0 ∨ j = 1 ∨ j = 2 := by omega
  rcases hj' with rfl | rfl | rfl
  · exact Or.inr (Or.inr rfl)
  · exact Or.inl rfl
  · exact Or.inl rfl

theorem Reachable_inRange (t : State) (ht : Reachable t) : t.g_root_device.inRange := by
  induction ht with
  | start s0 => exact Initialize_inRange s0
  | activate s0 _ ih =>
    rw [Activate_g_root_device]
    exact ih
  | handle s0 hdr p _ ih => exact HandleRequest_inRange hdr p s0 ih

/-- C30: the root-state range invariant. In every state reachable from
`DimmerModel_Initialize` through activation and dimmer-model requests,
`pin_code` is at most 9999, `lock_state` is 0 (unlocked), 1 (subdevices
locked) or 2 (all locked), every scene's `programmed_state` is not_programmed,
programmed or read_only, and `playback_mode`, `fail_scene` and `startup_scene`
are each in 0..3 or equal to 0xFFFF. -/
theorem root_state_range_invariant (t : State) (ht : Reachable t) :
    t.g_root_device.pin_code ≤ 9999 ∧
    (t.g_root_device.lock_state = 0 ∨ t.g_root_device.lock_state = 1 ∨
      t.g_root_device.lock_state = 2) ∧
    (∀ j, j < 3 →
      (t.g_root_device.scenes.get j).programmed_state = PRESET_NOT_PROGRAMMED ∨
      (t.g_root_device.scenes.get j).programmed_state = PRESET_PROGRAMMED ∨
      (t.g_root_device.scenes.get j).programmed_state = PRESET_PROGRAMMED_READ_ONLY) ∧
    (t.g_root_device.playback_mode ≤ 3 ∨ t.g_root_device.playback_mode = 0xffff) ∧
    (t.g_root_device.fail_scene ≤ 3 ∨ t.g_root_device.fail_scene = 0xffff) ∧
    (t.g_root_device.startup_scene ≤ 3 ∨ t.g_root_device.startup_scene = 0xffff) :=
  Reachable_inRange t ht

/-- Witness for C30: the state after SET `LOCK_STATE` with body `00 00 02` on
the factory state is reachable; its `lock_state` is 2 and its PIN is 0. -/
theorem root_state_range_invariant_witness :
    allLockedState.g_root_device.pin_code ≤ 9999 ∧
    (allLockedState.g_root_device.lock_state = 0 ∨
      allLockedState.g_root_device.lock_state = 1 ∨
      allLockedState.g_root_device.lock_state = 2) :=
  ⟨(root_state_range_invariant allLockedState
      (Reachable.handle _ _ _
        (Reachable.activate _ (Reachable.start (bootState TEST_UID))))).1,
   (root_state_range_invariant allLockedState
      (Reachable.handle _ _ _
        (Reachable.activate _ (Reachable.start (bootState TEST_UID))))).2.1⟩

/-! ## The dimmer state of the sub-devices after initialisation -/

theorem subDeviceSettings_eq (s : State) :
    s.subDeviceSettings =
      [(s.g_subdevices.get 0).settings, (s.g_subdevices.get 1).settings,
       (s.g_subdevices.get 2).settings, (s.g_subdevices.get 3).settings] := by
  simp [State.subDeviceSettings, range_sub_devices]

/-- Overwriting an element of `g_subdevices` by a value with the same dimmer
state changes no dimmer state. -/
theorem SubDeviceArray_settings_set (a : SubDeviceArray) (i : Nat) (d : DimmerSubDevice)
    (h : d.settings = (a.get i).settings) (j : Nat) :
    ((a.set i d).get j).settings = (a.get j).settings := by
  match i, h with
  | 0, h =>
    match j with
    | 0 => exact h
    | 1 => rfl
    | 2 => rfl
    | (n + 3) => rfl
  | 1, h =>
    match j with
    | 0 => rfl
    | 1 => exact h
    | 2 => rfl
    | (n + 3) => rfl
  | 2, h =>
    match j with
    | 0 => rfl
    | 1 => rfl
    | 2 => exact h
    | (n + 3) => rfl
  | 3, h =>
    match j with
    | 0 => rfl
    | 1 => rfl
    | 2 => rfl
    | (n + 3) => exact h
  | (m + 4), _ => rfl

theorem subDeviceSettings_set (s t : State) (i : Nat) (d : DimmerSubDevice)
    (ht : t.g_subdevices = s.g_subdevices.set i d)
    (h : d.settings = (s.g_subdevices.get i).settings) :
    t.subDeviceSettings = s.subDeviceSettings := by
  simp only [State.subDeviceSettings, ht, SubDeviceArray_settings_set _ _ _ h]

@[simp] theorem setResponder_subDeviceSettings (s : State) (r : RDMResponder) :
    (s.setResponder r).subDeviceSettings = s.subDeviceSettings := by
  unfold State.setResponder
  split
  · rfl
  · exact subDeviceSettings_set s _ _ _ rfl rfl

theorem assignBlockAddress_subDeviceSettings (acc : Nat × State) (i : Nat) :
    (assignBlockAddress acc i).2.subDeviceSettings = acc.2.subDeviceSettings :=
  subDeviceSettings_set acc.2 _ _ _ rfl rfl

theorem foldl_assignBlockAddress_subDeviceSettings (l : List Nat) (acc : Nat × State) :
    (l.foldl assignBlockAddress acc).2.subDeviceSettings = acc.2.subDeviceSettings := by
  induction l generalizing acc with
  | nil => rfl
  | cons i l ih =>
    simp only [List.foldl_cons]
    rw [ih, assignBlockAddress_subDeviceSettings]

@[simp] theorem ResetToBlockAddress_subDeviceSettings (B : Nat) (s : State) :
    (ResetToBlockAddress B s).2.subDeviceSettings = s.subDeviceSettings := by
  simp only [ResetToBlockAddress]
  split_ifs
  · rfl
  · exact foldl_assignBlockAddress_subDeviceSettings _ _

/-- One pass of the sub-device loop of `DimmerModel_Initialize` gives
`g_subdevices[i]` its number and the default dimmer state. -/
theorem initSubDevice_subDeviceSettings (temp : ResponderRef) (acc : Nat × State)
    (i : Nat) (hi : i < 4) :
    (initSubDevice temp acc i).1 =
      ((if i = 1 then (acc.1 + 1) % 65536 else acc.1) + 1) % 65536 ∧
    (initSubDevice temp acc i).2.subDeviceSettings =
      acc.2.subDeviceSettings.set i
        [if i = 1 then (acc.1 + 1) % 65536 else acc.1, 0, 0, 0, 0, IDENTIFY_MODE_QUIET, 0,
         1, 1, 1] := by
  refine ⟨rfl, ?_⟩
  simp only [initSubDevice, setResponder_subDeviceSettings,
    RDMResponder_ResetToFactoryDefaults]
  rw [subDeviceSettings_eq, subDeviceSettings_eq]
  have hi' : i = 0 ∨ i = 1 ∨ i = 2 ∨ i = 3 := by omega
  rcases hi' with rfl | rfl | rfl | rfl <;>
    simp [SubDeviceArray.get, SubDeviceArray.set, List.set, DimmerSubDevice.settings]

theorem foldl_initSubDevice_subDeviceSettings (temp : ResponderRef) (s : State) :
    ((List.range NUMBER_OF_SUB_DEVICES).foldl (initSubDevice temp)
      (1, s)).2.subDeviceSettings =
      [[1, 0, 0, 0, 0, IDENTIFY_MODE_QUIET, 0, 1, 1, 1],
       [3, 0, 0, 0, 0, IDENTIFY_MODE_QUIET, 0, 1, 1, 1],
       [4, 0, 0, 0, 0, IDENTIFY_MODE_QUIET, 0, 1, 1, 1],
       [5, 0, 0, 0, 0, IDENTIFY_MODE_QUIET, 0, 1, 1, 1]] := by
  rw [range_sub_devices]
  simp only [List.foldl_cons, List.foldl_nil]
  have h0 := initSubDevice_subDeviceSettings temp (1, s) 0 (by decide)
  generalize initSubDevice temp (1, s) 0 = a1 at h0 ⊢
  have h1 := initSubDevice_subDeviceSettings temp a1 1 (by decide)
  generalize initSubDevice temp a1 1 = a2 at h1 ⊢
  have h2 := initSubDevice_subDeviceSettings temp a2 2 (by decide)
  generalize initSubDevice temp a2 2 = a3 at h2 ⊢
  have h3 := initSubDevice_subDeviceSettings temp a3 3 (by decide)
  generalize initSubDevice temp a3 3 = a4 at h3 ⊢
  obtain ⟨h0a, h0b⟩ := h0
  obtain ⟨h1a, h1b⟩ := h1
  obtain ⟨h2a, h2b⟩ := h2
  obtain ⟨h3a, h3b⟩ := h3
  simp only [] at h0a h0b
  rw [h3b, h2b, h1b, h0b, h2a, h1a, h0a, subDeviceSettings_eq]
  simp [List.set]

theorem foldl_initStartAddress_subDeviceSettings (l : List Nat) (s : State) :
    (l.foldl initStartAddress s).subDeviceSettings = s.subDeviceSettings := by
  induction l generalizing s with
  | nil => rfl
  | cons i l ih =>
    simp only [List.foldl_cons]
    rw [ih]
    exact subDeviceSettings_set s _ _ _ rfl rfl

/-- The dimmer state of the sub-devices after the part of
`DimmerModel_Initialize` that follows the set-up of the root device. -/
theorem Initialize_tail_subDeviceSettings (temp : ResponderRef) (s : State) :
    (if !(ResetToBlockAddress INITIAL_START_ADDRESSS
          { ((List.range NUMBER_OF_SUB_DEVICES).foldl (initSubDevice temp) (1, s)).2 with
            g_responder := temp }).1 then
        (List.range NUMBER_OF_SUB_DEVICES).foldl initStartAddress
          (ResetToBlockAddress INITIAL_START_ADDRESSS
            { ((List.range NUMBER_OF_SUB_DEVICES).foldl (initSubDevice temp) (1, s)).2 with
              g_responder := temp }).2
      else
        (ResetToBlockAddress INITIAL_START_ADDRESSS
          { ((List.range NUMBER_OF_SUB_DEVICES).foldl (initSubDevice temp) (1, s)).2 with
            g_responder := temp }).2).subDeviceSettings =
      [[1, 0, 0, 0, 0, IDENTIFY_MODE_QUIET, 0, 1, 1, 1],
       [3, 0, 0, 0, 0, IDENTIFY_MODE_QUIET, 0, 1, 1, 1],
       [4, 0, 0, 0, 0, IDENTIFY_MODE_QUIET, 0, 1, 1, 1],
       [5, 0, 0, 0, 0, IDENTIFY_MODE_QUIET, 0, 1, 1, 1]] := by
  have h2 := foldl_initSubDevice_subDeviceSettings temp s
  generalize ((List.range NUMBER_OF_SUB_DEVICES).foldl (initSubDevice temp) (1, s)).2 = t
    at h2 ⊢
  have h1 := ResetToBlockAddress_subDeviceSettings INITIAL_START_ADDRESSS
    { t with g_responder := temp }
  generalize ResetToBlockAddress INITIAL_START_ADDRESSS { t with g_responder := temp } = r
    at h1 ⊢
  have h3 : ({ t with g_responder := temp } : State).subDeviceSettings =
      t.subDeviceSettings := rfl
  split_ifs
  · rw [foldl_initStartAddress_subDeviceSettings, h1, h3, h2]
  · rw [h1, h3, h2]

/-- After `DimmerModel_Initialize` every sub-device has its number and the
default dimmer state, whatever the state was before: levels 0, `on_below_min`
0, identify mode quiet, burn-in 0, curve 1, output response time 1, modulation
frequency 1. -/
theorem Initialize_subDeviceSettings (s : State) :
    (DimmerModel_Initialize s).subDeviceSettings =
      [[1, 0, 0, 0, 0, IDENTIFY_MODE_QUIET, 0, 1, 1, 1],
       [3, 0, 0, 0, 0, IDENTIFY_MODE_QUIET, 0, 1, 1, 1],
       [4, 0, 0, 0, 0, IDENTIFY_MODE_QUIET, 0, 1, 1, 1],
       [5, 0, 0, 0, 0, IDENTIFY_MODE_QUIET, 0, 1, 1, 1]] := by
  have key : ∀ t, DimmerModel_Initialize s = t → t.subDeviceSettings =
      [[1, 0, 0, 0, 0, IDENTIFY_MODE_QUIET, 0, 1, 1, 1],
       [3, 0, 0, 0, 0, IDENTIFY_MODE_QUIET, 0, 1, 1, 1],
       [4, 0, 0, 0, 0, IDENTIFY_MODE_QUIET, 0, 1, 1, 1],
       [5, 0, 0, 0, 0, IDENTIFY_MODE_QUIET, 0, 1, 1, 1]] := by
    intro t ht
    rw [DimmerModel_Initialize] at ht
    rw [← ht, Initialize_tail_subDeviceSettings]
  exact key _ rfl

/-! ## The ranges of the sub-device settings (C31) -/

theorem Initialize_subDevicesInRange (s : State) :
    (DimmerModel_Initialize s).subDevicesInRange := by
  have h := Initialize_subDeviceSettings s
  rw [subDeviceSettings_eq] at h
  simp only [DimmerSubDevice.settings, List.cons.injEq, and_true] at h
  obtain ⟨h0, h1, h2, h3⟩ := h
  intro i hi
  simp only [NUMBER_OF_SUB_DEVICES] at hi
  have hi' : i = 0 ∨ i = 1 ∨ i = 2 ∨ i = 3 := by omega
  simp only [DimmerSubDevice.inRange, NUMBER_OF_CURVES, NUMBER_OF_OUTPUT_RESPONSE_TIMES,
    NUMBER_OF_MODULATION_FREQUENCIES]
  rcases hi' with rfl | rfl | rfl | rfl
  · refine ⟨⟨?_, ?_⟩, ⟨?_, ?_⟩, ⟨?_, ?_⟩, ?_, Or.inl h0.2.2.2.2.2.1⟩ <;> omega
  · refine ⟨⟨?_, ?_⟩, ⟨?_, ?_⟩, ⟨?_, ?_⟩, ?_, Or.inl h1.2.2.2.2.2.1⟩ <;> omega
  · refine ⟨⟨?_, ?_⟩, ⟨?_, ?_⟩, ⟨?_, ?_⟩, ?_, Or.inl h2.2.2.2.2.2.1⟩ <;> omega
  · refine ⟨⟨?_, ?_⟩, ⟨?_, ?_⟩, ⟨?_, ?_⟩, ?_, Or.inl h3.2.2.2.2.2.1⟩ <;> omega

theorem SubDeviceArray_get_set_cases (a : SubDeviceArray) (i j : Nat)
    (v : DimmerSubDevice) : (a.set i v).get j = v ∨ (a.set i v).get j = a.get j := by
  match i with
  | 0 =>
    match j with
    | 0 => exact Or.inl rfl
    | 1 => exact Or.inr rfl
    | 2 => exact Or.inr rfl
    | (n + 3) => exact Or.inr rfl
  | 1 =>
    match j with
    | 0 => exact Or.inr rfl
    | 1 => exact Or.inl rfl
    | 2 => exact Or.inr rfl
    | (n + 3) => exact Or.inr rfl
  | 2 =>
    match j with
    | 0 => exact Or.inr rfl
    | 1 => exact Or.inr rfl
    | 2 => exact Or.inl rfl
    | (n + 3) => exact Or.inr rfl
  | 3 =>
    match j with
    | 0 => exact Or.inr rfl
    | 1 => exact Or.inr rfl
    | 2 => exact Or.inr rfl
    | (n + 3) => exact Or.inl rfl
  | (m + 4) => exact Or.inr rfl

/-- Reading `g_subdevices` at any index yields one of the four sub-devices. -/
theorem subDevicesInRange_get (s : State) (h : s.subDevicesInRange) (i : Nat) :
    (s.g_subdevices.get i).inRange := by
  match i with
  | 0 => exact h 0 (by decide)
  | 1 => exact h 1 (by decide)
  | 2 => exact h 2 (by decide)
  | (n + 3) => exact h 3 (by decide)

theorem subDevicesInRange_activeDevice (s : State) (h : s.subDevicesInRange) :
    s.activeDevice.inRange := by
  unfold State.activeDevice
  split
  · exact subDevicesInRange_get s h _
  · exact subDevicesInRange_get s h _

theorem subDevicesInRange_set (s t : State) (i : Nat) (d : DimmerSubDevice)
    (ht : t.g_subdevices = s.g_subdevices.set i d) (hd : d.inRange)
    (h : s.subDevicesInRange) : t.subDevicesInRange := by
  intro j hj
  rw [ht]
  rcases SubDeviceArray_get_set_cases s.g_subdevices i j d with e | e
  · rw [e]
    exact hd
  · rw [e]
    exact h j hj

theorem setResponder_subDevicesInRange (s : State) (r : RDMResponder)
    (h : s.subDevicesInRange) : (s.setResponder r).subDevicesInRange := by
  unfold State.setResponder
  split
  · exact h
  · rename_i i hi
    exact subDevicesInRange_set s _ i _ rfl (subDevicesInRange_get s h i) h

theorem setActiveDevice_subDevicesInRange (s : State) (d : DimmerSubDevice)
    (h : s.subDevicesInRange) (hd : d.inRange) :
    (s.setActiveDevice d).subDevicesInRange := by
  unfold State.setActiveDevice
  split
  · exact subDevicesInRange_set s _ _ _ rfl hd h
  · exact h

theorem foldl_assignBlockAddress_subDevicesInRange (l : List Nat) (acc : Nat × State)
    (h : acc.2.subDevicesInRange) :
    (l.foldl assignBlockAddress acc).2.subDevicesInRange := by
  induction l generalizing acc with
  | nil => exact h
  | cons i l ih =>
    simp only [List.foldl_cons]
    apply ih
    exact subDevicesInRange_set acc.2 _ i _ rfl (subDevicesInRange_get acc.2 h i) h

theorem ResetToBlockAddress_subDevicesInRange (B : Nat) (s : State)
    (h : s.subDevicesInRange) : (ResetToBlockAddress B s).2.subDevicesInRange := by
  simp only [ResetToBlockAddress]
  split_ifs
  · exact h
  · exact foldl_assignBlockAddress_subDevicesInRange _ _ h

theorem subDevicesInRange_congr (s t : State) (e : t.g_subdevices = s.g_subdevices)
    (h : s.subDevicesInRange) : t.subDevicesInRange := by
  intro i hi
  rw [e]
  exact h i hi

/-- Every PID handler keeps the ranges of the sub-device settings. -/
theorem callHandler_subDevicesInRange (handler : PIDCommandHandler) (header : RDMHeader)
    (param_data : List Nat) (s : State) (h : s.subDevicesInRange) :
    (callHandler handler header param_data s).2.subDevicesInRange := by
  obtain ⟨⟨a1, a2⟩, ⟨b1, b2⟩, ⟨c1, c2⟩, d1, e1⟩ := subDevicesInRange_activeDevice s h
  cases handler <;>
    simp only [callHandler, RDMResponder_GetSupportedParameters, RDMResponder_GetDeviceInfo,
      RDMResponder_GetProductDetailIds, RDMResponder_GetDeviceModelDescription,
      RDMResponder_GetManufacturerLabel, RDMResponder_GetDeviceLabel,
      RDMResponder_SetDeviceLabel, RDMResponder_GetSoftwareVersionLabel,
      RDMResponder_GetIdentifyDevice, RDMResponder_SetIdentifyDevice,
      RDMResponder_GetDMXStartAddress, RDMResponder_SetDMXStartAddress,
      DimmerModel_CapturePreset, DimmerModel_GetPresetPlayback,
      DimmerModel_SetPresetPlayback, DimmerModel_GetDMXBlockAddress,
      DimmerModel_SetDMXBlockAddress, DimmerModel_GetDMXFailMode,
      DimmerModel_SetDMXFailMode, DimmerModel_GetDMXStartupMode,
      DimmerModel_SetDMXStartupMode, DimmerModel_GetLockPin, DimmerModel_SetLockPin,
      DimmerModel_GetLockState, DimmerModel_SetLockState,
      DimmerModel_GetLockStateDescription, DimmerModel_GetPresetInfo,
      DimmerModel_GetPresetStatus, DimmerModel_SetPresetStatus,
      DimmerModel_GetPresetMergeMode, DimmerModel_SetPresetMergeMode,
      DimmerModel_GetPowerOnSelfTest, DimmerModel_SetPowerOnSelfTest,
      DimmerModel_GetBurnIn, DimmerModel_SetBurnIn, DimmerModel_GetIdentifyMode,
      DimmerModel_SetIdentifyMode, DimmerModel_GetDimmerInfo,
      DimmerModel_GetMinimumLevel, DimmerModel_SetMinimumLevel,
      DimmerModel_GetMaximumLevel, DimmerModel_SetMaximumLevel, DimmerModel_GetCurve,
      DimmerModel_SetCurve, DimmerModel_GetCurveDescription,
      DimmerModel_GetOutputResponseTime, DimmerModel_SetOutputResponseTime,
      DimmerModel_GetOutputResponseDescription, DimmerModel_GetModulationFrequency,
      DimmerModel_SetModulationFrequency,
      DimmerModel_GetModulationFrequencyDescription] <;>
    (try split_ifs) <;>
    first
      | with_reducible exact h
      | with_reducible exact subDevicesInRange_congr s _ rfl h
      | with_reducible exact setResponder_subDevicesInRange _ _ h
      | with_reducible exact ResetToBlockAddress_subDevicesInRange _ _ h
      | (with_reducible apply setActiveDevice_subDevicesInRange _ _ h
         simp only [DimmerSubDevice.inRange, NUMBER_OF_CURVES,
           NUMBER_OF_OUTPUT_RESPONSE_TIMES, NUMBER_OF_MODULATION_FREQUENCIES,
           IDENTIFY_MODE_QUIET, IDENTIFY_MODE_LOUD] at *
         refine ⟨⟨?_, ?_⟩, ⟨?_, ?_⟩, ⟨?_, ?_⟩, ?_, ?_⟩ <;> omega)

theorem DispatchPID_subDevicesInRange (header : RDMHeader) (param_data : List Nat)
    (s : State) (h : s.subDevicesInRange) :
    (RDMResponder_DispatchPID header param_data s).2.subDevicesInRange := by
  rcases DispatchPID_cases header param_data s with ⟨reason, e⟩ | ⟨handler, e⟩
  · rw [e]
    exact h
  · rw [e]
    exact callHandler_subDevicesInRange handler header param_data s h

theorem HandleDiscovery_subDevicesInRange (header : RDMHeader) (param_data : List Nat)
    (s : State) (h : s.subDevicesInRange) :
    (RDMResponder_HandleDiscovery header param_data s).2.subDevicesInRange := by
  simp only [RDMResponder_HandleDiscovery]
  split_ifs <;> first | exact h | exact setResponder_subDevicesInRange _ _ h

theorem foldl_handleSubDevice_subDevicesInRange (header : RDMHeader)
    (param_data : List Nat) (sub_device : Nat) (locked : Bool) (l : List Nat)
    (acc : SubDeviceLoop) (h : acc.state.subDevicesInRange) :
    (l.foldl (handleSubDevice header param_data sub_device locked)
      acc).state.subDevicesInRange := by
  induction l generalizing acc with
  | nil => exact h
  | cons i l ih =>
    simp only [List.foldl_cons]
    apply ih
    rw [handleSubDevice_eq]
    split_ifs
    · exact DispatchPID_subDevicesInRange header param_data _ h
    · exact h
    · exact h

/-- Every request keeps the ranges of the sub-device settings. -/
theorem HandleRequest_subDevicesInRange (header : RDMHeader) (param_data : List Nat)
    (s : State) (h : s.subDevicesInRange) :
    (DimmerModel_HandleRequest header param_data s).2.subDevicesInRange := by
  have hloop := fun locked => foldl_handleSubDevice_subDevicesInRange header
    param_data header.sub_device locked (List.range NUMBER_OF_SUB_DEVICES)
    { state := s, handled := false, response_size := Response.NO_RESPONSE } h
  rw [HandleRequest_eq]
  split_ifs
  · exact h
  · exact HandleDiscovery_subDevicesInRange header param_data s h
  · exact h
  · exact h
  · exact DispatchPID_subDevicesInRange header param_data s h
  · exact hloop _
  · exact hloop _
  · exact hloop _

theorem Activate_subDevicesInRange (s : State) (h : s.subDevicesInRange) :
    (DimmerModel_Activate s).subDevicesInRange := by
  simp only [DimmerModel_Activate, RDMResponder_ResetToFactoryDefaults]
  exact setResponder_subDevicesInRange _ _
    (setResponder_subDevicesInRange _ _ (setResponder_subDevicesInRange _ _ h))

theorem Reachable_subDevicesInRange (t : State) (ht : Reachable t) :
    t.subDevicesInRange := by
  induction ht with
  | start s0 => exact Initialize_subDevicesInRange s0
  | activate s0 _ ih => exact Activate_subDevicesInRange s0 ih
  | handle s0 hdr p _ ih => exact HandleRequest_subDevicesInRange hdr p s0 ih

/-- C31: the sub-device range invariant. In every state reachable from
`DimmerModel_Initialize` through activation and dimmer-model requests, each of
the four sub-devices has `curve` in 1..4, `output_response_time` in 1..2,
`modulation_frequency` in 1..4, `on_below_min` at most 1 and `identify_mode`
quiet or loud. -/
theorem sub_device_range_invariant (t : State) (ht : Reachable t) (i : Nat)
    (hi : i < NUMBER_OF_SUB_DEVICES) :
    (1 ≤ (t.g_subdevices.get i).curve ∧ (t.g_subdevices.get i).curve ≤ 4) ∧
    (1 ≤ (t.g_subdevices.get i).output_response_time ∧
      (t.g_subdevices.get i).output_response_time ≤ 2) ∧
    (1 ≤ (t.g_subdevices.get i).modulation_frequency ∧
      (t.g_subdevices.get i).modulation_frequency ≤ 4) ∧
    (t.g_subdevices.get i).on_below_min ≤ 1 ∧
    ((t.g_subdevices.get i).identify_mode = IDENTIFY_MODE_QUIET ∨
      (t.g_subdevices.get i).identify_mode = IDENTIFY_MODE_LOUD) :=
  Reachable_subDevicesInRange t ht i hi

/-- Witness for C31: the state after SET `CURVE` 4 to sub-device 3 in the
factory state is reachable; the curve of `g_subdevices[1]` is in 1..4 there
(it is 4). -/
theorem sub_device_range_invariant_witness :
    (1 ≤ ((DimmerModel_HandleRequest (request SET_COMMAND 3 PID_CURVE [0x04]) [0x04]
        factoryState).2.g_subdevices.get 1).curve ∧
      ((DimmerModel_HandleRequest (request SET_COMMAND 3 PID_CURVE [0x04]) [0x04]
        factoryState).2.g_subdevices.get 1).curve ≤ 4) ∧
    ((DimmerModel_HandleRequest (request SET_COMMAND 3 PID_CURVE [0x04]) [0x04]
        factoryState).2.g_subdevices.get 1).curve = 4 :=
  ⟨(sub_device_range_invariant _
      (Reachable.handle _ (request SET_COMMAND 3 PID_CURVE [0x04]) [0x04]
        (Reachable.activate _ (Reachable.start (bootState TEST_UID))))
      1 (by decide)).1, by decide⟩

/-! ## The length of the parameter data of an ACK (C32) -/

/-- A string copy emits at most as many bytes as the destination holds. -/
theorem RDMUtil_StringCopy_length (dst_size : Nat) (src : List Nat) (src_size : Nat) :
    (RDMUtil_StringCopy dst_size src src_size).length ≤ dst_size := by
  simp only [RDMUtil_StringCopy, List.length_take]
  omega

theorem PushUInt16_length (v : Nat) : (PushUInt16 v).length = 2 := rfl

theorem PushUInt32_length (v : Nat) : (PushUInt32 v).length = 4 := rfl

/-- C32: every ACK built by a GET handler of `dimmer_model.c` has a parameter
data length of at most 231 bytes (`MAX_PARAM_DATA_SIZE`). The bound that
follows from the handlers is 1 + 4 + 32 = 37 bytes, reached at most by
`DimmerModel_GetModulationFrequencyDescription` (setting byte, 32-bit
frequency, description), a description string copy emitting at most
`RDM_DEFAULT_STRING_SIZE` = 32 bytes. -/
theorem get_ack_length_bounded (handler : PIDCommandHandler) (header : RDMHeader)
    (param_data : List Nat) (s : State) (body : List Nat)
    (hget : handler ∈ [PIDCommandHandler.DimmerModel_GetPresetPlayback,
      PIDCommandHandler.DimmerModel_GetDMXBlockAddress,
      PIDCommandHandler.DimmerModel_GetDMXFailMode,
      PIDCommandHandler.DimmerModel_GetDMXStartupMode,
      PIDCommandHandler.DimmerModel_GetPowerOnSelfTest,
      PIDCommandHandler.DimmerModel_GetLockPin,
      PIDCommandHandler.DimmerModel_GetLockState,
      PIDCommandHandler.DimmerModel_GetLockStateDescription,
      PIDCommandHandler.DimmerModel_GetPresetInfo,
      PIDCommandHandler.DimmerModel_GetPresetStatus,
      PIDCommandHandler.DimmerModel_GetPresetMergeMode,
      PIDCommandHandler.DimmerModel_GetIdentifyMode,
      PIDCommandHandler.DimmerModel_GetBurnIn,
      PIDCommandHandler.DimmerModel_GetDimmerInfo,
      PIDCommandHandler.DimmerModel_GetMinimumLevel,
      PIDCommandHandler.DimmerModel_GetMaximumLevel,
      PIDCommandHandler.DimmerModel_GetCurve,
      PIDCommandHandler.DimmerModel_GetCurveDescription,
      PIDCommandHandler.DimmerModel_GetOutputResponseTime,
      PIDCommandHandler.DimmerModel_GetOutputResponseDescription,
      PIDCommandHandler.DimmerModel_GetModulationFrequency,
      PIDCommandHandler.DimmerModel_GetModulationFrequencyDescription])
    (hack : (callHandler handler header param_data s).1 = Response.ACK body) :
    body.length ≤ 1 + 4 + RDM_DEFAULT_STRING_SIZE ∧
    1 + 4 + RDM_DEFAULT_STRING_SIZE = 37 ∧
    body.length ≤ MAX_PARAM_DATA_SIZE := by
  have hcopy := fun src => RDMUtil_StringCopy_length RDM_DEFAULT_STRING_SIZE src
    RDM_DEFAULT_STRING_SIZE
  have key : body.length ≤ 1 + 4 + RDM_DEFAULT_STRING_SIZE := by
    simp only [List.mem_cons, List.mem_singleton, List.not_mem_nil, or_false] at hget
    rcases hget with rfl | rfl | rfl | rfl | rfl | rfl | rfl | rfl | rfl | rfl | rfl |
        rfl | rfl | rfl | rfl | rfl | rfl | rfl | rfl | rfl | rfl | rfl <;>
      simp only [callHandler, DimmerModel_GetPresetPlayback, DimmerModel_GetDMXBlockAddress,
        DimmerModel_GetDMXFailMode, DimmerModel_GetDMXStartupMode,
        DimmerModel_GetPowerOnSelfTest, DimmerModel_GetLockPin, DimmerModel_GetLockState,
        DimmerModel_GetLockStateDescription, DimmerModel_GetPresetInfo,
        DimmerModel_GetPresetStatus, DimmerModel_GetPresetMergeMode,
        DimmerModel_GetIdentifyMode, DimmerModel_GetBurnIn, DimmerModel_GetDimmerInfo,
        DimmerModel_GetMinimumLevel, DimmerModel_GetMaximumLevel, DimmerModel_GetCurve,
        DimmerModel_GetCurveDescription, DimmerModel_GetOutputResponseTime,
        DimmerModel_GetOutputResponseDescription, DimmerModel_GetModulationFrequency,
        DimmerModel_GetModulationFrequencyDescription, RDMResponder_GenericGetBool,
        RDMResponder_GenericGetUInt8, RDMResponder_GenericGetUInt16,
        RDMResponder_AddHeaderAndChecksum, RDMResponder_BuildNack] at hack <;>
      (try split_ifs at hack) <;>
      (try dsimp only at hack) <;>
      cases hack <;>
      simp only [List.length_append, List.length_cons, List.length_nil, PushUInt16_length,
        PushUInt32_length, RDM_DEFAULT_STRING_SIZE] <;>
      first
        | omega
        | (have h1 := hcopy (stringBytes (LOCK_STATES.getD (byteAt param_data 0) ""))
           simp only [RDM_DEFAULT_STRING_SIZE] at h1
           omega)
        | (have h1 := hcopy (stringBytes (DIMMER_CURVES.getD (byteAt param_data 0 - 1) ""))
           simp only [RDM_DEFAULT_STRING_SIZE] at h1
           omega)
        | (have h1 := hcopy
             (stringBytes (OUTPUT_RESPONSE_TIMES.getD (byteAt param_data 0 - 1) ""))
           simp only [RDM_DEFAULT_STRING_SIZE] at h1
           omega)
        | (have h1 := hcopy
             (stringBytes (MODULATION_FREQUENCY.getD (byteAt param_data 0 - 1)
               { frequency := 0, description := "" }).description)
           simp only [RDM_DEFAULT_STRING_SIZE] at h1
           omega)
  refine ⟨key, rfl, ?_⟩
  simp only [RDM_DEFAULT_STRING_SIZE, MAX_PARAM_DATA_SIZE] at key ⊢
  omega

/-- Witness for C32: GET `MODULATION_FREQUENCY_DESCRIPTION` with setting 3 in
the factory state; the body has 12 bytes. -/
theorem get_ack_length_bounded_witness :
    ([3] ++ PushUInt32 1000 ++ stringBytes "1000 Hz").length ≤ MAX_PARAM_DATA_SIZE ∧
    ([3] ++ PushUInt32 1000 ++ stringBytes "1000 Hz").length = 12 :=
  ⟨(get_ack_length_bounded PIDCommandHandler.DimmerModel_GetModulationFrequencyDescription
      (request GET_COMMAND 1 PID_MODULATION_FREQUENCY_DESCRIPTION [0x03]) [0x03]
      factoryState ([3] ++ PushUInt32 1000 ++ stringBytes "1000 Hz") (by decide)
      (by decide)).2.2, by decide⟩

/-! ## `ResetToBlockAddress` on every 16-bit address (C35) -/

/-- For a start address above 513 the 16-bit difference
`MAX_DMX_START_ADDRESS - start_address + 1u` wraps around, and
`ResetToBlockAddress` returns true although the block ends past slot 512 (here
for sub-devices whose footprints add up to at most 513 slots). -/
theorem ResetToBlockAddress_above_513 (B : Nat) (s : State) (hlo : 514 ≤ B)
    (hB : B < 65536) (h : ∀ i, i < 4 → s.footprint i ≤ 512)
    (hsum : s.footprint 0 + s.footprint 1 + s.footprint 2 + s.footprint 3 ≤ 513) :
    ResetToBlockAddress B s =
      (true, ((List.range NUMBER_OF_SUB_DEVICES).foldl assignBlockAddress (B, s)).2) := by
  rw [ResetToBlockAddress_eq B s hB h, if_neg]
  omega

/-- No GET handler of the two descriptor tables is one of the nine handlers
that write to `g_root_device`. -/
theorem get_handlers_keep_root :
    ∀ d, d ∈ ROOT_PID_DESCRIPTORS ++ SUBDEVICE_PID_DESCRIPTORS →
      ∀ w, w ∈ [PIDCommandHandler.DimmerModel_CapturePreset,
          PIDCommandHandler.DimmerModel_SetPresetPlayback,
          PIDCommandHandler.DimmerModel_SetDMXFailMode,
          PIDCommandHandler.DimmerModel_SetDMXStartupMode,
          PIDCommandHandler.DimmerModel_SetLockPin,
          PIDCommandHandler.DimmerModel_SetLockState,
          PIDCommandHandler.DimmerModel_SetPresetStatus,
          PIDCommandHandler.DimmerModel_SetPresetMergeMode,
          PIDCommandHandler.DimmerModel_SetPowerOnSelfTest] →
        d.get_handler ≠ some w := by
  decide

theorem entries_subset (table : DescriptorTable) (d : PIDDescriptor)
    (h : d ∈ table.entries) : d ∈ ROOT_PID_DESCRIPTORS ++ SUBDEVICE_PID_DESCRIPTORS := by
  cases table
  · simp [DescriptorTable.entries] at h
  · exact List.mem_append_left _ h
  · exact List.mem_append_right _ h

/-- A request that is not a SET is dispatched to no handler that writes to
`g_root_device`. -/
theorem DispatchPID_not_set_g_root_device (header : RDMHeader) (param_data : List Nat)
    (s : State) (hns : header.command_class ≠ SET_COMMAND) :
    (RDMResponder_DispatchPID header param_data s).2.g_root_device = s.g_root_device := by
  simp only [RDMResponder_DispatchPID]
  split
  · rfl
  · rename_i d hd
    have hmem := entries_subset _ d (List.mem_of_find?_eq_some hd)
    have hw := get_handlers_keep_root d hmem
    by_cases c1 : header.command_class = GET_COMMAND
    · rw [if_pos c1]
      cases hh : d.get_handler with
      | none => rfl
      | some handler =>
        simp only []
        by_cases c2 : header.param_data_length < d.min_get_pdl
        · rw [if_pos c2]
        · rw [if_neg c2]
          apply callHandler_g_root_device
          · intro e; exact hw handler (by rw [e]; simp) hh
          · intro e; exact hw handler (by rw [e]; simp) hh
          · intro e; exact hw handler (by rw [e]; simp) hh
          · intro e; exact hw handler (by rw [e]; simp) hh
          · intro e; exact hw handler (by rw [e]; simp) hh
          · intro e; exact hw handler (by rw [e]; simp) hh
          · intro e; exact hw handler (by rw [e]; simp) hh
          · intro e; exact hw handler (by rw [e]; simp) hh
          · intro e; exact hw handler (by rw [e]; simp) hh
    · rw [if_neg c1, if_neg hns]

theorem foldl_handleSubDevice_not_set_g_root_device (header : RDMHeader)
    (param_data : List Nat) (sub_device : Nat) (locked : Bool) (l : List Nat)
    (acc : SubDeviceLoop) (hns : header.command_class ≠ SET_COMMAND) :
    (l.foldl (handleSubDevice header param_data sub_device locked)
      acc).state.g_root_device = acc.state.g_root_device := by
  induction l generalizing acc with
  | nil => rfl
  | cons i l ih =>
    simp only [List.foldl_cons]
    rw [ih, handleSubDevice_eq]
    split_ifs
    · exact DispatchPID_not_set_g_root_device header param_data _ hns
    · rfl
    · rfl

/-- With `lock_state` all_locked no request changes the root device state. -/
theorem HandleRequest_all_locked_g_root_device (header : RDMHeader)
    (param_data : List Nat) (s : State)
    (hlock : s.g_root_device.lock_state = LOCK_STATE_ALL_LOCKED) :
    (DimmerModel_HandleRequest header param_data s).2.g_root_device = s.g_root_device := by
  have hloop : (((List.range NUMBER_OF_SUB_DEVICES).foldl
      (handleSubDevice header param_data header.sub_device
        (decide (header.command_class = SET_COMMAND ∧
          (s.g_root_device.lock_state = LOCK_STATE_ALL_LOCKED ∨
            s.g_root_device.lock_state = LOCK_STATE_SUBDEVICES_LOCKED))))
      { state := s, handled := false,
        response_size := Response.NO_RESPONSE }).state).g_root_device =
      s.g_root_device := by
    by_cases hs : header.command_class = SET_COMMAND
    · simp only [hs, hlock, true_or, and_self, decide_True]
      rw [(foldl_handleSubDevice_locked header param_data header.sub_device _ _).1]
    · exact foldl_handleSubDevice_not_set_g_root_device header param_data _ _ _ _ hs
  rw [HandleRequest_eq]
  split_ifs with c1 c2 c3 c4 c5 c6 c7
  · rfl
  · exact (HandleDiscovery_frame header param_data s).2.2
  · rfl
  · rfl
  · apply DispatchPID_not_set_g_root_device
    intro hs
    exact c5 ⟨hs, hlock⟩
  · exact hloop
  · exact hloop
  · exact hloop

theorem handleRequests_all_locked_g_root_device (requests : List (RDMHeader × List Nat))
    (s : State) (hlock : s.g_root_device.lock_state = LOCK_STATE_ALL_LOCKED) :
    (handleRequests requests s).g_root_device = s.g_root_device := by
  induction requests generalizing s with
  | nil => rfl
  | cons r l ih =>
    have h1 := HandleRequest_all_locked_g_root_device r.1 r.2 s hlock
    simp only [handleRequests, List.foldl_cons] at ih ⊢
    rw [ih _ (by rw [h1]; exact hlock), h1]

/-- C36: the all_locked state is absorbing under RDM traffic. Once
`lock_state` is all_locked, after every finite sequence of requests handled by
`DimmerModel_HandleRequest` (any command class, sub-device, PID and parameter
data, so also SET `LOCK_STATE` with the correct PIN) `lock_state` is still
all_locked and `pin_code` is what it was (the whole root device state is).
`DimmerModel_Activate`, `DimmerModel_Deactivate` and `DimmerModel_Tasks` do not
unlock either; `DimmerModel_Initialize` does. -/
theorem all_locked_is_absorbing (requests : List (RDMHeader × List Nat)) (s : State)
    (hlock : s.g_root_device.lock_state = LOCK_STATE_ALL_LOCKED) :
    (handleRequests requests s).g_root_device.lock_state = LOCK_STATE_ALL_LOCKED ∧
    (handleRequests requests s).g_root_device.pin_code = s.g_root_device.pin_code ∧
    (handleRequests requests s).g_root_device = s.g_root_device ∧
    (DimmerModel_Activate s).g_root_device.lock_state = LOCK_STATE_ALL_LOCKED ∧
    (DimmerModel_Deactivate s).g_root_device.lock_state = LOCK_STATE_ALL_LOCKED ∧
    (DimmerModel_Tasks s).g_root_device.lock_state = LOCK_STATE_ALL_LOCKED ∧
    (DimmerModel_Initialize s).g_root_device.lock_state = LOCK_STATE_UNLOCKED := by
  have h := handleRequests_all_locked_g_root_device requests s hlock
  refine ⟨by rw [h]; exact hlock, by rw [h], h, ?_, hlock, hlock, ?_⟩
  · rw [Activate_g_root_device]
    exact hlock
  · rw [Initialize_g_root_device]
    rfl

/-- Witness for C36: in the all-locked state (PIN 0) a SET `LOCK_STATE` with
the correct PIN and state 0, a SET `LOCK_PIN`, a GET `LOCK_STATE` and a
discovery mute leave the lock in place. -/
theorem all_locked_is_absorbing_witness :
    (handleRequests
      [(request SET_COMMAND SUBDEVICE_ROOT PID_LOCK_STATE [0x00, 0x00, 0x00],
          [0x00, 0x00, 0x00]),
       (request SET_COMMAND SUBDEVICE_ROOT PID_LOCK_PIN [0x04, 0xd2, 0x00, 0x00],
          [0x04, 0xd2, 0x00, 0x00]),
       (request GET_COMMAND SUBDEVICE_ROOT PID_LOCK_STATE [], []),
       (request DISCOVERY_COMMAND SUBDEVICE_ROOT PID_DISC_MUTE [], [])]
      allLockedState).g_root_device.lock_state = LOCK_STATE_ALL_LOCKED :=
  (all_locked_is_absorbing _ allLockedState (by decide)).1

/-! ## Error atomicity of the SET handlers (C37) -/

theorem SubDeviceArray_set_get (a : SubDeviceArray) (i : Nat) : a.set i (a.get i) = a := by
  match i with
  | 0 => rfl
  | 1 => rfl
  | 2 => rfl
  | 3 => rfl
  | (n + 4) => rfl

/-- Writing back the active device as it is changes nothing. -/
theorem setActiveDevice_self (s : State) : s.setActiveDevice s.activeDevice = s := by
  unfold State.setActiveDevice State.activeDevice
  split
  · rename_i i hi
    simp only [hi, SubDeviceArray_set_get]
    cases s
    simp_all
  · rfl

/-- When `ResetToBlockAddress` returns false it has changed nothing. -/
theorem ResetToBlockAddress_false (B : Nat) (s : State)
    (h : ¬ (ResetToBlockAddress B s).1 = true) : (ResetToBlockAddress B s).2 = s := by
  simp only [ResetToBlockAddress] at h ⊢
  split_ifs at h ⊢
  · rfl
  · exact absurd rfl h

/-- C37: error atomicity of the dimmer SET handlers. Whenever a SET handler
defined in `dimmer_model.c` returns a NACK (whatever the reason), the state
after the call is exactly the state before it: the root device state and every
sub-device are as they were, because every validation precedes the first
store. -/
theorem set_handlers_nack_atomic (handler : PIDCommandHandler) (header : RDMHeader)
    (param_data : List Nat) (s : State) (reason : RDMNackReason)
    (hset : handler ∈ [PIDCommandHandler.DimmerModel_CapturePreset,
      PIDCommandHandler.DimmerModel_SetPresetPlayback,
      PIDCommandHandler.DimmerModel_SetDMXBlockAddress,
      PIDCommandHandler.DimmerModel_SetDMXFailMode,
      PIDCommandHandler.DimmerModel_SetDMXStartupMode,
      PIDCommandHandler.DimmerModel_SetPowerOnSelfTest,
      PIDCommandHandler.DimmerModel_SetLockPin,
      PIDCommandHandler.DimmerModel_SetLockState,
      PIDCommandHandler.DimmerModel_SetPresetStatus,
      PIDCommandHandler.DimmerModel_SetPresetMergeMode,
      PIDCommandHandler.DimmerModel_SetIdentifyMode,
      PIDCommandHandler.DimmerModel_SetBurnIn,
      PIDCommandHandler.DimmerModel_SetMinimumLevel,
      PIDCommandHandler.DimmerModel_SetMaximumLevel,
      PIDCommandHandler.DimmerModel_SetCurve,
      PIDCommandHandler.DimmerModel_SetOutputResponseTime,
      PIDCommandHandler.DimmerModel_SetModulationFrequency])
    (hnack : (callHandler handler header param_data s).1 = Response.NACK reason) :
    (callHandler handler header param_data s).2 = s ∧
    (callHandler handler header param_data s).2.g_root_device = s.g_root_device ∧
    (∀ i, (callHandler handler header param_data s).2.g_subdevices.get i =
      s.g_subdevices.get i) := by
  have key : (callHandler handler header param_data s).2 = s := by
    simp only [List.mem_cons, List.mem_singleton, List.not_mem_nil, or_false] at hset
    rcases hset with rfl | rfl | rfl | rfl | rfl | rfl | rfl | rfl | rfl | rfl | rfl | rfl |
        rfl | rfl | rfl | rfl | rfl <;>
      simp only [callHandler, DimmerModel_CapturePreset, DimmerModel_SetPresetPlayback,
        DimmerModel_SetDMXBlockAddress, DimmerModel_SetDMXFailMode,
        DimmerModel_SetDMXStartupMode, DimmerModel_SetPowerOnSelfTest,
        DimmerModel_SetLockPin, DimmerModel_SetLockState, DimmerModel_SetPresetStatus,
        DimmerModel_SetPresetMergeMode, DimmerModel_SetIdentifyMode, DimmerModel_SetBurnIn,
        DimmerModel_SetMinimumLevel, DimmerModel_SetMaximumLevel, DimmerModel_SetCurve,
        DimmerModel_SetOutputResponseTime, DimmerModel_SetModulationFrequency,
        RDMResponder_GenericSetBool, RDMResponder_GenericSetUInt8,
        RDMResponder_GenericSetUInt16, RDMResponder_BuildNack,
        RDMResponder_BuildSetAck] at hnack ⊢ <;>
      split_ifs at hnack ⊢ <;>
      first
        | rfl
        | exact setActiveDevice_self s
        | (rename_i h1 h2 h3; exact ResetToBlockAddress_false _ _ h3)
  exact ⟨key, by rw [key], fun i => by rw [key]⟩

/-- Witness for C37: SET `LOCK_STATE` with a wrong PIN in the factory state is
NACKed and changes nothing. -/
theorem set_handlers_nack_atomic_witness :
    (callHandler PIDCommandHandler.DimmerModel_SetLockState
      (request SET_COMMAND SUBDEVICE_ROOT PID_LOCK_STATE [0x12, 0x34, 0x01])
      [0x12, 0x34, 0x01] factoryState).2 = factoryState :=
  (set_handlers_nack_atomic PIDCommandHandler.DimmerModel_SetLockState
    (request SET_COMMAND SUBDEVICE_ROOT PID_LOCK_STATE [0x12, 0x34, 0x01])
    [0x12, 0x34, 0x01] factoryState RDMNackReason.NR_DATA_OUT_OF_RANGE (by decide)
    (by decide)).1

/-! ## Sub-device isolation (C38) -/

theorem sameExceptSubDevice_refl (s : State) (i : Nat) : sameExceptSubDevice s s i :=
  ⟨rfl, rfl, fun _ _ _ => rfl⟩

theorem sameExceptSubDevice_set (s : State) (i : Nat) (d : DimmerSubDevice) (hi : i < 4) :
    sameExceptSubDevice s { s with g_subdevices := s.g_subdevices.set i d } i := by
  refine ⟨rfl, rfl, ?_⟩
  intro j hj hne
  show (s.g_subdevices.set i d).get j = _
  rw [SubDeviceArray_get_set _ _ _ _ hi hj, if_neg hne]

theorem SubDeviceArray_get_set_self (a : SubDeviceArray) (i : Nat) (d : DimmerSubDevice)
    (hi : i < 4) : (a.set i d).get i = d := by
  rw [SubDeviceArray_get_set _ _ _ _ hi hi, if_pos rfl]

/-- The five SET handlers of the sub-device PIDs, run with `g_active_device`
on `g_subdevices[i]`, change at most their own field(s) of `g_subdevices[i]`. -/
theorem sub_device_set_handlers_local (header : RDMHeader) (param_data : List Nat)
    (s : State) (i : Nat) (hi : i < 4) (hactive : s.g_active_device = some i) :
    (sameExceptSubDevice s (DimmerModel_SetIdentifyMode header param_data s).2 i ∧
      (DimmerModel_SetIdentifyMode header param_data s).2.g_subdevices.get i =
        { s.g_subdevices.get i with
          identify_mode := ((DimmerModel_SetIdentifyMode header param_data
            s).2.g_subdevices.get i).identify_mode }) ∧
    (sameExceptSubDevice s (DimmerModel_SetMinimumLevel header param_data s).2 i ∧
      (DimmerModel_SetMinimumLevel header param_data s).2.g_subdevices.get i =
        { s.g_subdevices.get i with
          min_level_increasing := ((DimmerModel_SetMinimumLevel header param_data
            s).2.g_subdevices.get i).min_level_increasing
          min_level_decreasing := ((DimmerModel_SetMinimumLevel header param_data
            s).2.g_subdevices.get i).min_level_decreasing
          on_below_min := ((DimmerModel_SetMinimumLevel header param_data
            s).2.g_subdevices.get i).on_below_min }) ∧
    (sameExceptSubDevice s (DimmerModel_SetCurve header param_data s).2 i ∧
      (DimmerModel_SetCurve header param_data s).2.g_subdevices.get i =
        { s.g_subdevices.get i with
          curve := ((DimmerModel_SetCurve header param_data
            s).2.g_subdevices.get i).curve }) ∧
    (sameExceptSubDevice s (DimmerModel_SetOutputResponseTime header param_data s).2 i ∧
      (DimmerModel_SetOutputResponseTime header param_data s).2.g_subdevices.get i =
        { s.g_subdevices.get i with
          output_response_time := ((DimmerModel_SetOutputResponseTime header param_data
            s).2.g_subdevices.get i).output_response_time }) ∧
    (sameExceptSubDevice s (DimmerModel_SetModulationFrequency header param_data s).2 i ∧
      (DimmerModel_SetModulationFrequency header param_data s).2.g_subdevices.get i =
        { s.g_subdevices.get i with
          modulation_frequency := ((DimmerModel_SetModulationFrequency header param_data
            s).2.g_subdevices.get i).modulation_frequency }) := by
  have hself := fun d => SubDeviceArray_get_set_self s.g_subdevices i d hi
  have hsame := fun d => sameExceptSubDevice_set s i d hi
  refine ⟨?_, ?_, ?_, ?_, ?_⟩
  · simp only [DimmerModel_SetIdentifyMode, State.setActiveDevice, State.activeDevice,
      hactive]
    split_ifs
    · exact ⟨sameExceptSubDevice_refl s i, rfl⟩
    · exact ⟨sameExceptSubDevice_refl s i, rfl⟩
    · exact ⟨hsame _, by simp only [hself]⟩
  · simp only [DimmerModel_SetMinimumLevel, State.setActiveDevice, State.activeDevice,
      hactive]
    split_ifs
    · exact ⟨sameExceptSubDevice_refl s i, rfl⟩
    · exact ⟨sameExceptSubDevice_refl s i, rfl⟩
    · exact ⟨hsame _, by simp only [hself]⟩
  · simp only [DimmerModel_SetCurve, State.setActiveDevice, State.activeDevice, hactive]
    split_ifs
    · exact ⟨sameExceptSubDevice_refl s i, rfl⟩
    · exact ⟨sameExceptSubDevice_refl s i, rfl⟩
    · exact ⟨sameExceptSubDevice_refl s i, rfl⟩
    · exact ⟨hsame _, by simp only [hself]⟩
  · simp only [DimmerModel_SetOutputResponseTime, State.setActiveDevice,
      State.activeDevice, hactive]
    split_ifs
    · exact ⟨sameExceptSubDevice_refl s i, rfl⟩
    · exact ⟨sameExceptSubDevice_refl s i, rfl⟩
    · exact ⟨hsame _, by simp only [hself]⟩
  · simp only [DimmerModel_SetModulationFrequency, State.setActiveDevice,
      State.activeDevice, hactive]
    split_ifs
    · exact ⟨sameExceptSubDevice_refl s i, rfl⟩
    · exact ⟨sameExceptSubDevice_refl s i, rfl⟩
    · exact ⟨hsame _, by simp only [hself]⟩

/-- An unlocked SET addressed to the one sub-device that carries the number
asked for is one dispatch to it, after which `g_responder` is restored. -/
theorem HandleRequest_unlocked_set_single (header : RDMHeader) (param_data : List Nat)
    (t : State) (i : Nat) (hi : i < 4)
    (hact : RDMUtil_RequiresAction t.responder.uid header.dest_uid = true)
    (hset : header.command_class = SET_COMMAND)
    (hunlocked : t.g_root_device.lock_state = LOCK_STATE_UNLOCKED)
    (hroot : header.sub_device ≠ SUBDEVICE_ROOT)
    (hall : header.sub_device ≠ SUBDEVICE_ALL)
    (hsub : (t.g_subdevices.get i).index = header.sub_device)
    (hdist : ∀ j, j < 4 → j ≠ i → (t.g_subdevices.get j).index ≠ header.sub_device) :
    DimmerModel_HandleRequest header param_data t =
      ((dispatchSubDevice header param_data t i).1,
       { (dispatchSubDevice header param_data t i).2 with g_responder := t.g_responder }) := by
  have hfold := foldl_handleSubDevice_single header param_data header.sub_device t i hi
    hall hsub hdist
  have hd : header.command_class ≠ DISCOVERY_COMMAND := by
    rw [hset]
    decide
  have hg : header.command_class ≠ GET_COMMAND := by
    rw [hset]
    decide
  have hl1 : t.g_root_device.lock_state ≠ LOCK_STATE_ALL_LOCKED := by
    rw [hunlocked]
    decide
  have hl2 : t.g_root_device.lock_state ≠ LOCK_STATE_SUBDEVICES_LOCKED := by
    rw [hunlocked]
    decide
  rw [HandleRequest_eq]
  simp only [hact, hd, hg, hroot, hl1, hl2, or_self, and_false, false_and, decide_False,
    if_false, hfold, Bool.true_eq_false]

/-- C38: sub-device isolation. In a reachable state with the lock open, a SET
of `IDENTIFY_MODE`, `MINIMUM_LEVEL`, `CURVE`, `OUTPUT_RESPONSE_TIME` or
`MODULATION_FREQUENCY` addressed to the existing sub-device carried by
`g_subdevices[i]` (whose responder has the sub-device PID table) changes at
most the field(s) of that PID in `g_subdevices[i]`: the other three
sub-devices, the other fields of `g_subdevices[i]` (its responder included),
the root device state and the root responder are as they were. -/
theorem sub_device_set_isolated (t : State) (ht : Reachable t) (header : RDMHeader)
    (param_data : List Nat) (i : Nat) (hi : i < NUMBER_OF_SUB_DEVICES)
    (hact : RDMUtil_RequiresAction t.responder.uid header.dest_uid = true)
    (hset : header.command_class = SET_COMMAND)
    (hunlocked : t.g_root_device.lock_state = LOCK_STATE_UNLOCKED)
    (hsub : (t.g_subdevices.get i).index = header.sub_device)
    (hdef : (t.g_subdevices.get i).responder.definition.descriptors =
      DescriptorTable.SUBDEVICE_PID_DESCRIPTORS) :
    (header.param_id = PID_IDENTIFY_MODE →
      sameExceptSubDevice t (DimmerModel_HandleRequest header param_data t).2 i ∧
      (DimmerModel_HandleRequest header param_data t).2.g_subdevices.get i =
        { t.g_subdevices.get i with
          identify_mode := ((DimmerModel_HandleRequest header param_data
            t).2.g_subdevices.get i).identify_mode }) ∧
    (header.param_id = PID_MINIMUM_LEVEL →
      sameExceptSubDevice t (DimmerModel_HandleRequest header param_data t).2 i ∧
      (DimmerModel_HandleRequest header param_data t).2.g_subdevices.get i =
        { t.g_subdevices.get i with
          min_level_increasing := ((DimmerModel_HandleRequest header param_data
            t).2.g_subdevices.get i).min_level_increasing
          min_level_decreasing := ((DimmerModel_HandleRequest header param_data
            t).2.g_subdevices.get i).min_level_decreasing
          on_below_min := ((DimmerModel_HandleRequest header param_data
            t).2.g_subdevices.get i).on_below_min }) ∧
    (header.param_id = PID_CURVE →
      sameExceptSubDevice t (DimmerModel_HandleRequest header param_data t).2 i ∧
      (DimmerModel_HandleRequest header param_data t).2.g_subdevices.get i =
        { t.g_subdevices.get i with
          curve := ((DimmerModel_HandleRequest header param_data
            t).2.g_subdevices.get i).curve }) ∧
    (header.param_id = PID_OUTPUT_RESPONSE_TIME →
      sameExceptSubDevice t (DimmerModel_HandleRequest header param_data t).2 i ∧
      (DimmerModel_HandleRequest header param_data t).2.g_subdevices.get i =
        { t.g_subdevices.get i with
          output_response_time := ((DimmerModel_HandleRequest header param_data
            t).2.g_subdevices.get i).output_response_time }) ∧
    (header.param_id = PID_MODULATION_FREQUENCY →
      sameExceptSubDevice t (DimmerModel_HandleRequest header param_data t).2 i ∧
      (DimmerModel_HandleRequest header param_data t).2.g_subdevices.get i =
        { t.g_subdevices.get i with
          modulation_frequency := ((DimmerModel_HandleRequest header param_data
            t).2.g_subdevices.get i).modulation_frequency }) := by
  simp only [NUMBER_OF_SUB_DEVICES] at hi
  have hnum := Reachable_subDeviceNumbers t ht
  rw [subDeviceNumbers_eq] at hnum
  simp only [List.cons.injEq, and_true] at hnum
  obtain ⟨h0, h1, h2, h3⟩ := hnum
  have hi' : i = 0 ∨ i = 1 ∨ i = 2 ∨ i = 3 := by omega
  have hroot : header.sub_device ≠ SUBDEVICE_ROOT := by
    simp only [SUBDEVICE_ROOT]
    rcases hi' with rfl | rfl | rfl | rfl <;> omega
  have hall : header.sub_device ≠ SUBDEVICE_ALL := by
    simp only [SUBDEVICE_ALL]
    rcases hi' with rfl | rfl | rfl | rfl <;> omega
  have hdist : ∀ j, j < 4 → j ≠ i → (t.g_subdevices.get j).index ≠ header.sub_device := by
    intro j hj hne
    have hj' : j = 0 ∨ j = 1 ∨ j = 2 ∨ j = 3 := by omega
    rcases hi' with rfl | rfl | rfl | rfl <;> rcases hj' with rfl | rfl | rfl | rfl <;>
      omega
  have hreq := HandleRequest_unlocked_set_single header param_data t i hi hact hset
    hunlocked hroot hall hsub hdist
  have hlocal := sub_device_set_handlers_local header param_data
    { t with g_active_device := some i, g_responder := ResponderRef.subdevice i } i hi rfl
  obtain ⟨l1, l2, l3, l4, l5⟩ := hlocal
  refine ⟨?_, ?_, ?_, ?_, ?_⟩
  · intro hpid
    have hfind : SUBDEVICE_PID_DESCRIPTORS.find?
        (fun descriptor => descriptor.pid == header.param_id) =
        some ⟨PID_IDENTIFY_MODE, some PIDCommandHandler.DimmerModel_GetIdentifyMode, 0,
          some PIDCommandHandler.DimmerModel_SetIdentifyMode⟩ := by
      rw [hpid]
      decide
    rw [hreq, dispatchSubDevice_set header param_data t i _ _ hset hdef hfind rfl]
    exact l1
  · intro hpid
    have hfind : SUBDEVICE_PID_DESCRIPTORS.find?
        (fun descriptor => descriptor.pid == header.param_id) =
        some ⟨PID_MINIMUM_LEVEL, some PIDCommandHandler.DimmerModel_GetMinimumLevel, 0,
          some PIDCommandHandler.DimmerModel_SetMinimumLevel⟩ := by
      rw [hpid]
      decide
    rw [hreq, dispatchSubDevice_set header param_data t i _ _ hset hdef hfind rfl]
    exact l2
  · intro hpid
    have hfind : SUBDEVICE_PID_DESCRIPTORS.find?
        (fun descriptor => descriptor.pid == header.param_id) =
        some ⟨PID_CURVE, some PIDCommandHandler.DimmerModel_GetCurve, 0,
          some PIDCommandHandler.DimmerModel_SetCurve⟩ := by
      rw [hpid]
      decide
    rw [hreq, dispatchSubDevice_set header param_data t i _ _ hset hdef hfind rfl]
    exact l3
  · intro hpid
    have hfind : SUBDEVICE_PID_DESCRIPTORS.find?
        (fun descriptor => descriptor.pid == header.param_id) =
        some ⟨PID_OUTPUT_RESPONSE_TIME,
          some PIDCommandHandler.DimmerModel_GetOutputResponseTime, 0,
          some PIDCommandHandler.DimmerModel_SetOutputResponseTime⟩ := by
      rw [hpid]
      decide
    rw [hreq, dispatchSubDevice_set header param_data t i _ _ hset hdef hfind rfl]
    exact l4
  · intro hpid
    have hfind : SUBDEVICE_PID_DESCRIPTORS.find?
        (fun descriptor => descriptor.pid == header.param_id) =
        some ⟨PID_MODULATION_FREQUENCY,
          some PIDCommandHandler.DimmerModel_GetModulationFrequency, 0,
          some PIDCommandHandler.DimmerModel_SetModulationFrequency⟩ := by
      rw [hpid]
      decide
    rw [hreq, dispatchSubDevice_set header param_data t i _ _ hset hdef hfind rfl]
    exact l5

/-- Witness for C38: SET `CURVE` 4 to sub-device 3 (`g_subdevices[1]`) in the
factory state leaves the root device state and the other sub-devices as they
were. -/
theorem sub_device_set_isolated_witness :
    sameExceptSubDevice factoryState
      (DimmerModel_HandleRequest (request SET_COMMAND 3 PID_CURVE [0x04]) [0x04]
        factoryState).2 1 :=
  ((sub_device_set_isolated factoryState
    (Reachable.activate _ (Reachable.start (bootState TEST_UID)))
    (request SET_COMMAND 3 PID_CURVE [0x04]) [0x04] 1 (by decide) (by decide) rfl
    (by decide) (by decide) (by decide)).2.2.1 rfl).1

/-! ## Table accesses stay inside the tables (C39) -/

theorem readByte_ok (param_data : List Nat) (i : Nat) (h : i < param_data.length) :
    readByte param_data i = Except.ok (byteAt param_data i) := by
  simp only [readByte, if_pos h]

theorem readUInt16_ok (param_data : List Nat) (i : Nat) (h : i + 1 < param_data.length) :
    readUInt16 param_data i = Except.ok (ExtractUInt16 param_data i) := by
  simp only [readUInt16, readByte_ok param_data i (by omega), readByte_ok param_data (i + 1) h,
    ExtractUInt16]

theorem checkIndex_ok (index size : Nat) (h : index % 4294967296 < size) :
    checkIndex index size = Except.ok (index % 4294967296) := by
  simp only [checkIndex, if_pos h]

/-- The subscript `x - 1` for `1 ≤ x ≤ size` is inside the table. -/
theorem checkIndex_pred (x size : Nat) (h1 : 1 ≤ x) (h2 : x ≤ size)
    (h3 : size ≤ 4294967296) :
    checkIndex (x + 4294967296 - 1) size = Except.ok (x - 1) := by
  have e : (x + 4294967296 - 1) % 4294967296 = x - 1 := by omega
  simp only [checkIndex, e]
  rw [if_pos (by omega)]

theorem Except_ok_bind {ε α β : Type} (v : α) (f : α → Except ε β) :
    (Except.ok v >>= f) = f v := rfl

theorem Except_error_bind {ε α β : Type} (e : ε) (f : α → Except ε β) :
    ((Except.error e : Except ε α) >>= f) = Except.error e := rfl

theorem CapturePreset_checked_eq (header : RDMHeader) (param_data : List Nat) (s : State)
    (hlen : 8 ≤ param_data.length) :
    DimmerModel_CapturePreset_checked header param_data s =
      Except.ok (DimmerModel_CapturePreset header param_data s) := by
  simp only [DimmerModel_CapturePreset_checked, DimmerModel_CapturePreset,
    readUInt16_ok param_data 0 (by omega), readUInt16_ok param_data 2 (by omega),
    readUInt16_ok param_data 4 (by omega), readUInt16_ok param_data 6 (by omega),
    Except_ok_bind]
  split_ifs with c1 c2 c3
  · rfl
  · rfl
  · simp only [NUMBER_OF_SCENES] at c2
    simp only [checkIndex_pred (ExtractUInt16 param_data 0) NUMBER_OF_SCENES (by omega)
      (by simp only [NUMBER_OF_SCENES]; omega) (by decide), Except_ok_bind, c3, if_true]
  · simp only [NUMBER_OF_SCENES] at c2
    simp only [checkIndex_pred (ExtractUInt16 param_data 0) NUMBER_OF_SCENES (by omega)
      (by simp only [NUMBER_OF_SCENES]; omega) (by decide), Except_ok_bind, c3, if_false]

theorem GetPresetStatus_checked_eq (header : RDMHeader) (param_data : List Nat) (s : State)
    (hlen : 2 ≤ param_data.length) :
    DimmerModel_GetPresetStatus_checked header param_data s =
      Except.ok (DimmerModel_GetPresetStatus header param_data s) := by
  simp only [DimmerModel_GetPresetStatus_checked, DimmerModel_GetPresetStatus,
    readUInt16_ok param_data 0 (by omega), Except_ok_bind]
  split_ifs with c1
  · rfl
  · simp only [NUMBER_OF_SCENES] at c1
    simp only [checkIndex_pred (ExtractUInt16 param_data 0) NUMBER_OF_SCENES (by omega)
      (by simp only [NUMBER_OF_SCENES]; omega) (by decide), Except_ok_bind]

theorem SetPresetStatus_checked_eq (header : RDMHeader) (param_data : List Nat) (s : State)
    (hlen : 9 ≤ param_data.length) :
    DimmerModel_SetPresetStatus_checked header param_data s =
      Except.ok (DimmerModel_SetPresetStatus header param_data s) := by
  simp only [DimmerModel_SetPresetStatus_checked, DimmerModel_SetPresetStatus,
    readUInt16_ok param_data 0 (by omega), readUInt16_ok param_data 2 (by omega),
    readUInt16_ok param_data 4 (by omega), readUInt16_ok param_data 6 (by omega),
    readByte_ok param_data 8 (by omega), Except_ok_bind]
  have hk : ¬(ExtractUInt16 param_data 0 = 0 ∨ ExtractUInt16 param_data 0 > NUMBER_OF_SCENES) →
      checkIndex (ExtractUInt16 param_data 0 + 4294967296 - 1) NUMBER_OF_SCENES =
        Except.ok (ExtractUInt16 param_data 0 - 1) := by
    intro c
    simp only [NUMBER_OF_SCENES] at c
    exact checkIndex_pred _ _ (by omega) (by simp only [NUMBER_OF_SCENES]; omega) (by decide)
  by_cases c1 : header.param_data_length ≠ 4 * 2 + 1
  · simp only [if_pos c1]
  · simp only [if_neg c1]
    by_cases c2 : ExtractUInt16 param_data 0 = 0 ∨ ExtractUInt16 param_data 0 > NUMBER_OF_SCENES
    · simp only [if_pos c2]
    · simp only [if_neg c2, hk c2, Except_ok_bind]
      split_ifs <;> with_reducible rfl

theorem GetLockStateDescription_checked_eq (header : RDMHeader) (param_data : List Nat)
    (s : State) (hlen : 1 ≤ param_data.length) :
    DimmerModel_GetLockStateDescription_checked header param_data s =
      Except.ok (DimmerModel_GetLockStateDescription header param_data s) := by
  simp only [DimmerModel_GetLockStateDescription_checked, DimmerModel_GetLockStateDescription,
    readByte_ok param_data 0 (by omega), Except_ok_bind]
  split_ifs with c1
  · rfl
  · have hlen3 : LOCK_STATES.length = 3 := by decide
    simp only [NUMBER_OF_LOCK_STATES] at c1
    have e : byteAt param_data 0 % 4294967296 = byteAt param_data 0 := by omega
    rw [checkIndex_ok _ _ (by rw [e, hlen3]; omega), e]
    rfl

theorem GetCurveDescription_checked_eq (header : RDMHeader) (param_data : List Nat)
    (s : State) (hlen : 1 ≤ param_data.length) :
    DimmerModel_GetCurveDescription_checked header param_data s =
      Except.ok (DimmerModel_GetCurveDescription header param_data s) := by
  simp only [DimmerModel_GetCurveDescription_checked, DimmerModel_GetCurveDescription,
    readByte_ok param_data 0 (by omega), Except_ok_bind]
  split_ifs with c1
  · rfl
  · have hlen4 : DIMMER_CURVES.length = 4 := by decide
    simp only [NUMBER_OF_CURVES] at c1
    rw [checkIndex_pred (byteAt param_data 0) _ (by omega) (by rw [hlen4]; omega)
      (by rw [hlen4]; decide)]
    rfl

theorem GetOutputResponseDescription_checked_eq (header : RDMHeader)
    (param_data : List Nat) (s : State) (hlen : 1 ≤ param_data.length) :
    DimmerModel_GetOutputResponseDescription_checked header param_data s =
      Except.ok (DimmerModel_GetOutputResponseDescription header param_data s) := by
  simp only [DimmerModel_GetOutputResponseDescription_checked,
    DimmerModel_GetOutputResponseDescription,
    readByte_ok param_data 0 (by omega), Except_ok_bind]
  split_ifs with c1
  · rfl
  · have hlen2 : OUTPUT_RESPONSE_TIMES.length = 2 := by decide
    simp only [NUMBER_OF_OUTPUT_RESPONSE_TIMES] at c1
    rw [checkIndex_pred (byteAt param_data 0) _ (by omega) (by rw [hlen2]; omega)
      (by rw [hlen2]; decide)]
    rfl

theorem GetModulationFrequencyDescription_checked_eq (header : RDMHeader)
    (param_data : List Nat) (s : State) (hlen : 1 ≤ param_data.length) :
    DimmerModel_GetModulationFrequencyDescription_checked header param_data s =
      Except.ok (DimmerModel_GetModulationFrequencyDescription header param_data s) := by
  simp only [DimmerModel_GetModulationFrequencyDescription_checked,
    DimmerModel_GetModulationFrequencyDescription,
    readByte_ok param_data 0 (by omega), Except_ok_bind]
  split_ifs with c1
  · rfl
  · have hlen4 : MODULATION_FREQUENCY.length = 4 := by decide
    simp only [NUMBER_OF_MODULATION_FREQUENCIES] at c1
    rw [checkIndex_pred (byteAt param_data 0) _ (by omega) (by rw [hlen4]; omega)
      (by rw [hlen4]; decide)]
    rfl

/-! ### No table error, whatever the parameter data -/

theorem tableSafe_ok {α : Type} (v : α) : tableSafe (Except.ok v : Except AccessError α) := by
  intro index size h
  cases h

theorem tableSafe_bind {α β : Type} (x : Except AccessError α)
    (f : α → Except AccessError β) (hx : tableSafe x)
    (hf : ∀ v, x = Except.ok v → tableSafe (f v)) : tableSafe (x >>= f) := by
  cases x with
  | error e =>
    intro index size h
    rw [Except_error_bind] at h
    injection h with h
    exact hx index size (by rw [h])
  | ok v =>
    rw [Except_ok_bind]
    exact hf v rfl

theorem tableSafe_readByte (param_data : List Nat) (i : Nat) :
    tableSafe (readByte param_data i) := by
  intro index size h
  simp only [readByte] at h
  split_ifs at h
  simp at h

theorem readByte_lt (param_data : List Nat) (i v : Nat)
    (h : readByte param_data i = Except.ok v) : v < 256 := by
  simp only [readByte] at h
  split_ifs at h
  · injection h with h
    rw [← h]
    exact Nat.mod_lt _ (by decide)

theorem tableSafe_readUInt16 (param_data : List Nat) (i : Nat) :
    tableSafe (readUInt16 param_data i) := by
  intro index size h
  simp only [readUInt16, readByte] at h
  split_ifs at h <;> simp at h

theorem tableSafe_checkIndex_pred {β : Type} (x size : Nat)
    (f : Nat → Except AccessError β) (h1 : 1 ≤ x) (h2 : x ≤ size)
    (h3 : size ≤ 4294967296) (hf : tableSafe (f (x - 1))) :
    tableSafe (checkIndex (x + 4294967296 - 1) size >>= f) := by
  rw [checkIndex_pred x size h1 h2 h3, Except_ok_bind]
  exact hf

theorem tableSafe_checkIndex {β : Type} (x size : Nat)
    (f : Nat → Except AccessError β) (h1 : x < size) (h2 : x < 4294967296)
    (hf : tableSafe (f x)) : tableSafe (checkIndex x size >>= f) := by
  have e : x % 4294967296 = x := Nat.mod_eq_of_lt h2
  rw [checkIndex_ok x size (by rw [e]; exact h1), e, Except_ok_bind]
  exact hf

theorem CapturePreset_checked_tableSafe (header : RDMHeader) (param_data : List Nat)
    (s : State) : tableSafe (DimmerModel_CapturePreset_checked header param_data s) := by
  unfold DimmerModel_CapturePreset_checked
  by_cases c1 : header.param_data_length ≠ 4 * 2
  · rw [if_pos c1]
    exact tableSafe_ok _
  · rw [if_neg c1]
    refine tableSafe_bind _ _ (tableSafe_readUInt16 _ _) (fun scene_index _ => ?_)
    refine tableSafe_bind _ _ (tableSafe_readUInt16 _ _) (fun up_fade_time _ => ?_)
    refine tableSafe_bind _ _ (tableSafe_readUInt16 _ _) (fun down_fade_time _ => ?_)
    refine tableSafe_bind _ _ (tableSafe_readUInt16 _ _) (fun wait_time _ => ?_)
    by_cases c2 : scene_index = 0 ∨ scene_index > NUMBER_OF_SCENES
    · rw [if_pos c2]
      exact tableSafe_ok _
    · rw [if_neg c2]
      refine tableSafe_checkIndex_pred _ _ _ (by omega) (by omega) (by decide) ?_
      dsimp only
      split_ifs <;> exact tableSafe_ok _

theorem GetPresetStatus_checked_tableSafe (header : RDMHeader) (param_data : List Nat)
    (s : State) : tableSafe (DimmerModel_GetPresetStatus_checked header param_data s) := by
  unfold DimmerModel_GetPresetStatus_checked
  refine tableSafe_bind _ _ (tableSafe_readUInt16 _ _) (fun scene_index _ => ?_)
  by_cases c2 : scene_index = 0 ∨ scene_index > NUMBER_OF_SCENES
  · rw [if_pos c2]
    exact tableSafe_ok _
  · rw [if_neg c2]
    refine tableSafe_checkIndex_pred _ _ _ (by omega) (by omega) (by decide) ?_
    exact tableSafe_ok _

theorem SetPresetStatus_checked_tableSafe (header : RDMHeader) (param_data : List Nat)
    (s : State) : tableSafe (DimmerModel_SetPresetStatus_checked header param_data s) := by
  unfold DimmerModel_SetPresetStatus_checked
  by_cases c1 : header.param_data_length ≠ 4 * 2 + 1
  · rw [if_pos c1]
    exact tableSafe_ok _
  · rw [if_neg c1]
    refine tableSafe_bind _ _ (tableSafe_readUInt16 _ _) (fun scene_index _ => ?_)
    refine tableSafe_bind _ _ (tableSafe_readUInt16 _ _) (fun up_fade_time _ => ?_)
    refine tableSafe_bind _ _ (tableSafe_readUInt16 _ _) (fun down_fade_time _ => ?_)
    refine tableSafe_bind _ _ (tableSafe_readUInt16 _ _) (fun wait_time _ => ?_)
    refine tableSafe_bind _ _ (tableSafe_readByte _ _) (fun clear_preset _ => ?_)
    by_cases c2 : scene_index = 0 ∨ scene_index > NUMBER_OF_SCENES
    · rw [if_pos c2]
      exact tableSafe_ok _
    · rw [if_neg c2]
      refine tableSafe_checkIndex_pred _ _ _ (by omega) (by omega) (by decide) ?_
      dsimp only
      split_ifs <;> exact tableSafe_ok _

theorem GetLockStateDescription_checked_tableSafe (header : RDMHeader)
    (param_data : List Nat) (s : State) :
    tableSafe (DimmerModel_GetLockStateDescription_checked header param_data s) := by
  unfold DimmerModel_GetLockStateDescription_checked
  refine tableSafe_bind _ _ (tableSafe_readByte _ _) (fun lock_state _ => ?_)
  by_cases c2 : lock_state = 0 ∨ lock_state ≥ NUMBER_OF_LOCK_STATES
  · rw [if_pos c2]
    exact tableSafe_ok _
  · rw [if_neg c2]
    have hlen3 : LOCK_STATES.length = 3 := by decide
    simp only [NUMBER_OF_LOCK_STATES] at c2
    refine tableSafe_checkIndex _ _ _ (by rw [hlen3]; omega) (by omega) ?_
    exact tableSafe_ok _

theorem GetCurveDescription_checked_tableSafe (header : RDMHeader)
    (param_data : List Nat) (s : State) :
    tableSafe (DimmerModel_GetCurveDescription_checked header param_data s) := by
  unfold DimmerModel_GetCurveDescription_checked
  refine tableSafe_bind _ _ (tableSafe_readByte _ _) (fun curve _ => ?_)
  by_cases c2 : curve = 0 ∨ curve > NUMBER_OF_CURVES
  · rw [if_pos c2]
    exact tableSafe_ok _
  · rw [if_neg c2]
    have hlen4 : DIMMER_CURVES.length = 4 := by decide
    simp only [NUMBER_OF_CURVES] at c2
    refine tableSafe_checkIndex_pred _ _ _ (by omega) (by rw [hlen4]; omega)
      (by rw [hlen4]; decide) ?_
    exact tableSafe_ok _

theorem GetOutputResponseDescription_checked_tableSafe (header : RDMHeader)
    (param_data : List Nat) (s : State) :
    tableSafe (DimmerModel_GetOutputResponseDescription_checked header param_data s) := by
  unfold DimmerModel_GetOutputResponseDescription_checked
  refine tableSafe_bind _ _ (tableSafe_readByte _ _) (fun setting _ => ?_)
  by_cases c2 : setting = 0 ∨ setting > NUMBER_OF_OUTPUT_RESPONSE_TIMES
  · rw [if_pos c2]
    exact tableSafe_ok _
  · rw [if_neg c2]
    have hlen2 : OUTPUT_RESPONSE_TIMES.length = 2 := by decide
    simp only [NUMBER_OF_OUTPUT_RESPONSE_TIMES] at c2
    refine tableSafe_checkIndex_pred _ _ _ (by omega) (by rw [hlen2]; omega)
      (by rw [hlen2]; decide) ?_
    exact tableSafe_ok _

theorem GetModulationFrequencyDescription_checked_tableSafe (header : RDMHeader)
    (param_data : List Nat) (s : State) :
    tableSafe (DimmerModel_GetModulationFrequencyDescription_checked header param_data s) := by
  unfold DimmerModel_GetModulationFrequencyDescription_checked
  refine tableSafe_bind _ _ (tableSafe_readByte _ _) (fun setting _ => ?_)
  by_cases c2 : setting = 0 ∨ setting > NUMBER_OF_MODULATION_FREQUENCIES
  · rw [if_pos c2]
    exact tableSafe_ok _
  · rw [if_neg c2]
    have hlen4 : MODULATION_FREQUENCY.length = 4 := by decide
    simp only [NUMBER_OF_MODULATION_FREQUENCIES] at c2
    refine tableSafe_checkIndex_pred _ _ _ (by omega) (by rw [hlen4]; omega)
      (by rw [hlen4]; decide) ?_
    exact tableSafe_ok _

/-- C39: the seven handlers of `dimmer_model.c` that subscript a table
(`scenes[scene_index - 1]`, `LOCK_STATES[lock_state]`, `DIMMER_CURVES[curve - 1]`,
`OUTPUT_RESPONSE_TIMES[setting - 1]`, `MODULATION_FREQUENCY[setting - 1]`), run
with every subscript checked against the size of its table, never end in an
access outside a table, whatever the request and the state: the range check
that precedes each subscript puts the index inside the table. When the
parameter data holds the bytes the handler reads (nine at most) the checked
handler returns exactly what the handler returns, and that is an ACK with
data, the ACK of a SET, or a NACK with `FORMAT_ERROR`, `DATA_OUT_OF_RANGE` or
`WRITE_PROTECT`. -/
theorem table_accesses_in_bounds (handler : PIDCommandHandler) (header : RDMHeader)
    (param_data : List Nat) (s : State)
    (hmem : handler ∈ [PIDCommandHandler.DimmerModel_CapturePreset,
      PIDCommandHandler.DimmerModel_GetPresetStatus,
      PIDCommandHandler.DimmerModel_SetPresetStatus,
      PIDCommandHandler.DimmerModel_GetLockStateDescription,
      PIDCommandHandler.DimmerModel_GetCurveDescription,
      PIDCommandHandler.DimmerModel_GetOutputResponseDescription,
      PIDCommandHandler.DimmerModel_GetModulationFrequencyDescription]) :
    (∀ index size : Nat, callHandler_checked handler header param_data s ≠
      Except.error (AccessError.TABLE index size)) ∧
    (9 ≤ param_data.length →
      callHandler_checked handler header param_data s =
        Except.ok (callHandler handler header param_data s)) ∧
    ((∃ body, (callHandler handler header param_data s).1 = Response.ACK body) ∨
      (callHandler handler header param_data s).1 = Response.SET_ACK ∨
      (∃ reason, reason ∈ [RDMNackReason.NR_FORMAT_ERROR,
          RDMNackReason.NR_DATA_OUT_OF_RANGE, RDMNackReason.NR_WRITE_PROTECT] ∧
        (callHandler handler header param_data s).1 = Response.NACK reason)) := by
  simp only [List.mem_cons, List.mem_singleton, List.not_mem_nil, or_false] at hmem
  refine ⟨?_, ?_, ?_⟩
  · rcases hmem with h | h | h | h | h | h | h <;> subst h
    · exact CapturePreset_checked_tableSafe header param_data s
    · exact GetPresetStatus_checked_tableSafe header param_data s
    · exact SetPresetStatus_checked_tableSafe header param_data s
    · exact GetLockStateDescription_checked_tableSafe header param_data s
    · exact GetCurveDescription_checked_tableSafe header param_data s
    · exact GetOutputResponseDescription_checked_tableSafe header param_data s
    · exact GetModulationFrequencyDescription_checked_tableSafe header param_data s
  · intro hlen
    rcases hmem with h | h | h | h | h | h | h <;> subst h
    · exact CapturePreset_checked_eq header param_data s (by omega)
    · exact GetPresetStatus_checked_eq header param_data s (by omega)
    · exact SetPresetStatus_checked_eq header param_data s (by omega)
    · exact GetLockStateDescription_checked_eq header param_data s (by omega)
    · exact GetCurveDescription_checked_eq header param_data s (by omega)
    · exact GetOutputResponseDescription_checked_eq header param_data s (by omega)
    · exact GetModulationFrequencyDescription_checked_eq header param_data s (by omega)
  · rcases hmem with h | h | h | h | h | h | h <;> subst h <;>
      simp only [callHandler, DimmerModel_CapturePreset, DimmerModel_GetPresetStatus,
        DimmerModel_SetPresetStatus, DimmerModel_GetLockStateDescription,
        DimmerModel_GetCurveDescription, DimmerModel_GetOutputResponseDescription,
        DimmerModel_GetModulationFrequencyDescription, RDMResponder_BuildNack,
        RDMResponder_BuildSetAck, RDMResponder_AddHeaderAndChecksum] <;>
      split_ifs <;> simp

/-- Witness for C39: GET `PRESET_STATUS` of scene 3 in the factory state, with
nine bytes of parameter data at hand. -/
theorem table_accesses_in_bounds_witness :
    callHandler_checked PIDCommandHandler.DimmerModel_GetPresetStatus
        (request GET_COMMAND SUBDEVICE_ROOT PID_PRESET_STATUS [0, 3, 0, 0, 0, 0, 0, 0, 0])
        [0, 3, 0, 0, 0, 0, 0, 0, 0] factoryState =
      Except.ok (callHandler PIDCommandHandler.DimmerModel_GetPresetStatus
        (request GET_COMMAND SUBDEVICE_ROOT PID_PRESET_STATUS [0, 3, 0, 0, 0, 0, 0, 0, 0])
        [0, 3, 0, 0, 0, 0, 0, 0, 0] factoryState) :=
  (table_accesses_in_bounds PIDCommandHandler.DimmerModel_GetPresetStatus
    (request GET_COMMAND SUBDEVICE_ROOT PID_PRESET_STATUS [0, 3, 0, 0, 0, 0, 0, 0, 0])
    [0, 3, 0, 0, 0, 0, 0, 0, 0] factoryState (by decide)).2.1 (by decide)

/-! ## GET handlers read inside the declared minimum length (C40) -/

/-- A subscript one below zero, computed in `unsigned int`, is outside every
table of the model: the checks are not vacuous. -/
theorem checkIndex_below_zero :
    checkIndex (0 + 4294967296 - 1) NUMBER_OF_SCENES =
      Except.error (AccessError.TABLE 4294967295 3) := by
  simp [checkIndex, NUMBER_OF_SCENES]

theorem byteAt_congr_take (p q : List Nat) (n i : Nat) (h : p.take n = q.take n)
    (hi : i < n) : byteAt p i = byteAt q i := by
  have e : ∀ l : List Nat, l.getD i 0 = (l.take n).getD i 0 := by
    intro l
    rw [List.getD_eq_getElem?_getD, List.getD_eq_getElem?_getD, List.getElem?_take_of_lt hi]
  simp only [byteAt]
  rw [e p, e q, h]

/-- Every descriptor of the two tables either has no GET handler, or its GET
handler is `DimmerModel_GetPresetStatus` with `min_get_pdl` 2, or one of the
four description getters with `min_get_pdl` 1, or one of the remaining GET
handlers with `min_get_pdl` 0. -/
theorem get_descriptor_cases :
    ∀ d, d ∈ ROOT_PID_DESCRIPTORS ++ SUBDEVICE_PID_DESCRIPTORS →
      d.get_handler = none ∨
      (d.get_handler = some PIDCommandHandler.DimmerModel_GetPresetStatus ∧
        d.min_get_pdl = 2) ∨
      (d.get_handler ∈ [some PIDCommandHandler.DimmerModel_GetLockStateDescription,
          some PIDCommandHandler.DimmerModel_GetCurveDescription,
          some PIDCommandHandler.DimmerModel_GetOutputResponseDescription,
          some PIDCommandHandler.DimmerModel_GetModulationFrequencyDescription] ∧
        d.min_get_pdl = 1) ∨
      (d.get_handler ∈ [some PIDCommandHandler.RDMResponder_GetSupportedParameters,
          some PIDCommandHandler.RDMResponder_GetDeviceInfo,
          some PIDCommandHandler.RDMResponder_GetProductDetailIds,
          some PIDCommandHandler.RDMResponder_GetDeviceModelDescription,
          some PIDCommandHandler.RDMResponder_GetManufacturerLabel,
          some PIDCommandHandler.RDMResponder_GetDeviceLabel,
          some PIDCommandHandler.RDMResponder_GetSoftwareVersionLabel,
          some PIDCommandHandler.RDMResponder_GetIdentifyDevice,
          some PIDCommandHandler.RDMResponder_GetDMXStartAddress,
          some PIDCommandHandler.DimmerModel_GetPresetPlayback,
          some PIDCommandHandler.DimmerModel_GetDMXBlockAddress,
          some PIDCommandHandler.DimmerModel_GetDMXFailMode,
          some PIDCommandHandler.DimmerModel_GetDMXStartupMode,
          some PIDCommandHandler.DimmerModel_GetLockPin,
          some PIDCommandHandler.DimmerModel_GetLockState,
          some PIDCommandHandler.DimmerModel_GetPresetInfo,
          some PIDCommandHandler.DimmerModel_GetPresetMergeMode,
          some PIDCommandHandler.DimmerModel_GetPowerOnSelfTest,
          some PIDCommandHandler.DimmerModel_GetBurnIn,
          some PIDCommandHandler.DimmerModel_GetIdentifyMode,
          some PIDCommandHandler.DimmerModel_GetDimmerInfo,
          some PIDCommandHandler.DimmerModel_GetMinimumLevel,
          some PIDCommandHandler.DimmerModel_GetMaximumLevel,
          some PIDCommandHandler.DimmerModel_GetCurve,
          some PIDCommandHandler.DimmerModel_GetOutputResponseTime,
          some PIDCommandHandler.DimmerModel_GetModulationFrequency] ∧
        d.min_get_pdl = 0) := by
  decide

/-- The GET handlers declared with `min_get_pdl` 0 do not look at the parameter
data. -/
theorem get_without_parameter_data (handler : PIDCommandHandler) (header : RDMHeader)
    (p q : List Nat) (s : State)
    (h : some handler ∈ [some PIDCommandHandler.RDMResponder_GetSupportedParameters,
          some PIDCommandHandler.RDMResponder_GetDeviceInfo,
          some PIDCommandHandler.RDMResponder_GetProductDetailIds,
          some PIDCommandHandler.RDMResponder_GetDeviceModelDescription,
          some PIDCommandHandler.RDMResponder_GetManufacturerLabel,
          some PIDCommandHandler.RDMResponder_GetDeviceLabel,
          some PIDCommandHandler.RDMResponder_GetSoftwareVersionLabel,
          some PIDCommandHandler.RDMResponder_GetIdentifyDevice,
          some PIDCommandHandler.RDMResponder_GetDMXStartAddress,
          some PIDCommandHandler.DimmerModel_GetPresetPlayback,
          some PIDCommandHandler.DimmerModel_GetDMXBlockAddress,
          some PIDCommandHandler.DimmerModel_GetDMXFailMode,
          some PIDCommandHandler.DimmerModel_GetDMXStartupMode,
          some PIDCommandHandler.DimmerModel_GetLockPin,
          some PIDCommandHandler.DimmerModel_GetLockState,
          some PIDCommandHandler.DimmerModel_GetPresetInfo,
          some PIDCommandHandler.DimmerModel_GetPresetMergeMode,
          some PIDCommandHandler.DimmerModel_GetPowerOnSelfTest,
          some PIDCommandHandler.DimmerModel_GetBurnIn,
          some PIDCommandHandler.DimmerModel_GetIdentifyMode,
          some PIDCommandHandler.DimmerModel_GetDimmerInfo,
          some PIDCommandHandler.DimmerModel_GetMinimumLevel,
          some PIDCommandHandler.DimmerModel_GetMaximumLevel,
          some PIDCommandHandler.DimmerModel_GetCurve,
          some PIDCommandHandler.DimmerModel_GetOutputResponseTime,
          some PIDCommandHandler.DimmerModel_GetModulationFrequency]) :
    callHandler handler header p s = callHandler handler header q s ∧
    callHandler_checked handler header p s =
      Except.ok (callHandler handler header p s) := by
  simp only [List.mem_cons, List.mem_singleton, List.not_mem_nil, or_false,
    Option.some.injEq] at h
  rcases h with h | h | h | h | h | h | h | h | h | h | h | h | h | h | h | h | h | h | h |
    h | h | h | h | h | h | h <;> subst h <;> exact ⟨rfl, rfl⟩

/-- The GET handlers that read the parameter data read only its first
`n` bytes, `n` being 2 for `DimmerModel_GetPresetStatus` and 1 for the
description getters. -/
theorem get_reader_take (header : RDMHeader) (p q : List Nat) (s : State) :
    (p.take 2 = q.take 2 →
      DimmerModel_GetPresetStatus header p s = DimmerModel_GetPresetStatus header q s) ∧
    (p.take 1 = q.take 1 →
      DimmerModel_GetLockStateDescription header p s =
        DimmerModel_GetLockStateDescription header q s ∧
      DimmerModel_GetCurveDescription header p s =
        DimmerModel_GetCurveDescription header q s ∧
      DimmerModel_GetOutputResponseDescription header p s =
        DimmerModel_GetOutputResponseDescription header q s ∧
      DimmerModel_GetModulationFrequencyDescription header p s =
        DimmerModel_GetModulationFrequencyDescription header q s) := by
  refine ⟨fun h => ?_, fun h => ?_⟩
  · simp only [DimmerModel_GetPresetStatus, ExtractUInt16,
      byteAt_congr_take p q 2 0 h (by decide), byteAt_congr_take p q 2 1 h (by decide)]
  · simp only [DimmerModel_GetLockStateDescription, DimmerModel_GetCurveDescription,
      DimmerModel_GetOutputResponseDescription, DimmerModel_GetModulationFrequencyDescription,
      byteAt_congr_take p q 1 0 h (by decide), and_self]

/-- A read of the parameter data beyond what was received is an error of the
checked handlers: each of the five reading GET handlers fails when handed
fewer bytes than it reads. -/
theorem get_reader_short (header : RDMHeader) (p : List Nat) (s : State) :
    (p.length < 2 → ∃ offset,
      DimmerModel_GetPresetStatus_checked header p s =
        Except.error (AccessError.PARAM_DATA offset p.length)) ∧
    (p.length < 1 →
      DimmerModel_GetLockStateDescription_checked header p s =
        Except.error (AccessError.PARAM_DATA 0 p.length) ∧
      DimmerModel_GetCurveDescription_checked header p s =
        Except.error (AccessError.PARAM_DATA 0 p.length) ∧
      DimmerModel_GetOutputResponseDescription_checked header p s =
        Except.error (AccessError.PARAM_DATA 0 p.length) ∧
      DimmerModel_GetModulationFrequencyDescription_checked header p s =
        Except.error (AccessError.PARAM_DATA 0 p.length)) := by
  refine ⟨fun h => ?_, fun h => ?_⟩
  · by_cases h0 : 0 < p.length
    · refine ⟨1, ?_⟩
      simp only [DimmerModel_GetPresetStatus_checked, readUInt16, readByte, if_pos h0,
        if_neg (show ¬(0 + 1 < p.length) by omega), Except_error_bind]
    · refine ⟨0, ?_⟩
      simp only [DimmerModel_GetPresetStatus_checked, readUInt16, readByte, if_neg h0,
        Except_error_bind]
  · have h0 : ¬(0 < p.length) := by omega
    simp only [DimmerModel_GetLockStateDescription_checked,
      DimmerModel_GetCurveDescription_checked,
      DimmerModel_GetOutputResponseDescription_checked,
      DimmerModel_GetModulationFrequencyDescription_checked, readByte, if_neg h0,
      Except_error_bind, and_self]

/-- C40: every descriptor of `ROOT_PID_DESCRIPTORS` and
`SUBDEVICE_PID_DESCRIPTORS` declares a `min_get_pdl` that covers what its GET
handler reads of the parameter data. For a descriptor `d` of either table with
GET handler `handler`: `d.min_get_pdl` is 2 for `DimmerModel_GetPresetStatus`
and 1 for the four description getters, which fail on fewer bytes when run
with checked reads; given at least `d.min_get_pdl` bytes the handler run with
checked reads returns what the handler returns, without a read beyond the
parameter data; the handler's result depends on the first `d.min_get_pdl`
bytes only; and the dispatcher answers a GET with `pdl < min_get_pdl` by NACK
`FORMAT_ERROR` without calling the handler, so a GET whose parameter data
holds the `pdl` bytes announced never reads past them. -/
theorem get_reads_within_min_get_pdl (d : PIDDescriptor) (handler : PIDCommandHandler)
    (header : RDMHeader) (p q : List Nat) (s : State)
    (hd : d ∈ ROOT_PID_DESCRIPTORS ++ SUBDEVICE_PID_DESCRIPTORS)
    (hget : d.get_handler = some handler) :
    (handler = PIDCommandHandler.DimmerModel_GetPresetStatus → d.min_get_pdl = 2) ∧
    (handler ∈ [PIDCommandHandler.DimmerModel_GetLockStateDescription,
        PIDCommandHandler.DimmerModel_GetCurveDescription,
        PIDCommandHandler.DimmerModel_GetOutputResponseDescription,
        PIDCommandHandler.DimmerModel_GetModulationFrequencyDescription] →
      d.min_get_pdl = 1) ∧
    (handler ∈ [PIDCommandHandler.DimmerModel_GetPresetStatus,
        PIDCommandHandler.DimmerModel_GetLockStateDescription,
        PIDCommandHandler.DimmerModel_GetCurveDescription,
        PIDCommandHandler.DimmerModel_GetOutputResponseDescription,
        PIDCommandHandler.DimmerModel_GetModulationFrequencyDescription] →
      p.length < d.min_get_pdl →
      ∃ offset, callHandler_checked handler header p s =
        Except.error (AccessError.PARAM_DATA offset p.length)) ∧
    (d.min_get_pdl ≤ p.length →
      callHandler_checked handler header p s =
        Except.ok (callHandler handler header p s)) ∧
    (p.take d.min_get_pdl = q.take d.min_get_pdl →
      callHandler handler header p s = callHandler handler header q s) ∧
    (header.command_class = GET_COMMAND →
      s.responder.definition.descriptors.entries.find?
        (fun descriptor => descriptor.pid == ntohs header.param_id) = some d →
      (header.param_data_length < d.min_get_pdl →
        RDMResponder_DispatchPID header p s =
          (Response.NACK RDMNackReason.NR_FORMAT_ERROR, s)) ∧
      (d.min_get_pdl ≤ header.param_data_length →
        header.param_data_length ≤ p.length →
        RDMResponder_DispatchPID header p s = callHandler handler header p s ∧
        callHandler_checked handler header p s =
          Except.ok (callHandler handler header p s))) := by
  have key : (d.min_get_pdl ≤ p.length →
      callHandler_checked handler header p s =
        Except.ok (callHandler handler header p s)) := by
    intro hlen
    rcases get_descriptor_cases d hd with h | ⟨h, hm⟩ | ⟨h, hm⟩ | ⟨h, _⟩
    · rw [hget] at h
      cases h
    · rw [hget] at h
      injection h with h
      subst h
      exact GetPresetStatus_checked_eq header p s (by omega)
    · rw [hget] at h
      simp only [List.mem_cons, List.mem_singleton, List.not_mem_nil, or_false,
        Option.some.injEq] at h
      rcases h with h | h | h | h <;> subst h
      · exact GetLockStateDescription_checked_eq header p s (by omega)
      · exact GetCurveDescription_checked_eq header p s (by omega)
      · exact GetOutputResponseDescription_checked_eq header p s (by omega)
      · exact GetModulationFrequencyDescription_checked_eq header p s (by omega)
    · rw [hget] at h
      exact (get_without_parameter_data handler header p p s h).2
  refine ⟨?_, ?_, ?_, key, ?_, ?_⟩
  · intro e
    subst e
    rcases get_descriptor_cases d hd with h | ⟨_, hm⟩ | ⟨h, _⟩ | ⟨h, _⟩
    · rw [hget] at h
      cases h
    · exact hm
    · rw [hget] at h
      exact absurd h (by decide)
    · rw [hget] at h
      exact absurd h (by decide)
  · intro e
    rcases get_descriptor_cases d hd with h | ⟨h, _⟩ | ⟨_, hm⟩ | ⟨h, _⟩
    · rw [hget] at h
      cases h
    · rw [hget] at h
      injection h with h
      subst h
      exact absurd e (by decide)
    · exact hm
    · rw [hget] at h
      simp only [List.mem_cons, List.mem_singleton, List.not_mem_nil, or_false] at e
      rcases e with e | e | e | e <;> subst e <;> exact absurd h (by decide)
  · intro e hshort
    rcases get_descriptor_cases d hd with h | ⟨h, hm⟩ | ⟨h, hm⟩ | ⟨_, hm⟩
    · rw [hget] at h
      cases h
    · rw [hget] at h
      injection h with h
      subst h
      exact (get_reader_short header p s).1 (by omega)
    · rw [hget] at h
      simp only [List.mem_cons, List.mem_singleton, List.not_mem_nil, or_false,
        Option.some.injEq] at h
      have hs := (get_reader_short header p s).2 (by omega)
      rcases h with h | h | h | h <;> subst h
      · exact ⟨0, hs.1⟩
      · exact ⟨0, hs.2.1⟩
      · exact ⟨0, hs.2.2.1⟩
      · exact ⟨0, hs.2.2.2⟩
    · omega
  · intro htake
    rcases get_descriptor_cases d hd with h | ⟨h, hm⟩ | ⟨h, hm⟩ | ⟨h, _⟩
    · rw [hget] at h
      cases h
    · rw [hget] at h
      injection h with h
      subst h
      rw [hm] at htake
      exact (get_reader_take header p q s).1 htake
    · rw [hget] at h
      simp only [List.mem_cons, List.mem_singleton, List.not_mem_nil, or_false,
        Option.some.injEq] at h
      rw [hm] at htake
      have ht := (get_reader_take header p q s).2 htake
      rcases h with h | h | h | h <;> subst h
      · exact ht.1
      · exact ht.2.1
      · exact ht.2.2.1
      · exact ht.2.2.2
    · rw [hget] at h
      exact (get_without_parameter_data handler header p q s h).1
  · intro hclass hfind
    refine ⟨fun hshort => ?_, fun hmin hbuf => ?_⟩
    · simp only [RDMResponder_DispatchPID, hfind, hclass, if_true, hget, if_pos hshort,
        RDMResponder_BuildNack]
    · refine ⟨?_, key (by omega)⟩
      simp only [RDMResponder_DispatchPID, hfind, hclass, if_true, hget,
        if_neg (show ¬(header.param_data_length < d.min_get_pdl) by omega)]

/-- Witness for C40: the descriptor of `PRESET_STATUS` in the root table, with
the two bytes `00 03` (scene 3) received. -/
theorem get_reads_within_min_get_pdl_witness :
    callHandler_checked PIDCommandHandler.DimmerModel_GetPresetStatus
        (request GET_COMMAND SUBDEVICE_ROOT PID_PRESET_STATUS [0, 3]) [0, 3] factoryState =
      Except.ok (callHandler PIDCommandHandler.DimmerModel_GetPresetStatus
        (request GET_COMMAND SUBDEVICE_ROOT PID_PRESET_STATUS [0, 3]) [0, 3] factoryState) :=
  (get_reads_within_min_get_pdl
    ⟨PID_PRESET_STATUS, some PIDCommandHandler.DimmerModel_GetPresetStatus, 2,
      some PIDCommandHandler.DimmerModel_SetPresetStatus⟩
    PIDCommandHandler.DimmerModel_GetPresetStatus
    (request GET_COMMAND SUBDEVICE_ROOT PID_PRESET_STATUS [0, 3]) [0, 3] [0, 3]
    factoryState (by decide) rfl).2.2.2.1 (by decide)

/-! ## The network model (C33, C34) -/

theorem ExtractUInt32_PushUInt32 (v : Nat) (rest : List Nat) (h : v < 4294967296) :
    ExtractUInt32 (PushUInt32 v ++ rest) 0 = v := by
  simp [ExtractUInt32, ExtractUInt16, PushUInt32, PushUInt16, byteAt]
  omega

/-- A list of eight bytes is what pushing back its two 32-bit halves gives. -/
theorem eight_bytes_round_trip (param_data : List Nat) (hlen : param_data.length = 8)
    (hbytes : ∀ b, b ∈ param_data → b < 256) :
    PushUInt32 (ExtractUInt32 param_data 0) ++ PushUInt32 (ExtractUInt32 param_data 4) =
      param_data := by
  match param_data, hlen with
  | [b0, b1, b2, b3, b4, b5, b6, b7], _ =>
    have h0 := hbytes b0 (by simp)
    have h1 := hbytes b1 (by simp)
    have h2 := hbytes b2 (by simp)
    have h3 := hbytes b3 (by simp)
    have h4 := hbytes b4 (by simp)
    have h5 := hbytes b5 (by simp)
    have h6 := hbytes b6 (by simp)
    have h7 := hbytes b7 (by simp)
    simp only [PushUInt32, PushUInt16, ExtractUInt32, ExtractUInt16, byteAt,
      List.getD_cons_zero, List.getD_cons_succ, List.cons_append, List.nil_append,
      List.cons.injEq, and_true]
    omega

/-- C33: GET `IPV4_DHCP_MODE` of the network model, the parameter data being
the 4-byte interface identifier. If the identifier is that of an entry of the
interface table, the answer is an ACK whose body is the 4 bytes of the
identifier followed by the stored mode byte, 5 bytes in all; the entry's mode
is the only thing looked at, so this holds as well for an interface that does
not support DHCP. If no entry has the identifier, the answer is NACK
`DATA_OUT_OF_RANGE`. The state is unchanged in both cases. With the interface
table of the test: interface 1 gives `00 00 00 01 00`, interface 4 gives
`00 00 00 04 01`, and 99 gives the NACK. -/
theorem GetDHCPMode_contract (header : RDMHeader) (param_data : List Nat)
    (s : NetworkModelState) (interface_id : Nat) (hid : interface_id < 4294967296)
    (hdata : param_data = PushUInt32 interface_id) :
    (∀ iface, s.interfaces.find? (fun iface => iface.id == interface_id) = some iface →
      NetworkModel_GetDHCPMode header param_data s =
        (Response.ACK (param_data ++ [if iface.dhcp_mode then 1 else 0]), s) ∧
      (param_data ++ [if iface.dhcp_mode then 1 else 0]).length = 5) ∧
    ((∀ iface, iface ∈ s.interfaces → iface.id ≠ interface_id) →
      NetworkModel_GetDHCPMode header param_data s =
        (Response.NACK RDMNackReason.NR_DATA_OUT_OF_RANGE, s)) ∧
    NetworkModel_GetDHCPMode (request GET_COMMAND SUBDEVICE_ROOT PID_IPV4_DHCP_MODE [0, 0, 0, 1])
        [0, 0, 0, 1] NetworkModel_Initialize =
      (Response.ACK [0x00, 0x00, 0x00, 0x01, 0x00], NetworkModel_Initialize) ∧
    NetworkModel_GetDHCPMode (request GET_COMMAND SUBDEVICE_ROOT PID_IPV4_DHCP_MODE [0, 0, 0, 4])
        [0, 0, 0, 4] NetworkModel_Initialize =
      (Response.ACK [0x00, 0x00, 0x00, 0x04, 0x01], NetworkModel_Initialize) ∧
    NetworkModel_GetDHCPMode (request GET_COMMAND SUBDEVICE_ROOT PID_IPV4_DHCP_MODE [0, 0, 0, 99])
        [0, 0, 0, 99] NetworkModel_Initialize =
      (Response.NACK RDMNackReason.NR_DATA_OUT_OF_RANGE, NetworkModel_Initialize) := by
  subst hdata
  have hex : ExtractUInt32 (PushUInt32 interface_id) 0 = interface_id := by
    have := ExtractUInt32_PushUInt32 interface_id [] hid
    rwa [List.append_nil] at this
  refine ⟨?_, ?_, by decide, by decide, by decide⟩
  · intro iface hfind
    have hidEq : iface.id = interface_id := by
      have := List.find?_some hfind
      simpa using this
    refine ⟨?_, ?_⟩
    · simp only [NetworkModel_GetDHCPMode, hex, hfind, RDMResponder_AddHeaderAndChecksum,
        hidEq]
    · simp [PushUInt32, PushUInt16]
  · intro hnone
    have hfind : s.interfaces.find? (fun iface => iface.id == interface_id) = none := by
      rw [List.find?_eq_none]
      intro iface hmem
      simpa using hnone iface hmem
    simp only [NetworkModel_GetDHCPMode, hex, hfind, RDMResponder_BuildNack]

/-- Witness for C33: interface 4 of the interface table of the test. -/
theorem GetDHCPMode_contract_witness :
    NetworkModel_GetDHCPMode (request GET_COMMAND SUBDEVICE_ROOT PID_IPV4_DHCP_MODE [0, 0, 0, 4])
        (PushUInt32 4) NetworkModel_Initialize =
      (Response.ACK (PushUInt32 4 ++ [if true then 1 else 0]), NetworkModel_Initialize) :=
  ((GetDHCPMode_contract (request GET_COMMAND SUBDEVICE_ROOT PID_IPV4_DHCP_MODE [0, 0, 0, 4])
    (PushUInt32 4) NetworkModel_Initialize 4 (by decide) rfl).1
    { id := 4, hardware_type := 0x0001, dhcp_mode := true, zeroconf_mode := true }
    (by decide)).1

/-- C34: SET `IPV4_DEFAULT_ROUTE` followed by GET `IPV4_DEFAULT_ROUTE` in the
network model. Whenever the SET of a body (of as many bytes as the header
announces) is ACKed, the body has 8 bytes, the ACK carries no parameter data,
the interface table is untouched, and a following GET, whatever its own
parameter data, is ACKed with exactly the 8 bytes that were set and leaves the
state as the SET left it. A SET whose length is not 8 gets NACK `FORMAT_ERROR`
and changes nothing. With the body of the test, `00 00 00 00 0a 0a 01 02`
(interface 0 = unspecified, route 10.10.1.2), the SET is ACKed and the GET
returns that body. -/
theorem DefaultRoute_round_trip (header header2 : RDMHeader) (param_data param_data2 : List Nat)
    (s : NetworkModelState) (hlen : param_data.length = header.param_data_length)
    (hbytes : ∀ b, b ∈ param_data → b < 256)
    (hack : ∀ reason, (NetworkModel_SetDefaultRoute header param_data s).1 ≠
      Response.NACK reason) :
    param_data.length = 8 ∧
    (NetworkModel_SetDefaultRoute header param_data s).1 = Response.SET_ACK ∧
    (NetworkModel_SetDefaultRoute header param_data s).2.interfaces = s.interfaces ∧
    NetworkModel_GetDefaultRoute header2 param_data2
        (NetworkModel_SetDefaultRoute header param_data s).2 =
      (Response.ACK param_data, (NetworkModel_SetDefaultRoute header param_data s).2) ∧
    (∀ (h : RDMHeader) (p : List Nat), h.param_data_length ≠ 8 →
      NetworkModel_SetDefaultRoute h p s =
        (Response.NACK RDMNackReason.NR_FORMAT_ERROR, s)) ∧
    (NetworkModel_SetDefaultRoute
        (request SET_COMMAND SUBDEVICE_ROOT PID_IPV4_DEFAULT_ROUTE
          [0x00, 0x00, 0x00, 0x00, 0x0a, 0x0a, 0x01, 0x02])
        [0x00, 0x00, 0x00, 0x00, 0x0a, 0x0a, 0x01, 0x02] NetworkModel_Initialize).1 =
      Response.SET_ACK ∧
    (NetworkModel_GetDefaultRoute
        (request GET_COMMAND SUBDEVICE_ROOT PID_IPV4_DEFAULT_ROUTE []) []
        (NetworkModel_SetDefaultRoute
          (request SET_COMMAND SUBDEVICE_ROOT PID_IPV4_DEFAULT_ROUTE
            [0x00, 0x00, 0x00, 0x00, 0x0a, 0x0a, 0x01, 0x02])
          [0x00, 0x00, 0x00, 0x00, 0x0a, 0x0a, 0x01, 0x02] NetworkModel_Initialize).2).1 =
      Response.ACK [0x00, 0x00, 0x00, 0x00, 0x0a, 0x0a, 0x01, 0x02] := by
  have hpdl : header.param_data_length = 8 := by
    by_contra hne
    refine hack RDMNackReason.NR_FORMAT_ERROR ?_
    simp only [NetworkModel_SetDefaultRoute, if_pos (show header.param_data_length ≠ 2 * 4 from hne),
      RDMResponder_BuildNack]
  have hset : NetworkModel_SetDefaultRoute header param_data s =
      (Response.SET_ACK,
       { s with
         default_route_interface := ExtractUInt32 param_data 0
         default_route := ExtractUInt32 param_data 4 }) := by
    simp only [NetworkModel_SetDefaultRoute, hpdl, RDMResponder_BuildSetAck]
    rfl
  refine ⟨by omega, ?_, ?_, ?_, ?_, by decide, by decide⟩
  · rw [hset]
  · rw [hset]
  · rw [hset]
    simp only [NetworkModel_GetDefaultRoute, RDMResponder_AddHeaderAndChecksum,
      eight_bytes_round_trip param_data (by omega) hbytes]
  · intro h p hne
    simp only [NetworkModel_SetDefaultRoute, if_pos (show h.param_data_length ≠ 2 * 4 from hne),
      RDMResponder_BuildNack]

/-- Witness for C34: the body of the test, set in the initial state. -/
theorem DefaultRoute_round_trip_witness :
    NetworkModel_GetDefaultRoute
        (request GET_COMMAND SUBDEVICE_ROOT PID_IPV4_DEFAULT_ROUTE []) []
        (NetworkModel_SetDefaultRoute
          (request SET_COMMAND SUBDEVICE_ROOT PID_IPV4_DEFAULT_ROUTE
            [0x00, 0x00, 0x00, 0x00, 0x0a, 0x0a, 0x01, 0x02])
          [0x00, 0x00, 0x00, 0x00, 0x0a, 0x0a, 0x01, 0x02] NetworkModel_Initialize).2 =
      (Response.ACK [0x00, 0x00, 0x00, 0x00, 0x0a, 0x0a, 0x01, 0x02],
        (NetworkModel_SetDefaultRoute
          (request SET_COMMAND SUBDEVICE_ROOT PID_IPV4_DEFAULT_ROUTE
            [0x00, 0x00, 0x00, 0x00, 0x0a, 0x0a, 0x01, 0x02])
          [0x00, 0x00, 0x00, 0x00, 0x0a, 0x0a, 0x01, 0x02] NetworkModel_Initialize).2) :=
  (DefaultRoute_round_trip
    (request SET_COMMAND SUBDEVICE_ROOT PID_IPV4_DEFAULT_ROUTE
      [0x00, 0x00, 0x00, 0x00, 0x0a, 0x0a, 0x01, 0x02])
    (request GET_COMMAND SUBDEVICE_ROOT PID_IPV4_DEFAULT_ROUTE [])
    [0x00, 0x00, 0x00, 0x00, 0x0a, 0x0a, 0x01, 0x02] []
    NetworkModel_Initialize rfl (by decide)
    (by simp [NetworkModel_SetDefaultRoute, request, RDMResponder_BuildSetAck])).2.2.2.1

end JaRule
